import Mathlib

/-!
# Space Invaders game-state engine (`model.c`)

Shallow embedding of `src/Groupe1/space_invaders/src/model.c`.

Conventions of the embedding.

* C `int` values are `Int`; arithmetic is exact (signed overflow, undefined in C, is outside
  the model).  C integer division truncates toward zero: `Int.tdiv`.
* C `double` timers are exact rationals (`ℚ`).
* `EtatJeu` keeps the fields of `struct EtatJeu` under their source names.  The four pools are
  lists; the length of a list is the capacity of the C array.  `model.h` is not part of the
  sources, so `NB_MAX_ENNEMIS`, `NB_MAX_PROJECTILES` and `NB_MAX_BOUCLIERS` are not known
  numbers: they are the lengths of `ennemis`, `projectiles` and `boucliers`.
  `NB_MAX_PARTICULES` is defined in `model.c` (256).
* A slot read outside the array (undefined in C) reads as "no slot": the loop body is skipped.
* `rand()` is a parameter `alea : Nat → Nat`: `alea k` is the value returned by the `k`-th call
  (counted from 0) of `rand()` made during the operation.  Functions that draw thread the
  number of draws already made.
* The `if (!e) return` guards are not modelled: a state value is a non-null pointer.
* `etatjeu_creer` takes the block returned by `malloc` as a parameter `brut`: the fields it does
  not assign keep the arbitrary values of `brut`, and the lengths of the pools of `brut` are
  the capacities.
* The accessors that index an array after a guard return `Option Int`, `none` standing for a
  read outside the array; the accessors that scan a pool return `Int`.
* The section `Operations with checked subscripts` gives the functions that subscript a pool
  once more, returning `none` as soon as a subscript is outside its array.
-/

namespace SpaceInvaders

/-! ## Data model -/

/-- Common entity record, `Entite` (model.c 20-26). -/
structure Entite where
  x : Int
  y : Int
  vivant : Int
  sante : Int
  dmg : Int
  type : Int
deriving DecidableEq, Repr, Inhabited

/-- Explosion particle, `Particule` (model.c 29-34). -/
structure Particule where
  x : Int
  y : Int
  vx : Int
  vy : Int
  ttl : Int
  type : Int
deriving DecidableEq, Repr, Inhabited

/-- Projectile record, `Projectile` (model.c 49-54). -/
structure Projectile where
  x : Int
  y : Int
  dy : Int
  proprietaire : Int
  actif : Int
deriving DecidableEq, Repr, Inhabited

def TYPE_JOUEUR : Int := 0
def TYPE_ENNEMI_FAIBLE : Int := 1
def TYPE_ENNEMI_FORT : Int := 2
def TYPE_BOUCLIER : Int := 3

def NB_MAX_PARTICULES : Nat := 256

/-- Game state, `struct EtatJeu` (model.c 65-93).  `Ennemi`, `Bouclier` and `Joueur` are
one-field wrappers of `Entite` and are identified with it. -/
structure EtatJeu where
  largeur : Int
  hauteur : Int
  joueur : Entite
  vies : Int
  score : Int
  niveau : Int
  temps_acc : ℚ
  quitter : Int
  game_over : Int
  ennemis : List Entite
  nombre_ennemis : Int
  direction_ennemis : Int
  acc_deplacement_ennemis : ℚ
  intervalle_deplacement_ennemis : ℚ
  projectiles : List Projectile
  nombre_projectiles : Int
  boucliers : List Entite
  nombre_boucliers : Int
  particules : List Particule
  nombre_particules : Int
deriving DecidableEq

/-! ## Helpers of `model.c` -/

/-- Logical row of the ship, `ligne_vaisseau` (model.c 96-98). -/
def ligne_vaisseau (e : EtatJeu) : Int := e.hauteur - 2

/-- Scan of `ajouter_projectile` (model.c 103-113) over the slot indices still to visit: the
first inactive slot is filled and the function returns. -/
def ajouter_projectile_boucle (e : EtatJeu) (x y dy proprietaire : Int) : List Nat → EtatJeu
  | [] => e
  | i :: reste =>
    match e.projectiles[i]? with
    | none => ajouter_projectile_boucle e x y dy proprietaire reste
    | some p =>
      if p.actif = 0 then
        { e with
          projectiles := e.projectiles.set i
            { x := x, y := y, dy := dy, proprietaire := proprietaire, actif := 1 }
          nombre_projectiles :=
            if (i : Int) ≥ e.nombre_projectiles then (i : Int) + 1 else e.nombre_projectiles }
      else ajouter_projectile_boucle e x y dy proprietaire reste

/-- Adds a projectile when a slot is free, `ajouter_projectile` (model.c 101-114). -/
def ajouter_projectile (e : EtatJeu) (x y dy proprietaire : Int) : EtatJeu :=
  ajouter_projectile_boucle e x y dy proprietaire (List.range e.projectiles.length)

/-- The `directions` table of `creer_explosion` (model.c 120-123). -/
def directions : List (Int × Int) :=
  [(1, 0), (-1, 0), (0, 1), (0, -1), (1, 1), (1, -1), (-1, 1), (-1, -1)]

/-- Inner scan of `creer_explosion` (model.c 125-131): lowest slot index whose `ttl <= 0`,
`none` for `idx == -1`. -/
def premiere_particule_libre : List Particule → Option Nat
  | [] => none
  | p :: ps =>
    if p.ttl ≤ 0 then some 0 else (premiere_particule_libre ps).map (fun j => j + 1)

/-- The particle written by one iteration of `creer_explosion` (model.c 133-138) for the
direction `d`. -/
def particule_explosion (x y type : Int) (d : Int × Int) : Particule :=
  { x := x, y := y, vx := d.1 * 2, vy := d.2 * 2, ttl := 20, type := type }

/-- Outer loop of `creer_explosion` (model.c 124-140) over the directions still to spawn,
acting on the only data it writes: the particle pool and `nombre_particules`.  The loop
condition `nombre_particules < NB_MAX_PARTICULES` ends the loop as soon as it fails. -/
def creer_explosion_boucle (x y type : Int) :
    List Particule × Int → List (Int × Int) → List Particule × Int
  | s, [] => s
  | s, d :: reste =>
    if s.2 < (NB_MAX_PARTICULES : Int) then
      match premiere_particule_libre s.1 with
      | none => creer_explosion_boucle x y type s reste
      | some idx =>
        creer_explosion_boucle x y type
          (s.1.set idx (particule_explosion x y type d),
            if (idx : Int) ≥ s.2 then (idx : Int) + 1 else s.2)
          reste
    else s

/-- Spawns an explosion, `creer_explosion` (model.c 117-141). -/
def creer_explosion (e : EtatJeu) (x y type : Int) : EtatJeu :=
  { e with
    particules := (creer_explosion_boucle x y type (e.particules, e.nombre_particules)
      directions).1
    nombre_particules := (creer_explosion_boucle x y type (e.particules, e.nombre_particules)
      directions).2 }

/-- Number of alive enemies among the first `nombre_ennemis` slots,
`nombre_ennemis_vivants` (model.c 224-228). -/
def nombre_ennemis_vivants (e : EtatJeu) : Nat :=
  ((List.range e.nombre_ennemis.toNat).filter
    (fun i => match e.ennemis[i]? with
      | none => false
      | some en => decide (en.vivant ≠ 0))).length

/-! ## `etatjeu_mettre_a_jour` -/

/-- Particle ageing loop (model.c 235-240). -/
def vieillir_particule (p : Particule) : Particule :=
  if p.ttl ≤ 0 then p
  else { p with x := p.x + p.vx, y := p.y + p.vy, ttl := p.ttl - 1 }

/-- Effect of a player projectile `i` (value `p`) found on enemy `enn` (value `en`):
the body of the `if` at model.c 257-263. -/
def toucher_ennemi (e : EtatJeu) (i enn : Nat) (p : Projectile) (en : Entite) : EtatJeu :=
  let e1 : EtatJeu := { e with projectiles := e.projectiles.set i { p with actif := 0 } }
  let en1 : Entite := { en with sante := en.sante - 1 }
  let e2 : EtatJeu := { e1 with ennemis := e1.ennemis.set enn en1 }
  if en1.sante ≤ 0 then
    let e3 : EtatJeu := creer_explosion e2 en1.x en1.y en1.type
    { e3 with
      ennemis := e3.ennemis.set enn { en1 with vivant := 0 }
      score := e3.score + 10 }
  else e2

/-- Enemy scan of a player projectile (model.c 254-266) over the enemy indices still to
visit; `i` is the projectile slot.  The first alive enemy in the projectile's cell is hit and
the scan stops (`break`). -/
def collision_ennemis_boucle (e : EtatJeu) (i : Nat) : List Nat → EtatJeu
  | [] => e
  | enn :: reste =>
    match e.ennemis[enn]?, e.projectiles[i]? with
    | some en, some p =>
      if en.vivant = 0 then collision_ennemis_boucle e i reste
      else if en.x = p.x ∧ en.y = p.y then toucher_ennemi e i enn p en
      else collision_ennemis_boucle e i reste
    | _, _ => collision_ennemis_boucle e i reste

/-- Player projectile against the enemies (model.c 254-266). -/
def collision_ennemis (e : EtatJeu) (i : Nat) : EtatJeu :=
  collision_ennemis_boucle e i (List.range e.nombre_ennemis.toNat)

/-- Effect of a projectile `i` (value `p`) found on shield `b` (value `bo`): the body of the
`if` at model.c 272-277 (and 294-299). -/
def toucher_bouclier (e : EtatJeu) (i b : Nat) (p : Projectile) (bo : Entite) : EtatJeu :=
  let e1 : EtatJeu := { e with projectiles := e.projectiles.set i { p with actif := 0 } }
  let bo1 : Entite := { bo with sante := bo.sante - 1 }
  let e2 : EtatJeu := { e1 with boucliers := e1.boucliers.set b bo1 }
  if bo1.sante ≤ 0 then
    let e3 : EtatJeu := creer_explosion e2 bo1.x bo1.y bo1.type
    { e3 with boucliers := e3.boucliers.set b { bo1 with vivant := 0 } }
  else e2

/-- Shield scan of a projectile (model.c 269-280 and, with the same text, 291-302) over the
shield indices still to visit; `i` is the projectile slot.  The `actif` flag of the projectile
is not tested. -/
def collision_boucliers_boucle (e : EtatJeu) (i : Nat) : List Nat → EtatJeu
  | [] => e
  | b :: reste =>
    match e.boucliers[b]?, e.projectiles[i]? with
    | some bo, some p =>
      if bo.vivant = 0 then collision_boucliers_boucle e i reste
      else if bo.x = p.x ∧ bo.y = p.y then toucher_bouclier e i b p bo
      else collision_boucliers_boucle e i reste
    | _, _ => collision_boucliers_boucle e i reste

/-- Projectile against the shields (model.c 269-280, 291-302). -/
def collision_boucliers (e : EtatJeu) (i : Nat) : EtatJeu :=
  collision_boucliers_boucle e i (List.range e.nombre_boucliers.toNat)

/-- Enemy projectile against the ship (model.c 283-288). -/
def collision_vaisseau (e : EtatJeu) (i : Nat) : EtatJeu :=
  match e.projectiles[i]? with
  | none => e
  | some p =>
    if p.x = e.joueur.x ∧ p.y = ligne_vaisseau e then
      let e1 : EtatJeu := { e with
        projectiles := e.projectiles.set i { p with actif := 0 }
        vies := e.vies - 1 }
      if e1.vies ≤ 0 then { e1 with game_over := 1 } else e1
    else e

/-- Body of the projectile loop for slot `i` (model.c 244-303): move, bounds test, then the
collision tests selected by the owner. -/
def traiter_projectile (e : EtatJeu) (i : Nat) : EtatJeu :=
  match e.projectiles[i]? with
  | none => e
  | some p =>
    if p.actif = 0 then e
    else
      let p1 : Projectile := { p with y := p.y + p.dy }
      let e1 : EtatJeu := { e with projectiles := e.projectiles.set i p1 }
      if p1.y < 0 ∨ p1.y ≥ e1.hauteur then
        { e1 with projectiles := e1.projectiles.set i { p1 with actif := 0 } }
      else if p1.proprietaire = 0 then
        collision_boucliers (collision_ennemis e1 i) i
      else
        collision_boucliers (collision_vaisseau e1 i) i

/-- The projectile loop (model.c 243-304), slots in increasing order. -/
def phase_projectiles (e : EtatJeu) : EtatJeu :=
  (List.range e.projectiles.length).foldl traiter_projectile e

/-- State touched by the grid loops: the enemy pool, `nombre_ennemis`, and the number of
`rand()` calls made so far. -/
structure Grille where
  ennemis : List Entite
  nombre_ennemis : Int
  tirages : Nat

/-- Column spacing of the enemy grid (model.c 317-318): `(largeur - 4) / 8`, at least 2. -/
def espacement_x (largeur : Int) : Int :=
  if Int.tdiv (largeur - 4) 8 < 2 then 2 else Int.tdiv (largeur - 4) 8

/-- Inner loop `for (c ...)` of the grid loops (model.c 321-334; same shape at 172-190 and
479-486) over the columns still to visit, for row `r`.  `idx = nombre_ennemis++` comes first;
`idx >= NB_MAX_ENNEMIS` breaks out of the inner loop.  `corps en x y t` is the rest of the loop
body applied to slot `idx`: it returns the new slot and the number of `rand()` calls made so
far.  The counter starts at 0 in every caller, so `idx` is never negative. -/
def grille_colonnes (corps : Entite → Int → Int → Nat → Entite × Nat) (esp : Int) (r : Nat) :
    Grille → List Nat → Grille
  | g, [] => g
  | g, c :: reste =>
    if g.nombre_ennemis ≥ (g.ennemis.length : Int) then
      { g with nombre_ennemis := g.nombre_ennemis + 1 }
    else
      match g.ennemis[g.nombre_ennemis.toNat]? with
      | none => { g with nombre_ennemis := g.nombre_ennemis + 1 }
      | some en =>
        grille_colonnes corps esp r
          { ennemis := g.ennemis.set g.nombre_ennemis.toNat
              (corps en (2 + (c : Int) * esp) (2 + (r : Int) * 2) g.tirages).1
            nombre_ennemis := g.nombre_ennemis + 1
            tirages := (corps en (2 + (c : Int) * esp) (2 + (r : Int) * 2) g.tirages).2 }
          reste

/-- Both grid loops (model.c 320-335): `lignes = 3`, `colonnes = 8`, `start_y = 2`. -/
def grille (corps : Entite → Int → Int → Nat → Entite × Nat) (esp : Int) (g : Grille) : Grille :=
  [0, 1, 2].foldl (fun g r => grille_colonnes corps esp r g [0, 1, 2, 3, 4, 5, 6, 7]) g

/-- Loop body of the respawn in `etatjeu_mettre_a_jour` after the `break` test
(model.c 324-333): `type` is not assigned. -/
def corps_reapparition (alea : Nat → Nat) (niveau : Int) (en : Entite) (x y : Int) (t : Nat) :
    Entite × Nat :=
  let en1 : Entite := { en with vivant := 1, x := x, y := y, dmg := 1, sante := 1 }
  if niveau ≥ 2 then
    if ((alea t % 100 : Nat) : Int) < 25 + (niveau - 2) * 15 then
      ({ en1 with sante := 2 }, t + 1)
    else (en1, t + 1)
  else (en1, t)

/-- Wave test and respawn (model.c 308-336).  Returns the state and the number of `rand()`
calls made. -/
def phase_reapparition (alea : Nat → Nat) (e : EtatJeu) : EtatJeu × Nat :=
  if nombre_ennemis_vivants e = 0 then
    let e1 : EtatJeu :=
      { e with
        niveau := e.niveau + 1
        intervalle_deplacement_ennemis := e.intervalle_deplacement_ennemis * (9 / 10) }
    let g : Grille :=
      grille (corps_reapparition alea e1.niveau) (espacement_x e1.largeur)
        { ennemis := e1.ennemis, nombre_ennemis := 0, tirages := 0 }
    ({ e1 with ennemis := g.ennemis, nombre_ennemis := g.nombre_ennemis }, g.tirages)
  else (e, 0)

/-- Edge test of the enemy step (model.c 341-346). -/
def touche_bord (e : EtatJeu) : Bool :=
  (List.range e.nombre_ennemis.toNat).any
    (fun i => match e.ennemis[i]? with
      | none => false
      | some en =>
        decide (en.vivant ≠ 0 ∧
          (en.x + e.direction_ennemis < 0 ∨ en.x + e.direction_ennemis ≥ e.largeur)))

/-- Timed enemy step (model.c 338-354). -/
def phase_deplacement (e : EtatJeu) : EtatJeu :=
  if e.acc_deplacement_ennemis ≥ e.intervalle_deplacement_ennemis then
    let e1 : EtatJeu := { e with acc_deplacement_ennemis := 0 }
    if touche_bord e1 then
      { e1 with
        direction_ennemis := -e1.direction_ennemis
        ennemis := e1.ennemis.mapIdx (fun i en =>
          if (i : Int) < e1.nombre_ennemis ∧ en.vivant ≠ 0 then { en with y := en.y + 1 }
          else en) }
    else
      { e1 with
        ennemis := e1.ennemis.mapIdx (fun i en =>
          if (i : Int) < e1.nombre_ennemis ∧ en.vivant ≠ 0 then
            { en with x := en.x + e1.direction_ennemis }
          else en) }
  else e

/-- Indices of the alive enemies, in slot order: the array `idxs` (model.c 358-359). -/
def idxs (e : EtatJeu) : List Nat :=
  (List.range e.nombre_ennemis.toNat).filter
    (fun i => match e.ennemis[i]? with
      | none => false
      | some en => decide (en.vivant ≠ 0))

/-- Enemy fire (model.c 357-364); `k` is the number of `rand()` calls already made. -/
def phase_tir_ennemi (alea : Nat → Nat) (e : EtatJeu) (k : Nat) : EtatJeu :=
  if alea k % 100 < 4 then
    if (idxs e).length > 0 then
      match (idxs e)[alea (k + 1) % (idxs e).length]? with
      | none => e
      | some pick =>
        match e.ennemis[pick]? with
        | none => e
        | some en => ajouter_projectile e en.x (en.y + 1) 1 1
    else e
  else e

/-- Defeat test (model.c 367-375). -/
def phase_defaite (e : EtatJeu) : EtatJeu :=
  if (List.range e.nombre_ennemis.toNat).any
      (fun i => match e.ennemis[i]? with
        | none => false
        | some en => decide (en.vivant ≠ 0 ∧ en.y ≥ ligne_vaisseau e)) then
    { e with game_over := 1, vies := 0 }
  else e

/-- State of `etatjeu_mettre_a_jour` when the collision phase is over (model.c 232-307): time
accumulated, particles aged, projectiles moved and resolved, movement timer accumulated. -/
def phase_collisions (e : EtatJeu) (dt : ℚ) : EtatJeu :=
  let e1 : EtatJeu := { e with temps_acc := e.temps_acc + dt }
  let e2 : EtatJeu := { e1 with particules := e1.particules.map vieillir_particule }
  let e3 : EtatJeu := phase_projectiles e2
  { e3 with acc_deplacement_ennemis := e3.acc_deplacement_ennemis + dt }

/-- One tick, `etatjeu_mettre_a_jour` (model.c 230-376). -/
def etatjeu_mettre_a_jour (e : EtatJeu) (dt : ℚ) (alea : Nat → Nat) : EtatJeu :=
  let r : EtatJeu × Nat := phase_reapparition alea (phase_collisions e dt)
  phase_defaite (phase_tir_ennemi alea (phase_deplacement r.1) r.2)

/-! ## Commands and accessors -/

/-- Ship move with clamping, `etatjeu_deplacer_vaisseau` (model.c 378-383). -/
def etatjeu_deplacer_vaisseau (e : EtatJeu) (dir : Int) : EtatJeu :=
  let e1 : EtatJeu := { e with joueur := { e.joueur with x := e.joueur.x + dir } }
  let e2 : EtatJeu := if e1.joueur.x < 0 then { e1 with joueur := { e1.joueur with x := 0 } } else e1
  if e2.joueur.x ≥ e2.largeur then { e2 with joueur := { e2.joueur with x := e2.largeur - 1 } }
  else e2

/-- Player fire, `etatjeu_vaisseau_tirer` (model.c 385-389). -/
def etatjeu_vaisseau_tirer (e : EtatJeu) : EtatJeu :=
  ajouter_projectile e e.joueur.x (ligne_vaisseau e - 1) (-1) 0

/-- Accessor `etatjeu_obtenir_vaisseau_x` (model.c 391). -/
def etatjeu_obtenir_vaisseau_x (e : EtatJeu) : Int := e.joueur.x

/-- Accessor `etatjeu_obtenir_largeur` (model.c 392). -/
def etatjeu_obtenir_largeur (e : EtatJeu) : Int := e.largeur

/-- Accessor `etatjeu_obtenir_vies` (model.c 393). -/
def etatjeu_obtenir_vies (e : EtatJeu) : Int := e.vies

/-- Accessor `etatjeu_obtenir_score` (model.c 394). -/
def etatjeu_obtenir_score (e : EtatJeu) : Int := e.score

/-- Accessor `etatjeu_obtenir_nombre_ennemis` (model.c 398): the count `nombre_ennemis`. -/
def etatjeu_obtenir_nombre_ennemis (e : EtatJeu) : Int := e.nombre_ennemis

/-- Accessor `etatjeu_obtenir_niveau` (model.c 448). -/
def etatjeu_obtenir_niveau (e : EtatJeu) : Int := e.niveau

/-- Accessor `etatjeu_est_game_over` (model.c 451). -/
def etatjeu_est_game_over (e : EtatJeu) : Int := e.game_over

/-- Number of active projectiles, `etatjeu_obtenir_nombre_projectiles` (model.c 404-409). -/
def etatjeu_obtenir_nombre_projectiles (e : EtatJeu) : Int :=
  ((e.projectiles.filter (fun p => decide (p.actif ≠ 0))).length : Int)

/-- Number of particles with `ttl > 0`, `etatjeu_obtenir_nombre_particules`
(model.c 512-517). -/
def etatjeu_obtenir_nombre_particules (e : EtatJeu) : Int :=
  ((e.particules.filter (fun p => decide (p.ttl > 0))).length : Int)

/-- Accessor `etatjeu_devrait_quitter` (model.c 395). -/
def etatjeu_devrait_quitter (e : EtatJeu) : Int := e.quitter

/-- Accessor `etatjeu_obtenir_nombre_boucliers` (model.c 442): the count
`nombre_boucliers`. -/
def etatjeu_obtenir_nombre_boucliers (e : EtatJeu) : Int := e.nombre_boucliers

/-- Sets the quit flag, `_etatjeu_definir_quitter` (model.c 510). -/
def _etatjeu_definir_quitter (e : EtatJeu) (q : Int) : EtatJeu := { e with quitter := q }

/-! ### Per-index accessors

The enemy and shield accessors index the array directly after the guard
`idx >= 0 && idx < count`.  They return `Option Int`: `some v` is the value returned, `none`
stands for a read outside the array (undefined in C), which can only happen when the count
exceeds the capacity.  The projectile and particle accessors scan the whole array and never
leave it. -/

/-- Common text of the enemy accessors (model.c 399-402); `f` selects the field. -/
def lire_ennemi (f : Entite → Int) (e : EtatJeu) (idx : Int) : Option Int :=
  if idx ≥ 0 ∧ idx < e.nombre_ennemis then (e.ennemis[idx.toNat]?).map f else some 0

/-- Accessor `etatjeu_obtenir_ennemi_x` (model.c 399). -/
def etatjeu_obtenir_ennemi_x (e : EtatJeu) (idx : Int) : Option Int :=
  lire_ennemi (fun en => en.x) e idx

/-- Accessor `etatjeu_obtenir_ennemi_y` (model.c 400). -/
def etatjeu_obtenir_ennemi_y (e : EtatJeu) (idx : Int) : Option Int :=
  lire_ennemi (fun en => en.y) e idx

/-- Accessor `etatjeu_ennemi_vivant` (model.c 401). -/
def etatjeu_ennemi_vivant (e : EtatJeu) (idx : Int) : Option Int :=
  lire_ennemi (fun en => en.vivant) e idx

/-- Accessor `etatjeu_obtenir_ennemi_sante` (model.c 402). -/
def etatjeu_obtenir_ennemi_sante (e : EtatJeu) (idx : Int) : Option Int :=
  lire_ennemi (fun en => en.sante) e idx

/-- Common text of the shield accessors (model.c 443-445); `f` selects the field. -/
def lire_bouclier (f : Entite → Int) (e : EtatJeu) (idx : Int) : Option Int :=
  if idx ≥ 0 ∧ idx < e.nombre_boucliers then (e.boucliers[idx.toNat]?).map f else some 0

/-- Accessor `etatjeu_obtenir_bouclier_x` (model.c 443). -/
def etatjeu_obtenir_bouclier_x (e : EtatJeu) (idx : Int) : Option Int :=
  lire_bouclier (fun bo => bo.x) e idx

/-- Accessor `etatjeu_obtenir_bouclier_y` (model.c 444). -/
def etatjeu_obtenir_bouclier_y (e : EtatJeu) (idx : Int) : Option Int :=
  lire_bouclier (fun bo => bo.y) e idx

/-- Accessor `etatjeu_bouclier_vivant` (model.c 445). -/
def etatjeu_bouclier_vivant (e : EtatJeu) (idx : Int) : Option Int :=
  lire_bouclier (fun bo => bo.vivant) e idx

/-- Common loop of the projectile accessors (model.c 413-418, 423-428, 433-438) over the
slots still to visit; `seen` is the number of active slots passed, `f` selects the field.
`if (seen++ == idx) return f`; after the loop `return 0`. -/
def parcourir_projectiles (f : Projectile → Int) (idx : Int) : List Projectile → Int → Int
  | [], _ => 0
  | p :: ps, seen =>
    if p.actif = 0 then parcourir_projectiles f idx ps seen
    else if seen = idx then f p
    else parcourir_projectiles f idx ps (seen + 1)

/-- Accessor `etatjeu_obtenir_projectile_x` (model.c 411-419). -/
def etatjeu_obtenir_projectile_x (e : EtatJeu) (idx : Int) : Int :=
  parcourir_projectiles (fun p => p.x) idx e.projectiles 0

/-- Accessor `etatjeu_obtenir_projectile_y` (model.c 421-429). -/
def etatjeu_obtenir_projectile_y (e : EtatJeu) (idx : Int) : Int :=
  parcourir_projectiles (fun p => p.y) idx e.projectiles 0

/-- Accessor `etatjeu_obtenir_projectile_proprietaire` (model.c 431-439). -/
def etatjeu_obtenir_projectile_proprietaire (e : EtatJeu) (idx : Int) : Int :=
  parcourir_projectiles (fun p => p.proprietaire) idx e.projectiles 0

/-- Common loop of the particle accessors (model.c 522-527, 533-538, 544-549, 555-560) over
the slots still to visit; `seen` is the number of live slots passed, `f` selects the field.
`if (seen == idx) return f; ++seen`; after the loop `return 0`. -/
def parcourir_particules (f : Particule → Int) (idx : Int) : List Particule → Int → Int
  | [], _ => 0
  | p :: ps, seen =>
    if p.ttl ≤ 0 then parcourir_particules f idx ps seen
    else if seen = idx then f p
    else parcourir_particules f idx ps (seen + 1)

/-- Accessor `etatjeu_obtenir_particule_x` (model.c 519-528). -/
def etatjeu_obtenir_particule_x (e : EtatJeu) (idx : Int) : Int :=
  parcourir_particules (fun p => p.x) idx e.particules 0

/-- Accessor `etatjeu_obtenir_particule_y` (model.c 530-539). -/
def etatjeu_obtenir_particule_y (e : EtatJeu) (idx : Int) : Int :=
  parcourir_particules (fun p => p.y) idx e.particules 0

/-- Accessor `etatjeu_obtenir_particule_type` (model.c 541-550). -/
def etatjeu_obtenir_particule_type (e : EtatJeu) (idx : Int) : Int :=
  parcourir_particules (fun p => p.type) idx e.particules 0

/-- Accessor `etatjeu_obtenir_particule_ttl` (model.c 552-561). -/
def etatjeu_obtenir_particule_ttl (e : EtatJeu) (idx : Int) : Int :=
  parcourir_particules (fun p => p.ttl) idx e.particules 0

/-! ## Creation and reset -/

/-- Loop body of the enemy grid in `etatjeu_creer` after the `break` test (model.c 175-189).
`niveau` is `e->niveau`, which `etatjeu_creer` has set to 1 before the loops. -/
def corps_creation (alea : Nat → Nat) (niveau : Int) (en : Entite) (x y : Int) (t : Nat) :
    Entite × Nat :=
  let en1 : Entite :=
    { en with vivant := 1, x := x, y := y, dmg := 1, sante := 1, type := TYPE_ENNEMI_FAIBLE }
  if niveau ≥ 2 then
    if ((alea t % 100 : Nat) : Int) < 25 + (niveau - 2) * 15 then
      ({ en1 with sante := 2, type := TYPE_ENNEMI_FORT }, t + 1)
    else (en1, t + 1)
  else (en1, t)

/-- Shield written by the shield loop of `etatjeu_creer` (model.c 200-207) and of
`etatjeu_reinitialiser` (495-502) in slot `i`: every field is assigned. -/
def bouclier_initial (largeur hauteur : Int) (i : Nat) : Entite :=
  { x := Int.tdiv largeur 5 * ((i : Int) + 1), y := Int.tdiv hauteur 2, vivant := 1, sante := 3
    dmg := 0, type := TYPE_BOUCLIER }

/-- Creation, `etatjeu_creer` (model.c 143-217), for a successful `malloc`.  `brut` is the
block returned by `malloc`: its field values are arbitrary and the lengths of its pools are
the capacities; what the function does not assign keeps the value it has in `brut`
(projectile fields other than `actif`, particle fields other than `ttl`, enemy slots the grid
loops do not reach).  `srand` has no effect on the state. -/
def etatjeu_creer (brut : EtatJeu) (largeur hauteur : Int) (alea : Nat → Nat) : EtatJeu :=
  let niveau : Int := 1
  let g : Grille :=
    grille (corps_creation alea niveau) (espacement_x largeur)
      { ennemis := brut.ennemis, nombre_ennemis := 0, tirages := 0 }
  { largeur := largeur
    hauteur := hauteur
    joueur :=
      { x := Int.tdiv largeur 2, y := hauteur - 1, vivant := 1, sante := 1, dmg := 1
        type := TYPE_JOUEUR }
    vies := 3
    score := 0
    niveau := niveau
    temps_acc := 0
    quitter := 0
    game_over := 0
    ennemis := g.ennemis
    nombre_ennemis := g.nombre_ennemis
    direction_ennemis := 1
    acc_deplacement_ennemis := 0
    intervalle_deplacement_ennemis := 6 / 10
    projectiles := brut.projectiles.map (fun p => { p with actif := 0 })
    nombre_projectiles := 0
    boucliers := brut.boucliers.mapIdx (fun i _ => bouclier_initial largeur hauteur i)
    nombre_boucliers := 4
    particules := brut.particules.map (fun p => { p with ttl := 0 })
    nombre_particules := 0 }

/-- Loop body of the enemy grid in `etatjeu_reinitialiser` after the `break` test
(model.c 482-485): `vivant`, `x`, `y` and `dmg` are assigned, `sante` and `type` are not. -/
def corps_reinitialisation (en : Entite) (x y : Int) (t : Nat) : Entite × Nat :=
  ({ en with vivant := 1, x := x, y := y, dmg := 1 }, t)

/-- Restart, `etatjeu_reinitialiser` (model.c 454-507).  `largeur`, `hauteur`,
`nombre_boucliers` and the player's `type` are not assigned. -/
def etatjeu_reinitialiser (e : EtatJeu) : EtatJeu :=
  let g : Grille :=
    grille corps_reinitialisation (espacement_x e.largeur)
      { ennemis := e.ennemis, nombre_ennemis := 0, tirages := 0 }
  { e with
    joueur :=
      { e.joueur with
        x := Int.tdiv e.largeur 2, y := e.hauteur - 1, vivant := 1, sante := 1, dmg := 1 }
    vies := 3
    score := 0
    niveau := 1
    temps_acc := 0
    quitter := 0
    game_over := 0
    ennemis := g.ennemis
    nombre_ennemis := g.nombre_ennemis
    direction_ennemis := 1
    acc_deplacement_ennemis := 0
    intervalle_deplacement_ennemis := 6 / 10
    projectiles := e.projectiles.map (fun p => { p with actif := 0 })
    nombre_projectiles := 0
    boucliers := e.boucliers.mapIdx (fun i _ => bouclier_initial e.largeur e.hauteur i)
    particules := e.particules.map (fun p => { p with ttl := 0 })
    nombre_particules := 0 }

/-! ## Operations with checked subscripts

The functions of `model.c` that subscript a pool, once more, with every subscript checked: the
result is `none` as soon as a slot is read or written outside its array (undefined in C).  A
loop `for (i = 0; i < n; ++i)` is a recursion over `List.range n`.  The capacities of the
enemy, projectile and shield arrays are the lengths of the lists; that of the particle array
is `NB_MAX_PARTICULES`.  A slot is written only after a read of the same slot has succeeded. -/

/-- A loop that rewrites slots of an array one after the other, `t[i] = f(i, t[i])`, over the
indices still to visit. -/
def boucle_cases {α : Type} (f : Nat → α → α) : List α → List Nat → Option (List α)
  | l, [] => some l
  | l, i :: reste =>
    match l[i]? with
    | none => none
    | some v => boucle_cases f (l.set i (f i v)) reste

/-- A loop whose body `f` may fail, over the indices still to visit. -/
def boucle_verifiee {σ : Type} (f : σ → Nat → Option σ) : σ → List Nat → Option σ
  | s, [] => some s
  | s, i :: reste =>
    match f s i with
    | none => none
    | some s2 => boucle_verifiee f s2 reste

/-- Scan of `ajouter_projectile` (model.c 103-113), subscripts checked. -/
def ajouter_projectile_boucle_verifie (e : EtatJeu) (x y dy proprietaire : Int) :
    List Nat → Option EtatJeu
  | [] => some e
  | i :: reste =>
    match e.projectiles[i]? with
    | none => none
    | some p =>
      if p.actif = 0 then
        some { e with
          projectiles := e.projectiles.set i
            { x := x, y := y, dy := dy, proprietaire := proprietaire, actif := 1 }
          nombre_projectiles :=
            if (i : Int) ≥ e.nombre_projectiles then (i : Int) + 1 else e.nombre_projectiles }
      else ajouter_projectile_boucle_verifie e x y dy proprietaire reste

/-- `ajouter_projectile` (model.c 101-114), subscripts checked. -/
def ajouter_projectile_verifie (e : EtatJeu) (x y dy proprietaire : Int) : Option EtatJeu :=
  ajouter_projectile_boucle_verifie e x y dy proprietaire (List.range e.projectiles.length)

/-- Inner scan of `creer_explosion` (model.c 125-131) over the indices still to visit,
subscripts checked: `some (some j)` for the slot found, `some none` for `idx == -1`. -/
def premiere_particule_libre_verifie (ps : List Particule) : List Nat → Option (Option Nat)
  | [] => some none
  | j :: reste =>
    match ps[j]? with
    | none => none
    | some p =>
      if p.ttl ≤ 0 then some (some j) else premiere_particule_libre_verifie ps reste

/-- Outer loop of `creer_explosion` (model.c 124-140), subscripts checked. -/
def creer_explosion_boucle_verifie (x y type : Int) :
    List Particule × Int → List (Int × Int) → Option (List Particule × Int)
  | s, [] => some s
  | s, d :: reste =>
    if s.2 < (NB_MAX_PARTICULES : Int) then
      match premiere_particule_libre_verifie s.1 (List.range NB_MAX_PARTICULES) with
      | none => none
      | some none => creer_explosion_boucle_verifie x y type s reste
      | some (some idx) =>
        creer_explosion_boucle_verifie x y type
          (s.1.set idx (particule_explosion x y type d),
            if (idx : Int) ≥ s.2 then (idx : Int) + 1 else s.2)
          reste
    else some s

/-- `creer_explosion` (model.c 117-141), subscripts checked. -/
def creer_explosion_verifie (e : EtatJeu) (x y type : Int) : Option EtatJeu :=
  match creer_explosion_boucle_verifie x y type (e.particules, e.nombre_particules)
      directions with
  | none => none
  | some s => some { e with particules := s.1, nombre_particules := s.2 }

/-- Body of the `if` at model.c 257-263, subscripts checked; the slots `i` and `enn` have been
read by the scan that calls it. -/
def toucher_ennemi_verifie (e : EtatJeu) (i enn : Nat) (p : Projectile) (en : Entite) :
    Option EtatJeu :=
  let e1 : EtatJeu := { e with projectiles := e.projectiles.set i { p with actif := 0 } }
  let en1 : Entite := { en with sante := en.sante - 1 }
  let e2 : EtatJeu := { e1 with ennemis := e1.ennemis.set enn en1 }
  if en1.sante ≤ 0 then
    match creer_explosion_verifie e2 en1.x en1.y en1.type with
    | none => none
    | some e3 =>
      some { e3 with
        ennemis := e3.ennemis.set enn { en1 with vivant := 0 }
        score := e3.score + 10 }
  else some e2

/-- Enemy scan of a player projectile (model.c 254-266), subscripts checked. -/
def collision_ennemis_boucle_verifie (e : EtatJeu) (i : Nat) : List Nat → Option EtatJeu
  | [] => some e
  | enn :: reste =>
    match e.ennemis[enn]?, e.projectiles[i]? with
    | some en, some p =>
      if en.vivant = 0 then collision_ennemis_boucle_verifie e i reste
      else if en.x = p.x ∧ en.y = p.y then toucher_ennemi_verifie e i enn p en
      else collision_ennemis_boucle_verifie e i reste
    | _, _ => none

/-- Player projectile against the enemies (model.c 254-266), subscripts checked. -/
def collision_ennemis_verifie (e : EtatJeu) (i : Nat) : Option EtatJeu :=
  collision_ennemis_boucle_verifie e i (List.range e.nombre_ennemis.toNat)

/-- Body of the `if` at model.c 272-277 (and 294-299), subscripts checked; the slots `i` and
`b` have been read by the scan that calls it. -/
def toucher_bouclier_verifie (e : EtatJeu) (i b : Nat) (p : Projectile) (bo : Entite) :
    Option EtatJeu :=
  let e1 : EtatJeu := { e with projectiles := e.projectiles.set i { p with actif := 0 } }
  let bo1 : Entite := { bo with sante := bo.sante - 1 }
  let e2 : EtatJeu := { e1 with boucliers := e1.boucliers.set b bo1 }
  if bo1.sante ≤ 0 then
    match creer_explosion_verifie e2 bo1.x bo1.y bo1.type with
    | none => none
    | some e3 => some { e3 with boucliers := e3.boucliers.set b { bo1 with vivant := 0 } }
  else some e2

/-- Shield scan of a projectile (model.c 269-280, 291-302), subscripts checked. -/
def collision_boucliers_boucle_verifie (e : EtatJeu) (i : Nat) : List Nat → Option EtatJeu
  | [] => some e
  | b :: reste =>
    match e.boucliers[b]?, e.projectiles[i]? with
    | some bo, some p =>
      if bo.vivant = 0 then collision_boucliers_boucle_verifie e i reste
      else if bo.x = p.x ∧ bo.y = p.y then toucher_bouclier_verifie e i b p bo
      else collision_boucliers_boucle_verifie e i reste
    | _, _ => none

/-- Projectile against the shields (model.c 269-280, 291-302), subscripts checked. -/
def collision_boucliers_verifie (e : EtatJeu) (i : Nat) : Option EtatJeu :=
  collision_boucliers_boucle_verifie e i (List.range e.nombre_boucliers.toNat)

/-- Enemy projectile against the ship (model.c 283-288), subscripts checked. -/
def collision_vaisseau_verifie (e : EtatJeu) (i : Nat) : Option EtatJeu :=
  match e.projectiles[i]? with
  | none => none
  | some p =>
    if p.x = e.joueur.x ∧ p.y = ligne_vaisseau e then
      let e1 : EtatJeu := { e with
        projectiles := e.projectiles.set i { p with actif := 0 }
        vies := e.vies - 1 }
      if e1.vies ≤ 0 then some { e1 with game_over := 1 } else some e1
    else some e

/-- Body of the projectile loop for slot `i` (model.c 244-303), subscripts checked. -/
def traiter_projectile_verifie (e : EtatJeu) (i : Nat) : Option EtatJeu :=
  match e.projectiles[i]? with
  | none => none
  | some p =>
    if p.actif = 0 then some e
    else
      let p1 : Projectile := { p with y := p.y + p.dy }
      let e1 : EtatJeu := { e with projectiles := e.projectiles.set i p1 }
      if p1.y < 0 ∨ p1.y ≥ e1.hauteur then
        some { e1 with projectiles := e1.projectiles.set i { p1 with actif := 0 } }
      else if p1.proprietaire = 0 then
        match collision_ennemis_verifie e1 i with
        | none => none
        | some s => collision_boucliers_verifie s i
      else
        match collision_vaisseau_verifie e1 i with
        | none => none
        | some s => collision_boucliers_verifie s i

/-- The projectile loop (model.c 243-304), subscripts checked. -/
def phase_projectiles_verifie (e : EtatJeu) : Option EtatJeu :=
  boucle_verifiee traiter_projectile_verifie e (List.range e.projectiles.length)

/-- Loop of `nombre_ennemis_vivants` (model.c 226) over the indices still to visit,
subscripts checked. -/
def compter_vivants_verifie (l : List Entite) : List Nat → Option Nat
  | [] => some 0
  | i :: reste =>
    match l[i]? with
    | none => none
    | some en =>
      match compter_vivants_verifie l reste with
      | none => none
      | some c => if en.vivant ≠ 0 then some (c + 1) else some c

/-- `nombre_ennemis_vivants` (model.c 224-228), subscripts checked. -/
def nombre_ennemis_vivants_verifie (e : EtatJeu) : Option Nat :=
  compter_vivants_verifie e.ennemis (List.range e.nombre_ennemis.toNat)

/-- Inner loop of the grid loops (model.c 321-334, 172-190, 479-486), subscripts checked: after
the guard `idx >= NB_MAX_ENNEMIS` the slot `idx` is subscripted. -/
def grille_colonnes_verifie (corps : Entite → Int → Int → Nat → Entite × Nat) (esp : Int)
    (r : Nat) : Grille → List Nat → Option Grille
  | g, [] => some g
  | g, c :: reste =>
    if g.nombre_ennemis ≥ (g.ennemis.length : Int) then
      some { g with nombre_ennemis := g.nombre_ennemis + 1 }
    else if g.nombre_ennemis < 0 then none
    else
      match g.ennemis[g.nombre_ennemis.toNat]? with
      | none => none
      | some en =>
        grille_colonnes_verifie corps esp r
          { ennemis := g.ennemis.set g.nombre_ennemis.toNat
              (corps en (2 + (c : Int) * esp) (2 + (r : Int) * 2) g.tirages).1
            nombre_ennemis := g.nombre_ennemis + 1
            tirages := (corps en (2 + (c : Int) * esp) (2 + (r : Int) * 2) g.tirages).2 }
          reste

/-- Both grid loops (model.c 320-335), subscripts checked. -/
def grille_verifie (corps : Entite → Int → Int → Nat → Entite × Nat) (esp : Int) (g : Grille) :
    Option Grille :=
  boucle_verifiee (fun g r => grille_colonnes_verifie corps esp r g [0, 1, 2, 3, 4, 5, 6, 7])
    g [0, 1, 2]

/-- Wave test and respawn (model.c 308-336), subscripts checked. -/
def phase_reapparition_verifie (alea : Nat → Nat) (e : EtatJeu) : Option (EtatJeu × Nat) :=
  match nombre_ennemis_vivants_verifie e with
  | none => none
  | some vivants =>
    if vivants = 0 then
      let e1 : EtatJeu :=
        { e with
          niveau := e.niveau + 1
          intervalle_deplacement_ennemis := e.intervalle_deplacement_ennemis * (9 / 10) }
      match grille_verifie (corps_reapparition alea e1.niveau) (espacement_x e1.largeur)
          { ennemis := e1.ennemis, nombre_ennemis := 0, tirages := 0 } with
      | none => none
      | some g =>
        some ({ e1 with ennemis := g.ennemis, nombre_ennemis := g.nombre_ennemis }, g.tirages)
    else some (e, 0)

/-- Edge test of the enemy step (model.c 341-346) over the indices still to visit, subscripts
checked; the loop stops at the first alive enemy that would leave the columns. -/
def touche_bord_boucle_verifie (e : EtatJeu) : List Nat → Option Bool
  | [] => some false
  | i :: reste =>
    match e.ennemis[i]? with
    | none => none
    | some en =>
      if en.vivant = 0 then touche_bord_boucle_verifie e reste
      else if en.x + e.direction_ennemis < 0 ∨ en.x + e.direction_ennemis ≥ e.largeur then
        some true
      else touche_bord_boucle_verifie e reste

/-- Timed enemy step (model.c 338-354), subscripts checked. -/
def phase_deplacement_verifie (e : EtatJeu) : Option EtatJeu :=
  if e.acc_deplacement_ennemis ≥ e.intervalle_deplacement_ennemis then
    let e1 : EtatJeu := { e with acc_deplacement_ennemis := 0 }
    match touche_bord_boucle_verifie e1 (List.range e1.nombre_ennemis.toNat) with
    | none => none
    | some true =>
      match boucle_cases (fun _ en => if en.vivant ≠ 0 then { en with y := en.y + 1 } else en)
          e1.ennemis (List.range e1.nombre_ennemis.toNat) with
      | none => none
      | some l => some { e1 with direction_ennemis := -e1.direction_ennemis, ennemis := l }
    | some false =>
      match boucle_cases
          (fun _ en => if en.vivant ≠ 0 then { en with x := en.x + e1.direction_ennemis } else en)
          e1.ennemis (List.range e1.nombre_ennemis.toNat) with
      | none => none
      | some l => some { e1 with ennemis := l }
  else some e

/-- Loop filling the local array `idxs[NB_MAX_ENNEMIS]` (model.c 358-359) over the indices
still to visit, subscripts checked: `acc` is the part of `idxs` filled so far, `idxs[n++] = i`
is a write in slot `n = acc.length` of an array of `NB_MAX_ENNEMIS` slots. -/
def idxs_boucle_verifie (e : EtatJeu) : List Nat → List Nat → Option (List Nat)
  | acc, [] => some acc
  | acc, i :: reste =>
    match e.ennemis[i]? with
    | none => none
    | some en =>
      if en.vivant ≠ 0 then
        if acc.length < e.ennemis.length then idxs_boucle_verifie e (acc ++ [i]) reste
        else none
      else idxs_boucle_verifie e acc reste

/-- Enemy fire (model.c 357-364), subscripts checked. -/
def phase_tir_ennemi_verifie (alea : Nat → Nat) (e : EtatJeu) (k : Nat) : Option EtatJeu :=
  if alea k % 100 < 4 then
    match idxs_boucle_verifie e [] (List.range e.nombre_ennemis.toNat) with
    | none => none
    | some l =>
      if l.length > 0 then
        match l[alea (k + 1) % l.length]? with
        | none => none
        | some pick =>
          match e.ennemis[pick]? with
          | none => none
          | some en => ajouter_projectile_verifie e en.x (en.y + 1) 1 1
      else some e
  else some e

/-- Defeat test (model.c 367-375) over the indices still to visit, subscripts checked; the loop
stops at the first alive enemy on the ship row or below. -/
def phase_defaite_boucle_verifie (e : EtatJeu) : List Nat → Option EtatJeu
  | [] => some e
  | i :: reste =>
    match e.ennemis[i]? with
    | none => none
    | some en =>
      if en.vivant = 0 then phase_defaite_boucle_verifie e reste
      else if en.y ≥ ligne_vaisseau e then some { e with game_over := 1, vies := 0 }
      else phase_defaite_boucle_verifie e reste

/-- Collision phase (model.c 232-307), subscripts checked. -/
def phase_collisions_verifie (e : EtatJeu) (dt : ℚ) : Option EtatJeu :=
  let e1 : EtatJeu := { e with temps_acc := e.temps_acc + dt }
  match boucle_cases (fun _ p => vieillir_particule p) e1.particules
      (List.range NB_MAX_PARTICULES) with
  | none => none
  | some ps =>
    match phase_projectiles_verifie { e1 with particules := ps } with
    | none => none
    | some e3 =>
      some { e3 with acc_deplacement_ennemis := e3.acc_deplacement_ennemis + dt }

/-- One tick, `etatjeu_mettre_a_jour` (model.c 230-376), subscripts checked. -/
def etatjeu_mettre_a_jour_verifie (e : EtatJeu) (dt : ℚ) (alea : Nat → Nat) : Option EtatJeu :=
  match phase_collisions_verifie e dt with
  | none => none
  | some c =>
    match phase_reapparition_verifie alea c with
    | none => none
    | some r =>
      match phase_deplacement_verifie r.1 with
      | none => none
      | some d =>
        match phase_tir_ennemi_verifie alea d r.2 with
        | none => none
        | some t => phase_defaite_boucle_verifie t (List.range t.nombre_ennemis.toNat)

/-- Player fire, `etatjeu_vaisseau_tirer` (model.c 385-389), subscripts checked. -/
def etatjeu_vaisseau_tirer_verifie (e : EtatJeu) : Option EtatJeu :=
  ajouter_projectile_verifie e e.joueur.x (ligne_vaisseau e - 1) (-1) 0

/-- Creation, `etatjeu_creer` (model.c 143-217), subscripts checked. -/
def etatjeu_creer_verifie (brut : EtatJeu) (largeur hauteur : Int) (alea : Nat → Nat) :
    Option EtatJeu :=
  let niveau : Int := 1
  match grille_verifie (corps_creation alea niveau) (espacement_x largeur)
      { ennemis := brut.ennemis, nombre_ennemis := 0, tirages := 0 } with
  | none => none
  | some g =>
    match boucle_cases (fun _ p => { p with actif := 0 }) brut.projectiles
        (List.range brut.projectiles.length) with
    | none => none
    | some ps =>
      match boucle_cases (fun i _ => bouclier_initial largeur hauteur i) brut.boucliers
          (List.range brut.boucliers.length) with
      | none => none
      | some bs =>
        match boucle_cases (fun _ p => { p with ttl := 0 }) brut.particules
            (List.range NB_MAX_PARTICULES) with
        | none => none
        | some parts =>
          some
            { largeur := largeur
              hauteur := hauteur
              joueur :=
                { x := Int.tdiv largeur 2, y := hauteur - 1, vivant := 1, sante := 1, dmg := 1
                  type := TYPE_JOUEUR }
              vies := 3
              score := 0
              niveau := niveau
              temps_acc := 0
              quitter := 0
              game_over := 0
              ennemis := g.ennemis
              nombre_ennemis := g.nombre_ennemis
              direction_ennemis := 1
              acc_deplacement_ennemis := 0
              intervalle_deplacement_ennemis := 6 / 10
              projectiles := ps
              nombre_projectiles := 0
              boucliers := bs
              nombre_boucliers := 4
              particules := parts
              nombre_particules := 0 }

/-- Restart, `etatjeu_reinitialiser` (model.c 454-507), subscripts checked. -/
def etatjeu_reinitialiser_verifie (e : EtatJeu) : Option EtatJeu :=
  match grille_verifie corps_reinitialisation (espacement_x e.largeur)
      { ennemis := e.ennemis, nombre_ennemis := 0, tirages := 0 } with
  | none => none
  | some g =>
    match boucle_cases (fun _ p => { p with actif := 0 }) e.projectiles
        (List.range e.projectiles.length) with
    | none => none
    | some ps =>
      match boucle_cases (fun i _ => bouclier_initial e.largeur e.hauteur i) e.boucliers
          (List.range e.boucliers.length) with
      | none => none
      | some bs =>
        match boucle_cases (fun _ p => { p with ttl := 0 }) e.particules
            (List.range NB_MAX_PARTICULES) with
        | none => none
        | some parts =>
          some
            { e with
              joueur :=
                { e.joueur with
                  x := Int.tdiv e.largeur 2, y := e.hauteur - 1, vivant := 1, sante := 1
                  dmg := 1 }
              vies := 3
              score := 0
              niveau := 1
              temps_acc := 0
              quitter := 0
              game_over := 0
              ennemis := g.ennemis
              nombre_ennemis := g.nombre_ennemis
              direction_ennemis := 1
              acc_deplacement_ennemis := 0
              intervalle_deplacement_ennemis := 6 / 10
              projectiles := ps
              nombre_projectiles := 0
              boucliers := bs
              particules := parts
              nombre_particules := 0 }

/-- The counts that bound the enemy and shield loops are inside the arrays, the enemy array
holds the 24 slots of the grid, and the particle array has its `NB_MAX_PARTICULES` slots. -/
def indices_dans_les_pools (e : EtatJeu) : Prop :=
  (24 : Int) ≤ (e.ennemis.length : Int) ∧
  e.nombre_ennemis ≤ (e.ennemis.length : Int) ∧
  e.nombre_boucliers ≤ (e.boucliers.length : Int) ∧
  e.particules.length = NB_MAX_PARTICULES

/-! ## Sequences of calls -/

/-- One call of the engine made by the controller: a tick with its `dt` and the random source
of that tick, a ship move, a shot, a write of the quit flag, a restart. -/
inductive Operation where
  | tick (dt : ℚ) (alea : Nat → Nat)
  | deplacer (dir : Int)
  | tirer
  | quitter (q : Int)
  | reinitialiser

/-- Effect of one call. -/
def executer (o : Operation) (e : EtatJeu) : EtatJeu :=
  match o with
  | Operation.tick dt alea => etatjeu_mettre_a_jour e dt alea
  | Operation.deplacer dir => etatjeu_deplacer_vaisseau e dir
  | Operation.tirer => etatjeu_vaisseau_tirer e
  | Operation.quitter q => _etatjeu_definir_quitter e q
  | Operation.reinitialiser => etatjeu_reinitialiser e

/-- Effect of a sequence of calls, first call first. -/
def executer_suite (ops : List Operation) (e : EtatJeu) : EtatJeu :=
  ops.foldl (fun s o => executer o s) e

/-- Number of ticks in a sequence of calls. -/
def nombre_ticks : List Operation → Nat
  | [] => 0
  | Operation.tick _ _ :: reste => nombre_ticks reste + 1
  | _ :: reste => nombre_ticks reste

/-- The sequence contains no restart. -/
def sans_reinitialisation : List Operation → Bool
  | [] => true
  | Operation.reinitialiser :: _ => false
  | _ :: reste => sans_reinitialisation reste

/-- Every tick of the sequence has `dt >= 0`. -/
def dt_positifs : List Operation → Bool
  | [] => true
  | Operation.tick dt _ :: reste => decide (0 ≤ dt) && dt_positifs reste
  | _ :: reste => dt_positifs reste

/-! ## Bitmap text (`text_bitmap.c`)

A C `char` is a character of code below 256; the definitions take any `Char`.  `toupper`
belongs to the C library and depends on the locale: it is a parameter of `draw_glyph`, and
`toupper_C` is its value in the "C" locale.  The renderer and the colour are passed on to
`draw_rect` as they are and are left out. -/

/-- Patterns 5 x 7 of the bitmap font, `glyph_pattern` (text_bitmap.c 13-60): the seven rows of
five characters, concatenated as the adjacent string literals of the source are; `none` is
`NULL`. -/
def glyph_pattern (c : Char) : Option String :=
  match c with
  | 'A' => some (" ### " ++ "#   #" ++ "#   #" ++ "#####" ++ "#   #" ++ "#   #" ++ "#   #")
  | 'B' => some ("#### " ++ "#   #" ++ "#   #" ++ "#### " ++ "#   #" ++ "#   #" ++ "#### ")
  | 'C' => some (" ### " ++ "#   #" ++ "#    " ++ "#    " ++ "#    " ++ "#   #" ++ " ### ")
  | 'D' => some ("#### " ++ "#   #" ++ "#   #" ++ "#   #" ++ "#   #" ++ "#   #" ++ "#### ")
  | 'E' => some ("#####" ++ "#    " ++ "#    " ++ "#### " ++ "#    " ++ "#    " ++ "#####")
  | 'F' => some ("#####" ++ "#    " ++ "#    " ++ "#### " ++ "#    " ++ "#    " ++ "#    ")
  | 'G' => some (" ### " ++ "#   #" ++ "#    " ++ "# ###" ++ "#   #" ++ "#   #" ++ " ### ")
  | 'H' => some ("#   #" ++ "#   #" ++ "#   #" ++ "#####" ++ "#   #" ++ "#   #" ++ "#   #")
  | 'I' => some (" ### " ++ "  #  " ++ "  #  " ++ "  #  " ++ "  #  " ++ "  #  " ++ " ### ")
  | 'J' => some ("  ###" ++ "   # " ++ "   # " ++ "   # " ++ "#  # " ++ "#  # " ++ " ##  ")
  | 'K' => some ("#   #" ++ "#  # " ++ "# #  " ++ "##   " ++ "# #  " ++ "#  # " ++ "#   #")
  | 'L' => some ("#    " ++ "#    " ++ "#    " ++ "#    " ++ "#    " ++ "#    " ++ "#####")
  | 'M' => some ("#   #" ++ "## ##" ++ "# # #" ++ "# # #" ++ "#   #" ++ "#   #" ++ "#   #")
  | 'N' => some ("#   #" ++ "##  #" ++ "# # #" ++ "#  ##" ++ "#   #" ++ "#   #" ++ "#   #")
  | 'O' => some (" ### " ++ "#   #" ++ "#   #" ++ "#   #" ++ "#   #" ++ "#   #" ++ " ### ")
  | 'P' => some ("#### " ++ "#   #" ++ "#   #" ++ "#### " ++ "#    " ++ "#    " ++ "#    ")
  | 'Q' => some (" ### " ++ "#   #" ++ "#   #" ++ "#   #" ++ "# # #" ++ "#  ##" ++ " ####")
  | 'R' => some ("#### " ++ "#   #" ++ "#   #" ++ "#### " ++ "# #  " ++ "#  # " ++ "#   #")
  | 'S' => some (" ### " ++ "#   #" ++ "#    " ++ " ### " ++ "    #" ++ "#   #" ++ " ### ")
  | 'T' => some ("#####" ++ "  #  " ++ "  #  " ++ "  #  " ++ "  #  " ++ "  #  " ++ "  #  ")
  | 'U' => some ("#   #" ++ "#   #" ++ "#   #" ++ "#   #" ++ "#   #" ++ "#   #" ++ " ### ")
  | 'V' => some ("#   #" ++ "#   #" ++ "#   #" ++ "#   #" ++ "#   #" ++ " # # " ++ "  #  ")
  | 'W' => some ("#   #" ++ "#   #" ++ "#   #" ++ "# # #" ++ "# # #" ++ "## ##" ++ "#   #")
  | 'X' => some ("#   #" ++ "#   #" ++ " # # " ++ "  #  " ++ " # # " ++ "#   #" ++ "#   #")
  | 'Y' => some ("#   #" ++ "#   #" ++ " # # " ++ "  #  " ++ "  #  " ++ "  #  " ++ "  #  ")
  | 'Z' => some ("#####" ++ "    #" ++ "   # " ++ "  #  " ++ " #   " ++ "#    " ++ "#####")
  | '0' => some (" ### " ++ "#   #" ++ "#  ##" ++ "# # #" ++ "##  #" ++ "#   #" ++ " ### ")
  | '1' => some ("  #  " ++ " ##  " ++ "# #  " ++ "  #  " ++ "  #  " ++ "  #  " ++ "#####")
  | '2' => some (" ### " ++ "#   #" ++ "    #" ++ "   # " ++ "  #  " ++ " #   " ++ "#####")
  | '3' => some (" ### " ++ "#   #" ++ "    #" ++ " ### " ++ "    #" ++ "#   #" ++ " ### ")
  | '4' => some ("#   #" ++ "#   #" ++ "#   #" ++ "#####" ++ "    #" ++ "    #" ++ "    #")
  | '5' => some ("#####" ++ "#    " ++ "#    " ++ "#### " ++ "    #" ++ "#   #" ++ " ### ")
  | '6' => some (" ### " ++ "#   #" ++ "#    " ++ "#### " ++ "#   #" ++ "#   #" ++ " ### ")
  | '7' => some ("#####" ++ "    #" ++ "   # " ++ "  #  " ++ " #   " ++ " #   " ++ " #   ")
  | '8' => some (" ### " ++ "#   #" ++ "#   #" ++ " ### " ++ "#   #" ++ "#   #" ++ " ### ")
  | '9' => some (" ### " ++ "#   #" ++ "#   #" ++ " ### " ++ "    #" ++ "#   #" ++ " ### ")
  | '<' => some ("  #  " ++ " #   " ++ "#    " ++ "#    " ++ "#    " ++ " #   " ++ "  #  ")
  | '>' => some ("  #  " ++ "   # " ++ "    #" ++ "    #" ++ "    #" ++ "   # " ++ "  #  ")
  | '#' => some (" # # " ++ " # # " ++ "#####" ++ " # # " ++ "#####" ++ " # # " ++ " # # ")
  | '.' => some ("     " ++ "     " ++ "     " ++ "     " ++ "     " ++ "  #  " ++ "     ")
  | ' ' => none
  | ':' => some ("     " ++ "  #  " ++ "     " ++ "     " ++ "     " ++ "  #  " ++ "     ")
  | '-' => some ("     " ++ "     " ++ "     " ++ " ### " ++ "     " ++ "     " ++ "     ")
  | _ => none

/-- One call of `draw_rect` (text_bitmap.c 6-10): the rectangle that is filled. -/
structure Rect where
  x : Int
  y : Int
  w : Int
  h : Int
deriving DecidableEq, Repr

/-- Read of `pat[i]` in a string literal: its characters, then the terminating NUL at index
`length`; `none` is a read outside the array. -/
def lire_motif (pat : String) (i : Nat) : Option Char :=
  if i < pat.length then pat.data[i]?
  else if i = pat.length then some (Char.ofNat 0)
  else none

/-- Body of the nested loops of `draw_glyph` (text_bitmap.c 69-75) over the cells `(row, col)`
still to visit: the rectangles drawn, in order; `none` when a read leaves the pattern. -/
def draw_glyph_boucle (pat : String) (x y pixel : Int) : List (Nat × Nat) → Option (List Rect)
  | [] => some []
  | (row, col) :: reste =>
    match lire_motif pat (row * 5 + col) with
    | none => none
    | some car =>
      match draw_glyph_boucle pat x y pixel reste with
      | none => none
      | some rs =>
        if car = '#' then
          some ({ x := x + (col : Int) * pixel, y := y + (row : Int) * pixel, w := pixel,
                  h := pixel } :: rs)
        else some rs

/-- The cells visited by the loops of `draw_glyph`: `row` from 0 to 6, and for each row `col`
from 0 to 4. -/
def cases_glyphe : List (Nat × Nat) :=
  ((List.range 7).map (fun row => (List.range 5).map (fun col => (row, col)))).flatten

/-- Draws one character, `draw_glyph` (text_bitmap.c 62-78): the rectangles drawn and the
advance returned; `none` when a read leaves the pattern.  The advance is computed in `Int`
(no overflow of `pixel * 5 + spacing`). -/
def draw_glyph (toupper : Char → Char) (x y : Int) (ch : Char) (pixel spacing : Int) :
    Option (List Rect × Int) :=
  let c : Char := toupper ch
  let advance : Int := pixel * 5 + spacing
  match glyph_pattern c with
  | none => some ([], advance)
  | some pat =>
    match draw_glyph_boucle pat x y pixel cases_glyphe with
    | none => none
    | some rs => some (rs, advance)

/-- The function `toupper` of the C library in the "C" locale: the letters `a` to `z` go to
`A` to `Z`, every other character is returned as it is. -/
def toupper_C (c : Char) : Char :=
  if 'a' ≤ c ∧ c ≤ 'z' then Char.ofNat (c.toNat - 32) else c

/-! ## Example states

Concrete states on which the closed theorems below evaluate the operations.  The playfield
is 40 x 20; the enemy pool has 24 slots, the shield pool 4, the projectile pool 4, the
particle pool 256. -/

/-- A particle pool with no live particle. -/
def particules_vides : List Particule := List.replicate 256 ⟨0, 0, 0, 0, 0, 0⟩

/-- A dead enemy slot. -/
def ennemi_mort : Entite := ⟨0, 0, 0, 0, 1, 1⟩

/-- An inactive projectile slot. -/
def projectile_inactif : Projectile := ⟨0, 0, 0, 0, 0⟩

/-- The four shields of a 40 x 20 playfield as `etatjeu_creer` places them: x = 8, 16, 24, 32
on row 10, health 3. -/
def boucliers_initiaux : List Entite :=
  [⟨8, 10, 1, 3, 0, 3⟩, ⟨16, 10, 1, 3, 0, 3⟩, ⟨24, 10, 1, 3, 0, 3⟩, ⟨32, 10, 1, 3, 0, 3⟩]

/-- A 40 x 20 state at level 1 with the given first enemies (the other slots of the 24 are
dead), the given first projectile (the other 3 slots are inactive) and the given shields; no
live particle, movement timer at 0 with interval 6/10, enemies moving right. -/
def etat_exemple (ennemis : List Entite) (p : Projectile) (boucliers : List Entite) : EtatJeu :=
  { largeur := 40, hauteur := 20, joueur := ⟨20, 19, 1, 1, 1, 0⟩, vies := 3, score := 0
    niveau := 1, temps_acc := 0, quitter := 0, game_over := 0
    ennemis := ennemis ++ List.replicate (24 - ennemis.length) ennemi_mort
    nombre_ennemis := 24, direction_ennemis := 1
    acc_deplacement_ennemis := 0, intervalle_deplacement_ennemis := 6 / 10
    projectiles := [p, projectile_inactif, projectile_inactif, projectile_inactif]
    nombre_projectiles := 1
    boucliers := boucliers, nombre_boucliers := 4
    particules := particules_vides, nombre_particules := 0 }

/-- A strong enemy (health 2) on the cell (8, 10) of the first shield, whose health is down
to 1, and a player projectile about to move onto that cell. -/
def etat_ennemi_sur_bouclier : EtatJeu :=
  etat_exemple [⟨8, 10, 1, 2, 1, 2⟩, ⟨12, 10, 1, 1, 1, 1⟩] ⟨8, 11, -1, 0, 1⟩
    [⟨8, 10, 1, 1, 0, 3⟩, ⟨16, 10, 1, 3, 0, 3⟩, ⟨24, 10, 1, 3, 0, 3⟩, ⟨32, 10, 1, 3, 0, 3⟩]

/-- Playfield of height 4: the ship row `hauteur - 2` is the shield row `hauteur / 2`.  The
ship stands on the cell (8, 2) of the first shield and an enemy projectile is about to move
onto that cell. -/
def etat_vaisseau_sur_bouclier : EtatJeu :=
  { etat_exemple [⟨8, 0, 1, 1, 1, 1⟩] ⟨8, 1, 1, 1, 1⟩
      [⟨8, 2, 1, 3, 0, 3⟩, ⟨16, 2, 1, 3, 0, 3⟩, ⟨24, 2, 1, 3, 0, 3⟩, ⟨32, 2, 1, 3, 0, 3⟩] with
    hauteur := 4, joueur := ⟨8, 3, 1, 1, 1, 0⟩ }

/-- Playfield of height 6 with an alive enemy on row 6 (the third grid row), outside the rows
`0..5`, and a player projectile about to move onto its cell. -/
def etat_ennemi_hors_limites : EtatJeu :=
  { etat_exemple [⟨5, 6, 1, 1, 1, 1⟩, ⟨9, 2, 1, 1, 1, 1⟩] ⟨5, 7, -1, 0, 1⟩ boucliers_initiaux with
    hauteur := 6 }

/-- Two alive enemies on the same cell (5, 5) and a player projectile about to move onto
it. -/
def etat_ennemis_superposes : EtatJeu :=
  etat_exemple [⟨5, 5, 1, 1, 1, 1⟩, ⟨5, 5, 1, 1, 1, 1⟩] ⟨5, 6, -1, 0, 1⟩ boucliers_initiaux

/-- One alive weak enemy on (5, 5), a second alive enemy elsewhere, and a player projectile
about to move onto (5, 5). -/
def etat_tir_au_but : EtatJeu :=
  etat_exemple [⟨5, 5, 1, 1, 1, 1⟩, ⟨9, 5, 1, 1, 1, 1⟩] ⟨5, 6, -1, 0, 1⟩ boucliers_initiaux

/-- The last alive enemy, on (5, 5), and a player projectile about to move onto (5, 5). -/
def etat_dernier_ennemi : EtatJeu :=
  etat_exemple [⟨5, 5, 1, 1, 1, 1⟩] ⟨5, 6, -1, 0, 1⟩ boucliers_initiaux

/-- As `etat_tir_au_but`, with no live particle but the particle count `nombre_particules`
at 256. -/
def etat_compteur_sature : EtatJeu :=
  { etat_tir_au_but with nombre_particules := 256 }

/-- Playfield of width 4: `etatjeu_creer` places the four shields on the same cell
(`largeur / 5 = 0`), here (0, 10); a player projectile is about to move onto that cell. -/
def etat_boucliers_superposes : EtatJeu :=
  { etat_exemple [⟨2, 2, 1, 1, 1, 1⟩] ⟨0, 11, -1, 0, 1⟩
      [⟨0, 10, 1, 3, 0, 3⟩, ⟨0, 10, 1, 3, 0, 3⟩, ⟨0, 10, 1, 3, 0, 3⟩, ⟨0, 10, 1, 3, 0, 3⟩] with
    largeur := 4 }

/-- Playfield of height 0: the shield row `hauteur / 2 = 0` is outside the (empty) range of
rows; a player projectile is about to move onto the cell (8, 0) of the first shield. -/
def etat_bouclier_hors_limites : EtatJeu :=
  { etat_exemple [⟨2, 2, 1, 1, 1, 1⟩] ⟨8, 1, -1, 0, 1⟩
      [⟨8, 0, 1, 3, 0, 3⟩, ⟨16, 0, 1, 3, 0, 3⟩, ⟨24, 0, 1, 3, 0, 3⟩, ⟨32, 0, 1, 3, 0, 3⟩] with
    hauteur := 0 }

/-- A player projectile about to move onto the cell (8, 10) of the first shield, fresh
(health 3); no enemy on that cell. -/
def etat_tir_sur_bouclier : EtatJeu :=
  etat_exemple [⟨2, 2, 1, 1, 1, 1⟩] ⟨8, 11, -1, 0, 1⟩ boucliers_initiaux

/-- No alive enemy, no active projectile. -/
def etat_vague_finie : EtatJeu :=
  etat_exemple [] projectile_inactif boucliers_initiaux

/-- Enemies moving left: one alive on the left edge (0, 5), one alive on (5, 5), and a player
projectile about to move onto (0, 5). -/
def etat_bord_gauche_vise : EtatJeu :=
  { etat_exemple [⟨0, 5, 1, 1, 1, 1⟩, ⟨5, 5, 1, 1, 1, 1⟩] ⟨0, 6, -1, 0, 1⟩ boucliers_initiaux with
    direction_ennemis := -1 }

/-- Enemies moving left: one alive on the left edge (0, 5), one alive on (5, 5), no active
projectile. -/
def etat_bord_gauche : EtatJeu :=
  { etat_exemple [⟨0, 5, 1, 1, 1, 1⟩, ⟨5, 5, 1, 1, 1, 1⟩] projectile_inactif boucliers_initiaux with
    direction_ennemis := -1 }

/-- Two alive enemies away from the edges, no active projectile. -/
def etat_en_marche : EtatJeu :=
  etat_exemple [⟨5, 5, 1, 1, 1, 1⟩, ⟨9, 5, 1, 1, 1, 1⟩] projectile_inactif boucliers_initiaux

/-- A block as `malloc` may return it for a 24-slot enemy pool, a 4-slot projectile pool, a
4-slot shield pool and the 256-slot particle pool: every field holds 7. -/
def memoire_brute : EtatJeu :=
  { largeur := 7, hauteur := 7, joueur := ⟨7, 7, 7, 7, 7, 7⟩, vies := 7, score := 7
    niveau := 7, temps_acc := 7, quitter := 7, game_over := 7
    ennemis := List.replicate 24 ⟨7, 7, 7, 7, 7, 7⟩
    nombre_ennemis := 7, direction_ennemis := 7
    acc_deplacement_ennemis := 7, intervalle_deplacement_ennemis := 7
    projectiles := List.replicate 4 ⟨7, 7, 7, 7, 7⟩
    nombre_projectiles := 7
    boucliers := List.replicate 4 ⟨7, 7, 7, 7, 7, 7⟩, nombre_boucliers := 7
    particules := List.replicate 256 ⟨7, 7, 7, 7, 7, 7⟩, nombre_particules := 7 }

/-- Draws that never trigger enemy fire (`50 % 100 >= 4`). -/
def alea_calme : Nat → Nat := fun _ => 50

/-- A 36 x 10 game after creation, one shot of the ship (on x = 18, under the enemy column
x = 2 + 4 * 4) and nothing else: the projectile is on (18, 7), one row under the enemy of
slot 20, which is on (18, 6). -/
def etat_apres_tir : EtatJeu :=
  etatjeu_vaisseau_tirer (etatjeu_creer memoire_brute 36 10 alea_calme)

/-- The state `etat_apres_tir` one tick later (`dt = 0`, no enemy fire): the projectile has
moved onto (18, 6) and destroyed the enemy of slot 20. -/
def etat_ennemi_tue : EtatJeu :=
  etatjeu_mettre_a_jour etat_apres_tir 0 alea_calme

/-- One shot of the ship followed by two ticks (`dt = 0`, no enemy fire). -/
def tir_et_deux_pas (e : EtatJeu) : EtatJeu :=
  etatjeu_mettre_a_jour (etatjeu_mettre_a_jour (etatjeu_vaisseau_tirer e) 0 alea_calme) 0
    alea_calme

/-- A 36 x 10 game after creation, three ship moves to the right (onto x = 21, the column of
the third shield, on (21, 5)) and three times one shot followed by two ticks: each shot
reaches the shield on its second tick, the third one destroys it. -/
def etat_bouclier_detruit : EtatJeu :=
  tir_et_deux_pas (tir_et_deux_pas (tir_et_deux_pas
    (etatjeu_deplacer_vaisseau (etatjeu_deplacer_vaisseau (etatjeu_deplacer_vaisseau
      (etatjeu_creer memoire_brute 36 10 alea_calme) 1) 1) 1)))

/-- An enemy projectile on (20, 17) about to move onto the ship's cell (20, 18); one alive
enemy far from the ship row. -/
def etat_tir_ennemi_au_but : EtatJeu :=
  etat_exemple [⟨5, 5, 1, 1, 1, 1⟩] ⟨20, 17, 1, 1, 1⟩ boucliers_initiaux

/-- As `etat_tir_ennemi_au_but`, the alive enemy being on the right edge one row above the
ship row, on (39, 17). -/
def etat_tir_et_descente : EtatJeu :=
  etat_exemple [⟨39, 17, 1, 1, 1, 1⟩] ⟨20, 17, 1, 1, 1⟩ boucliers_initiaux

/-- Playfield of height 1: the ship row `hauteur - 2` is -1, outside the rows.  An enemy
projectile on (20, -2) is about to move onto (20, -1); one alive enemy on (5, -5). -/
def etat_hauteur_1 : EtatJeu :=
  { etat_exemple [⟨5, -5, 1, 1, 1, 1⟩] ⟨20, -2, 1, 1, 1⟩ boucliers_initiaux with
    hauteur := 1, joueur := ⟨20, 0, 1, 1, 1, 0⟩ }

/-- An alive enemy on the ship row, on (5, 18); no active projectile. -/
def etat_ennemi_en_bas : EtatJeu :=
  etat_exemple [⟨5, 18, 1, 1, 1, 1⟩] projectile_inactif boucliers_initiaux

/-- Active projectiles in slots 1 and 3 only, live particles in slots 1 and 3 only. -/
def etat_cases_eparses : EtatJeu :=
  { etat_exemple [⟨5, 5, 1, 1, 1, 1⟩] projectile_inactif boucliers_initiaux with
    projectiles := [projectile_inactif, ⟨3, 4, -1, 0, 1⟩, projectile_inactif, ⟨7, 8, 1, 1, 1⟩]
    nombre_projectiles := 4
    particules := [⟨0, 0, 0, 0, 0, 0⟩, ⟨1, 2, 2, 0, 5, 1⟩, ⟨0, 0, 0, 0, 0, 0⟩, ⟨3, 4, 0, -2, 7, 3⟩] ++
      List.replicate 252 ⟨0, 0, 0, 0, 0, 0⟩
    nombre_particules := 4 }

/-- Draws 0, 10, 20, ...: the `k`-th call of `rand()` returns `10 * k`. -/
def alea_dizaines : Nat → Nat := fun k => 10 * k

/-- A fresh explosion particle (`ttl = 20`, velocity (2, 0)) in slot 0, on (5, 5); an alive
enemy on (20, 16), one row above the cell a shot of the ship starts from, and a second alive
enemy elsewhere; no active projectile. -/
def etat_particule_neuve : EtatJeu :=
  { etat_exemple [⟨20, 16, 1, 1, 1, 1⟩, ⟨9, 5, 1, 1, 1, 1⟩] projectile_inactif
      boucliers_initiaux with
    particules := ⟨5, 5, 2, 0, 20, 1⟩ :: List.replicate 255 ⟨0, 0, 0, 0, 0, 0⟩
    nombre_particules := 1 }

/-- Nineteen quiet ticks, one shot of the ship, and a twentieth tick, in which the shot
destroys the enemy on (20, 16). -/
def vingt_ticks_et_un_tir : List Operation :=
  List.replicate 19 (Operation.tick 0 alea_calme) ++
    [Operation.tirer, Operation.tick 0 alea_calme]

/-- Draws that trigger enemy fire when the first call of a tick is the fire draw: the call
number 0 returns 3 (`3 % 100 < 4`), every later call returns 1. -/
def alea_tir : Nat → Nat := fun k => if k = 0 then 3 else 1

/-- Draws that make the enemy of rank 19 fire at every tick without respawn: the fire draw is
3 (`3 % 100 < 4`), the choice draw is 19. -/
def alea_tir_19 : Nat → Nat := fun k => if k = 0 then 3 else 19

/-- Five ticks with `dt = 0` followed by three ticks with `dt = 1`, the enemy of rank 19
firing at every tick. -/
def huit_ticks_sous_le_feu : List Operation :=
  List.replicate 5 (Operation.tick 0 alea_tir_19) ++
    List.replicate 3 (Operation.tick 1 alea_tir_19)

/-- A 17 x 10 game (ship on x = 8, under the enemy of slot 19, on (8, 6)) after
`huit_ticks_sous_le_feu`: the shots of slot 19 have hit the ship five times (lives -2,
game-over 1) and the enemies, after one bounce on the right edge and two steps to the left,
are on the left edge with their lowest row on row 7, one row above the ship row. -/
def etat_vies_negatives : EtatJeu :=
  executer_suite huit_ticks_sous_le_feu (etatjeu_creer memoire_brute 17 10 alea_calme)

/-- Draws that are all 10: no enemy fires (10 >= 4) and, from level 2 on, every enemy written
by the respawn gets health 2 (10 < 25). -/
def alea_dix : Nat → Nat := fun _ => 10

/-- A 30 x 10 game after creation: grid columns x = 2, 5, ..., 23, grid rows y = 2, 4, 6,
shields on x = 6, 12, 18, 24 of row 5, ship on x = 15, shots start on row 7. -/
def jeu_30_10 : EtatJeu := etatjeu_creer memoire_brute 30 10 alea_dix

/-- Three shots of the ship on its column, each followed by the ticks (`dt = 0`) that bring the
projectile onto the lowest alive enemy of the column: 1, 3 and 5 ticks. -/
def vider_colonne : List Operation :=
  [Operation.tirer, Operation.tick 0 alea_dix,
   Operation.tirer, Operation.tick 0 alea_dix, Operation.tick 0 alea_dix,
   Operation.tick 0 alea_dix,
   Operation.tirer, Operation.tick 0 alea_dix, Operation.tick 0 alea_dix,
   Operation.tick 0 alea_dix, Operation.tick 0 alea_dix, Operation.tick 0 alea_dix]

/-- Three ship moves to the right, then `vider_colonne`. -/
def colonne_suivante : List Operation :=
  List.replicate 3 (Operation.deplacer 1) ++ vider_colonne

/-- Thirteen ship moves to the left (onto x = 2), then the columns x = 2 and 5. -/
def colonnes_1_et_2 : List Operation :=
  List.replicate 13 (Operation.deplacer (-1)) ++ vider_colonne ++ colonne_suivante

/-- The next two columns to the right. -/
def deux_colonnes : List Operation :=
  colonne_suivante ++ colonne_suivante

/-- One shot on each enemy of the 30 x 10 grid, column after column from left to right, one
projectile in flight at a time. -/
def vider_niveau : List Operation :=
  colonnes_1_et_2 ++ deux_colonnes ++ deux_colonnes ++ deux_colonnes

/-- The eight particles of an explosion of type 1 spawned on `(x, y)`, `t` ticks after the tick
that spawned it (`t <= 20`). -/
def explosion_agee (x y t : Int) : List Particule :=
  directions.map (fun d =>
    { x := x + t * (d.1 * 2), y := y + t * (d.2 * 2), vx := d.1 * 2, vy := d.2 * 2,
      ttl := 20 - t, type := 1 })

/-- A particle pool of 256 slots whose first blocks of eight hold the explosions `blocs`
(cell and age) and whose other slots are as `etatjeu_creer` left them. -/
def pool_explosions (blocs : List (Int × Int × Int)) : List Particule :=
  (blocs.map (fun b => explosion_agee b.1 b.2.1 b.2.2)).flatten ++
    List.replicate (256 - 8 * blocs.length) ⟨7, 7, 7, 7, 0, 7⟩

/-- The state `jeu_30_10` with the first `c` grid columns destroyed, the ship under column
`c`, the last projectile spent on row 2 and the explosions `blocs` in the particle pool. -/
def etat_colonnes_videes (c : Nat) (blocs : List (Int × Int × Int)) : EtatJeu :=
  { jeu_30_10 with
    joueur := { jeu_30_10.joueur with x := 3 * (c : Int) - 1 }
    score := 30 * (c : Int)
    ennemis := jeu_30_10.ennemis.mapIdx (fun j en =>
      if j % 8 < c then { en with vivant := 0, sante := 0 } else en)
    projectiles := jeu_30_10.projectiles.set 0
      { x := 3 * (c : Int) - 1, y := 2, dy := -1, proprietaire := 0, actif := 0 }
    nombre_projectiles := 1
    particules := pool_explosions blocs
    nombre_particules := 8 * (blocs.length : Int) }

/-- The state after the columns x = 2 and 5. -/
def etat_2_colonnes : EtatJeu :=
  etat_colonnes_videes 2 [(2, 6, 17), (2, 4, 14), (2, 2, 9), (5, 6, 8), (5, 4, 5), (5, 2, 0)]

/-- The state after the columns x = 2, ..., 11. -/
def etat_4_colonnes : EtatJeu :=
  etat_colonnes_videes 4
    [(8, 4, 14), (8, 2, 9), (11, 4, 5), (11, 2, 0), (5, 4, 20), (5, 2, 18), (8, 6, 17),
      (11, 6, 8)]

/-- The state after the columns x = 2, ..., 17. -/
def etat_6_colonnes : EtatJeu :=
  etat_colonnes_videes 6
    [(14, 2, 9), (17, 4, 5), (17, 2, 0), (11, 2, 18), (14, 6, 17), (14, 4, 14), (17, 6, 8),
      (11, 6, 20)]

/-- The state after the eight columns: the tick that destroyed the last enemy has respawned
the grid at level 2, every enemy with health 2 and with the type it had, 1. -/
def etat_grille_forte : EtatJeu :=
  { etat_colonnes_videes 8
      [(23, 4, 5), (23, 2, 0), (17, 2, 18), (20, 4, 14), (20, 2, 9), (23, 6, 8), (17, 6, 20),
        (20, 6, 17)] with
    niveau := 2
    intervalle_deplacement_ennemis := 27 / 50
    ennemis := jeu_30_10.ennemis.map (fun en => { en with sante := 2 }) }

/-- A 30 x 10 game after `vider_niveau`. -/
def etat_niveau_2 : EtatJeu := executer_suite vider_niveau jeu_30_10

/-- The state `etat_niveau_2` after one shot and one tick: the enemy of slot 23, on (23, 6), has
been hit once. -/
def etat_fort_touche : EtatJeu :=
  executer_suite [Operation.tirer, Operation.tick 0 alea_dix] etat_niveau_2

/-- The state `etat_fort_touche` after one more shot and tick: the enemy of slot 23 is
destroyed. -/
def etat_fort_tue : EtatJeu :=
  executer_suite [Operation.tirer, Operation.tick 0 alea_dix] etat_fort_touche

/-! ## Relations used in the statements -/

/-- Slot-wise relation between two enemy pools: same capacity, every slot keeps its cell, its
`dmg` and its `type`, and a slot alive in `l2` was alive in `l1` with at least the same
health.  This is what the collision phase of a tick does to the enemy pool. -/
def memes_cases (l1 l2 : List Entite) : Prop :=
  l2.length = l1.length ∧
  ∀ (k : Nat) (en : Entite), l1[k]? = some en →
    ∃ en2 : Entite, l2[k]? = some en2 ∧ en2.x = en.x ∧ en2.y = en.y ∧ en2.dmg = en.dmg ∧
      en2.type = en.type ∧ (en2.vivant ≠ 0 → en.vivant ≠ 0 ∧ en2.sante ≤ en.sante)

/-- The alive enemies of the slots below the count `n` stand on the grid of column spacing
`esp` shifted by `(dx, dy)`: slot `r * 8 + c` on column `2 + c * esp + dx`, row
`2 + r * 2 + dy`. -/
def formation (esp : Int) (l : List Entite) (n dx dy : Int) : Prop :=
  ∀ (j : Nat) (en : Entite), (j : Int) < n → l[j]? = some en → en.vivant ≠ 0 →
    en.x = 2 + ((j % 8 : Nat) : Int) * esp + dx ∧ en.y = 2 + ((j / 8 : Nat) : Int) * 2 + dy

/-- States reachable from `etatjeu_creer brut largeur hauteur` by any sequence of the
operations of the engine: tick (`dt >= 0`, any random draws), ship move, fire, restart and
quit flag. -/
inductive Atteignable (brut : EtatJeu) (largeur hauteur : Int) : EtatJeu → Prop
  | creer (alea : Nat → Nat) : Atteignable brut largeur hauteur
      (etatjeu_creer brut largeur hauteur alea)
  | mettre_a_jour (e : EtatJeu) (dt : ℚ) (alea : Nat → Nat) :
      Atteignable brut largeur hauteur e → 0 ≤ dt →
      Atteignable brut largeur hauteur (etatjeu_mettre_a_jour e dt alea)
  | deplacer_vaisseau (e : EtatJeu) (dir : Int) :
      Atteignable brut largeur hauteur e →
      Atteignable brut largeur hauteur (etatjeu_deplacer_vaisseau e dir)
  | vaisseau_tirer (e : EtatJeu) :
      Atteignable brut largeur hauteur e →
      Atteignable brut largeur hauteur (etatjeu_vaisseau_tirer e)
  | reinitialiser (e : EtatJeu) :
      Atteignable brut largeur hauteur e →
      Atteignable brut largeur hauteur (etatjeu_reinitialiser e)
  | definir_quitter (e : EtatJeu) (q : Int) :
      Atteignable brut largeur hauteur e →
      Atteignable brut largeur hauteur (_etatjeu_definir_quitter e q)

/-- What every operation keeps of a state created from `brut` with the given dimensions when
the enemy pool has at least 24 slots: the dimensions, the capacities of the four pools, the
enemy count 24, the shield count 4, and counts of projectiles and particles between 0 and the
capacity. -/
def invariant_capacites (brut : EtatJeu) (largeur hauteur : Int) (e : EtatJeu) : Prop :=
  e.largeur = largeur ∧ e.hauteur = hauteur ∧
  e.ennemis.length = brut.ennemis.length ∧
  e.projectiles.length = brut.projectiles.length ∧
  e.boucliers.length = brut.boucliers.length ∧
  e.particules.length = brut.particules.length ∧
  e.nombre_ennemis = 24 ∧ e.nombre_boucliers = 4 ∧
  0 ≤ e.nombre_projectiles ∧ e.nombre_projectiles ≤ (e.projectiles.length : Int) ∧
  0 ≤ e.nombre_particules ∧ e.nombre_particules ≤ (e.particules.length : Int)

/-- The second state has the dimensions, the four pool capacities and the shield count of the
first, and its projectile and particle high-water counts lie between 0 and the capacity if
those of the first do. -/
def memes_capacites (e e2 : EtatJeu) : Prop :=
  e2.largeur = e.largeur ∧ e2.hauteur = e.hauteur ∧
  e2.ennemis.length = e.ennemis.length ∧
  e2.projectiles.length = e.projectiles.length ∧
  e2.boucliers.length = e.boucliers.length ∧
  e2.particules.length = e.particules.length ∧
  e2.nombre_boucliers = e.nombre_boucliers ∧
  ((0 ≤ e.nombre_projectiles ∧ e.nombre_projectiles ≤ (e.projectiles.length : Int)) →
    (0 ≤ e2.nombre_projectiles ∧ e2.nombre_projectiles ≤ (e.projectiles.length : Int))) ∧
  ((0 ≤ e.nombre_particules ∧ e.nombre_particules ≤ (e.particules.length : Int)) →
    (0 ≤ e2.nombre_particules ∧ e2.nombre_particules ≤ (e.particules.length : Int)))

/-- State of the grid loops when the loop head is at the position `pos = r * 8 + c`, for an
enemy pool that was `l0` when the loops started with the count at 0: the capacity is kept;
the count is `pos`, or it has passed the capacity (a `break` has occurred) and is at most
`pos`; every slot of the pool below the count has been written by the loop body, for the
column `j % 8` and the row `j / 8`; the slots from the count on are as in `l0`. -/
def grille_ecrite (corps : Entite → Int → Int → Nat → Entite × Nat) (esp : Int)
    (l0 : List Entite) (pos : Nat) (g : Grille) : Prop :=
  g.ennemis.length = l0.length ∧
  (g.nombre_ennemis = (pos : Int) ∨ g.nombre_ennemis > (l0.length : Int)) ∧
  0 ≤ g.nombre_ennemis ∧ g.nombre_ennemis ≤ (pos : Int) ∧
  (∀ j : Nat, (j : Int) < g.nombre_ennemis → j < l0.length →
    ∃ (en : Entite) (t : Nat), l0[j]? = some en ∧
      g.ennemis[j]? =
        some (corps en (2 + ((j % 8 : Nat) : Int) * esp) (2 + ((j / 8 : Nat) : Int) * 2) t).1) ∧
  (∀ j : Nat, (j : Int) ≥ g.nombre_ennemis → g.ennemis[j]? = l0[j]?)

/-- Health of a shield in range: between 0 and 3, and the shield is alive exactly when its
health is at least 1. -/
def bouclier_sain (bo : Entite) : Prop :=
  0 ≤ bo.sante ∧ bo.sante ≤ 3 ∧ (bo.vivant ≠ 0 ↔ bo.sante ≥ 1)

/-- The second shield pool is the first one after hits: same capacity, every slot on the same
cell with a health that has not increased, and in range if it was. -/
def boucliers_uses (l1 l2 : List Entite) : Prop :=
  l2.length = l1.length ∧
  ∀ (k : Nat) (bo : Entite), l1[k]? = some bo →
    ∃ bo2 : Entite, l2[k]? = some bo2 ∧ bo2.x = bo.x ∧ bo2.y = bo.y ∧ bo2.sante ≤ bo.sante ∧
      (bouclier_sain bo → bouclier_sain bo2)

/-- Slot `i` of the enemy pool exists and holds an alive enemy. -/
def est_vivant (e : EtatJeu) (i : Nat) : Bool :=
  match e.ennemis[i]? with
  | none => false
  | some en => decide (en.vivant ≠ 0)

/-- Evolution of the particle pool and its high-water count under explosions: the capacity
is kept, the count does not decrease, a slot with `ttl > 0` is left as it is, and a slot that
changes holds a fresh particle (`ttl = 20`). -/
def pool_evolue (a b : List Particule × Int) : Prop :=
  b.1.length = a.1.length ∧ a.2 ≤ b.2 ∧
  ∀ (s : Nat) (q : Particule), a.1[s]? = some q →
    (q.ttl > 0 → b.1[s]? = some q) ∧
    (b.1[s]? = some q ∨ ∃ q2 : Particule, b.1[s]? = some q2 ∧ q2.ttl = 20)

/-- The projectile `q` is an active enemy-owned projectile that moves onto the ship's cell
`(joueur.x, hauteur - 2)` of the state `e` at its next move. -/
def touche_vaisseau (e : EtatJeu) (q : Projectile) : Prop :=
  q.actif ≠ 0 ∧ q.proprietaire ≠ 0 ∧ q.x = e.joueur.x ∧ q.y + q.dy = e.hauteur - 2

/-- Number of slot indices of a pool whose slot satisfies `P`. -/
def compter_cases {α : Type} (P : α → Bool) (l : List α) : Nat :=
  ((List.range l.length).filter
    (fun i => match l[i]? with
      | none => false
      | some x => P x)).length

/-- Number of pool slots that hold an active projectile. -/
def nombre_projectiles_actifs (e : EtatJeu) : Nat :=
  compter_cases (fun p => decide (p.actif ≠ 0)) e.projectiles

/-- Number of pool slots that hold a particle with `ttl > 0`. -/
def nombre_particules_vives (e : EtatJeu) : Nat :=
  compter_cases (fun p => decide (p.ttl > 0)) e.particules

/-- The active projectiles in increasing pool-slot order, inactive slots skipped: the
enumeration the specification gives to the projectile accessors. -/
def projectiles_actifs (e : EtatJeu) : List Projectile :=
  e.projectiles.filter (fun p => decide (p.actif ≠ 0))

/-- The particles with `ttl > 0` in increasing pool-slot order: the enumeration the
specification gives to the particle accessors. -/
def particules_vives (e : EtatJeu) : List Particule :=
  e.particules.filter (fun p => decide (p.ttl > 0))

/-- Number of alive shields among the first `nombre_boucliers` slots. -/
def nombre_boucliers_vivants (e : EtatJeu) : Nat :=
  ((List.range e.nombre_boucliers.toNat).filter
    (fun i => match e.boucliers[i]? with
      | none => false
      | some bo => decide (bo.vivant ≠ 0))).length

/-! # Theorems -/

/-! ## Lemmas: scans with `break` -/

theorem lt_length_of_getElem? {α : Type} {l : List α} {i : Nat} {a : α} (h : l[i]? = some a) :
    i < l.length := by
  rcases List.getElem?_eq_some.mp h with ⟨hlt, _⟩
  exact hlt

theorem range_decoupe (n k : Nat) (h : k < n) : ∃ l2, List.range n = List.range k ++ k :: l2 := by
  induction n with
  | zero => omega
  | succ m ih =>
    rcases Nat.lt_succ_iff_lt_or_eq.mp h with hlt | heq
    · obtain ⟨l2, hl2⟩ := ih hlt
      exact ⟨l2 ++ [m], by rw [List.range_succ, hl2]; simp⟩
    · subst heq
      exact ⟨[], List.range_succ k⟩

theorem collision_ennemis_boucle_aucun (e : EtatJeu) (i : Nat) (l : List Nat)
    (h : ∀ enn ∈ l, ∀ en p, e.ennemis[enn]? = some en → e.projectiles[i]? = some p →
      en.vivant ≠ 0 → ¬ (en.x = p.x ∧ en.y = p.y)) :
    collision_ennemis_boucle e i l = e := by
  induction l with
  | nil => rfl
  | cons enn reste ih =>
    have ih1 := ih (fun k hk => h k (List.mem_cons_of_mem _ hk))
    unfold collision_ennemis_boucle
    split
    · next en p hen hp =>
      by_cases hv : en.vivant = 0
      · simp [hv, ih1]
      · have := h enn (List.mem_cons_self _ _) en p hen hp hv
        simp [hv, this, ih1]
    · exact ih1

theorem collision_ennemis_boucle_premier (e : EtatJeu) (i : Nat) (l1 l2 : List Nat) (enn : Nat)
    (en : Entite) (p : Projectile) (hen : e.ennemis[enn]? = some en)
    (hp : e.projectiles[i]? = some p) (hv : en.vivant ≠ 0) (hx : en.x = p.x) (hy : en.y = p.y)
    (h : ∀ k ∈ l1, ∀ ek, e.ennemis[k]? = some ek → ek.vivant ≠ 0 →
      ¬ (ek.x = p.x ∧ ek.y = p.y)) :
    collision_ennemis_boucle e i (l1 ++ enn :: l2) = toucher_ennemi e i enn p en := by
  induction l1 with
  | nil =>
    simp only [List.nil_append]
    unfold collision_ennemis_boucle
    simp [hen, hp, hv, hx, hy]
  | cons k reste ih =>
    have ih1 := ih (fun j hj => h j (List.mem_cons_of_mem _ hj))
    simp only [List.cons_append]
    unfold collision_ennemis_boucle
    split
    · next ek q hek hq =>
      rw [hp] at hq
      cases hq
      by_cases hvk : ek.vivant = 0
      · simp [hvk, ih1]
      · have := h k (List.mem_cons_self _ _) ek hek hvk
        simp [hvk, this, ih1]
    · exact ih1

theorem collision_ennemis_boucle_cas (e : EtatJeu) (i : Nat) (l : List Nat) :
    collision_ennemis_boucle e i l = e ∨
    ∃ enn en p, enn ∈ l ∧ e.ennemis[enn]? = some en ∧ e.projectiles[i]? = some p ∧
      en.vivant ≠ 0 ∧ en.x = p.x ∧ en.y = p.y ∧
      collision_ennemis_boucle e i l = toucher_ennemi e i enn p en := by
  induction l with
  | nil => exact Or.inl rfl
  | cons k reste ih =>
    have ih1 : collision_ennemis_boucle e i reste = e ∨
        ∃ enn en p, enn ∈ k :: reste ∧ e.ennemis[enn]? = some en ∧ e.projectiles[i]? = some p ∧
          en.vivant ≠ 0 ∧ en.x = p.x ∧ en.y = p.y ∧
          collision_ennemis_boucle e i reste = toucher_ennemi e i enn p en := by
      rcases ih with h | ⟨enn, en, p, hm, h⟩
      · exact Or.inl h
      · exact Or.inr ⟨enn, en, p, List.mem_cons_of_mem _ hm, h⟩
    unfold collision_ennemis_boucle
    split
    · next ek q hek hq =>
      by_cases hvk : ek.vivant = 0
      · simpa [hvk] using ih1
      · by_cases hc : ek.x = q.x ∧ ek.y = q.y
        · right
          refine ⟨k, ek, q, List.mem_cons_self _ _, hek, hq, hvk, hc.1, hc.2, ?_⟩
          simp [hvk, hc]
        · simpa [hvk, hc] using ih1
    · exact ih1

theorem collision_boucliers_boucle_aucun (e : EtatJeu) (i : Nat) (l : List Nat)
    (h : ∀ b ∈ l, ∀ bo p, e.boucliers[b]? = some bo → e.projectiles[i]? = some p →
      bo.vivant ≠ 0 → ¬ (bo.x = p.x ∧ bo.y = p.y)) :
    collision_boucliers_boucle e i l = e := by
  induction l with
  | nil => rfl
  | cons b reste ih =>
    have ih1 := ih (fun k hk => h k (List.mem_cons_of_mem _ hk))
    unfold collision_boucliers_boucle
    split
    · next bo p hbo hp =>
      by_cases hv : bo.vivant = 0
      · simp [hv, ih1]
      · have := h b (List.mem_cons_self _ _) bo p hbo hp hv
        simp [hv, this, ih1]
    · exact ih1

theorem collision_boucliers_boucle_premier (e : EtatJeu) (i : Nat) (l1 l2 : List Nat) (b : Nat)
    (bo : Entite) (p : Projectile) (hbo : e.boucliers[b]? = some bo)
    (hp : e.projectiles[i]? = some p) (hv : bo.vivant ≠ 0) (hx : bo.x = p.x) (hy : bo.y = p.y)
    (h : ∀ k ∈ l1, ∀ bk, e.boucliers[k]? = some bk → bk.vivant ≠ 0 →
      ¬ (bk.x = p.x ∧ bk.y = p.y)) :
    collision_boucliers_boucle e i (l1 ++ b :: l2) = toucher_bouclier e i b p bo := by
  induction l1 with
  | nil =>
    simp only [List.nil_append]
    unfold collision_boucliers_boucle
    simp [hbo, hp, hv, hx, hy]
  | cons k reste ih =>
    have ih1 := ih (fun j hj => h j (List.mem_cons_of_mem _ hj))
    simp only [List.cons_append]
    unfold collision_boucliers_boucle
    split
    · next bk q hbk hq =>
      rw [hp] at hq
      cases hq
      by_cases hvk : bk.vivant = 0
      · simp [hvk, ih1]
      · have := h k (List.mem_cons_self _ _) bk hbk hvk
        simp [hvk, this, ih1]
    · exact ih1

theorem collision_boucliers_boucle_cas (e : EtatJeu) (i : Nat) (l : List Nat) :
    collision_boucliers_boucle e i l = e ∨
    ∃ b bo p, b ∈ l ∧ e.boucliers[b]? = some bo ∧ e.projectiles[i]? = some p ∧
      bo.vivant ≠ 0 ∧ bo.x = p.x ∧ bo.y = p.y ∧
      collision_boucliers_boucle e i l = toucher_bouclier e i b p bo := by
  induction l with
  | nil => exact Or.inl rfl
  | cons k reste ih =>
    have ih1 : collision_boucliers_boucle e i reste = e ∨
        ∃ b bo p, b ∈ k :: reste ∧ e.boucliers[b]? = some bo ∧ e.projectiles[i]? = some p ∧
          bo.vivant ≠ 0 ∧ bo.x = p.x ∧ bo.y = p.y ∧
          collision_boucliers_boucle e i reste = toucher_bouclier e i b p bo := by
      rcases ih with h | ⟨b, bo, p, hm, h⟩
      · exact Or.inl h
      · exact Or.inr ⟨b, bo, p, List.mem_cons_of_mem _ hm, h⟩
    unfold collision_boucliers_boucle
    split
    · next bk q hbk hq =>
      by_cases hvk : bk.vivant = 0
      · simpa [hvk] using ih1
      · by_cases hc : bk.x = q.x ∧ bk.y = q.y
        · right
          refine ⟨k, bk, q, List.mem_cons_self _ _, hbk, hq, hvk, hc.1, hc.2, ?_⟩
          simp [hvk, hc]
        · simpa [hvk, hc] using ih1
    · exact ih1

/-! Fields written by a hit -/
theorem toucher_ennemi_ennemis (e : EtatJeu) (i enn : Nat) (p : Projectile) (en : Entite) :
    (toucher_ennemi e i enn p en).ennemis =
      e.ennemis.set enn
        (if en.sante - 1 ≤ 0 then { en with sante := en.sante - 1, vivant := 0 }
         else { en with sante := en.sante - 1 }) := by
  unfold toucher_ennemi creer_explosion
  by_cases h : en.sante - 1 ≤ 0 <;> simp [h]

theorem toucher_ennemi_score (e : EtatJeu) (i enn : Nat) (p : Projectile) (en : Entite) :
    (toucher_ennemi e i enn p en).score = if en.sante - 1 ≤ 0 then e.score + 10 else e.score := by
  unfold toucher_ennemi creer_explosion
  by_cases h : en.sante - 1 ≤ 0 <;> simp [h]

theorem toucher_ennemi_projectiles (e : EtatJeu) (i enn : Nat) (p : Projectile) (en : Entite) :
    (toucher_ennemi e i enn p en).projectiles = e.projectiles.set i { p with actif := 0 } := by
  unfold toucher_ennemi creer_explosion
  by_cases h : en.sante - 1 ≤ 0 <;> simp [h]

theorem toucher_ennemi_particules (e : EtatJeu) (i enn : Nat) (p : Projectile) (en : Entite) :
    (toucher_ennemi e i enn p en).particules =
      if en.sante - 1 ≤ 0 then
        (creer_explosion_boucle en.x en.y en.type (e.particules, e.nombre_particules)
          directions).1
      else e.particules := by
  unfold toucher_ennemi creer_explosion
  by_cases h : en.sante - 1 ≤ 0 <;> simp [h]

theorem toucher_ennemi_eq (e : EtatJeu) (i enn : Nat) (p : Projectile) (en : Entite) :
    toucher_ennemi e i enn p en =
      { e with
        projectiles := e.projectiles.set i { p with actif := 0 }
        ennemis := e.ennemis.set enn
          (if en.sante - 1 ≤ 0 then { en with sante := en.sante - 1, vivant := 0 }
           else { en with sante := en.sante - 1 })
        score := if en.sante - 1 ≤ 0 then e.score + 10 else e.score
        particules :=
          if en.sante - 1 ≤ 0 then
            (creer_explosion_boucle en.x en.y en.type (e.particules, e.nombre_particules)
              directions).1
          else e.particules
        nombre_particules :=
          if en.sante - 1 ≤ 0 then
            (creer_explosion_boucle en.x en.y en.type (e.particules, e.nombre_particules)
              directions).2
          else e.nombre_particules } := by
  unfold toucher_ennemi creer_explosion
  by_cases h : en.sante - 1 ≤ 0 <;> simp [h]

theorem toucher_bouclier_eq (e : EtatJeu) (i b : Nat) (p : Projectile) (bo : Entite) :
    toucher_bouclier e i b p bo =
      { e with
        projectiles := e.projectiles.set i { p with actif := 0 }
        boucliers := e.boucliers.set b
          (if bo.sante - 1 ≤ 0 then { bo with sante := bo.sante - 1, vivant := 0 }
           else { bo with sante := bo.sante - 1 })
        particules :=
          if bo.sante - 1 ≤ 0 then
            (creer_explosion_boucle bo.x bo.y bo.type (e.particules, e.nombre_particules)
              directions).1
          else e.particules
        nombre_particules :=
          if bo.sante - 1 ≤ 0 then
            (creer_explosion_boucle bo.x bo.y bo.type (e.particules, e.nombre_particules)
              directions).2
          else e.nombre_particules } := by
  unfold toucher_bouclier creer_explosion
  by_cases h : bo.sante - 1 ≤ 0 <;> simp [h]

/-- First-match form of `collision_ennemis`: the lowest-slot alive enemy on the cell is hit. -/
theorem collision_ennemis_premier (e : EtatJeu) (i enn : Nat) (en : Entite) (p : Projectile)
    (hn : (enn : Int) < e.nombre_ennemis)
    (hen : e.ennemis[enn]? = some en) (hp : e.projectiles[i]? = some p)
    (hv : en.vivant ≠ 0) (hx : en.x = p.x) (hy : en.y = p.y)
    (h : ∀ k < enn, ∀ ek, e.ennemis[k]? = some ek → ek.vivant ≠ 0 →
      ¬ (ek.x = p.x ∧ ek.y = p.y)) :
    collision_ennemis e i = toucher_ennemi e i enn p en := by
  unfold collision_ennemis
  obtain ⟨l2, hl2⟩ := range_decoupe e.nombre_ennemis.toNat enn (by omega)
  rw [hl2]
  exact collision_ennemis_boucle_premier e i _ l2 enn en p hen hp hv hx hy
    (fun k hk => h k (List.mem_range.mp hk))

theorem collision_boucliers_premier (e : EtatJeu) (i b : Nat) (bo : Entite) (p : Projectile)
    (hn : (b : Int) < e.nombre_boucliers)
    (hbo : e.boucliers[b]? = some bo) (hp : e.projectiles[i]? = some p)
    (hv : bo.vivant ≠ 0) (hx : bo.x = p.x) (hy : bo.y = p.y)
    (h : ∀ k < b, ∀ bk, e.boucliers[k]? = some bk → bk.vivant ≠ 0 →
      ¬ (bk.x = p.x ∧ bk.y = p.y)) :
    collision_boucliers e i = toucher_bouclier e i b p bo := by
  unfold collision_boucliers
  obtain ⟨l2, hl2⟩ := range_decoupe e.nombre_boucliers.toNat b (by omega)
  rw [hl2]
  exact collision_boucliers_boucle_premier e i _ l2 b bo p hbo hp hv hx hy
    (fun k hk => h k (List.mem_range.mp hk))

theorem collision_ennemis_cas (e : EtatJeu) (i : Nat) :
    collision_ennemis e i = e ∨
    ∃ (enn : Nat) (en : Entite) (p : Projectile), (enn : Int) < e.nombre_ennemis ∧ e.ennemis[enn]? = some en ∧
      e.projectiles[i]? = some p ∧ en.vivant ≠ 0 ∧ en.x = p.x ∧ en.y = p.y ∧
      collision_ennemis e i = toucher_ennemi e i enn p en := by
  unfold collision_ennemis
  rcases collision_ennemis_boucle_cas e i (List.range e.nombre_ennemis.toNat) with
    h | ⟨enn, en, p, hm, h⟩
  · exact Or.inl h
  · exact Or.inr ⟨enn, en, p, by have := List.mem_range.mp hm; omega, h⟩

theorem collision_boucliers_cas (e : EtatJeu) (i : Nat) :
    collision_boucliers e i = e ∨
    ∃ (b : Nat) (bo : Entite) (p : Projectile), (b : Int) < e.nombre_boucliers ∧ e.boucliers[b]? = some bo ∧
      e.projectiles[i]? = some p ∧ bo.vivant ≠ 0 ∧ bo.x = p.x ∧ bo.y = p.y ∧
      collision_boucliers e i = toucher_bouclier e i b p bo := by
  unfold collision_boucliers
  rcases collision_boucliers_boucle_cas e i (List.range e.nombre_boucliers.toNat) with
    h | ⟨b, bo, p, hm, h⟩
  · exact Or.inl h
  · exact Or.inr ⟨b, bo, p, by have := List.mem_range.mp hm; omega, h⟩

/-- Body of the projectile loop for an active player projectile that stays in the rows. -/
theorem traiter_projectile_joueur (e : EtatJeu) (i : Nat) (p : Projectile)
    (hp : e.projectiles[i]? = some p) (ha : p.actif ≠ 0) (ho : p.proprietaire = 0)
    (h0 : 0 ≤ p.y + p.dy) (h1 : p.y + p.dy < e.hauteur) :
    traiter_projectile e i =
      collision_boucliers
        (collision_ennemis
          { e with projectiles := e.projectiles.set i { p with y := p.y + p.dy } } i) i := by
  unfold traiter_projectile
  simp only [hp]
  have h2 : ¬ (p.y + p.dy < 0 ∨ p.y + p.dy ≥ e.hauteur) := by omega
  simp [ha, ho, h2]

theorem traiter_projectile_ennemi (e : EtatJeu) (i : Nat) (p : Projectile)
    (hp : e.projectiles[i]? = some p) (ha : p.actif ≠ 0) (ho : p.proprietaire ≠ 0)
    (h0 : 0 ≤ p.y + p.dy) (h1 : p.y + p.dy < e.hauteur) :
    traiter_projectile e i =
      collision_boucliers
        (collision_vaisseau
          { e with projectiles := e.projectiles.set i { p with y := p.y + p.dy } } i) i := by
  unfold traiter_projectile
  simp only [hp]
  have h2 : ¬ (p.y + p.dy < 0 ∨ p.y + p.dy ≥ e.hauteur) := by omega
  simp [ha, ho, h2]

theorem traiter_projectile_hors_limites (e : EtatJeu) (i : Nat) (p : Projectile)
    (hp : e.projectiles[i]? = some p) (ha : p.actif ≠ 0)
    (h : p.y + p.dy < 0 ∨ p.y + p.dy ≥ e.hauteur) :
    traiter_projectile e i =
      { e with projectiles := e.projectiles.set i { p with y := p.y + p.dy, actif := 0 } } := by
  unfold traiter_projectile
  simp only [hp]
  simp [ha, h]

theorem traiter_projectile_inactif (e : EtatJeu) (i : Nat)
    (h : ∀ p, e.projectiles[i]? = some p → p.actif = 0) :
    traiter_projectile e i = e := by
  unfold traiter_projectile
  split
  · rfl
  · next p hp => simp [h p hp]

/-! ## Lemmas: the projectile loop -/

/-! The collision tests write only slot `i` of the projectile pool -/

theorem collision_ennemis_projectiles_autres (e : EtatJeu) (i j : Nat) (h : j ≠ i) :
    (collision_ennemis e i).projectiles[j]? = e.projectiles[j]? := by
  rcases collision_ennemis_cas e i with hA | ⟨enn, en, p, _, _, _, _, _, _, hA⟩
  · rw [hA]
  · rw [hA, toucher_ennemi_eq]
    simp [List.getElem?_set, Ne.symm h]

theorem collision_boucliers_projectiles_autres (e : EtatJeu) (i j : Nat) (h : j ≠ i) :
    (collision_boucliers e i).projectiles[j]? = e.projectiles[j]? := by
  rcases collision_boucliers_cas e i with hA | ⟨b, bo, p, _, _, _, _, _, _, hA⟩
  · rw [hA]
  · rw [hA, toucher_bouclier_eq]
    simp [List.getElem?_set, Ne.symm h]

theorem collision_vaisseau_projectiles_autres (e : EtatJeu) (i j : Nat) (h : j ≠ i) :
    (collision_vaisseau e i).projectiles[j]? = e.projectiles[j]? := by
  unfold collision_vaisseau
  split
  · rfl
  · next p hp =>
    by_cases hc : p.x = e.joueur.x ∧ p.y = ligne_vaisseau e
    · by_cases hv : e.vies - 1 ≤ 0 <;> simp [hc, hv, List.getElem?_set, Ne.symm h]
    · simp [hc]

theorem traiter_projectile_autres (e : EtatJeu) (i j : Nat) (h : j ≠ i) :
    (traiter_projectile e i).projectiles[j]? = e.projectiles[j]? := by
  unfold traiter_projectile
  split
  · rfl
  · next p hp =>
    by_cases ha : p.actif = 0
    · simp [ha]
    · by_cases hb : p.y + p.dy < 0 ∨ p.y + p.dy ≥ e.hauteur
      · simp [ha, hb, List.getElem?_set, Ne.symm h]
      · by_cases ho : p.proprietaire = 0
        · simp only [ha, hb, ho, if_true, if_false]
          rw [collision_boucliers_projectiles_autres _ _ _ h,
            collision_ennemis_projectiles_autres _ _ _ h]
          simp [List.getElem?_set, Ne.symm h]
        · simp only [ha, hb, ho, if_true, if_false]
          rw [collision_boucliers_projectiles_autres _ _ _ h,
            collision_vaisseau_projectiles_autres _ _ _ h]
          simp [List.getElem?_set, Ne.symm h]

theorem foldl_traiter_inactifs (l : List Nat) (e : EtatJeu)
    (h : ∀ j ∈ l, ∀ q, e.projectiles[j]? = some q → q.actif = 0) :
    l.foldl traiter_projectile e = e := by
  induction l with
  | nil => rfl
  | cons j reste ih =>
    have hj : traiter_projectile e j = e :=
      traiter_projectile_inactif e j (h j (List.mem_cons_self _ _))
    simp only [List.foldl_cons, hj]
    exact ih (fun k hk => h k (List.mem_cons_of_mem _ hk))

theorem range_decoupe_ne (n k : Nat) (h : k < n) :
    ∃ l2, List.range n = List.range k ++ k :: l2 ∧ ∀ j ∈ l2, j ≠ k := by
  obtain ⟨l2, hl2⟩ := range_decoupe n k h
  refine ⟨l2, hl2, ?_⟩
  intro j hj hjk
  subst hjk
  have hnd : (List.range n).Nodup := List.nodup_range n
  rw [hl2] at hnd
  have := (List.nodup_append.mp hnd).2.1
  exact (List.nodup_cons.mp this).1 hj

/-- With a single active projectile the projectile loop is the body for that slot. -/
theorem phase_projectiles_seul (e : EtatJeu) (i : Nat) (hi : i < e.projectiles.length)
    (hseul : ∀ j, j ≠ i → ∀ q, e.projectiles[j]? = some q → q.actif = 0) :
    phase_projectiles e = traiter_projectile e i := by
  unfold phase_projectiles
  obtain ⟨l2, hl2, hne⟩ := range_decoupe_ne e.projectiles.length i hi
  rw [hl2, List.foldl_append, List.foldl_cons]
  rw [foldl_traiter_inactifs (List.range i) e
    (fun j hj q hq => hseul j (by have := List.mem_range.mp hj; omega) q hq)]
  apply foldl_traiter_inactifs
  intro j hj q hq
  rw [traiter_projectile_autres e i j (hne j hj)] at hq
  exact hseul j (hne j hj) q hq

theorem traiter_projectile_touche_ennemi (e : EtatJeu) (i enn : Nat) (p : Projectile) (en : Entite)
    (hp : e.projectiles[i]? = some p) (ha : p.actif ≠ 0) (ho : p.proprietaire = 0)
    (h0 : 0 ≤ p.y + p.dy) (h1 : p.y + p.dy < e.hauteur)
    (hn : (enn : Int) < e.nombre_ennemis) (hen : e.ennemis[enn]? = some en)
    (hv : en.vivant ≠ 0) (hx : en.x = p.x) (hy : en.y = p.y + p.dy)
    (hprem : ∀ k < enn, ∀ ek, e.ennemis[k]? = some ek → ek.vivant ≠ 0 →
      ¬ (ek.x = p.x ∧ ek.y = p.y + p.dy)) :
    (traiter_projectile e i).ennemis[enn]? =
        some (if en.sante - 1 ≤ 0 then { en with sante := en.sante - 1, vivant := 0 }
              else { en with sante := en.sante - 1 })
    ∧ (∀ k, k ≠ enn → (traiter_projectile e i).ennemis[k]? = e.ennemis[k]?)
    ∧ (traiter_projectile e i).projectiles[i]? = some { p with y := p.y + p.dy, actif := 0 }
    ∧ (traiter_projectile e i).score = (if en.sante - 1 ≤ 0 then e.score + 10 else e.score)
    ∧ (0 < en.sante - 1 →
        (∀ (b : Nat) (bo : Entite), (b : Int) < e.nombre_boucliers → e.boucliers[b]? = some bo → bo.vivant ≠ 0 →
          ¬ (bo.x = p.x ∧ bo.y = p.y + p.dy)) →
        (traiter_projectile e i).particules = e.particules ∧
        (traiter_projectile e i).nombre_particules = e.nombre_particules) := by
  have hi : i < e.projectiles.length := lt_length_of_getElem? hp
  have hk : enn < e.ennemis.length := lt_length_of_getElem? hen
  rw [traiter_projectile_joueur e i p hp ha ho h0 h1]
  have hA := collision_ennemis_premier
    { e with projectiles := e.projectiles.set i { p with y := p.y + p.dy } } i enn en
    { p with y := p.y + p.dy } hn hen (by simp [hi]) hv hx hy hprem
  rw [hA, toucher_ennemi_eq]
  rcases collision_boucliers_cas
    { e with
      projectiles := (e.projectiles.set i { p with y := p.y + p.dy }).set i
        { p with y := p.y + p.dy, actif := 0 }
      ennemis := e.ennemis.set enn
        (if en.sante - 1 ≤ 0 then { en with sante := en.sante - 1, vivant := 0 }
         else { en with sante := en.sante - 1 })
      score := if en.sante - 1 ≤ 0 then e.score + 10 else e.score
      particules :=
        if en.sante - 1 ≤ 0 then
          (creer_explosion_boucle en.x en.y en.type (e.particules, e.nombre_particules)
            directions).1
        else e.particules
      nombre_particules :=
        if en.sante - 1 ≤ 0 then
          (creer_explosion_boucle en.x en.y en.type (e.particules, e.nombre_particules)
            directions).2
        else e.nombre_particules } i with hB | ⟨b, bo, q, hb, hbo, hq, hbv, hbx, hby, hB⟩
  · rw [hB]
    refine ⟨by simp [hk], ?_, by simp [hi], rfl, ?_⟩
    · intro k hne
      simp [List.getElem?_set, Ne.symm hne]
    · intro hpos _
      have : ¬ en.sante - 1 ≤ 0 := by omega
      simp [this]
  · rw [hB, toucher_bouclier_eq]
    simp only [List.set_set] at hq
    have hq' : q = { p with y := p.y + p.dy, actif := 0 } := by
      simpa [hi] using hq.symm
    subst hq'
    refine ⟨by simp [hk], ?_, by simp [hi], rfl, ?_⟩
    · intro k hne
      simp [List.getElem?_set, Ne.symm hne]
    · intro hpos hsh
      exact absurd ⟨hbx, hby⟩ (hsh b bo hb hbo hbv)

/-- What the first collision test (enemies for a player projectile) leaves for the shield
scan: shields untouched, projectile `i` in the same cell. -/
theorem collision_ennemis_cadre (e : EtatJeu) (i : Nat) (p : Projectile)
    (hp : e.projectiles[i]? = some p) :
    (collision_ennemis e i).boucliers = e.boucliers ∧
    (collision_ennemis e i).nombre_boucliers = e.nombre_boucliers ∧
    ((collision_ennemis e i).projectiles[i]? = some p ∨
      (collision_ennemis e i).projectiles[i]? = some { p with actif := 0 }) := by
  have hi : i < e.projectiles.length := lt_length_of_getElem? hp
  rcases collision_ennemis_cas e i with hA | ⟨enn, en, q, _, _, hq, _, _, _, hA⟩
  · rw [hA]; exact ⟨rfl, rfl, Or.inl hp⟩
  · rw [hp] at hq
    cases hq
    rw [hA, toucher_ennemi_eq]
    exact ⟨rfl, rfl, Or.inr (by simp [hi])⟩

theorem collision_vaisseau_cadre (e : EtatJeu) (i : Nat) (p : Projectile)
    (hp : e.projectiles[i]? = some p) :
    (collision_vaisseau e i).boucliers = e.boucliers ∧
    (collision_vaisseau e i).nombre_boucliers = e.nombre_boucliers ∧
    (collision_vaisseau e i).particules = e.particules ∧
    (collision_vaisseau e i).nombre_particules = e.nombre_particules ∧
    ((collision_vaisseau e i).projectiles[i]? = some p ∨
      (collision_vaisseau e i).projectiles[i]? = some { p with actif := 0 }) := by
  have hi : i < e.projectiles.length := lt_length_of_getElem? hp
  unfold collision_vaisseau
  simp only [hp]
  by_cases hc : p.x = e.joueur.x ∧ p.y = ligne_vaisseau e
  · by_cases hv : e.vies - 1 ≤ 0 <;> simp [hc, hv, hi]
  · simp [hc, hp]

/-- Shield scan on a state `em` whose projectile `i` sits in the cell of shield `b`. -/
theorem collision_boucliers_touche (em : EtatJeu) (i b : Nat) (q : Projectile) (bo : Entite)
    (hq : em.projectiles[i]? = some q)
    (hb : (b : Int) < em.nombre_boucliers) (hbo : em.boucliers[b]? = some bo)
    (hv : bo.vivant ≠ 0) (hx : bo.x = q.x) (hy : bo.y = q.y)
    (hprem : ∀ k < b, ∀ bk, em.boucliers[k]? = some bk → bk.vivant ≠ 0 →
      ¬ (bk.x = q.x ∧ bk.y = q.y)) :
    (collision_boucliers em i).projectiles[i]? = some { q with actif := 0 } ∧
    (collision_boucliers em i).boucliers[b]? =
      some (if bo.sante - 1 ≤ 0 then { bo with sante := bo.sante - 1, vivant := 0 }
            else { bo with sante := bo.sante - 1 }) ∧
    (∀ k, k ≠ b → (collision_boucliers em i).boucliers[k]? = em.boucliers[k]?) ∧
    (collision_boucliers em i).particules =
      (if bo.sante - 1 ≤ 0 then (creer_explosion em bo.x bo.y bo.type).particules
       else em.particules) := by
  have hi : i < em.projectiles.length := lt_length_of_getElem? hq
  have hk : b < em.boucliers.length := lt_length_of_getElem? hbo
  rw [collision_boucliers_premier em i b bo q hb hbo hq hv hx hy hprem, toucher_bouclier_eq]
  refine ⟨by simp [hi], by simp [hk], ?_, ?_⟩
  · intro k hne
    simp [List.getElem?_set, Ne.symm hne]
  · simp [creer_explosion]

theorem traiter_projectile_touche_bouclier (e : EtatJeu) (i b : Nat) (p : Projectile) (bo : Entite)
    (hp : e.projectiles[i]? = some p) (ha : p.actif ≠ 0)
    (h0 : 0 ≤ p.y + p.dy) (h1 : p.y + p.dy < e.hauteur)
    (hb : (b : Int) < e.nombre_boucliers) (hbo : e.boucliers[b]? = some bo)
    (hv : bo.vivant ≠ 0) (hx : bo.x = p.x) (hy : bo.y = p.y + p.dy)
    (hprem : ∀ k < b, ∀ bk, e.boucliers[k]? = some bk → bk.vivant ≠ 0 →
      ¬ (bk.x = p.x ∧ bk.y = p.y + p.dy)) :
    (traiter_projectile e i).projectiles[i]? = some { p with y := p.y + p.dy, actif := 0 } ∧
    (traiter_projectile e i).boucliers[b]? =
      some (if bo.sante - 1 ≤ 0 then { bo with sante := bo.sante - 1, vivant := 0 }
            else { bo with sante := bo.sante - 1 }) ∧
    (∀ k, k ≠ b → (traiter_projectile e i).boucliers[k]? = e.boucliers[k]?) ∧
    (p.proprietaire = 0 →
      (traiter_projectile e i).particules =
        (if bo.sante - 1 ≤ 0 then
          (creer_explosion
            (collision_ennemis
              { e with projectiles := e.projectiles.set i { p with y := p.y + p.dy } } i)
            bo.x bo.y bo.type).particules
         else
          (collision_ennemis
            { e with projectiles := e.projectiles.set i { p with y := p.y + p.dy } }
            i).particules)) ∧
    (p.proprietaire ≠ 0 →
      (traiter_projectile e i).particules =
        (if bo.sante - 1 ≤ 0 then (creer_explosion e bo.x bo.y bo.type).particules
         else e.particules)) := by
  have hi : i < e.projectiles.length := lt_length_of_getElem? hp
  have hp1 : ({ e with projectiles := e.projectiles.set i { p with y := p.y + p.dy } } :
      EtatJeu).projectiles[i]? = some { p with y := p.y + p.dy } := by simp [hi]
  by_cases ho : p.proprietaire = 0
  · rw [traiter_projectile_joueur e i p hp ha ho h0 h1]
    obtain ⟨hB, hN, hP⟩ := collision_ennemis_cadre _ i _ hp1
    rcases hP with hP | hP
    · have := collision_boucliers_touche _ i b _ bo hP (by rw [hN]; exact hb)
        (by rw [hB]; exact hbo) hv hx hy (by rw [hB]; exact hprem)
      rw [hB] at this
      exact ⟨this.1, this.2.1, this.2.2.1, fun _ => this.2.2.2, fun h => absurd ho h⟩
    · have := collision_boucliers_touche _ i b _ bo hP (by rw [hN]; exact hb)
        (by rw [hB]; exact hbo) hv hx hy (by rw [hB]; exact hprem)
      rw [hB] at this
      exact ⟨this.1, this.2.1, this.2.2.1, fun _ => this.2.2.2, fun h => absurd ho h⟩
  · rw [traiter_projectile_ennemi e i p hp ha ho h0 h1]
    obtain ⟨hB, hN, hPa, hNp, hP⟩ := collision_vaisseau_cadre _ i _ hp1
    have hex : ∀ x y t, (creer_explosion (collision_vaisseau
        { e with projectiles := e.projectiles.set i { p with y := p.y + p.dy } } i)
        x y t).particules = (creer_explosion e x y t).particules := by
      intro x y t
      simp only [creer_explosion]
      rw [hPa, hNp]
    rcases hP with hP | hP
    · have := collision_boucliers_touche _ i b _ bo hP (by rw [hN]; exact hb)
        (by rw [hB]; exact hbo) hv hx hy (by rw [hB]; exact hprem)
      rw [hB, hex, hPa] at this
      exact ⟨this.1, this.2.1, this.2.2.1, fun h => absurd h ho, fun _ => this.2.2.2⟩
    · have := collision_boucliers_touche _ i b _ bo hP (by rw [hN]; exact hb)
        (by rw [hB]; exact hbo) hv hx hy (by rw [hB]; exact hprem)
      rw [hB, hex, hPa] at this
      exact ⟨this.1, this.2.1, this.2.2.1, fun h => absurd h ho, fun _ => this.2.2.2⟩

/-- Body of the projectile loop for a player projectile that finds enemy `enn` first and no
alive shield in the same cell: the explicit resulting state. -/
theorem traiter_projectile_ennemi_seul (e : EtatJeu) (i enn : Nat) (p : Projectile) (en : Entite)
    (hp : e.projectiles[i]? = some p) (ha : p.actif ≠ 0) (ho : p.proprietaire = 0)
    (h0 : 0 ≤ p.y + p.dy) (h1 : p.y + p.dy < e.hauteur)
    (hn : (enn : Int) < e.nombre_ennemis) (hen : e.ennemis[enn]? = some en)
    (hv : en.vivant ≠ 0) (hx : en.x = p.x) (hy : en.y = p.y + p.dy)
    (hprem : ∀ k < enn, ∀ ek, e.ennemis[k]? = some ek → ek.vivant ≠ 0 →
      ¬ (ek.x = p.x ∧ ek.y = p.y + p.dy))
    (hsh : ∀ (b : Nat) (bo : Entite), (b : Int) < e.nombre_boucliers →
      e.boucliers[b]? = some bo → bo.vivant ≠ 0 → ¬ (bo.x = p.x ∧ bo.y = p.y + p.dy)) :
    traiter_projectile e i =
      toucher_ennemi { e with projectiles := e.projectiles.set i { p with y := p.y + p.dy } }
        i enn { p with y := p.y + p.dy } en := by
  have hi : i < e.projectiles.length := lt_length_of_getElem? hp
  rw [traiter_projectile_joueur e i p hp ha ho h0 h1]
  have hA := collision_ennemis_premier
    { e with projectiles := e.projectiles.set i { p with y := p.y + p.dy } } i enn en
    { p with y := p.y + p.dy } hn hen (by simp [hi]) hv hx hy hprem
  rw [hA]
  unfold collision_boucliers
  apply collision_boucliers_boucle_aucun
  intro b hb bo q hbo hq hbv
  rw [toucher_ennemi_eq] at hbo hq hb
  simp only [List.set_set] at hq
  have hq' : q = { p with y := p.y + p.dy, actif := 0 } := by
    simpa [hi] using hq.symm
  subst hq'
  have hb' := List.mem_range.mp hb
  exact hsh b bo (by simp only [] at hb'; omega) hbo hbv

theorem map_vieillir_libres (ps : List Particule) (h : ∀ q ∈ ps, q.ttl ≤ 0) :
    ps.map vieillir_particule = ps := by
  induction ps with
  | nil => rfl
  | cons a reste ih =>
    have ha : a.ttl ≤ 0 := h a (List.mem_cons_self _ _)
    simp only [List.map_cons, ih (fun q hq => h q (List.mem_cons_of_mem _ hq))]
    simp [vieillir_particule, ha]

theorem filter_vives_explosion (x y t : Int) (ds : List (Int × Int)) (suf : List Particule)
    (h : ∀ q ∈ suf, q.ttl ≤ 0) :
    (ds.map (particule_explosion x y t) ++ suf).filter (fun q => decide (q.ttl > 0)) =
      ds.map (particule_explosion x y t) := by
  rw [List.filter_append]
  have h1 : (ds.map (particule_explosion x y t)).filter (fun q => decide (q.ttl > 0)) =
      ds.map (particule_explosion x y t) := by
    apply List.filter_eq_self.mpr
    intro q hq
    obtain ⟨d, _, hd⟩ := List.mem_map.mp hq
    subst hd
    simp [particule_explosion]
  have h2 : suf.filter (fun q => decide (q.ttl > 0)) = [] := by
    apply List.filter_eq_nil_iff.mpr
    intro q hq
    have := h q hq
    simp only [decide_eq_true_eq]
    omega
  rw [h1, h2, List.append_nil]

/-! ## Lemmas: end of the tick, particle pool -/

theorem ajouter_projectile_boucle_forme (e : EtatJeu) (x y dy o : Int) (l : List Nat) :
    ∃ ps n, ajouter_projectile_boucle e x y dy o l =
      { e with projectiles := ps, nombre_projectiles := n } := by
  induction l with
  | nil => exact ⟨e.projectiles, e.nombre_projectiles, rfl⟩
  | cons i reste ih =>
    unfold ajouter_projectile_boucle
    split
    · exact ih
    · next p hp =>
      by_cases ha : p.actif = 0
      · simp only [ha, if_true]
        exact ⟨_, _, rfl⟩
      · simp only [ha, if_false]
        exact ih

theorem phase_tir_ennemi_forme (alea : Nat → Nat) (e : EtatJeu) (k : Nat) :
    ∃ ps n, phase_tir_ennemi alea e k =
      { e with projectiles := ps, nombre_projectiles := n } := by
  unfold phase_tir_ennemi
  by_cases h1 : alea k % 100 < 4
  · by_cases h2 : (idxs e).length > 0
    · simp only [h1, h2, if_true]
      split
      · exact ⟨e.projectiles, e.nombre_projectiles, rfl⟩
      · split
        · exact ⟨e.projectiles, e.nombre_projectiles, rfl⟩
        · exact ajouter_projectile_boucle_forme e _ _ _ _ _
    · simp only [h1, h2, if_true, if_false]
      exact ⟨e.projectiles, e.nombre_projectiles, rfl⟩
  · simp only [h1, if_false]
    exact ⟨e.projectiles, e.nombre_projectiles, rfl⟩

theorem phase_defaite_forme (e : EtatJeu) :
    ∃ g v, phase_defaite e = { e with game_over := g, vies := v } := by
  unfold phase_defaite
  split
  · exact ⟨1, 0, rfl⟩
  · exact ⟨e.game_over, e.vies, rfl⟩

/-- After the enemy step only the projectile pool, its count, `game_over` and `vies` are still
written by `etatjeu_mettre_a_jour`. -/
theorem fin_de_maj (e : EtatJeu) (dt : ℚ) (alea : Nat → Nat) :
    ∃ ps n g v, etatjeu_mettre_a_jour e dt alea =
      { phase_deplacement (phase_reapparition alea (phase_collisions e dt)).1 with
        projectiles := ps, nombre_projectiles := n, game_over := g, vies := v } := by
  unfold etatjeu_mettre_a_jour
  obtain ⟨ps, n, h1⟩ := phase_tir_ennemi_forme alea
    (phase_deplacement (phase_reapparition alea (phase_collisions e dt)).1)
    (phase_reapparition alea (phase_collisions e dt)).2
  obtain ⟨g, v, h2⟩ := phase_defaite_forme (phase_tir_ennemi alea
    (phase_deplacement (phase_reapparition alea (phase_collisions e dt)).1)
    (phase_reapparition alea (phase_collisions e dt)).2)
  refine ⟨ps, n, g, v, ?_⟩
  simp only []
  rw [h2, h1]

theorem maj_ennemis (e : EtatJeu) (dt : ℚ) (alea : Nat → Nat) :
    (etatjeu_mettre_a_jour e dt alea).ennemis =
      (phase_deplacement (phase_reapparition alea (phase_collisions e dt)).1).ennemis := by
  obtain ⟨ps, n, g, v, h⟩ := fin_de_maj e dt alea
  rw [h]

theorem maj_nombre_ennemis (e : EtatJeu) (dt : ℚ) (alea : Nat → Nat) :
    (etatjeu_mettre_a_jour e dt alea).nombre_ennemis =
      (phase_deplacement (phase_reapparition alea (phase_collisions e dt)).1).nombre_ennemis := by
  obtain ⟨ps, n, g, v, h⟩ := fin_de_maj e dt alea
  rw [h]

theorem maj_direction_ennemis (e : EtatJeu) (dt : ℚ) (alea : Nat → Nat) :
    (etatjeu_mettre_a_jour e dt alea).direction_ennemis =
      (phase_deplacement
        (phase_reapparition alea (phase_collisions e dt)).1).direction_ennemis := by
  obtain ⟨ps, n, g, v, h⟩ := fin_de_maj e dt alea
  rw [h]

theorem maj_score (e : EtatJeu) (dt : ℚ) (alea : Nat → Nat) :
    (etatjeu_mettre_a_jour e dt alea).score =
      (phase_deplacement (phase_reapparition alea (phase_collisions e dt)).1).score := by
  obtain ⟨ps, n, g, v, h⟩ := fin_de_maj e dt alea
  rw [h]

theorem maj_particules (e : EtatJeu) (dt : ℚ) (alea : Nat → Nat) :
    (etatjeu_mettre_a_jour e dt alea).particules =
      (phase_deplacement (phase_reapparition alea (phase_collisions e dt)).1).particules := by
  obtain ⟨ps, n, g, v, h⟩ := fin_de_maj e dt alea
  rw [h]

theorem maj_niveau (e : EtatJeu) (dt : ℚ) (alea : Nat → Nat) :
    (etatjeu_mettre_a_jour e dt alea).niveau =
      (phase_deplacement (phase_reapparition alea (phase_collisions e dt)).1).niveau := by
  obtain ⟨ps, n, g, v, h⟩ := fin_de_maj e dt alea
  rw [h]

theorem maj_intervalle (e : EtatJeu) (dt : ℚ) (alea : Nat → Nat) :
    (etatjeu_mettre_a_jour e dt alea).intervalle_deplacement_ennemis =
      (phase_deplacement
        (phase_reapparition alea (phase_collisions e dt)).1).intervalle_deplacement_ennemis := by
  obtain ⟨ps, n, g, v, h⟩ := fin_de_maj e dt alea
  rw [h]

/-! The particle pool under `creer_explosion` -/

theorem premiere_particule_libre_append (pre suf : List Particule) (s : Particule)
    (hpre : ∀ q ∈ pre, 0 < q.ttl) (hs : s.ttl ≤ 0) :
    premiere_particule_libre (pre ++ s :: suf) = some pre.length := by
  induction pre with
  | nil => simp [premiere_particule_libre, hs]
  | cons a reste ih =>
    have ha : ¬ a.ttl ≤ 0 := by
      have := hpre a (List.mem_cons_self _ _)
      omega
    have ih1 := ih (fun q hq => hpre q (List.mem_cons_of_mem _ hq))
    simp [premiere_particule_libre, ha, ih1]

theorem creer_explosion_boucle_libre (x y t : Int) (ds : List (Int × Int)) :
    ∀ (pre suf : List Particule) (n : Int),
      (∀ q ∈ pre, 0 < q.ttl) → (∀ q ∈ suf, q.ttl ≤ 0) → ds.length ≤ suf.length →
      n < 256 → pre.length + ds.length < 256 →
      (creer_explosion_boucle x y t (pre ++ suf, n) ds).1 =
        pre ++ ds.map (particule_explosion x y t) ++ suf.drop ds.length := by
  induction ds with
  | nil => intro pre suf n _ _ _ _ _; simp [creer_explosion_boucle]
  | cons d reste ih =>
    intro pre suf n hpre hsuf hlen hn hcap
    cases suf with
    | nil => simp at hlen
    | cons s suf' =>
      have hs : s.ttl ≤ 0 := hsuf s (List.mem_cons_self _ _)
      have hfree := premiere_particule_libre_append pre suf' s hpre hs
      simp only [List.length_cons] at hlen hcap
      have hn' : n < (NB_MAX_PARTICULES : Int) := by simp [NB_MAX_PARTICULES]; exact hn
      unfold creer_explosion_boucle
      simp only [hn', if_true, hfree]
      have hset : (pre ++ s :: suf').set pre.length (particule_explosion x y t d) =
          (pre ++ [particule_explosion x y t d]) ++ suf' := by
        simp [List.set_append]
      rw [hset]
      have := ih (pre ++ [particule_explosion x y t d]) suf'
        (if (pre.length : Int) ≥ n then (pre.length : Int) + 1 else n)
        (by
          intro q hq
          rcases List.mem_append.mp hq with h | h
          · exact hpre q h
          · simp at h; subst h; simp [particule_explosion])
        (fun q hq => hsuf q (List.mem_cons_of_mem _ hq))
        (by omega)
        (by split <;> omega)
        (by simp; omega)
      rw [this]
      simp

/-! ## Lemmas: what the collision phase preserves -/

theorem memes_cases_refl (l : List Entite) : memes_cases l l :=
  ⟨rfl, fun _ en h => ⟨en, h, rfl, rfl, rfl, rfl, fun hv => ⟨hv, le_refl _⟩⟩⟩

theorem memes_cases_trans {l1 l2 l3 : List Entite} (h12 : memes_cases l1 l2)
    (h23 : memes_cases l2 l3) : memes_cases l1 l3 := by
  refine ⟨h23.1.trans h12.1, ?_⟩
  intro k en hk
  obtain ⟨en2, hk2, hx2, hy2, hd2, ht2, hv2⟩ := h12.2 k en hk
  obtain ⟨en3, hk3, hx3, hy3, hd3, ht3, hv3⟩ := h23.2 k en2 hk2
  refine ⟨en3, hk3, hx3.trans hx2, hy3.trans hy2, hd3.trans hd2, ht3.trans ht2, ?_⟩
  intro hv
  obtain ⟨hva, hsa⟩ := hv3 hv
  obtain ⟨hvb, hsb⟩ := hv2 hva
  exact ⟨hvb, le_trans hsa hsb⟩

theorem memes_cases_set (l : List Entite) (k : Nat) (en v : Entite) (hk : l[k]? = some en)
    (hx : v.x = en.x) (hy : v.y = en.y) (hd : v.dmg = en.dmg) (ht : v.type = en.type)
    (hv : v.vivant ≠ 0 → en.vivant ≠ 0 ∧ v.sante ≤ en.sante) :
    memes_cases l (l.set k v) := by
  have hlt : k < l.length := lt_length_of_getElem? hk
  refine ⟨by simp, ?_⟩
  intro j ej hj
  by_cases hjk : k = j
  · subst hjk
    rw [hk] at hj
    cases hj
    exact ⟨v, by simp [hlt], hx, hy, hd, ht, hv⟩
  · exact ⟨ej, by simp [List.getElem?_set, hjk, hj], rfl, rfl, rfl, rfl,
      fun h => ⟨h, le_refl _⟩⟩

theorem toucher_ennemi_memes_cases (e : EtatJeu) (i enn : Nat) (p : Projectile) (en : Entite)
    (hen : e.ennemis[enn]? = some en) (hv : en.vivant ≠ 0) :
    memes_cases e.ennemis (toucher_ennemi e i enn p en).ennemis := by
  rw [toucher_ennemi_eq]
  apply memes_cases_set _ _ en _ hen
  · split <;> rfl
  · split <;> rfl
  · split <;> rfl
  · split <;> rfl
  · intro _
    refine ⟨hv, ?_⟩
    split <;> simp

theorem collision_vaisseau_forme (e : EtatJeu) (i : Nat) :
    ∃ ps v g, collision_vaisseau e i = { e with projectiles := ps, vies := v, game_over := g } ∧
      ps.length = e.projectiles.length := by
  unfold collision_vaisseau
  split
  · exact ⟨_, _, _, rfl, rfl⟩
  · next p hp =>
    by_cases hc : p.x = e.joueur.x ∧ p.y = ligne_vaisseau e
    · by_cases hvv : e.vies - 1 ≤ 0
      · rw [if_pos hc]
        simp only []
        rw [if_pos hvv]
        exact ⟨_, _, _, rfl, by simp⟩
      · rw [if_pos hc]
        simp only []
        rw [if_neg hvv]
        exact ⟨_, _, _, rfl, by simp⟩
    · rw [if_neg hc]
      exact ⟨_, _, _, rfl, rfl⟩

/-- Shape of the state left by the body of the projectile loop. -/
theorem traiter_projectile_forme (e : EtatJeu) (i : Nat) :
    ∃ ps ens sc bs parts np v g,
      traiter_projectile e i =
        { e with projectiles := ps, ennemis := ens, score := sc, boucliers := bs,
                 particules := parts, nombre_particules := np, vies := v, game_over := g } ∧
      ps.length = e.projectiles.length ∧ memes_cases e.ennemis ens := by
  have hbase : ∀ ps : List Projectile, ps.length = e.projectiles.length →
      ∀ em : EtatJeu, (∃ ens sc parts np v g,
        em = { e with projectiles := ps, ennemis := ens, score := sc,
                      particules := parts, nombre_particules := np, vies := v, game_over := g } ∧
        memes_cases e.ennemis ens) →
      ∃ ps2 ens sc bs parts np v g,
        collision_boucliers em i =
          { e with projectiles := ps2, ennemis := ens, score := sc, boucliers := bs,
                   particules := parts, nombre_particules := np, vies := v, game_over := g } ∧
        ps2.length = e.projectiles.length ∧ memes_cases e.ennemis ens := by
    intro ps hps em ⟨ens, sc, parts, np, v, g, hem, hmc⟩
    rcases collision_boucliers_cas em i with hA | ⟨b, bo, q, _, _, _, _, _, _, hA⟩
    · rw [hA, hem]
      exact ⟨ps, ens, sc, e.boucliers, parts, np, v, g, rfl, hps, hmc⟩
    · rw [hA, toucher_bouclier_eq, hem]
      exact ⟨_, ens, sc, _, _, _, v, g, rfl, by simp [hps], hmc⟩
  cases hp : e.projectiles[i]? with
  | none =>
    rw [traiter_projectile_inactif e i (fun p h => by rw [hp] at h; cases h)]
    exact ⟨_, _, _, _, _, _, _, _, rfl, rfl, memes_cases_refl _⟩
  | some p =>
    by_cases ha : p.actif = 0
    · rw [traiter_projectile_inactif e i (fun q h => by rw [hp] at h; cases h; exact ha)]
      exact ⟨_, _, _, _, _, _, _, _, rfl, rfl, memes_cases_refl _⟩
    · by_cases hb : p.y + p.dy < 0 ∨ p.y + p.dy ≥ e.hauteur
      · rw [traiter_projectile_hors_limites e i p hp ha hb]
        exact ⟨_, _, _, _, _, _, _, _, rfl, by simp, memes_cases_refl _⟩
      · have h0 : 0 ≤ p.y + p.dy := by omega
        have h1 : p.y + p.dy < e.hauteur := by omega
        by_cases ho : p.proprietaire = 0
        · rw [traiter_projectile_joueur e i p hp ha ho h0 h1]
          rcases collision_ennemis_cas
            { e with projectiles := e.projectiles.set i { p with y := p.y + p.dy } } i with
            hA | ⟨enn, en, q, _, hen, _, hv, _, _, hA⟩
          · rw [hA]
            exact hbase _ (by simp) _ ⟨_, _, _, _, _, _, rfl, memes_cases_refl _⟩
          · have hmc := toucher_ennemi_memes_cases _ i enn q en hen hv
            rw [hA]
            rw [toucher_ennemi_eq] at hmc ⊢
            exact hbase _ (by simp) _ ⟨_, _, _, _, _, _, rfl, hmc⟩
        · rw [traiter_projectile_ennemi e i p hp ha ho h0 h1]
          obtain ⟨ps, v, g, hV, hps⟩ := collision_vaisseau_forme
            { e with projectiles := e.projectiles.set i { p with y := p.y + p.dy } } i
          rw [hV]
          exact hbase ps (by simpa using hps) _ ⟨_, _, _, _, _, _, rfl, memes_cases_refl _⟩

theorem foldl_traiter_forme (l : List Nat) :
    ∀ e : EtatJeu, ∃ ps ens sc bs parts np v g,
      l.foldl traiter_projectile e =
        { e with projectiles := ps, ennemis := ens, score := sc, boucliers := bs,
                 particules := parts, nombre_particules := np, vies := v, game_over := g } ∧
      ps.length = e.projectiles.length ∧ memes_cases e.ennemis ens := by
  induction l with
  | nil =>
    intro e
    exact ⟨_, _, _, _, _, _, _, _, rfl, rfl, memes_cases_refl _⟩
  | cons j reste ih =>
    intro e
    obtain ⟨ps, ens, sc, bs, parts, np, v, g, h1, hps, hmc⟩ := traiter_projectile_forme e j
    obtain ⟨ps2, ens2, sc2, bs2, parts2, np2, v2, g2, h2, hps2, hmc2⟩ :=
      ih (traiter_projectile e j)
    rw [List.foldl_cons, h2]
    rw [h1] at hps2 hmc2 ⊢
    exact ⟨ps2, ens2, sc2, bs2, parts2, np2, v2, g2, rfl, hps2.trans hps,
      memes_cases_trans hmc hmc2⟩

/-- Shape of the state when the collision phase is over. -/
theorem phase_collisions_forme (e : EtatJeu) (dt : ℚ) :
    ∃ ps ens sc bs parts np v g,
      phase_collisions e dt =
        { e with temps_acc := e.temps_acc + dt
                 acc_deplacement_ennemis := e.acc_deplacement_ennemis + dt
                 projectiles := ps, ennemis := ens, score := sc, boucliers := bs
                 particules := parts, nombre_particules := np, vies := v, game_over := g } ∧
      ps.length = e.projectiles.length ∧ memes_cases e.ennemis ens := by
  unfold phase_collisions phase_projectiles
  obtain ⟨ps, ens, sc, bs, parts, np, v, g, h, hps, hmc⟩ :=
    foldl_traiter_forme
      (List.range e.projectiles.length)
      { e with temps_acc := e.temps_acc + dt, particules := e.particules.map vieillir_particule }
  simp only [] at h hps hmc ⊢
  rw [h]
  exact ⟨ps, ens, sc, bs, parts, np, v, g, rfl, hps, hmc⟩

theorem nombre_ennemis_vivants_eq_zero (e : EtatJeu) :
    nombre_ennemis_vivants e = 0 ↔
      ∀ (k : Nat) (ek : Entite), (k : Int) < e.nombre_ennemis → e.ennemis[k]? = some ek →
        ek.vivant = 0 := by
  unfold nombre_ennemis_vivants
  rw [List.length_eq_zero, List.filter_eq_nil_iff]
  constructor
  · intro h k ek hk hek
    have := h k (List.mem_range.mpr (by omega))
    simpa [hek] using this
  · intro h k hk
    have hk' : (k : Int) < e.nombre_ennemis := by have := List.mem_range.mp hk; omega
    cases hek : e.ennemis[k]? with
    | none => simp
    | some ek => simpa using h k ek hk' hek

theorem touche_bord_iff (e : EtatJeu) :
    touche_bord e = true ↔
      ∃ (k : Nat) (ek : Entite), (k : Int) < e.nombre_ennemis ∧ e.ennemis[k]? = some ek ∧
        ek.vivant ≠ 0 ∧
        (ek.x + e.direction_ennemis < 0 ∨ ek.x + e.direction_ennemis ≥ e.largeur) := by
  unfold touche_bord
  rw [List.any_eq_true]
  constructor
  · rintro ⟨k, hk, h⟩
    have hk' : (k : Int) < e.nombre_ennemis := by have := List.mem_range.mp hk; omega
    cases hek : e.ennemis[k]? with
    | none => simp [hek] at h
    | some ek =>
      simp only [hek, decide_eq_true_eq] at h
      exact ⟨k, ek, hk', hek, h.1, h.2⟩
  · rintro ⟨k, ek, hk, hek, hv, hb⟩
    refine ⟨k, List.mem_range.mpr (by omega), ?_⟩
    simp only [hek, decide_eq_true_eq]
    exact ⟨hv, hb⟩

theorem phase_deplacement_attente (e : EtatJeu)
    (h : e.acc_deplacement_ennemis < e.intervalle_deplacement_ennemis) :
    phase_deplacement e = e := by
  unfold phase_deplacement
  rw [if_neg (not_le.mpr h)]

theorem phase_deplacement_rebond (e : EtatJeu)
    (ht : e.acc_deplacement_ennemis ≥ e.intervalle_deplacement_ennemis)
    (hb : touche_bord e = true) :
    phase_deplacement e =
      { e with
        acc_deplacement_ennemis := 0
        direction_ennemis := -e.direction_ennemis
        ennemis := e.ennemis.mapIdx (fun i en =>
          if (i : Int) < e.nombre_ennemis ∧ en.vivant ≠ 0 then { en with y := en.y + 1 }
          else en) } := by
  unfold phase_deplacement
  rw [if_pos ht]
  have : touche_bord { e with acc_deplacement_ennemis := 0 } = true := hb
  simp only [this, if_true]

theorem phase_deplacement_pas (e : EtatJeu)
    (ht : e.acc_deplacement_ennemis ≥ e.intervalle_deplacement_ennemis)
    (hb : touche_bord e = false) :
    phase_deplacement e =
      { e with
        acc_deplacement_ennemis := 0
        ennemis := e.ennemis.mapIdx (fun i en =>
          if (i : Int) < e.nombre_ennemis ∧ en.vivant ≠ 0 then
            { en with x := en.x + e.direction_ennemis }
          else en) } := by
  unfold phase_deplacement
  rw [if_pos ht]
  have : touche_bord { e with acc_deplacement_ennemis := 0 } = false := hb
  simp only [this]
  rfl

theorem phase_reapparition_vivants (alea : Nat → Nat) (e : EtatJeu)
    (h : nombre_ennemis_vivants e ≠ 0) : phase_reapparition alea e = (e, 0) := by
  unfold phase_reapparition
  rw [if_neg h]

/-- Fields the collision phase does not write, and what it does to the enemy pool. -/
theorem phase_collisions_cadre (e : EtatJeu) (dt : ℚ) :
    (phase_collisions e dt).acc_deplacement_ennemis = e.acc_deplacement_ennemis + dt ∧
    (phase_collisions e dt).intervalle_deplacement_ennemis = e.intervalle_deplacement_ennemis ∧
    (phase_collisions e dt).direction_ennemis = e.direction_ennemis ∧
    (phase_collisions e dt).nombre_ennemis = e.nombre_ennemis ∧
    (phase_collisions e dt).largeur = e.largeur ∧
    (phase_collisions e dt).hauteur = e.hauteur ∧
    (phase_collisions e dt).niveau = e.niveau ∧
    memes_cases e.ennemis (phase_collisions e dt).ennemis := by
  obtain ⟨ps, ens, sc, bs, parts, np, v, g, h, _, hmc⟩ := phase_collisions_forme e dt
  rw [h]
  exact ⟨rfl, rfl, rfl, rfl, rfl, rfl, rfl, hmc⟩

theorem vivants_ne_zero (e : EtatJeu) (k : Nat) (ek : Entite) (hk : (k : Int) < e.nombre_ennemis)
    (hek : e.ennemis[k]? = some ek) (hv : ek.vivant ≠ 0) : nombre_ennemis_vivants e ≠ 0 := by
  intro h
  exact hv ((nombre_ennemis_vivants_eq_zero e).mp h k ek hk hek)


/-! ## Lemmas: the grid loops and the respawn -/

/-- Inner grid loop without overflow of the pool: `cs.length` slots are written from slot `n`
on. -/
theorem grille_colonnes_spec (corps : Entite → Int → Int → Nat → Entite × Nat) (d : Nat)
    (hd : ∀ en x y t, (corps en x y t).2 = t + d) (esp : Int) (r : Nat) :
    ∀ (cs : List Nat) (g : Grille) (n : Nat), g.nombre_ennemis = (n : Int) →
      n + cs.length ≤ g.ennemis.length →
      (grille_colonnes corps esp r g cs).nombre_ennemis = ((n + cs.length : Nat) : Int) ∧
      (grille_colonnes corps esp r g cs).tirages = g.tirages + d * cs.length ∧
      (grille_colonnes corps esp r g cs).ennemis.length = g.ennemis.length ∧
      ∀ j : Nat, (grille_colonnes corps esp r g cs).ennemis[j]? =
        if n ≤ j ∧ j < n + cs.length then
          (g.ennemis[j]?).map (fun en =>
            (corps en (2 + ((cs.getD (j - n) 0 : Nat) : Int) * esp) (2 + (r : Int) * 2)
              (g.tirages + d * (j - n))).1)
        else g.ennemis[j]? := by
  intro cs
  induction cs with
  | nil =>
    intro g n hn _
    refine ⟨by simpa [grille_colonnes] using hn, by simp [grille_colonnes],
      by simp [grille_colonnes], ?_⟩
    intro j
    have : ¬ (n ≤ j ∧ j < n + ([] : List Nat).length) := by simp
    rw [if_neg this]
    simp [grille_colonnes]
  | cons c reste ih =>
    intro g n hn hcap
    simp only [List.length_cons] at hcap
    have hlt : n < g.ennemis.length := by omega
    have hge : ¬ (g.nombre_ennemis ≥ (g.ennemis.length : Int)) := by rw [hn]; omega
    have htn : g.nombre_ennemis.toNat = n := by rw [hn]; simp
    unfold grille_colonnes
    rw [if_neg hge, htn, List.getElem?_eq_getElem hlt]
    simp only []
    obtain ⟨h1, h2, h3, h4⟩ := ih
      { ennemis := g.ennemis.set n
          (corps g.ennemis[n] (2 + (c : Int) * esp) (2 + (r : Int) * 2) g.tirages).1
        nombre_ennemis := g.nombre_ennemis + 1
        tirages := (corps g.ennemis[n] (2 + (c : Int) * esp) (2 + (r : Int) * 2) g.tirages).2 }
      (n + 1) (by simp [hn]) (by simp; omega)
    refine ⟨?_, ?_, ?_, ?_⟩
    · rw [h1]; simp only [List.length_cons]; congr 1; omega
    · rw [h2, hd]; simp only [List.length_cons]; ring
    · rw [h3]; simp
    · intro j
      rw [h4 j]
      simp only [List.length_cons, hd]
      by_cases hj : n + 1 ≤ j ∧ j < n + 1 + reste.length
      · have hj2 : n ≤ j ∧ j < n + (reste.length + 1) := by omega
        rw [if_pos hj, if_pos hj2]
        have hne : n ≠ j := by omega
        rw [List.getElem?_set_ne hne]
        have e1 : j - n = (j - (n + 1)) + 1 := by omega
        have e2 : g.tirages + d + d * (j - (n + 1)) = g.tirages + d * (j - n) := by
          rw [e1]; ring
        rw [e2, e1, List.getD_cons_succ]
      · rw [if_neg hj]
        by_cases hjn : j = n
        · subst hjn
          have hj2 : j ≤ j ∧ j < j + (reste.length + 1) := by omega
          rw [if_pos hj2]
          simp [hlt]
        · have hj2 : ¬ (n ≤ j ∧ j < n + (reste.length + 1)) := by omega
          rw [if_neg hj2, List.getElem?_set_ne (Ne.symm hjn)]

theorem colonnes_getD (c : Nat) (hc : c < 8) : [0, 1, 2, 3, 4, 5, 6, 7].getD c 0 = c := by
  interval_cases c <;> rfl

/-- The two nested grid loops on a pool of capacity at least 24: slots `0..23` are written
once each, in order, slot `r*8+c` with column `c` and row `r`. -/
theorem grille_spec (corps : Entite → Int → Int → Nat → Entite × Nat) (d : Nat)
    (hd : ∀ en x y t, (corps en x y t).2 = t + d) (esp : Int) (l : List Entite)
    (hcap : 24 ≤ l.length) :
    (grille corps esp { ennemis := l, nombre_ennemis := 0, tirages := 0 }).nombre_ennemis = 24 ∧
    (grille corps esp { ennemis := l, nombre_ennemis := 0, tirages := 0 }).tirages = d * 24 ∧
    (grille corps esp { ennemis := l, nombre_ennemis := 0, tirages := 0 }).ennemis.length
      = l.length ∧
    (∀ r c : Nat, r < 3 → c < 8 →
      (grille corps esp { ennemis := l, nombre_ennemis := 0, tirages := 0 }).ennemis[r * 8 + c]? =
        (l[r * 8 + c]?).map (fun en =>
          (corps en (2 + (c : Int) * esp) (2 + (r : Int) * 2) (d * (r * 8 + c))).1)) ∧
    (∀ j : Nat, 24 ≤ j →
      (grille corps esp { ennemis := l, nombre_ennemis := 0, tirages := 0 }).ennemis[j]? =
        l[j]?) := by
  unfold grille
  simp only [List.foldl]
  obtain ⟨a1, a2, a3, a4⟩ := grille_colonnes_spec corps d hd esp 0 [0, 1, 2, 3, 4, 5, 6, 7]
    { ennemis := l, nombre_ennemis := 0, tirages := 0 } 0 rfl (by simp; omega)
  obtain ⟨b1, b2, b3, b4⟩ := grille_colonnes_spec corps d hd esp 1 [0, 1, 2, 3, 4, 5, 6, 7]
    (grille_colonnes corps esp 0 { ennemis := l, nombre_ennemis := 0, tirages := 0 }
      [0, 1, 2, 3, 4, 5, 6, 7]) 8 (by rw [a1]; rfl) (by rw [a3]; simp; omega)
  obtain ⟨c1, c2, c3, c4⟩ := grille_colonnes_spec corps d hd esp 2 [0, 1, 2, 3, 4, 5, 6, 7]
    (grille_colonnes corps esp 1
      (grille_colonnes corps esp 0 { ennemis := l, nombre_ennemis := 0, tirages := 0 }
        [0, 1, 2, 3, 4, 5, 6, 7]) [0, 1, 2, 3, 4, 5, 6, 7]) 16 (by rw [b1]; rfl)
    (by rw [b3, a3]; simp; omega)
  simp only [List.length_cons, List.length_nil] at a1 a2 a3 a4 b1 b2 b3 b4 c1 c2 c3 c4
  refine ⟨by rw [c1]; rfl, by rw [c2, b2, a2]; ring, by rw [c3, b3, a3], ?_, ?_⟩
  · intro r c hr hc
    interval_cases r
    · have h1 : ¬ (16 ≤ 0 * 8 + c ∧ 0 * 8 + c < 16 + (0 + 1 + 1 + 1 + 1 + 1 + 1 + 1 + 1)) := by
        omega
      have h2 : ¬ (8 ≤ 0 * 8 + c ∧ 0 * 8 + c < 8 + (0 + 1 + 1 + 1 + 1 + 1 + 1 + 1 + 1)) := by
        omega
      have h3 : 0 ≤ 0 * 8 + c ∧ 0 * 8 + c < 0 + (0 + 1 + 1 + 1 + 1 + 1 + 1 + 1 + 1) := by omega
      rw [c4, if_neg h1, b4, if_neg h2, a4, if_pos h3]
      have e1 : 0 * 8 + c - 0 = c := by omega
      rw [e1, colonnes_getD c hc]
      simp
    · have h1 : ¬ (16 ≤ 1 * 8 + c ∧ 1 * 8 + c < 16 + (0 + 1 + 1 + 1 + 1 + 1 + 1 + 1 + 1)) := by
        omega
      have h2 : 8 ≤ 1 * 8 + c ∧ 1 * 8 + c < 8 + (0 + 1 + 1 + 1 + 1 + 1 + 1 + 1 + 1) := by omega
      have h3 : ¬ (0 ≤ 1 * 8 + c ∧ 1 * 8 + c < 0 + (0 + 1 + 1 + 1 + 1 + 1 + 1 + 1 + 1)) := by
        omega
      rw [c4, if_neg h1, b4, if_pos h2, a4, if_neg h3, a2]
      have e1 : 1 * 8 + c - 8 = c := by omega
      rw [e1, colonnes_getD c hc]
      congr 1
      funext en
      congr 2
      simp; ring
    · have h1 : 16 ≤ 2 * 8 + c ∧ 2 * 8 + c < 16 + (0 + 1 + 1 + 1 + 1 + 1 + 1 + 1 + 1) := by omega
      have h2 : ¬ (8 ≤ 2 * 8 + c ∧ 2 * 8 + c < 8 + (0 + 1 + 1 + 1 + 1 + 1 + 1 + 1 + 1)) := by
        omega
      have h3 : ¬ (0 ≤ 2 * 8 + c ∧ 2 * 8 + c < 0 + (0 + 1 + 1 + 1 + 1 + 1 + 1 + 1 + 1)) := by
        omega
      rw [c4, if_pos h1, b4, if_neg h2, a4, if_neg h3, b2, a2]
      have e1 : 2 * 8 + c - 16 = c := by omega
      rw [e1, colonnes_getD c hc]
      congr 1
      funext en
      congr 2
      simp; ring
  · intro j hj
    have h1 : ¬ (16 ≤ j ∧ j < 16 + (0 + 1 + 1 + 1 + 1 + 1 + 1 + 1 + 1)) := by omega
    have h2 : ¬ (8 ≤ j ∧ j < 8 + (0 + 1 + 1 + 1 + 1 + 1 + 1 + 1 + 1)) := by omega
    have h3 : ¬ (0 ≤ j ∧ j < 0 + (0 + 1 + 1 + 1 + 1 + 1 + 1 + 1 + 1)) := by omega
    rw [c4, if_neg h1, b4, if_neg h2, a4, if_neg h3]

theorem corps_reapparition_tirages (alea : Nat → Nat) (niveau : Int) (en : Entite) (x y : Int)
    (t : Nat) :
    (corps_reapparition alea niveau en x y t).2 = t + (if niveau ≥ 2 then 1 else 0) := by
  unfold corps_reapparition
  simp only []
  by_cases h : niveau ≥ 2
  · rw [if_pos h, if_pos h]
    by_cases h2 : ((alea t % 100 : Nat) : Int) < 25 + (niveau - 2) * 15
    · rw [if_pos h2]
    · rw [if_neg h2]
  · rw [if_neg h, if_neg h]
    rfl

theorem corps_reapparition_champs (alea : Nat → Nat) (niveau : Int) (en : Entite) (x y : Int)
    (t : Nat) :
    (corps_reapparition alea niveau en x y t).1 =
      { en with
        vivant := 1
        x := x
        y := y
        dmg := 1
        sante := if niveau ≥ 2 ∧ ((alea t % 100 : Nat) : Int) < 25 + (niveau - 2) * 15 then 2
                 else 1 } := by
  unfold corps_reapparition
  simp only []
  by_cases h : niveau ≥ 2
  · rw [if_pos h]
    by_cases h2 : ((alea t % 100 : Nat) : Int) < 25 + (niveau - 2) * 15
    · rw [if_pos h2, if_pos ⟨h, h2⟩]
    · rw [if_neg h2, if_neg (fun hh => h2 hh.2)]
  · rw [if_neg h, if_neg (fun hh => h hh.1)]

/-- The respawn branch on a pool of capacity at least 24. -/
theorem phase_reapparition_vide (alea : Nat → Nat) (e : EtatJeu) (hcap : 24 ≤ e.ennemis.length)
    (h0 : nombre_ennemis_vivants e = 0) :
    (phase_reapparition alea e).1 =
      { e with
        niveau := e.niveau + 1
        intervalle_deplacement_ennemis := e.intervalle_deplacement_ennemis * (9 / 10)
        ennemis := (phase_reapparition alea e).1.ennemis
        nombre_ennemis := 24 } ∧
    (phase_reapparition alea e).1.ennemis.length = e.ennemis.length ∧
    (∀ r c : Nat, r < 3 → c < 8 →
      (phase_reapparition alea e).1.ennemis[r * 8 + c]? =
        (e.ennemis[r * 8 + c]?).map (fun en =>
          (corps_reapparition alea (e.niveau + 1) en (2 + (c : Int) * espacement_x e.largeur)
            (2 + (r : Int) * 2) ((if e.niveau + 1 ≥ 2 then 1 else 0) * (r * 8 + c))).1)) ∧
    (∀ j : Nat, 24 ≤ j → (phase_reapparition alea e).1.ennemis[j]? = e.ennemis[j]?) ∧
    (phase_reapparition alea e).2 = (if e.niveau + 1 ≥ 2 then 1 else 0) * 24 := by
  obtain ⟨g1, g2, g3, g4, g5⟩ := grille_spec (corps_reapparition alea (e.niveau + 1))
    (if e.niveau + 1 ≥ 2 then 1 else 0)
    (fun en x y t => corps_reapparition_tirages alea (e.niveau + 1) en x y t)
    (espacement_x e.largeur) e.ennemis hcap
  unfold phase_reapparition
  rw [if_pos h0]
  simp only []
  refine ⟨?_, g3, g4, g5, g2⟩
  rw [g1]

theorem phase_deplacement_cadre (e : EtatJeu) :
    (phase_deplacement e).niveau = e.niveau ∧
    (phase_deplacement e).intervalle_deplacement_ennemis = e.intervalle_deplacement_ennemis ∧
    (phase_deplacement e).nombre_ennemis = e.nombre_ennemis ∧
    (phase_deplacement e).score = e.score ∧
    (phase_deplacement e).particules = e.particules ∧
    (phase_deplacement e).largeur = e.largeur ∧
    ∀ (k : Nat) (en : Entite), e.ennemis[k]? = some en →
      ∃ en2 : Entite, (phase_deplacement e).ennemis[k]? = some en2 ∧ en2.vivant = en.vivant ∧
        en2.sante = en.sante ∧ en2.type = en.type ∧ en2.dmg = en.dmg ∧
        (en.vivant = 0 → en2 = en) := by
  by_cases ht : e.acc_deplacement_ennemis ≥ e.intervalle_deplacement_ennemis
  · cases hb : touche_bord e with
    | true =>
      rw [phase_deplacement_rebond e ht hb]
      refine ⟨rfl, rfl, rfl, rfl, rfl, rfl, ?_⟩
      intro k en hk
      simp only [List.getElem?_mapIdx, hk, Option.map_some']
      by_cases hc : (k : Int) < e.nombre_ennemis ∧ en.vivant ≠ 0
      · rw [if_pos hc]
        exact ⟨_, rfl, rfl, rfl, rfl, rfl, fun h => absurd h hc.2⟩
      · rw [if_neg hc]
        exact ⟨_, rfl, rfl, rfl, rfl, rfl, fun _ => rfl⟩
    | false =>
      rw [phase_deplacement_pas e ht hb]
      refine ⟨rfl, rfl, rfl, rfl, rfl, rfl, ?_⟩
      intro k en hk
      simp only [List.getElem?_mapIdx, hk, Option.map_some']
      by_cases hc : (k : Int) < e.nombre_ennemis ∧ en.vivant ≠ 0
      · rw [if_pos hc]
        exact ⟨_, rfl, rfl, rfl, rfl, rfl, fun h => absurd h hc.2⟩
      · rw [if_neg hc]
        exact ⟨_, rfl, rfl, rfl, rfl, rfl, fun _ => rfl⟩
  · rw [phase_deplacement_attente e (not_le.mp ht)]
    exact ⟨rfl, rfl, rfl, rfl, rfl, rfl, fun k en hk => ⟨en, hk, rfl, rfl, rfl, rfl, fun _ => rfl⟩⟩

theorem vivants_apres_collisions (e : EtatJeu) (dt : ℚ)
    (hmorts : ∀ (k : Nat) (en : Entite), (k : Int) < e.nombre_ennemis → e.ennemis[k]? = some en →
      en.vivant = 0) :
    nombre_ennemis_vivants (phase_collisions e dt) = 0 := by
  obtain ⟨_, _, _, hnb, _, _, _, hmc⟩ := phase_collisions_cadre e dt
  rw [nombre_ennemis_vivants_eq_zero]
  intro k ek hk hek
  rw [hnb] at hk
  have hlt : k < (phase_collisions e dt).ennemis.length := lt_length_of_getElem? hek
  rw [hmc.1] at hlt
  obtain ⟨en2, hk2, _, _, _, _, hv2⟩ := hmc.2 k (e.ennemis[k]) (List.getElem?_eq_getElem hlt)
  rw [hek] at hk2
  cases hk2
  by_contra hv
  exact (hv2 hv).1 (hmorts k _ hk (List.getElem?_eq_getElem hlt))

/-- State after the respawn branch of a tick that starts with no alive enemy. -/
theorem reapparition_apres_collisions (e : EtatJeu) (dt : ℚ) (alea : Nat → Nat)
    (hcap : 24 ≤ e.ennemis.length)
    (hmorts : ∀ (k : Nat) (en : Entite), (k : Int) < e.nombre_ennemis → e.ennemis[k]? = some en →
      en.vivant = 0) :
    (phase_reapparition alea (phase_collisions e dt)).1.niveau = e.niveau + 1 ∧
    (phase_reapparition alea (phase_collisions e dt)).1.intervalle_deplacement_ennemis =
      e.intervalle_deplacement_ennemis * (9 / 10) ∧
    (phase_reapparition alea (phase_collisions e dt)).1.nombre_ennemis = 24 ∧
    (phase_reapparition alea (phase_collisions e dt)).1.acc_deplacement_ennemis =
      e.acc_deplacement_ennemis + dt ∧
    (phase_reapparition alea (phase_collisions e dt)).1.direction_ennemis =
      e.direction_ennemis ∧
    (phase_reapparition alea (phase_collisions e dt)).1.largeur = e.largeur ∧
    ∀ r c : Nat, r < 3 → c < 8 →
      ∃ old : Entite, (phase_collisions e dt).ennemis[r * 8 + c]? = some old ∧
        (phase_reapparition alea (phase_collisions e dt)).1.ennemis[r * 8 + c]? =
          some (corps_reapparition alea (e.niveau + 1) old
            (2 + (c : Int) * espacement_x e.largeur) (2 + (r : Int) * 2)
            ((if e.niveau + 1 ≥ 2 then 1 else 0) * (r * 8 + c))).1 := by
  obtain ⟨hacc, hint, hdir, hnb, hlarg, _, hniv, hmc⟩ := phase_collisions_cadre e dt
  have h0 := vivants_apres_collisions e dt hmorts
  obtain ⟨p1, p2, p3, p4, p5⟩ := phase_reapparition_vide alea (phase_collisions e dt)
    (by rw [hmc.1]; exact hcap) h0
  refine ⟨?_, ?_, ?_, ?_, ?_, ?_, ?_⟩
  · rw [p1]; exact congrArg (· + 1) hniv
  · rw [p1]; exact congrArg (· * (9 / 10)) hint
  · rw [p1]
  · rw [p1]; exact hacc
  · rw [p1]; exact hdir
  · rw [p1]; exact hlarg
  · intro r c hr hc
    have hlt : r * 8 + c < (phase_collisions e dt).ennemis.length := by rw [hmc.1]; omega
    refine ⟨_, List.getElem?_eq_getElem hlt, ?_⟩
    rw [p3 r c hr hc, List.getElem?_eq_getElem hlt, hniv, hlarg]
    rfl

theorem espacement_x_eq_max (largeur : Int) :
    espacement_x largeur = max 2 (Int.tdiv (largeur - 4) 8) := by
  unfold espacement_x
  by_cases h : Int.tdiv (largeur - 4) 8 < 2
  · rw [if_pos h, max_eq_left (le_of_lt h)]
  · rw [if_neg h, max_eq_right (not_lt.mp h)]


theorem maj_boucliers (e : EtatJeu) (dt : ℚ) (alea : Nat → Nat) :
    (etatjeu_mettre_a_jour e dt alea).boucliers =
      (phase_deplacement (phase_reapparition alea (phase_collisions e dt)).1).boucliers := by
  obtain ⟨ps, n, g, v, h⟩ := fin_de_maj e dt alea
  rw [h]

/-- Timer fields when the enemy step is reached, in terms of the state at the call. -/
theorem temps_avant_pas (e : EtatJeu) (dt : ℚ) (alea : Nat → Nat) :
    (phase_reapparition alea (phase_collisions e dt)).1.acc_deplacement_ennemis =
      e.acc_deplacement_ennemis + dt ∧
    (phase_reapparition alea (phase_collisions e dt)).1.intervalle_deplacement_ennemis =
      (if nombre_ennemis_vivants (phase_collisions e dt) = 0 then
        e.intervalle_deplacement_ennemis * (9 / 10)
       else e.intervalle_deplacement_ennemis) := by
  obtain ⟨hacc, hint, _⟩ := phase_collisions_cadre e dt
  unfold phase_reapparition
  by_cases h : nombre_ennemis_vivants (phase_collisions e dt) = 0
  · rw [if_pos h, if_pos h]
    exact ⟨hacc, congrArg (· * (9 / 10)) hint⟩
  · rw [if_neg h, if_neg h]
    exact ⟨hacc, hint⟩

/-- Tick in which the movement timer stays below the interval: no enemy step. -/
theorem maj_sans_pas (e : EtatJeu) (dt : ℚ) (alea : Nat → Nat)
    (h : e.acc_deplacement_ennemis + dt <
      (if nombre_ennemis_vivants (phase_collisions e dt) = 0 then
        e.intervalle_deplacement_ennemis * (9 / 10)
       else e.intervalle_deplacement_ennemis)) :
    phase_deplacement (phase_reapparition alea (phase_collisions e dt)).1 =
      (phase_reapparition alea (phase_collisions e dt)).1 := by
  obtain ⟨h1, h2⟩ := temps_avant_pas e dt alea
  exact phase_deplacement_attente _ (by rw [h1, h2]; exact h)

/-- Tick in which the movement timer reaches the interval and no alive enemy is at an edge:
lockstep step. -/
theorem maj_avec_pas (e : EtatJeu) (dt : ℚ) (alea : Nat → Nat)
    (h : e.acc_deplacement_ennemis + dt ≥
      (if nombre_ennemis_vivants (phase_collisions e dt) = 0 then
        e.intervalle_deplacement_ennemis * (9 / 10)
       else e.intervalle_deplacement_ennemis))
    (hb : touche_bord (phase_reapparition alea (phase_collisions e dt)).1 = false) :
    (phase_deplacement (phase_reapparition alea (phase_collisions e dt)).1).ennemis =
      (phase_reapparition alea (phase_collisions e dt)).1.ennemis.mapIdx (fun i en =>
        if (i : Int) < (phase_reapparition alea (phase_collisions e dt)).1.nombre_ennemis ∧
            en.vivant ≠ 0 then
          { en with x := en.x +
            (phase_reapparition alea (phase_collisions e dt)).1.direction_ennemis }
        else en) ∧
    (phase_deplacement (phase_reapparition alea (phase_collisions e dt)).1).direction_ennemis =
      (phase_reapparition alea (phase_collisions e dt)).1.direction_ennemis := by
  obtain ⟨h1, h2⟩ := temps_avant_pas e dt alea
  rw [phase_deplacement_pas _ (by rw [h1, h2]; exact h) hb]
  exact ⟨rfl, rfl⟩

/-! ## Lemmas: commands -/

theorem ajouter_projectile_boucle_plein (e : EtatJeu) (x y dy o : Int) (l : List Nat)
    (h : ∀ j ∈ l, ∀ q, e.projectiles[j]? = some q → q.actif ≠ 0) :
    ajouter_projectile_boucle e x y dy o l = e := by
  induction l with
  | nil => rfl
  | cons j reste ih =>
    have ih1 := ih (fun k hk => h k (List.mem_cons_of_mem _ hk))
    unfold ajouter_projectile_boucle
    split
    · exact ih1
    · next q hq =>
      rw [if_neg (h j (List.mem_cons_self _ _) q hq)]
      exact ih1

theorem ajouter_projectile_boucle_premier (e : EtatJeu) (x y dy o : Int) (l1 l2 : List Nat)
    (k : Nat) (q : Projectile) (hq : e.projectiles[k]? = some q) (ha : q.actif = 0)
    (h : ∀ j ∈ l1, ∀ r, e.projectiles[j]? = some r → r.actif ≠ 0) :
    ajouter_projectile_boucle e x y dy o (l1 ++ k :: l2) =
      { e with
        projectiles := e.projectiles.set k
          { x := x, y := y, dy := dy, proprietaire := o, actif := 1 }
        nombre_projectiles :=
          if (k : Int) ≥ e.nombre_projectiles then (k : Int) + 1 else e.nombre_projectiles } := by
  induction l1 with
  | nil =>
    simp only [List.nil_append]
    unfold ajouter_projectile_boucle
    simp only [hq]
    rw [if_pos ha]
  | cons j reste ih =>
    have ih1 := ih (fun m hm => h m (List.mem_cons_of_mem _ hm))
    simp only [List.cons_append]
    unfold ajouter_projectile_boucle
    split
    · exact ih1
    · next r hr =>
      rw [if_neg (h j (List.mem_cons_self _ _) r hr)]
      exact ih1

theorem length_filter_set {α : Type} (P : α → Bool) (v : α) (hv : P v = true) :
    ∀ (l : List α) (k : Nat) (q : α), l[k]? = some q → P q = false →
      ((l.set k v).filter P).length = (l.filter P).length + 1 := by
  intro l
  induction l with
  | nil => intro k q h _; simp at h
  | cons a reste ih =>
    intro k q h hq
    cases k with
    | zero =>
      simp only [List.getElem?_cons_zero, Option.some.injEq] at h
      subst h
      simp [List.filter_cons, hv, hq]
    | succ m =>
      simp only [List.getElem?_cons_succ] at h
      have := ih m q h hq
      simp only [List.set_cons_succ, List.filter_cons]
      by_cases ha : P a = true
      · simp [ha, this]
      · simp [ha, this]

/-! ## C1: a player projectile on the cell of an alive enemy -/

/-- C1 (amended).  Body of the projectile loop for an active player projectile `p` in slot `i`
whose cell after the move, `(p.x, p.y + p.dy)`, lies in the rows `0 .. hauteur - 1` and is the
cell of the alive enemy `enn` (value `en`), no alive enemy of a lower slot being on that cell.
The health of enemy `enn` drops by exactly 1 and its cell does not change; it is marked dead
and the score rises by exactly 10 if and only if `en.sante - 1 <= 0`; otherwise it stays alive
and the score is unchanged.  Every other enemy slot is unchanged and the projectile is
deactivated.  When the enemy survives and no alive shield is on that cell, the particle pool
and its count are unchanged. -/
theorem joueur_touche_ennemi (e : EtatJeu) (i enn : Nat) (p : Projectile) (en : Entite)
    (hp : e.projectiles[i]? = some p) (ha : p.actif ≠ 0) (ho : p.proprietaire = 0)
    (h0 : 0 ≤ p.y + p.dy) (h1 : p.y + p.dy < e.hauteur)
    (hn : (enn : Int) < e.nombre_ennemis) (hen : e.ennemis[enn]? = some en)
    (hv : en.vivant ≠ 0) (hx : en.x = p.x) (hy : en.y = p.y + p.dy)
    (hprem : ∀ k < enn, ∀ ek, e.ennemis[k]? = some ek → ek.vivant ≠ 0 →
      ¬ (ek.x = p.x ∧ ek.y = p.y + p.dy)) :
    (∃ en2 : Entite, (traiter_projectile e i).ennemis[enn]? = some en2 ∧
      en2.sante = en.sante - 1 ∧ en2.x = en.x ∧ en2.y = en.y ∧
      ((en2.vivant = 0 ∧ (traiter_projectile e i).score = e.score + 10) ↔ en.sante - 1 ≤ 0) ∧
      (0 < en.sante - 1 → en2.vivant ≠ 0 ∧ (traiter_projectile e i).score = e.score)) ∧
    (∀ k, k ≠ enn → (traiter_projectile e i).ennemis[k]? = e.ennemis[k]?) ∧
    (∃ p2 : Projectile, (traiter_projectile e i).projectiles[i]? = some p2 ∧ p2.actif = 0) ∧
    (0 < en.sante - 1 →
      (∀ (b : Nat) (bo : Entite), (b : Int) < e.nombre_boucliers → e.boucliers[b]? = some bo →
        bo.vivant ≠ 0 → ¬ (bo.x = p.x ∧ bo.y = p.y + p.dy)) →
      (traiter_projectile e i).particules = e.particules ∧
      (traiter_projectile e i).nombre_particules = e.nombre_particules) := by
  obtain ⟨a1, a2, a3, a4, a5⟩ :=
    traiter_projectile_touche_ennemi e i enn p en hp ha ho h0 h1 hn hen hv hx hy hprem
  by_cases hc : en.sante - 1 ≤ 0
  · rw [if_pos hc] at a1 a4
    exact ⟨⟨_, a1, rfl, rfl, rfl, ⟨fun _ => hc, fun _ => ⟨rfl, a4⟩⟩,
      fun h => absurd hc (by omega)⟩, a2, ⟨_, a3, rfl⟩, a5⟩
  · rw [if_neg hc] at a1 a4
    exact ⟨⟨_, a1, rfl, rfl, rfl, ⟨fun h => absurd h.1 hv, fun h => absurd h hc⟩,
      fun _ => ⟨hv, a4⟩⟩, a2, ⟨_, a3, rfl⟩, a5⟩

set_option maxRecDepth 100000 in
/-- C1, as stated, fails on three states.  (a) `etat_ennemi_sur_bouclier`: the projectile moves
onto the cell (8, 10) of an alive enemy of health 2; the enemy survives with health 1, yet the
number of live particles goes from 0 to 8 (the shield on the same cell is destroyed by the same
projectile).  (b) `etat_ennemi_hors_limites`: the projectile moves onto the cell (5, 6) of an
alive enemy of health 1, on a row outside the playfield; the enemy keeps health 1.
(c) `etat_ennemis_superposes`: the projectile moves onto the cell (5, 5) of the alive enemy in
slot 1, of health 1; that enemy keeps health 1 (the enemy in slot 0 is the one hit). -/
theorem joueur_touche_ennemi_contre_exemple :
    (etat_ennemi_sur_bouclier.projectiles[0]? = some ⟨8, 11, -1, 0, 1⟩ ∧
      etat_ennemi_sur_bouclier.ennemis[0]? = some ⟨8, 10, 1, 2, 1, 2⟩ ∧
      (traiter_projectile etat_ennemi_sur_bouclier 0).ennemis[0]? = some ⟨8, 10, 1, 1, 1, 2⟩ ∧
      etatjeu_obtenir_nombre_particules etat_ennemi_sur_bouclier = 0 ∧
      etatjeu_obtenir_nombre_particules (traiter_projectile etat_ennemi_sur_bouclier 0) = 8) ∧
    (etat_ennemi_hors_limites.projectiles[0]? = some ⟨5, 7, -1, 0, 1⟩ ∧
      etat_ennemi_hors_limites.ennemis[0]? = some ⟨5, 6, 1, 1, 1, 1⟩ ∧
      (traiter_projectile etat_ennemi_hors_limites 0).ennemis[0]? = some ⟨5, 6, 1, 1, 1, 1⟩) ∧
    (etat_ennemis_superposes.projectiles[0]? = some ⟨5, 6, -1, 0, 1⟩ ∧
      etat_ennemis_superposes.ennemis[1]? = some ⟨5, 5, 1, 1, 1, 1⟩ ∧
      (traiter_projectile etat_ennemis_superposes 0).ennemis[1]? = some ⟨5, 5, 1, 1, 1, 1⟩) := by
  decide

/-- C1 (amended) on `etat_tir_au_but`: the projectile of slot 0 moves onto (5, 5), the cell
of the enemy of slot 0 (health 1), and is deactivated. -/
theorem joueur_touche_ennemi_temoin :
    etat_tir_au_but.projectiles[0]? = some ⟨5, 6, -1, 0, 1⟩ ∧
    etat_tir_au_but.ennemis[0]? = some ⟨5, 5, 1, 1, 1, 1⟩ ∧
    ∃ p2 : Projectile,
      (traiter_projectile etat_tir_au_but 0).projectiles[0]? = some p2 ∧ p2.actif = 0 :=
  ⟨by decide, by decide,
    (joueur_touche_ennemi etat_tir_au_but 0 0 ⟨5, 6, -1, 0, 1⟩ ⟨5, 5, 1, 1, 1, 1⟩
      (by decide) (by decide) (by decide) (by decide) (by decide) (by decide) (by decide)
      (by decide) (by decide) (by decide)
      (fun k hk => absurd hk (Nat.not_lt_zero k))).2.2.1⟩

/-! ## C2: killing an enemy during a tick -/

/-- C2 (amended).  State with at least 8 particle slots, none live, and a particle count
`nombre_particules` below 256, whose only active projectile is the player projectile `p` of
slot `i`; its cell after the move lies in the rows `0 .. hauteur - 1` and is the cell of the
alive enemy `enn` of health 1, no alive enemy of a lower slot and no alive shield being on
that cell; some other enemy is alive.  After `etatjeu_mettre_a_jour` the enemy `enn` is dead
on its cell, the score has risen by 10, and the live particles are, in slot order, exactly
the 8 particles of the `directions` table: at the enemy's cell, `ttl = 20`, velocities
(2,0), (-2,0), (0,2), (0,-2), (2,2), (2,-2), (-2,2), (-2,-2). -/
theorem ennemi_detruit (e : EtatJeu) (dt : ℚ) (alea : Nat → Nat) (i enn : Nat) (p : Projectile)
    (en : Entite)
    (hlen : 8 ≤ e.particules.length)
    (hvide : ∀ q ∈ e.particules, q.ttl ≤ 0) (hnp : e.nombre_particules < 256)
    (hp : e.projectiles[i]? = some p) (ha : p.actif ≠ 0) (ho : p.proprietaire = 0)
    (hseul : ∀ j, j ≠ i → ∀ q, e.projectiles[j]? = some q → q.actif = 0)
    (h0 : 0 ≤ p.y + p.dy) (h1 : p.y + p.dy < e.hauteur)
    (hn : (enn : Int) < e.nombre_ennemis) (hen : e.ennemis[enn]? = some en)
    (hv : en.vivant ≠ 0) (hx : en.x = p.x) (hy : en.y = p.y + p.dy) (hs : en.sante = 1)
    (hprem : ∀ k < enn, ∀ ek, e.ennemis[k]? = some ek → ek.vivant ≠ 0 →
      ¬ (ek.x = p.x ∧ ek.y = p.y + p.dy))
    (hsh : ∀ (b : Nat) (bo : Entite), (b : Int) < e.nombre_boucliers →
      e.boucliers[b]? = some bo → bo.vivant ≠ 0 → ¬ (bo.x = p.x ∧ bo.y = p.y + p.dy))
    (hautre : ∃ (k : Nat) (ek : Entite), k ≠ enn ∧ (k : Int) < e.nombre_ennemis ∧
      e.ennemis[k]? = some ek ∧ ek.vivant ≠ 0) :
    (etatjeu_mettre_a_jour e dt alea).ennemis[enn]? =
      some { en with sante := 0, vivant := 0 } ∧
    (etatjeu_mettre_a_jour e dt alea).score = e.score + 10 ∧
    (etatjeu_mettre_a_jour e dt alea).particules.filter (fun q => decide (q.ttl > 0)) =
      directions.map (particule_explosion en.x en.y en.type) ∧
    etatjeu_obtenir_nombre_particules (etatjeu_mettre_a_jour e dt alea) = 8 := by
  have hi : i < e.projectiles.length := lt_length_of_getElem? hp
  have hk : enn < e.ennemis.length := lt_length_of_getElem? hen
  have hsante : en.sante - 1 ≤ 0 := by omega
  -- the collision phase
  have hcol : phase_collisions e dt =
      { toucher_ennemi
          { e with
            temps_acc := e.temps_acc + dt
            projectiles := e.projectiles.set i { p with y := p.y + p.dy } }
          i enn { p with y := p.y + p.dy } en with
        acc_deplacement_ennemis := e.acc_deplacement_ennemis + dt } := by
    unfold phase_collisions
    simp only []
    rw [map_vieillir_libres e.particules hvide]
    rw [phase_projectiles_seul ({ e with temps_acc := e.temps_acc + dt } : EtatJeu) i hi hseul]
    rw [traiter_projectile_ennemi_seul ({ e with temps_acc := e.temps_acc + dt } : EtatJeu)
      i enn p en hp ha ho h0 h1 hn hen hv hx hy hprem hsh]
    rw [toucher_ennemi_eq]
  rw [toucher_ennemi_eq] at hcol
  simp only [hsante, if_true] at hcol
  -- no respawn: another enemy is still alive
  obtain ⟨k, ek, hke, hkn, hkk, hkv⟩ := hautre
  have hviv : nombre_ennemis_vivants (phase_collisions e dt) ≠ 0 := by
    apply vivants_ne_zero _ k ek
    · rw [hcol]; exact hkn
    · rw [hcol]; simp only []; rw [List.getElem?_set_ne (Ne.symm hke)]; exact hkk
    · exact hkv
  obtain ⟨_, _, _, d4, d5, _, d7⟩ := phase_deplacement_cadre (phase_collisions e dt)
  have hpart : (etatjeu_mettre_a_jour e dt alea).particules =
      directions.map (particule_explosion en.x en.y en.type) ++ e.particules.drop 8 := by
    rw [maj_particules, phase_reapparition_vivants alea _ hviv, d5, hcol]
    simp only []
    have := creer_explosion_boucle_libre en.x en.y en.type directions [] e.particules
      e.nombre_particules (by simp) hvide (by simpa [directions] using hlen) hnp
      (by simp [directions])
    simp only [List.nil_append] at this
    rw [this]
    rfl
  have hfil : (etatjeu_mettre_a_jour e dt alea).particules.filter
      (fun q => decide (q.ttl > 0)) = directions.map (particule_explosion en.x en.y en.type) := by
    rw [hpart]
    exact filter_vives_explosion _ _ _ _ _ (fun q hq => hvide q (List.mem_of_mem_drop hq))
  refine ⟨?_, ?_, hfil, ?_⟩
  · rw [maj_ennemis, phase_reapparition_vivants alea _ hviv]
    have hs0 : (phase_collisions e dt).ennemis[enn]? =
        some { en with sante := en.sante - 1, vivant := 0 } := by
      rw [hcol]; simp [hk]
    obtain ⟨en2, h2, _, _, _, _, hmort⟩ := d7 enn _ hs0
    rw [h2, hmort rfl, hs]
    rfl
  · rw [maj_score, phase_reapparition_vivants alea _ hviv, d4, hcol]
  · unfold etatjeu_obtenir_nombre_particules
    rw [hfil]
    rfl

set_option maxRecDepth 100000 in
/-- C2, as stated, fails on four states, each with no live particle and a single active
projectile, a player projectile moving onto the cell of an alive enemy of health 1 with no
shield on that cell.  (a) `etat_dernier_ennemi`: the enemy is the last one alive; the tick
respawns the wave and slot 0 is alive again, at (2, 2).  (b) `etat_compteur_sature`: the count
`nombre_particules` is 256; the enemy dies, the score rises by 10, and no particle is live
afterwards.  (c) `etat_ennemi_hors_limites`: the cell is on a row outside the playfield; the
enemy stays alive and the score stays 0.  (d) `etat_ennemis_superposes`: the enemy of slot 1
shares its cell with the enemy of slot 0; the enemy of slot 1 stays alive. -/
theorem ennemi_detruit_contre_exemple :
    (etat_dernier_ennemi.ennemis[0]? = some ⟨5, 5, 1, 1, 1, 1⟩ ∧
      etat_dernier_ennemi.projectiles[0]? = some ⟨5, 6, -1, 0, 1⟩ ∧
      (etatjeu_mettre_a_jour etat_dernier_ennemi 0 (fun _ => 0)).ennemis[0]? =
        some ⟨2, 2, 1, 2, 1, 1⟩) ∧
    (etat_compteur_sature.ennemis[0]? = some ⟨5, 5, 1, 1, 1, 1⟩ ∧
      etat_compteur_sature.projectiles[0]? = some ⟨5, 6, -1, 0, 1⟩ ∧
      etatjeu_obtenir_nombre_particules etat_compteur_sature = 0 ∧
      (etatjeu_mettre_a_jour etat_compteur_sature 0 (fun _ => 0)).ennemis[0]? =
        some ⟨5, 5, 0, 0, 1, 1⟩ ∧
      (etatjeu_mettre_a_jour etat_compteur_sature 0 (fun _ => 0)).score = 10 ∧
      etatjeu_obtenir_nombre_particules
        (etatjeu_mettre_a_jour etat_compteur_sature 0 (fun _ => 0)) = 0) ∧
    (etat_ennemi_hors_limites.ennemis[0]? = some ⟨5, 6, 1, 1, 1, 1⟩ ∧
      etat_ennemi_hors_limites.projectiles[0]? = some ⟨5, 7, -1, 0, 1⟩ ∧
      (etatjeu_mettre_a_jour etat_ennemi_hors_limites 0 (fun _ => 0)).ennemis[0]? =
        some ⟨5, 6, 1, 1, 1, 1⟩ ∧
      (etatjeu_mettre_a_jour etat_ennemi_hors_limites 0 (fun _ => 0)).score = 0) ∧
    (etat_ennemis_superposes.ennemis[1]? = some ⟨5, 5, 1, 1, 1, 1⟩ ∧
      etat_ennemis_superposes.projectiles[0]? = some ⟨5, 6, -1, 0, 1⟩ ∧
      (etatjeu_mettre_a_jour etat_ennemis_superposes 0 (fun _ => 0)).ennemis[1]? =
        some ⟨5, 5, 1, 1, 1, 1⟩) := by
  have ha : nombre_ennemis_vivants (phase_collisions etat_dernier_ennemi 0) = 0 := by decide
  have hb : nombre_ennemis_vivants (phase_collisions etat_compteur_sature 0) ≠ 0 := by decide
  have hc : nombre_ennemis_vivants (phase_collisions etat_ennemi_hors_limites 0) ≠ 0 := by
    decide
  have hd : nombre_ennemis_vivants (phase_collisions etat_ennemis_superposes 0) ≠ 0 := by
    decide
  have pa := maj_sans_pas etat_dernier_ennemi 0 (fun _ => 0)
    (by rw [if_pos ha]; norm_num [etat_dernier_ennemi, etat_exemple])
  have pb := maj_sans_pas etat_compteur_sature 0 (fun _ => 0)
    (by rw [if_neg hb]; norm_num [etat_compteur_sature, etat_tir_au_but, etat_exemple])
  have pc := maj_sans_pas etat_ennemi_hors_limites 0 (fun _ => 0)
    (by rw [if_neg hc]; norm_num [etat_ennemi_hors_limites, etat_exemple])
  have pd := maj_sans_pas etat_ennemis_superposes 0 (fun _ => 0)
    (by rw [if_neg hd]; norm_num [etat_ennemis_superposes, etat_exemple])
  unfold etatjeu_obtenir_nombre_particules
  rw [maj_ennemis, maj_ennemis, maj_ennemis, maj_ennemis, maj_score, maj_score, maj_particules,
    pa, pb, pc, pd]
  decide

set_option maxRecDepth 100000 in
/-- C2 (amended) on `etat_tir_au_but`: enemy on (5, 5), projectile arriving on (5, 5); after
the tick the enemy of slot 0 is dead, the score is 10 and 8 particles are live. -/
theorem ennemi_detruit_temoin :
    (etatjeu_mettre_a_jour etat_tir_au_but 0 (fun _ => 0)).ennemis[0]? =
      some ⟨5, 5, 0, 0, 1, 1⟩ ∧
    (etatjeu_mettre_a_jour etat_tir_au_but 0 (fun _ => 0)).score = 0 + 10 ∧
    (etatjeu_mettre_a_jour etat_tir_au_but 0 (fun _ => 0)).particules.filter
        (fun q => decide (q.ttl > 0)) =
      [⟨5, 5, 2, 0, 20, 1⟩, ⟨5, 5, -2, 0, 20, 1⟩, ⟨5, 5, 0, 2, 20, 1⟩, ⟨5, 5, 0, -2, 20, 1⟩,
       ⟨5, 5, 2, 2, 20, 1⟩, ⟨5, 5, 2, -2, 20, 1⟩, ⟨5, 5, -2, 2, 20, 1⟩, ⟨5, 5, -2, -2, 20, 1⟩] ∧
    etatjeu_obtenir_nombre_particules (etatjeu_mettre_a_jour etat_tir_au_but 0 (fun _ => 0))
      = 8 :=
  ennemi_detruit etat_tir_au_but 0 (fun _ => 0) 0 0 ⟨5, 6, -1, 0, 1⟩ ⟨5, 5, 1, 1, 1, 1⟩
    (by decide)
    (by intro q hq; rw [List.eq_of_mem_replicate hq])
    (by decide) (by decide) (by decide) (by decide)
    (by
      intro j hj q hq
      have hlt : j < 4 := lt_length_of_getElem? hq
      interval_cases j
      · exact absurd rfl hj
      · cases hq; rfl
      · cases hq; rfl
      · cases hq; rfl)
    (by decide) (by decide) (by decide) (by decide) (by decide) (by decide) (by decide) (by decide)
    (fun k hk => absurd hk (Nat.not_lt_zero k))
    (by
      intro b bo hb hbo _
      have hlt : b < 4 := lt_length_of_getElem? hbo
      interval_cases b <;> cases hbo <;> decide)
    ⟨1, ⟨9, 5, 1, 1, 1, 1⟩, by decide, by decide, by decide, by decide⟩

/-! ## C3: one projectile, two targets -/

set_option maxRecDepth 100000 in
/-- C3 on its failing inputs.  (a) `etat_ennemi_sur_bouclier`, one active projectile (player):
after one `etatjeu_mettre_a_jour` the enemy of slot 0 has lost 1 health (2 to 1) and the shield
of slot 0, on the same cell, has lost 1 health too (1 to 0, dead).  (b)
`etat_vaisseau_sur_bouclier`, one active projectile (enemy): the body of the projectile loop
takes one life (3 to 2) and 1 health from the shield on the ship's cell (3 to 2). -/
theorem double_resolution :
    (etatjeu_obtenir_nombre_projectiles etat_ennemi_sur_bouclier = 1 ∧
      etat_ennemi_sur_bouclier.ennemis[0]? = some ⟨8, 10, 1, 2, 1, 2⟩ ∧
      etat_ennemi_sur_bouclier.boucliers[0]? = some ⟨8, 10, 1, 1, 0, 3⟩ ∧
      (etatjeu_mettre_a_jour etat_ennemi_sur_bouclier 0 (fun _ => 50)).ennemis[0]? =
        some ⟨8, 10, 1, 1, 1, 2⟩ ∧
      (etatjeu_mettre_a_jour etat_ennemi_sur_bouclier 0 (fun _ => 50)).boucliers[0]? =
        some ⟨8, 10, 0, 0, 0, 3⟩) ∧
    (etatjeu_obtenir_nombre_projectiles etat_vaisseau_sur_bouclier = 1 ∧
      etat_vaisseau_sur_bouclier.vies = 3 ∧
      etat_vaisseau_sur_bouclier.boucliers[0]? = some ⟨8, 2, 1, 3, 0, 3⟩ ∧
      (traiter_projectile etat_vaisseau_sur_bouclier 0).vies = 2 ∧
      (traiter_projectile etat_vaisseau_sur_bouclier 0).boucliers[0]? =
        some ⟨8, 2, 1, 2, 0, 3⟩) := by
  have hv : nombre_ennemis_vivants (phase_collisions etat_ennemi_sur_bouclier 0) ≠ 0 := by
    decide
  have hp := maj_sans_pas etat_ennemi_sur_bouclier 0 (fun _ => 50)
    (by rw [if_neg hv]; norm_num [etat_ennemi_sur_bouclier, etat_exemple])
  rw [maj_ennemis, maj_boucliers, hp]
  decide

/-! ## C4: a projectile on the cell of an alive shield -/

/-- C4 (amended).  Body of the projectile loop for an active projectile `p` of either owner in
slot `i` whose cell after the move lies in the rows `0 .. hauteur - 1` and is the cell of the
alive shield `b` (value `bo`, health at least 1), no alive shield of a lower slot being on that
cell.  The projectile is deactivated; the health of shield `b` drops by exactly 1 and its cell
does not change; the shield is marked dead exactly when its health reaches 0, so health 3
gives 2 (alive), 2 gives 1 (alive) and 1 gives 0 (dead); every other shield slot is unchanged.
When the shield dies the particle pool is the one `creer_explosion` produces at the shield's
cell with the shield's `type` tag (3, `TYPE_BOUCLIER`, for the shields set up by the engine),
from the pool left by the projectile's first collision test; when it survives that pool is
unchanged. -/
theorem projectile_touche_bouclier (e : EtatJeu) (i b : Nat) (p : Projectile) (bo : Entite)
    (hp : e.projectiles[i]? = some p) (ha : p.actif ≠ 0)
    (h0 : 0 ≤ p.y + p.dy) (h1 : p.y + p.dy < e.hauteur)
    (hb : (b : Int) < e.nombre_boucliers) (hbo : e.boucliers[b]? = some bo)
    (hv : bo.vivant ≠ 0) (hx : bo.x = p.x) (hy : bo.y = p.y + p.dy) (hs : 1 ≤ bo.sante)
    (hprem : ∀ k < b, ∀ bk, e.boucliers[k]? = some bk → bk.vivant ≠ 0 →
      ¬ (bk.x = p.x ∧ bk.y = p.y + p.dy)) :
    (∃ p2 : Projectile, (traiter_projectile e i).projectiles[i]? = some p2 ∧ p2.actif = 0) ∧
    (∃ bo2 : Entite, (traiter_projectile e i).boucliers[b]? = some bo2 ∧
      bo2.sante = bo.sante - 1 ∧ bo2.x = bo.x ∧ bo2.y = bo.y ∧
      (bo2.vivant = 0 ↔ bo.sante - 1 = 0) ∧
      (bo.sante = 3 → bo2.sante = 2 ∧ bo2.vivant ≠ 0) ∧
      (bo.sante = 2 → bo2.sante = 1 ∧ bo2.vivant ≠ 0) ∧
      (bo.sante = 1 → bo2.sante = 0 ∧ bo2.vivant = 0)) ∧
    (∀ k, k ≠ b → (traiter_projectile e i).boucliers[k]? = e.boucliers[k]?) ∧
    (p.proprietaire = 0 →
      (traiter_projectile e i).particules =
        (if bo.sante - 1 = 0 then
          (creer_explosion
            (collision_ennemis
              { e with projectiles := e.projectiles.set i { p with y := p.y + p.dy } } i)
            bo.x bo.y bo.type).particules
         else
          (collision_ennemis
            { e with projectiles := e.projectiles.set i { p with y := p.y + p.dy } }
            i).particules)) ∧
    (p.proprietaire ≠ 0 →
      (traiter_projectile e i).particules =
        (if bo.sante - 1 = 0 then (creer_explosion e bo.x bo.y bo.type).particules
         else e.particules)) := by
  obtain ⟨a1, a2, a3, a4, a5⟩ :=
    traiter_projectile_touche_bouclier e i b p bo hp ha h0 h1 hb hbo hv hx hy hprem
  by_cases hc : bo.sante - 1 ≤ 0
  · have hc0 : bo.sante - 1 = 0 := by omega
    rw [if_pos hc] at a2
    simp only [if_pos hc] at a4 a5
    simp only [if_pos hc0]
    exact ⟨⟨_, a1, rfl⟩,
      ⟨_, a2, rfl, rfl, rfl, ⟨fun _ => hc0, fun _ => rfl⟩, fun h => absurd hc0 (by omega),
        fun h => absurd hc0 (by omega), fun h => ⟨by simp only []; omega, rfl⟩⟩, a3, a4, a5⟩
  · have hc0 : ¬ bo.sante - 1 = 0 := by omega
    rw [if_neg hc] at a2
    simp only [if_neg hc] at a4 a5
    simp only [if_neg hc0]
    exact ⟨⟨_, a1, rfl⟩,
      ⟨_, a2, rfl, rfl, rfl, ⟨fun h => absurd h hv, fun h => absurd h hc0⟩,
        fun h => ⟨by simp only []; omega, hv⟩, fun h => ⟨by simp only []; omega, hv⟩,
        fun h => absurd h (by omega)⟩, a3, a4, a5⟩

set_option maxRecDepth 100000 in
/-- C4, as stated, fails on two states.  (a) `etat_boucliers_superposes`: the projectile moves
onto (0, 10), the cell of the alive shield of slot 1 (health 3); that shield keeps health 3
(the shield of slot 0, on the same cell, is the one hit).  (b) `etat_bouclier_hors_limites`:
the projectile moves onto (8, 0), the cell of the alive shield of slot 0 (health 3), on a row
outside the playfield; the shield keeps health 3. -/
theorem projectile_touche_bouclier_contre_exemple :
    (etat_boucliers_superposes.projectiles[0]? = some ⟨0, 11, -1, 0, 1⟩ ∧
      etat_boucliers_superposes.boucliers[1]? = some ⟨0, 10, 1, 3, 0, 3⟩ ∧
      (traiter_projectile etat_boucliers_superposes 0).boucliers[1]? =
        some ⟨0, 10, 1, 3, 0, 3⟩) ∧
    (etat_bouclier_hors_limites.projectiles[0]? = some ⟨8, 1, -1, 0, 1⟩ ∧
      etat_bouclier_hors_limites.boucliers[0]? = some ⟨8, 0, 1, 3, 0, 3⟩ ∧
      (traiter_projectile etat_bouclier_hors_limites 0).boucliers[0]? =
        some ⟨8, 0, 1, 3, 0, 3⟩) := by
  decide

/-- C4 (amended) on `etat_tir_sur_bouclier`: the projectile of slot 0 moves onto (8, 10), the
cell of the fresh shield of slot 0, and is deactivated. -/
theorem projectile_touche_bouclier_temoin :
    etat_tir_sur_bouclier.projectiles[0]? = some ⟨8, 11, -1, 0, 1⟩ ∧
    etat_tir_sur_bouclier.boucliers[0]? = some ⟨8, 10, 1, 3, 0, 3⟩ ∧
    ∃ p2 : Projectile,
      (traiter_projectile etat_tir_sur_bouclier 0).projectiles[0]? = some p2 ∧ p2.actif = 0 :=
  ⟨by decide, by decide,
    (projectile_touche_bouclier etat_tir_sur_bouclier 0 0 ⟨8, 11, -1, 0, 1⟩ ⟨8, 10, 1, 3, 0, 3⟩
      (by decide) (by decide) (by decide) (by decide) (by decide) (by decide) (by decide)
      (by decide) (by decide) (by decide)
      (fun k hk => absurd hk (Nat.not_lt_zero k))).1⟩

/-! ## C5 and C6: the wave is cleared -/

/-- C5.  State whose enemy pool has at least 24 slots and in which no enemy (no slot below
`nombre_ennemis`) is alive, any `dt`, any random draws: one `etatjeu_mettre_a_jour` raises the
level by exactly 1, multiplies the movement interval by 9/10, and leaves the enemy count at
exactly 24 with the 24 enemies of slots `0..23` all alive. -/
theorem vague_suivante (e : EtatJeu) (dt : ℚ) (alea : Nat → Nat)
    (hcap : 24 ≤ e.ennemis.length)
    (hmorts : ∀ (k : Nat) (en : Entite), (k : Int) < e.nombre_ennemis → e.ennemis[k]? = some en →
      en.vivant = 0) :
    etatjeu_obtenir_niveau (etatjeu_mettre_a_jour e dt alea) = etatjeu_obtenir_niveau e + 1 ∧
    (etatjeu_mettre_a_jour e dt alea).intervalle_deplacement_ennemis =
      e.intervalle_deplacement_ennemis * (9 / 10) ∧
    etatjeu_obtenir_nombre_ennemis (etatjeu_mettre_a_jour e dt alea) = 24 ∧
    (∀ j : Nat, j < 24 →
      ∃ en : Entite, (etatjeu_mettre_a_jour e dt alea).ennemis[j]? = some en ∧ en.vivant = 1) ∧
    nombre_ennemis_vivants (etatjeu_mettre_a_jour e dt alea) = 24 := by
  obtain ⟨r1, r2, r3, _, _, _, r7⟩ := reapparition_apres_collisions e dt alea hcap hmorts
  obtain ⟨d1, d2, d3, _, _, _, d7⟩ :=
    phase_deplacement_cadre (phase_reapparition alea (phase_collisions e dt)).1
  have hviv : ∀ j : Nat, j < 24 →
      ∃ en : Entite, (etatjeu_mettre_a_jour e dt alea).ennemis[j]? = some en ∧ en.vivant = 1 := by
    intro j hj
    obtain ⟨old, _, hs⟩ := r7 (j / 8) (j % 8) (by omega) (Nat.mod_lt _ (by norm_num))
    have hj8 : j / 8 * 8 + j % 8 = j := by omega
    rw [hj8] at hs
    obtain ⟨en2, h2, hv2, _⟩ := d7 j _ hs
    rw [corps_reapparition_champs] at hv2
    exact ⟨en2, by rw [maj_ennemis]; exact h2, hv2⟩
  have hnb : (etatjeu_mettre_a_jour e dt alea).nombre_ennemis = 24 := by
    rw [maj_nombre_ennemis, d3, r3]
  refine ⟨?_, ?_, hnb, hviv, ?_⟩
  · unfold etatjeu_obtenir_niveau
    rw [maj_niveau, d1, r1]
  · rw [maj_intervalle, d2, r2]
  · unfold nombre_ennemis_vivants
    rw [hnb]
    have : (24 : Int).toNat = 24 := rfl
    rw [this, List.filter_eq_self.mpr, List.length_range]
    intro j hj
    obtain ⟨en, hen, hv⟩ := hviv j (List.mem_range.mp hj)
    simp [hen, hv]

theorem pool_mort (k : Nat) (en : Entite)
    (h : ([] ++ List.replicate (24 - ([] : List Entite).length) ennemi_mort)[k]? = some en) :
    en.vivant = 0 := by
  have hm := List.getElem?_mem h
  simp only [List.nil_append, List.length_nil] at hm
  rw [List.eq_of_mem_replicate hm]
  rfl

/-- C5 on `etat_vague_finie` (24 dead enemies, level 1, interval 6/10): after the tick the
level is 2, the interval is 6/10 * 9/10 and the enemy count is 24. -/
theorem vague_suivante_temoin :
    etatjeu_obtenir_niveau (etatjeu_mettre_a_jour etat_vague_finie 0 (fun _ => 0)) =
      etatjeu_obtenir_niveau etat_vague_finie + 1 ∧
    (etatjeu_mettre_a_jour etat_vague_finie 0 (fun _ => 0)).intervalle_deplacement_ennemis =
      etat_vague_finie.intervalle_deplacement_ennemis * (9 / 10) ∧
    etatjeu_obtenir_nombre_ennemis (etatjeu_mettre_a_jour etat_vague_finie 0 (fun _ => 0)) = 24 ∧
    nombre_ennemis_vivants (etatjeu_mettre_a_jour etat_vague_finie 0 (fun _ => 0)) = 24 :=
  have h := vague_suivante etat_vague_finie 0 (fun _ => 0) (by decide)
    (fun k en _ hk => pool_mort k en hk)
  ⟨h.1, h.2.1, h.2.2.1, h.2.2.2.2⟩

/-- C6 (amended).  State whose enemy pool has at least 24 slots and in which no enemy is
alive.  After one `etatjeu_mettre_a_jour` the enemy of slot `r*8 + c` (`r < 3`, `c < 8`) is
(1) on the grid cell `x = 2 + c * max(2, (largeur - 4) / 8)`, `y = 2 + 2r`, when the movement
timer plus `dt` stays below the new interval (9/10 of the old one); (2) one lockstep step
further, `x` increased by the direction, when the timer reaches the new interval and every
grid cell shifted by the direction lies in `[0, largeur)`; (3) one row lower, `y` increased by
1 with the direction negated, when the timer reaches the new interval and some grid cell
shifted by the direction lies outside `[0, largeur)`. -/
theorem grille_apres_reapparition (e : EtatJeu) (dt : ℚ) (alea : Nat → Nat)
    (hcap : 24 ≤ e.ennemis.length)
    (hmorts : ∀ (k : Nat) (en : Entite), (k : Int) < e.nombre_ennemis → e.ennemis[k]? = some en →
      en.vivant = 0) :
    (e.acc_deplacement_ennemis + dt < e.intervalle_deplacement_ennemis * (9 / 10) →
      (etatjeu_mettre_a_jour e dt alea).direction_ennemis = e.direction_ennemis ∧
      ∀ r c : Nat, r < 3 → c < 8 →
        ∃ en : Entite, (etatjeu_mettre_a_jour e dt alea).ennemis[r * 8 + c]? = some en ∧
          en.x = 2 + (c : Int) * max 2 (Int.tdiv (e.largeur - 4) 8) ∧
          en.y = 2 + 2 * (r : Int)) ∧
    (e.acc_deplacement_ennemis + dt ≥ e.intervalle_deplacement_ennemis * (9 / 10) →
      (∀ c : Nat, c < 8 →
        0 ≤ 2 + (c : Int) * max 2 (Int.tdiv (e.largeur - 4) 8) + e.direction_ennemis ∧
        2 + (c : Int) * max 2 (Int.tdiv (e.largeur - 4) 8) + e.direction_ennemis < e.largeur) →
      (etatjeu_mettre_a_jour e dt alea).direction_ennemis = e.direction_ennemis ∧
      ∀ r c : Nat, r < 3 → c < 8 →
        ∃ en : Entite, (etatjeu_mettre_a_jour e dt alea).ennemis[r * 8 + c]? = some en ∧
          en.x = 2 + (c : Int) * max 2 (Int.tdiv (e.largeur - 4) 8) + e.direction_ennemis ∧
          en.y = 2 + 2 * (r : Int)) ∧
    (e.acc_deplacement_ennemis + dt ≥ e.intervalle_deplacement_ennemis * (9 / 10) →
      (∃ c : Nat, c < 8 ∧
        (2 + (c : Int) * max 2 (Int.tdiv (e.largeur - 4) 8) + e.direction_ennemis < 0 ∨
         2 + (c : Int) * max 2 (Int.tdiv (e.largeur - 4) 8) + e.direction_ennemis
           ≥ e.largeur)) →
      (etatjeu_mettre_a_jour e dt alea).direction_ennemis = -e.direction_ennemis ∧
      ∀ r c : Nat, r < 3 → c < 8 →
        ∃ en : Entite, (etatjeu_mettre_a_jour e dt alea).ennemis[r * 8 + c]? = some en ∧
          en.x = 2 + (c : Int) * max 2 (Int.tdiv (e.largeur - 4) 8) ∧
          en.y = 2 + 2 * (r : Int) + 1) := by
  obtain ⟨_, r2, r3, r4, r5, r6, r7⟩ := reapparition_apres_collisions e dt alea hcap hmorts
  have hslot : ∀ r c : Nat, r < 3 → c < 8 →
      ∃ en : Entite, (phase_reapparition alea (phase_collisions e dt)).1.ennemis[r * 8 + c]? =
          some en ∧ en.vivant = 1 ∧
        en.x = 2 + (c : Int) * max 2 (Int.tdiv (e.largeur - 4) 8) ∧ en.y = 2 + 2 * (r : Int) := by
    intro r c hr hc
    obtain ⟨old, _, hs⟩ := r7 r c hr hc
    refine ⟨_, hs, ?_, ?_, ?_⟩
    · rw [corps_reapparition_champs]
    · rw [corps_reapparition_champs, espacement_x_eq_max]
    · rw [corps_reapparition_champs]; simp only []; ring
  rw [maj_direction_ennemis, maj_ennemis]
  refine ⟨?_, ?_, ?_⟩
  · intro ht
    rw [phase_deplacement_attente _ (by rw [r4, r2]; exact ht)]
    refine ⟨r5, ?_⟩
    intro r c hr hc
    obtain ⟨en, hs, _, hx, hy⟩ := hslot r c hr hc
    exact ⟨en, hs, hx, hy⟩
  · intro ht hin
    have htb : touche_bord (phase_reapparition alea (phase_collisions e dt)).1 = false := by
      rw [Bool.eq_false_iff]
      intro h
      obtain ⟨k, ek, hk, hek, _, hout⟩ := (touche_bord_iff _).mp h
      rw [r3] at hk
      rw [r5, r6] at hout
      obtain ⟨en, hs, _, hx, _⟩ := hslot (k / 8) (k % 8) (by omega) (Nat.mod_lt _ (by norm_num))
      have hk8 : k / 8 * 8 + k % 8 = k := by omega
      rw [hk8, hek] at hs
      cases hs
      have := hin (k % 8) (Nat.mod_lt _ (by norm_num))
      rw [← hx] at this
      omega
    rw [phase_deplacement_pas _ (by rw [r4, r2]; exact ht) htb]
    refine ⟨r5, ?_⟩
    intro r c hr hc
    obtain ⟨en, hs, hv, hx, hy⟩ := hslot r c hr hc
    have hcond : ((r * 8 + c : Nat) : Int) <
        (phase_reapparition alea (phase_collisions e dt)).1.nombre_ennemis ∧ en.vivant ≠ 0 := by
      rw [r3, hv]
      constructor
      · have : r * 8 + c < 24 := by omega
        omega
      · norm_num
    simp only [List.getElem?_mapIdx, hs, Option.map_some']
    rw [if_pos hcond]
    exact ⟨_, rfl, by simp only []; rw [hx, r5], hy⟩
  · intro ht hout
    obtain ⟨c0, hc0, hout0⟩ := hout
    have htb : touche_bord (phase_reapparition alea (phase_collisions e dt)).1 = true := by
      obtain ⟨en, hs, hv, hx, _⟩ := hslot 0 c0 (by norm_num) hc0
      refine (touche_bord_iff _).mpr ⟨0 * 8 + c0, en, ?_, hs, by rw [hv]; norm_num, ?_⟩
      · rw [r3]; omega
      · rw [r5, r6, hx]; exact hout0
    rw [phase_deplacement_rebond _ (by rw [r4, r2]; exact ht) htb]
    refine ⟨by simp only []; rw [r5], ?_⟩
    intro r c hr hc
    obtain ⟨en, hs, hv, hx, hy⟩ := hslot r c hr hc
    have hcond : ((r * 8 + c : Nat) : Int) <
        (phase_reapparition alea (phase_collisions e dt)).1.nombre_ennemis ∧ en.vivant ≠ 0 := by
      rw [r3, hv]
      constructor
      · have : r * 8 + c < 24 := by omega
        omega
      · norm_num
    simp only [List.getElem?_mapIdx, hs, Option.map_some']
    rw [if_pos hcond]
    exact ⟨_, rfl, hx, by simp only []; rw [hy]⟩

set_option maxRecDepth 100000 in
/-- C6, as stated, fails on `etat_vague_finie` with `dt = 1`: no enemy is alive, the tick
respawns the wave and, the movement timer having reached the new interval, steps it in the
same call; the enemy of slot 0 ends on x = 3, not on the grid column x = 2, and the enemy
of slot 9 (`r = 1`, `c = 1`) on x = 7, not on 2 + 1 * 4 = 6. -/
theorem grille_apres_reapparition_contre_exemple :
    nombre_ennemis_vivants etat_vague_finie = 0 ∧
    etat_vague_finie.largeur = 40 ∧
    (etatjeu_mettre_a_jour etat_vague_finie 1 (fun _ => 0)).ennemis[0]? =
      some ⟨3, 2, 1, 2, 1, 1⟩ ∧
    (etatjeu_mettre_a_jour etat_vague_finie 1 (fun _ => 0)).ennemis[9]? =
      some ⟨7, 4, 1, 2, 1, 1⟩ := by
  have hv : nombre_ennemis_vivants (phase_collisions etat_vague_finie 1) = 0 := by decide
  have h := maj_avec_pas etat_vague_finie 1 (fun _ => 0)
    (by rw [if_pos hv]; norm_num [etat_vague_finie, etat_exemple]) (by decide)
  rw [maj_ennemis, h.1]
  decide

/-- C6 (amended) on `etat_vague_finie` with `dt = 0` (timer below the new interval): the
enemy of slot 0 is on the first grid cell. -/
theorem grille_apres_reapparition_temoin :
    ∃ en : Entite,
      (etatjeu_mettre_a_jour etat_vague_finie 0 (fun _ => 0)).ennemis[0 * 8 + 0]? = some en ∧
      en.x = 2 + ((0 : Nat) : Int) * max 2 (Int.tdiv (etat_vague_finie.largeur - 4) 8) ∧
      en.y = 2 + 2 * ((0 : Nat) : Int) :=
  ((grille_apres_reapparition etat_vague_finie 0 (fun _ => 0) (by decide)
    (fun k en _ hk => pool_mort k en hk)).1
    (by norm_num [etat_vague_finie, etat_exemple])).2 0 0 (by decide) (by decide)

/-! ## C7 and C8: the timed enemy step -/

/-- C7 (amended).  Tick in which the movement timer reaches the interval
(`acc + dt >= intervalle`) and some enemy still alive when the collision phase of the tick is
over (slot `k0` below `nombre_ennemis`) has `x + direction` outside `[0, largeur)`.  The
update negates the direction; every slot keeps its `x`; a slot below `nombre_ennemis` that is
alive after the update has its `y` increased by exactly 1; every other slot (dead, killed
earlier in the same tick, or beyond the count) keeps its `y`.  `en` is the slot at the call,
`en2` the slot after the update. -/
theorem rebond (e : EtatJeu) (dt : ℚ) (alea : Nat → Nat) (k0 : Nat) (ek0 : Entite)
    (ht : e.acc_deplacement_ennemis + dt ≥ e.intervalle_deplacement_ennemis)
    (hk0 : (k0 : Int) < e.nombre_ennemis)
    (h0 : (phase_collisions e dt).ennemis[k0]? = some ek0) (hv0 : ek0.vivant ≠ 0)
    (hb : ek0.x + e.direction_ennemis < 0 ∨ ek0.x + e.direction_ennemis ≥ e.largeur) :
    (etatjeu_mettre_a_jour e dt alea).direction_ennemis = -e.direction_ennemis ∧
    ∀ (k : Nat) (en : Entite), e.ennemis[k]? = some en →
      ∃ en2 : Entite, (etatjeu_mettre_a_jour e dt alea).ennemis[k]? = some en2 ∧
        en2.x = en.x ∧
        ((k : Int) < e.nombre_ennemis ∧ en2.vivant ≠ 0 → en2.y = en.y + 1) ∧
        (¬ ((k : Int) < e.nombre_ennemis ∧ en2.vivant ≠ 0) → en2.y = en.y) ∧
        (en2.vivant ≠ 0 → en.vivant ≠ 0) := by
  obtain ⟨hacc, hint, hdir, hnb, hlarg, _, _, hmc⟩ := phase_collisions_cadre e dt
  have hviv : nombre_ennemis_vivants (phase_collisions e dt) ≠ 0 :=
    vivants_ne_zero _ k0 ek0 (by rw [hnb]; exact hk0) h0 hv0
  have htb : touche_bord (phase_collisions e dt) = true :=
    (touche_bord_iff _).mpr ⟨k0, ek0, by rw [hnb]; exact hk0, h0, hv0, by rw [hdir, hlarg]; exact hb⟩
  have hdep := phase_deplacement_rebond (phase_collisions e dt) (by rw [hacc, hint]; exact ht) htb
  rw [maj_direction_ennemis, maj_ennemis, phase_reapparition_vivants alea _ hviv, hdep]
  refine ⟨by simp [hdir], ?_⟩
  intro k en hk
  obtain ⟨en2, hk2, hx2, hy2, _, _, hv2⟩ := hmc.2 k en hk
  simp only [List.getElem?_mapIdx, hk2, Option.map_some', hnb]
  by_cases hc : (k : Int) < e.nombre_ennemis ∧ en2.vivant ≠ 0
  · rw [if_pos hc]
    refine ⟨_, rfl, hx2, fun _ => by simp [hy2], fun h => absurd ⟨hc.1, ?_⟩ h, fun h => (hv2 h).1⟩
    exact hc.2
  · rw [if_neg hc]
    exact ⟨_, rfl, hx2, fun h => absurd h hc, fun _ => hy2, fun h => (hv2 h).1⟩

set_option maxRecDepth 100000 in
/-- C7, as stated, fails on `etat_bord_gauche_vise` with `dt = 1`: two enemies are alive, the
one on the left edge has `x + direction = -1`, the timer reaches the interval; that enemy is
shot earlier in the same tick, the survivor is not at an edge, and the update keeps the
direction -1 and moves the survivor from (5, 5) to (4, 5) instead of (5, 6). -/
theorem rebond_contre_exemple :
    etat_bord_gauche_vise.direction_ennemis = -1 ∧
    etat_bord_gauche_vise.ennemis[0]? = some ⟨0, 5, 1, 1, 1, 1⟩ ∧
    etat_bord_gauche_vise.ennemis[1]? = some ⟨5, 5, 1, 1, 1, 1⟩ ∧
    (etatjeu_mettre_a_jour etat_bord_gauche_vise 1 (fun _ => 50)).direction_ennemis = -1 ∧
    (etatjeu_mettre_a_jour etat_bord_gauche_vise 1 (fun _ => 50)).ennemis[1]? =
      some ⟨4, 5, 1, 1, 1, 1⟩ := by
  have hv : nombre_ennemis_vivants (phase_collisions etat_bord_gauche_vise 1) ≠ 0 := by decide
  have h := maj_avec_pas etat_bord_gauche_vise 1 (fun _ => 50)
    (by rw [if_neg hv]; norm_num [etat_bord_gauche_vise, etat_exemple]) (by decide)
  rw [maj_direction_ennemis, maj_ennemis, h.1, h.2]
  decide

set_option maxRecDepth 100000 in
/-- C7 (amended) on `etat_bord_gauche` with `dt = 1`: an alive enemy on x = 0, direction -1;
the update sets the direction to +1. -/
theorem rebond_temoin :
    etat_bord_gauche.ennemis[0]? = some ⟨0, 5, 1, 1, 1, 1⟩ ∧
    (etatjeu_mettre_a_jour etat_bord_gauche 1 (fun _ => 50)).direction_ennemis =
      -etat_bord_gauche.direction_ennemis :=
  ⟨by decide,
    (rebond etat_bord_gauche 1 (fun _ => 50) 0 ⟨0, 5, 1, 1, 1, 1⟩
      (by norm_num [etat_bord_gauche, etat_exemple]) (by decide) (by decide) (by decide)
      (by decide)).1⟩

/-- C8 (amended).  Tick in which the movement timer reaches the interval, at least one enemy
is still alive when the collision phase of the tick is over (slot `k0`), and every enemy alive
at the call has `x + direction` in `[0, largeur)`.  The update keeps the direction; every slot
keeps its `y`; a slot below `nombre_ennemis` that is alive after the update has the direction
added to its `x`; every other slot (dead, killed earlier in the same tick, or beyond the
count) keeps its `x`. -/
theorem pas_lateral (e : EtatJeu) (dt : ℚ) (alea : Nat → Nat) (k0 : Nat) (ek0 : Entite)
    (ht : e.acc_deplacement_ennemis + dt ≥ e.intervalle_deplacement_ennemis)
    (hk0 : (k0 : Int) < e.nombre_ennemis)
    (h0 : (phase_collisions e dt).ennemis[k0]? = some ek0) (hv0 : ek0.vivant ≠ 0)
    (hin : ∀ (k : Nat) (en : Entite), (k : Int) < e.nombre_ennemis → e.ennemis[k]? = some en →
      en.vivant ≠ 0 → 0 ≤ en.x + e.direction_ennemis ∧ en.x + e.direction_ennemis < e.largeur) :
    (etatjeu_mettre_a_jour e dt alea).direction_ennemis = e.direction_ennemis ∧
    ∀ (k : Nat) (en : Entite), e.ennemis[k]? = some en →
      ∃ en2 : Entite, (etatjeu_mettre_a_jour e dt alea).ennemis[k]? = some en2 ∧
        en2.y = en.y ∧
        ((k : Int) < e.nombre_ennemis ∧ en2.vivant ≠ 0 → en2.x = en.x + e.direction_ennemis) ∧
        (¬ ((k : Int) < e.nombre_ennemis ∧ en2.vivant ≠ 0) → en2.x = en.x) ∧
        (en2.vivant ≠ 0 → en.vivant ≠ 0) := by
  obtain ⟨hacc, hint, hdir, hnb, hlarg, _, _, hmc⟩ := phase_collisions_cadre e dt
  have hviv : nombre_ennemis_vivants (phase_collisions e dt) ≠ 0 :=
    vivants_ne_zero _ k0 ek0 (by rw [hnb]; exact hk0) h0 hv0
  have htb : touche_bord (phase_collisions e dt) = false := by
    rw [Bool.eq_false_iff]
    intro h
    obtain ⟨k, ek, hk, hek, hv, hout⟩ := (touche_bord_iff _).mp h
    rw [hnb] at hk
    rw [hdir, hlarg] at hout
    have hlt : k < (phase_collisions e dt).ennemis.length := lt_length_of_getElem? hek
    rw [hmc.1] at hlt
    obtain ⟨en2, hk2, hx2, _, _, _, hv2⟩ := hmc.2 k (e.ennemis[k]) (List.getElem?_eq_getElem hlt)
    rw [hek] at hk2
    cases hk2
    have := hin k _ hk (List.getElem?_eq_getElem hlt) (hv2 hv).1
    rw [← hx2] at this
    omega
  have hdep := phase_deplacement_pas (phase_collisions e dt) (by rw [hacc, hint]; exact ht) htb
  rw [maj_direction_ennemis, maj_ennemis, phase_reapparition_vivants alea _ hviv, hdep]
  refine ⟨by simp [hdir], ?_⟩
  intro k en hk
  obtain ⟨en2, hk2, hx2, hy2, _, _, hv2⟩ := hmc.2 k en hk
  simp only [List.getElem?_mapIdx, hk2, Option.map_some', hnb, hdir]
  by_cases hc : (k : Int) < e.nombre_ennemis ∧ en2.vivant ≠ 0
  · rw [if_pos hc]
    refine ⟨_, rfl, hy2, fun _ => by simp [hx2], fun h => absurd ⟨hc.1, ?_⟩ h, fun h => (hv2 h).1⟩
    exact hc.2
  · rw [if_neg hc]
    exact ⟨_, rfl, hy2, fun h => absurd h hc, fun _ => hx2, fun h => (hv2 h).1⟩

set_option maxRecDepth 100000 in
/-- C8, as stated, fails on `etat_dernier_ennemi` with `dt = 1`: one enemy is alive, on
(5, 5), with `x + direction = 6` in `[0, 40)`, and the timer reaches the interval; the enemy
is shot earlier in the same tick, the wave respawns and steps, and slot 0 ends on (3, 2)
instead of (6, 5). -/
theorem pas_lateral_contre_exemple :
    nombre_ennemis_vivants etat_dernier_ennemi = 1 ∧
    etat_dernier_ennemi.direction_ennemis = 1 ∧
    etat_dernier_ennemi.ennemis[0]? = some ⟨5, 5, 1, 1, 1, 1⟩ ∧
    (etatjeu_mettre_a_jour etat_dernier_ennemi 1 (fun _ => 0)).ennemis[0]? =
      some ⟨3, 2, 1, 2, 1, 1⟩ := by
  have hv : nombre_ennemis_vivants (phase_collisions etat_dernier_ennemi 1) = 0 := by decide
  have h := maj_avec_pas etat_dernier_ennemi 1 (fun _ => 0)
    (by rw [if_pos hv]; norm_num [etat_dernier_ennemi, etat_exemple]) (by decide)
  rw [maj_ennemis, h.1]
  decide

set_option maxRecDepth 100000 in
/-- C8 (amended) on `etat_en_marche` with `dt = 1`: two alive enemies away from the edges;
the update keeps the direction. -/
theorem pas_lateral_temoin :
    etat_en_marche.ennemis[0]? = some ⟨5, 5, 1, 1, 1, 1⟩ ∧
    (etatjeu_mettre_a_jour etat_en_marche 1 (fun _ => 50)).direction_ennemis =
      etat_en_marche.direction_ennemis :=
  ⟨by decide,
    (pas_lateral etat_en_marche 1 (fun _ => 50) 0 ⟨5, 5, 1, 1, 1, 1⟩
      (by norm_num [etat_en_marche, etat_exemple]) (by decide) (by decide) (by decide)
      (by
        intro k en _ hk hv
        have hm := List.getElem?_mem hk
        simp only [etat_en_marche, etat_exemple, List.cons_append, List.nil_append,
          List.mem_cons] at hm
        rcases hm with rfl | rfl | hm
        · decide
        · decide
        · rw [List.eq_of_mem_replicate hm] at hv
          exact absurd rfl hv)).1⟩

/-! ## C9 and C10: the commands -/

/-- C9.  For every width at least 1 and every integer `dir`, `etatjeu_deplacer_vaisseau` sets
the ship's x to `min(largeur - 1, max(0, x + dir))`, whatever the ship's x before; the result
lies in `[0, largeur)`; the ship on x = 0 moved by -1 stays on 0 and the ship on
x = largeur - 1 moved by +1 stays on largeur - 1. -/
theorem deplacer_vaisseau_borne (e : EtatJeu) (dir : Int) (hw : 1 ≤ e.largeur) :
    etatjeu_obtenir_vaisseau_x (etatjeu_deplacer_vaisseau e dir) =
      min (e.largeur - 1) (max 0 (e.joueur.x + dir)) ∧
    0 ≤ etatjeu_obtenir_vaisseau_x (etatjeu_deplacer_vaisseau e dir) ∧
    etatjeu_obtenir_vaisseau_x (etatjeu_deplacer_vaisseau e dir) < e.largeur ∧
    (e.joueur.x = 0 → dir = -1 →
      etatjeu_obtenir_vaisseau_x (etatjeu_deplacer_vaisseau e dir) = 0) ∧
    (e.joueur.x = e.largeur - 1 → dir = 1 →
      etatjeu_obtenir_vaisseau_x (etatjeu_deplacer_vaisseau e dir) = e.largeur - 1) := by
  have key : etatjeu_obtenir_vaisseau_x (etatjeu_deplacer_vaisseau e dir) =
      min (e.largeur - 1) (max 0 (e.joueur.x + dir)) := by
    unfold etatjeu_obtenir_vaisseau_x etatjeu_deplacer_vaisseau
    simp only []
    by_cases h1 : e.joueur.x + dir < 0
    · rw [if_pos h1]
      have h2 : ¬ ((0 : Int) ≥ e.largeur) := by omega
      simp only []
      rw [if_neg h2]
      simp only []
      rw [max_eq_left (le_of_lt h1), min_eq_right (by omega)]
    · rw [if_neg h1]
      simp only []
      by_cases h2 : e.joueur.x + dir ≥ e.largeur
      · rw [if_pos h2]
        simp only []
        rw [max_eq_right (by omega), min_eq_left (by omega)]
      · rw [if_neg h2]
        simp only []
        rw [max_eq_right (by omega), min_eq_right (by omega)]
  rw [key]
  refine ⟨rfl, ?_, ?_, ?_, ?_⟩
  · exact le_min (by omega) (le_max_left _ _)
  · exact lt_of_le_of_lt (min_le_left _ _) (by omega)
  · intro hx hd
    rw [hx, hd]
    simp
    exact hw
  · intro hx hd
    rw [hx, hd]
    simp

/-- C9 on `etat_en_marche` (width 40, ship on x = 20) moved by -1. -/
theorem deplacer_vaisseau_borne_temoin :
    etatjeu_obtenir_vaisseau_x (etatjeu_deplacer_vaisseau etat_en_marche (-1)) =
      min (etat_en_marche.largeur - 1) (max 0 (etat_en_marche.joueur.x + -1)) :=
  (deplacer_vaisseau_borne etat_en_marche (-1) (by decide)).1

/-- C10.  `etatjeu_vaisseau_tirer`: when slot `k` is the lowest-index inactive projectile
slot, it becomes the active projectile at (ship x, hauteur - 3) with `dy = -1` and owner 0,
every other slot is unchanged and the number of active projectiles rises by exactly 1; when
every slot is active the whole state is unchanged. -/
theorem vaisseau_tirer_effet (e : EtatJeu) :
    (∀ (k : Nat) (q : Projectile), e.projectiles[k]? = some q → q.actif = 0 →
      (∀ j < k, ∀ r, e.projectiles[j]? = some r → r.actif ≠ 0) →
      (etatjeu_vaisseau_tirer e).projectiles[k]? =
        some { x := e.joueur.x, y := e.hauteur - 3, dy := -1, proprietaire := 0, actif := 1 } ∧
      (∀ j, j ≠ k → (etatjeu_vaisseau_tirer e).projectiles[j]? = e.projectiles[j]?) ∧
      etatjeu_obtenir_nombre_projectiles (etatjeu_vaisseau_tirer e) =
        etatjeu_obtenir_nombre_projectiles e + 1) ∧
    ((∀ q ∈ e.projectiles, q.actif ≠ 0) → etatjeu_vaisseau_tirer e = e) := by
  constructor
  · intro k q hq ha hprem
    have hk : k < e.projectiles.length := lt_length_of_getElem? hq
    obtain ⟨l2, hl2⟩ := range_decoupe e.projectiles.length k hk
    have hres := ajouter_projectile_boucle_premier e e.joueur.x (ligne_vaisseau e - 1) (-1) 0
      (List.range k) l2 k q hq ha (fun j hj => hprem j (List.mem_range.mp hj))
    unfold etatjeu_vaisseau_tirer ajouter_projectile
    rw [hl2, hres]
    refine ⟨?_, ?_, ?_⟩
    · simp only [List.getElem?_set_self hk, ligne_vaisseau]
      congr 2
      ring
    · intro j hj
      simp only []
      rw [List.getElem?_set_ne (Ne.symm hj)]
    · unfold etatjeu_obtenir_nombre_projectiles
      simp only []
      rw [length_filter_set _ _ (by simp) e.projectiles k q hq (by simp [ha])]
      push_cast
      ring
  · intro hplein
    unfold etatjeu_vaisseau_tirer ajouter_projectile
    apply ajouter_projectile_boucle_plein
    intro j _ q hq
    exact hplein q (List.getElem?_mem hq)

/-- C10 on `etat_tir_au_but` (slot 0 active, slot 1 the first inactive one; ship on x = 20,
height 20): slot 1 receives the projectile (20, 17). -/
theorem vaisseau_tirer_effet_temoin :
    (etatjeu_vaisseau_tirer etat_tir_au_but).projectiles[1]? = some ⟨20, 17, -1, 0, 1⟩ ∧
    etatjeu_obtenir_nombre_projectiles (etatjeu_vaisseau_tirer etat_tir_au_but) =
      etatjeu_obtenir_nombre_projectiles etat_tir_au_but + 1 :=
  have h := (vaisseau_tirer_effet etat_tir_au_but).1 1 projectile_inactif (by decide)
    (by decide)
    (by
      intro j hj r hr
      interval_cases j
      cases hr
      decide)
  ⟨h.1, h.2.2⟩

/-! ## Lemmas: creation and reset -/

/-- At level 1 the creation loop body draws nothing and writes a weak enemy of health 1. -/
theorem corps_creation_niveau_1 (alea : Nat → Nat) (en : Entite) (x y : Int) (t : Nat) :
    corps_creation alea 1 en x y t =
      ({ en with vivant := 1, x := x, y := y, dmg := 1, sante := 1, type := TYPE_ENNEMI_FAIBLE },
        t) := by
  unfold corps_creation
  rw [if_neg (by decide)]

theorem corps_creation_sans_tirage (alea alea2 : Nat → Nat) :
    corps_creation alea 1 = corps_creation alea2 1 := by
  funext en x y t
  rw [corps_creation_niveau_1, corps_creation_niveau_1]

theorem filter_map_actif (l : List Projectile) :
    (l.map (fun p => ({ p with actif := 0 } : Projectile))).filter
      (fun p => decide (p.actif ≠ 0)) = [] := by
  rw [List.filter_eq_nil_iff]
  intro p hp
  obtain ⟨q, _, rfl⟩ := List.mem_map.mp hp
  simp

theorem filter_map_ttl (l : List Particule) :
    (l.map (fun p => ({ p with ttl := 0 } : Particule))).filter
      (fun p => decide (p.ttl > 0)) = [] := by
  rw [List.filter_eq_nil_iff]
  intro p hp
  obtain ⟨q, _, rfl⟩ := List.mem_map.mp hp
  simp

/-- Enemy grid written by `etatjeu_creer` in a pool of at least 24 slots. -/
theorem creer_grille (brut : EtatJeu) (largeur hauteur : Int) (alea : Nat → Nat)
    (hcap : 24 ≤ brut.ennemis.length) :
    (etatjeu_creer brut largeur hauteur alea).nombre_ennemis = 24 ∧
    (etatjeu_creer brut largeur hauteur alea).ennemis.length = brut.ennemis.length ∧
    ∀ r c : Nat, r < 3 → c < 8 →
      ∃ old : Entite, brut.ennemis[r * 8 + c]? = some old ∧
        (etatjeu_creer brut largeur hauteur alea).ennemis[r * 8 + c]? =
          some { old with
            vivant := 1
            x := 2 + (c : Int) * espacement_x largeur
            y := 2 + (r : Int) * 2
            dmg := 1
            sante := 1
            type := TYPE_ENNEMI_FAIBLE } := by
  obtain ⟨g1, _, g3, g4, _⟩ := grille_spec (corps_creation alea 1) 0
    (fun en x y t => by rw [corps_creation_niveau_1]; rfl) (espacement_x largeur) brut.ennemis hcap
  refine ⟨g1, g3, ?_⟩
  intro r c hr hc
  have hlt : r * 8 + c < brut.ennemis.length := by omega
  refine ⟨_, List.getElem?_eq_getElem hlt, ?_⟩
  show (grille (corps_creation alea 1) (espacement_x largeur)
    { ennemis := brut.ennemis, nombre_ennemis := 0, tirages := 0 }).ennemis[r * 8 + c]? = _
  rw [g4 r c hr hc, List.getElem?_eq_getElem hlt, Option.map_some', corps_creation_niveau_1]

/-- Enemy grid written by `etatjeu_reinitialiser` in a pool of at least 24 slots: `sante` and
`type` keep the value they had. -/
theorem reinitialiser_grille (e : EtatJeu) (hcap : 24 ≤ e.ennemis.length) :
    (etatjeu_reinitialiser e).nombre_ennemis = 24 ∧
    (etatjeu_reinitialiser e).ennemis.length = e.ennemis.length ∧
    ∀ r c : Nat, r < 3 → c < 8 →
      ∃ old : Entite, e.ennemis[r * 8 + c]? = some old ∧
        (etatjeu_reinitialiser e).ennemis[r * 8 + c]? =
          some { old with
            vivant := 1
            x := 2 + (c : Int) * espacement_x e.largeur
            y := 2 + (r : Int) * 2
            dmg := 1 } := by
  obtain ⟨g1, _, g3, g4, _⟩ := grille_spec corps_reinitialisation 0
    (fun en x y t => rfl) (espacement_x e.largeur) e.ennemis hcap
  refine ⟨g1, g3, ?_⟩
  intro r c hr hc
  have hlt : r * 8 + c < e.ennemis.length := by omega
  refine ⟨_, List.getElem?_eq_getElem hlt, ?_⟩
  show (grille corps_reinitialisation (espacement_x e.largeur)
    { ennemis := e.ennemis, nombre_ennemis := 0, tirages := 0 }).ennemis[r * 8 + c]? = _
  rw [g4 r c hr hc, List.getElem?_eq_getElem hlt, Option.map_some']
  rfl

/-- Slot `i` of a shield pool rewritten by the shield loop of creation and reset. -/
theorem boucliers_initiaux_case (l : List Entite) (largeur hauteur : Int) (i : Nat)
    (hi : i < l.length) :
    (l.mapIdx (fun i _ => bouclier_initial largeur hauteur i))[i]? =
      some (bouclier_initial largeur hauteur i) := by
  rw [List.getElem?_mapIdx, List.getElem?_eq_getElem hi]
  rfl

/-! ## Lemmas: capacities -/

theorem memes_capacites_refl (e : EtatJeu) : memes_capacites e e :=
  ⟨rfl, rfl, rfl, rfl, rfl, rfl, rfl, fun h => h, fun h => h⟩

theorem memes_capacites_trans {e1 e2 e3 : EtatJeu} (h12 : memes_capacites e1 e2)
    (h23 : memes_capacites e2 e3) : memes_capacites e1 e3 := by
  obtain ⟨a1, a2, a3, a4, a5, a6, a7, a8, a9⟩ := h12
  obtain ⟨b1, b2, b3, b4, b5, b6, b7, b8, b9⟩ := h23
  rw [a4] at b8
  rw [a6] at b9
  exact ⟨b1.trans a1, b2.trans a2, b3.trans a3, b4.trans a4, b5.trans a5, b6.trans a6,
    b7.trans a7, fun h => b8 (a8 h), fun h => b9 (a9 h)⟩

theorem premiere_particule_libre_lt :
    ∀ (l : List Particule) (idx : Nat), premiere_particule_libre l = some idx → idx < l.length := by
  intro l
  induction l with
  | nil => intro idx h; simp [premiere_particule_libre] at h
  | cons p ps ih =>
    intro idx h
    unfold premiere_particule_libre at h
    by_cases hp : p.ttl ≤ 0
    · rw [if_pos hp] at h
      cases h
      simp
    · rw [if_neg hp] at h
      cases hq : premiere_particule_libre ps with
      | none => rw [hq] at h; simp at h
      | some j =>
        rw [hq] at h
        simp only [Option.map_some', Option.some.injEq] at h
        have := ih j hq
        simp only [List.length_cons]
        omega

/-- The explosion loop keeps the capacity of the particle pool and a high-water count between
0 and the capacity. -/
theorem creer_explosion_boucle_capacite (x y t : Int) (ds : List (Int × Int)) :
    ∀ s : List Particule × Int,
      (creer_explosion_boucle x y t s ds).1.length = s.1.length ∧
      ((0 ≤ s.2 ∧ s.2 ≤ (s.1.length : Int)) →
        (0 ≤ (creer_explosion_boucle x y t s ds).2 ∧
          (creer_explosion_boucle x y t s ds).2 ≤ (s.1.length : Int))) := by
  induction ds with
  | nil => intro s; exact ⟨rfl, fun h => h⟩
  | cons d reste ih =>
    intro s
    unfold creer_explosion_boucle
    by_cases hn : s.2 < (NB_MAX_PARTICULES : Int)
    · rw [if_pos hn]
      cases hq : premiere_particule_libre s.1 with
      | none => exact ih s
      | some idx =>
        have hlt := premiere_particule_libre_lt s.1 idx hq
        obtain ⟨i1, i2⟩ := ih (s.1.set idx (particule_explosion x y t d),
          if (idx : Int) ≥ s.2 then (idx : Int) + 1 else s.2)
        simp only [List.length_set] at i1 i2
        refine ⟨i1, fun h => i2 ?_⟩
        by_cases hc : (idx : Int) ≥ s.2
        · rw [if_pos hc]; omega
        · rw [if_neg hc]; exact h
    · rw [if_neg hn]
      exact ⟨rfl, fun h => h⟩

theorem toucher_ennemi_capacites (e : EtatJeu) (i enn : Nat) (p : Projectile) (en : Entite) :
    memes_capacites e (toucher_ennemi e i enn p en) ∧
    (toucher_ennemi e i enn p en).nombre_ennemis = e.nombre_ennemis := by
  obtain ⟨c1, c2⟩ := creer_explosion_boucle_capacite en.x en.y en.type directions
    (e.particules, e.nombre_particules)
  rw [toucher_ennemi_eq]
  refine ⟨⟨rfl, rfl, ?_, ?_, rfl, ?_, rfl, fun h => h, ?_⟩, rfl⟩
  · simp only [List.length_set]
  · simp only [List.length_set]
  · show (if en.sante - 1 ≤ 0 then _ else _ : List Particule).length = _
    split_ifs
    · exact c1
    · rfl
  · intro h
    show 0 ≤ (if en.sante - 1 ≤ 0 then _ else _ : Int) ∧ (if en.sante - 1 ≤ 0 then _ else _ : Int) ≤ _
    split_ifs
    · exact c2 h
    · exact h

theorem toucher_bouclier_capacites (e : EtatJeu) (i b : Nat) (p : Projectile) (bo : Entite) :
    memes_capacites e (toucher_bouclier e i b p bo) ∧
    (toucher_bouclier e i b p bo).nombre_ennemis = e.nombre_ennemis := by
  obtain ⟨c1, c2⟩ := creer_explosion_boucle_capacite bo.x bo.y bo.type directions
    (e.particules, e.nombre_particules)
  rw [toucher_bouclier_eq]
  refine ⟨⟨rfl, rfl, rfl, ?_, ?_, ?_, rfl, fun h => h, ?_⟩, rfl⟩
  · simp only [List.length_set]
  · simp only [List.length_set]
  · show (if bo.sante - 1 ≤ 0 then _ else _ : List Particule).length = _
    split_ifs
    · exact c1
    · rfl
  · intro h
    show 0 ≤ (if bo.sante - 1 ≤ 0 then _ else _ : Int) ∧ (if bo.sante - 1 ≤ 0 then _ else _ : Int) ≤ _
    split_ifs
    · exact c2 h
    · exact h

theorem collision_ennemis_capacites (e : EtatJeu) (i : Nat) :
    memes_capacites e (collision_ennemis e i) ∧
    (collision_ennemis e i).nombre_ennemis = e.nombre_ennemis := by
  unfold collision_ennemis
  rcases collision_ennemis_boucle_cas e i (List.range e.nombre_ennemis.toNat) with
    h | ⟨enn, en, p, _, _, _, _, _, _, h⟩
  · rw [h]; exact ⟨memes_capacites_refl e, rfl⟩
  · rw [h]; exact toucher_ennemi_capacites e i enn p en

theorem collision_boucliers_capacites (e : EtatJeu) (i : Nat) :
    memes_capacites e (collision_boucliers e i) ∧
    (collision_boucliers e i).nombre_ennemis = e.nombre_ennemis := by
  unfold collision_boucliers
  rcases collision_boucliers_boucle_cas e i (List.range e.nombre_boucliers.toNat) with
    h | ⟨b, bo, p, _, _, _, _, _, _, h⟩
  · rw [h]; exact ⟨memes_capacites_refl e, rfl⟩
  · rw [h]; exact toucher_bouclier_capacites e i b p bo

theorem collision_vaisseau_capacites (e : EtatJeu) (i : Nat) :
    memes_capacites e (collision_vaisseau e i) ∧
    (collision_vaisseau e i).nombre_ennemis = e.nombre_ennemis := by
  obtain ⟨ps, v, g, h, hl⟩ := collision_vaisseau_forme e i
  rw [h]
  exact ⟨⟨rfl, rfl, rfl, hl, rfl, rfl, rfl, fun h => h, fun h => h⟩, rfl⟩

theorem memes_capacites_set_projectile (e : EtatJeu) (i : Nat) (p : Projectile) :
    memes_capacites e { e with projectiles := e.projectiles.set i p } :=
  ⟨rfl, rfl, rfl, by simp only [List.length_set], rfl, rfl, rfl, fun h => h, fun h => h⟩

theorem traiter_projectile_capacites (e : EtatJeu) (i : Nat) :
    memes_capacites e (traiter_projectile e i) ∧
    (traiter_projectile e i).nombre_ennemis = e.nombre_ennemis := by
  unfold traiter_projectile
  cases hp : e.projectiles[i]? with
  | none => exact ⟨memes_capacites_refl e, rfl⟩
  | some p =>
    simp only []
    by_cases ha : p.actif = 0
    · rw [if_pos ha]; exact ⟨memes_capacites_refl e, rfl⟩
    · rw [if_neg ha]
      have h1 := memes_capacites_set_projectile e i { p with y := p.y + p.dy }
      by_cases hb : p.y + p.dy < 0 ∨ p.y + p.dy ≥ e.hauteur
      · rw [if_pos hb]
        exact ⟨memes_capacites_trans h1 (memes_capacites_set_projectile _ i _), rfl⟩
      · rw [if_neg hb]
        by_cases ho : p.proprietaire = 0
        · rw [if_pos ho]
          obtain ⟨a1, a2⟩ := collision_ennemis_capacites
            { e with projectiles := e.projectiles.set i { p with y := p.y + p.dy } } i
          obtain ⟨b1, b2⟩ := collision_boucliers_capacites (collision_ennemis
            { e with projectiles := e.projectiles.set i { p with y := p.y + p.dy } } i) i
          exact ⟨memes_capacites_trans h1 (memes_capacites_trans a1 b1), b2.trans a2⟩
        · rw [if_neg ho]
          obtain ⟨a1, a2⟩ := collision_vaisseau_capacites
            { e with projectiles := e.projectiles.set i { p with y := p.y + p.dy } } i
          obtain ⟨b1, b2⟩ := collision_boucliers_capacites (collision_vaisseau
            { e with projectiles := e.projectiles.set i { p with y := p.y + p.dy } } i) i
          exact ⟨memes_capacites_trans h1 (memes_capacites_trans a1 b1), b2.trans a2⟩

theorem foldl_traiter_capacites (l : List Nat) :
    ∀ e : EtatJeu, memes_capacites e (l.foldl traiter_projectile e) ∧
      (l.foldl traiter_projectile e).nombre_ennemis = e.nombre_ennemis := by
  induction l with
  | nil => intro e; exact ⟨memes_capacites_refl e, rfl⟩
  | cons i reste ih =>
    intro e
    obtain ⟨a1, a2⟩ := traiter_projectile_capacites e i
    obtain ⟨b1, b2⟩ := ih (traiter_projectile e i)
    exact ⟨memes_capacites_trans a1 b1, b2.trans a2⟩

theorem phase_collisions_capacites (e : EtatJeu) (dt : ℚ) :
    memes_capacites e (phase_collisions e dt) ∧
    (phase_collisions e dt).nombre_ennemis = e.nombre_ennemis := by
  obtain ⟨a1, a2⟩ := foldl_traiter_capacites (List.range e.projectiles.length)
    ({ ({ e with temps_acc := e.temps_acc + dt } : EtatJeu) with
        particules := e.particules.map vieillir_particule } : EtatJeu)
  have h0 : memes_capacites e
      ({ ({ e with temps_acc := e.temps_acc + dt } : EtatJeu) with
        particules := e.particules.map vieillir_particule } : EtatJeu) :=
    ⟨rfl, rfl, rfl, rfl, rfl, by simp only [List.length_map], rfl, fun h => h, fun h => h⟩
  obtain ⟨c1, c2, c3, c4, c5, c6, c7, c8, c9⟩ := memes_capacites_trans h0 a1
  exact ⟨⟨c1, c2, c3, c4, c5, c6, c7, c8, c9⟩, a2⟩

theorem grille_colonnes_length (corps : Entite → Int → Int → Nat → Entite × Nat) (esp : Int)
    (r : Nat) (cs : List Nat) :
    ∀ g : Grille, (grille_colonnes corps esp r g cs).ennemis.length = g.ennemis.length := by
  induction cs with
  | nil => intro g; rfl
  | cons c reste ih =>
    intro g
    unfold grille_colonnes
    by_cases h : g.nombre_ennemis ≥ (g.ennemis.length : Int)
    · rw [if_pos h]
    · rw [if_neg h]
      cases hq : g.ennemis[g.nombre_ennemis.toNat]? with
      | none => rfl
      | some en =>
        simp only []
        rw [ih]
        simp only [List.length_set]

theorem grille_length (corps : Entite → Int → Int → Nat → Entite × Nat) (esp : Int) (g : Grille) :
    (grille corps esp g).ennemis.length = g.ennemis.length := by
  unfold grille
  simp only [List.foldl_cons, List.foldl_nil]
  rw [grille_colonnes_length, grille_colonnes_length, grille_colonnes_length]

theorem phase_reapparition_capacites (alea : Nat → Nat) (e : EtatJeu) :
    memes_capacites e (phase_reapparition alea e).1 := by
  unfold phase_reapparition
  by_cases h : nombre_ennemis_vivants e = 0
  · rw [if_pos h]
    exact ⟨rfl, rfl, grille_length _ _ _, rfl, rfl, rfl, rfl, fun h => h, fun h => h⟩
  · rw [if_neg h]
    exact memes_capacites_refl e

theorem phase_reapparition_nombre (alea : Nat → Nat) (e : EtatJeu) (hcap : 24 ≤ e.ennemis.length)
    (hn : e.nombre_ennemis = 24) : (phase_reapparition alea e).1.nombre_ennemis = 24 := by
  by_cases h : nombre_ennemis_vivants e = 0
  · rw [(phase_reapparition_vide alea e hcap h).1]
  · rw [phase_reapparition_vivants alea e h]
    exact hn

theorem phase_deplacement_capacites (e : EtatJeu) :
    memes_capacites e (phase_deplacement e) := by
  unfold phase_deplacement
  by_cases ht : e.acc_deplacement_ennemis ≥ e.intervalle_deplacement_ennemis
  · rw [if_pos ht]
    simp only []
    split_ifs
    · exact ⟨rfl, rfl, by simp only [List.length_mapIdx], rfl, rfl, rfl, rfl, fun h => h,
        fun h => h⟩
    · exact ⟨rfl, rfl, by simp only [List.length_mapIdx], rfl, rfl, rfl, rfl, fun h => h,
        fun h => h⟩
  · rw [if_neg ht]
    exact memes_capacites_refl e

theorem ajouter_projectile_boucle_capacites (e : EtatJeu) (x y dy o : Int) (l : List Nat) :
    memes_capacites e (ajouter_projectile_boucle e x y dy o l) ∧
    (ajouter_projectile_boucle e x y dy o l).nombre_ennemis = e.nombre_ennemis := by
  induction l with
  | nil => exact ⟨memes_capacites_refl e, rfl⟩
  | cons i reste ih =>
    unfold ajouter_projectile_boucle
    cases hp : e.projectiles[i]? with
    | none => exact ih
    | some p =>
      simp only []
      by_cases ha : p.actif = 0
      · rw [if_pos ha]
        have hlt : i < e.projectiles.length := lt_length_of_getElem? hp
        refine ⟨⟨rfl, rfl, rfl, by simp only [List.length_set], rfl, rfl, rfl, ?_, fun h => h⟩,
          rfl⟩
        intro h
        show 0 ≤ (if (i : Int) ≥ e.nombre_projectiles then (i : Int) + 1
            else e.nombre_projectiles) ∧
          (if (i : Int) ≥ e.nombre_projectiles then (i : Int) + 1
            else e.nombre_projectiles) ≤ (e.projectiles.length : Int)
        split_ifs <;> omega
      · rw [if_neg ha]
        exact ih

theorem phase_tir_ennemi_capacites (alea : Nat → Nat) (e : EtatJeu) (k : Nat) :
    memes_capacites e (phase_tir_ennemi alea e k) ∧
    (phase_tir_ennemi alea e k).nombre_ennemis = e.nombre_ennemis := by
  unfold phase_tir_ennemi
  split_ifs
  · cases h1 : (idxs e)[alea (k + 1) % (idxs e).length]? with
    | none => exact ⟨memes_capacites_refl e, rfl⟩
    | some pick =>
      simp only []
      cases h2 : e.ennemis[pick]? with
      | none => exact ⟨memes_capacites_refl e, rfl⟩
      | some en => exact ajouter_projectile_boucle_capacites e _ _ _ _ _
  · exact ⟨memes_capacites_refl e, rfl⟩
  · exact ⟨memes_capacites_refl e, rfl⟩

theorem phase_defaite_capacites (e : EtatJeu) :
    memes_capacites e (phase_defaite e) ∧ (phase_defaite e).nombre_ennemis = e.nombre_ennemis := by
  unfold phase_defaite
  split_ifs
  · exact ⟨⟨rfl, rfl, rfl, rfl, rfl, rfl, rfl, fun h => h, fun h => h⟩, rfl⟩
  · exact ⟨memes_capacites_refl e, rfl⟩

/-- One tick keeps the dimensions, the capacities and the shield count, and leaves the
projectile and particle high-water counts between 0 and the capacity. -/
theorem maj_capacites (e : EtatJeu) (dt : ℚ) (alea : Nat → Nat) :
    memes_capacites e (etatjeu_mettre_a_jour e dt alea) := by
  unfold etatjeu_mettre_a_jour
  simp only []
  exact memes_capacites_trans (phase_collisions_capacites e dt).1
    (memes_capacites_trans (phase_reapparition_capacites alea _)
      (memes_capacites_trans (phase_deplacement_capacites _)
        (memes_capacites_trans (phase_tir_ennemi_capacites alea _ _).1
          (phase_defaite_capacites _).1)))

/-- With an enemy pool of at least 24 slots, a tick keeps the enemy count 24. -/
theorem maj_nombre_24 (e : EtatJeu) (dt : ℚ) (alea : Nat → Nat) (hcap : 24 ≤ e.ennemis.length)
    (hn : e.nombre_ennemis = 24) : (etatjeu_mettre_a_jour e dt alea).nombre_ennemis = 24 := by
  obtain ⟨hc, hnb⟩ := phase_collisions_capacites e dt
  rw [maj_nombre_ennemis, (phase_deplacement_cadre _).2.2.1]
  exact phase_reapparition_nombre alea _ (by rw [hc.2.2.1]; exact hcap) (hnb.trans hn)

theorem deplacer_vaisseau_capacites (e : EtatJeu) (dir : Int) :
    memes_capacites e (etatjeu_deplacer_vaisseau e dir) ∧
    (etatjeu_deplacer_vaisseau e dir).nombre_ennemis = e.nombre_ennemis := by
  unfold etatjeu_deplacer_vaisseau
  simp only []
  split_ifs <;> exact ⟨⟨rfl, rfl, rfl, rfl, rfl, rfl, rfl, fun h => h, fun h => h⟩, rfl⟩

theorem vaisseau_tirer_capacites (e : EtatJeu) :
    memes_capacites e (etatjeu_vaisseau_tirer e) ∧
    (etatjeu_vaisseau_tirer e).nombre_ennemis = e.nombre_ennemis :=
  ajouter_projectile_boucle_capacites e _ _ _ _ _

theorem invariant_de_memes_capacites {brut : EtatJeu} {largeur hauteur : Int} {e e2 : EtatJeu}
    (h : invariant_capacites brut largeur hauteur e) (hm : memes_capacites e e2)
    (hn : e2.nombre_ennemis = e.nombre_ennemis) : invariant_capacites brut largeur hauteur e2 := by
  obtain ⟨a1, a2, a3, a4, a5, a6, a7, a8, a9, a10, a11, a12⟩ := h
  obtain ⟨b1, b2, b3, b4, b5, b6, b7, b8, b9⟩ := hm
  have c8 := b8 ⟨a9, a10⟩
  have c9 := b9 ⟨a11, a12⟩
  rw [← b4] at c8
  rw [← b6] at c9
  exact ⟨b1.trans a1, b2.trans a2, b3.trans a3, b4.trans a4, b5.trans a5, b6.trans a6,
    hn.trans a7, b7.trans a8, c8.1, c8.2, c9.1, c9.2⟩

theorem creer_invariant (brut : EtatJeu) (largeur hauteur : Int) (alea : Nat → Nat)
    (hcap : 24 ≤ brut.ennemis.length) :
    invariant_capacites brut largeur hauteur (etatjeu_creer brut largeur hauteur alea) := by
  obtain ⟨g1, g2, _⟩ := creer_grille brut largeur hauteur alea hcap
  refine ⟨rfl, rfl, g2, ?_, ?_, ?_, g1, rfl, le_refl _, ?_, le_refl _, ?_⟩
  · show (brut.projectiles.map _).length = _
    simp only [List.length_map]
  · show (brut.boucliers.mapIdx _).length = _
    simp only [List.length_mapIdx]
  · show (brut.particules.map _).length = _
    simp only [List.length_map]
  · show (0 : Int) ≤ _
    exact Int.ofNat_nonneg _
  · show (0 : Int) ≤ _
    exact Int.ofNat_nonneg _

theorem reinitialiser_invariant (brut : EtatJeu) (largeur hauteur : Int) (e : EtatJeu)
    (hcap : 24 ≤ brut.ennemis.length) (h : invariant_capacites brut largeur hauteur e) :
    invariant_capacites brut largeur hauteur (etatjeu_reinitialiser e) := by
  obtain ⟨a1, a2, a3, a4, a5, a6, a7, a8, a9, a10, a11, a12⟩ := h
  obtain ⟨g1, g2, _⟩ := reinitialiser_grille e (by rw [a3]; exact hcap)
  refine ⟨a1, a2, g2.trans a3, ?_, ?_, ?_, g1, a8, le_refl _, ?_, le_refl _, ?_⟩
  · show (e.projectiles.map _).length = _
    simp only [List.length_map]; exact a4
  · show (e.boucliers.mapIdx _).length = _
    simp only [List.length_mapIdx]; exact a5
  · show (e.particules.map _).length = _
    simp only [List.length_map]; exact a6
  · show (0 : Int) ≤ _
    exact Int.ofNat_nonneg _
  · show (0 : Int) ≤ _
    exact Int.ofNat_nonneg _

/-- Every reachable state of a game whose enemy pool has at least 24 slots satisfies the
capacity invariant. -/
theorem atteignable_invariant (brut : EtatJeu) (largeur hauteur : Int)
    (hcap : 24 ≤ brut.ennemis.length) (e : EtatJeu) (h : Atteignable brut largeur hauteur e) :
    invariant_capacites brut largeur hauteur e := by
  induction h with
  | creer alea => exact creer_invariant brut largeur hauteur alea hcap
  | mettre_a_jour e dt alea _ _ ih =>
    have hn := maj_nombre_24 e dt alea (by rw [ih.2.2.1]; exact hcap) ih.2.2.2.2.2.2.1
    exact invariant_de_memes_capacites ih (maj_capacites e dt alea)
      (hn.trans ih.2.2.2.2.2.2.1.symm)
  | deplacer_vaisseau e dir _ ih =>
    exact invariant_de_memes_capacites ih (deplacer_vaisseau_capacites e dir).1
      (deplacer_vaisseau_capacites e dir).2
  | vaisseau_tirer e _ ih =>
    exact invariant_de_memes_capacites ih (vaisseau_tirer_capacites e).1
      (vaisseau_tirer_capacites e).2
  | reinitialiser e _ ih => exact reinitialiser_invariant brut largeur hauteur e hcap ih
  | definir_quitter e q _ ih => exact ih

theorem vivants_24 (e : EtatJeu) (hnb : e.nombre_ennemis = 24)
    (hviv : ∀ j : Nat, j < 24 → ∃ en : Entite, e.ennemis[j]? = some en ∧ en.vivant = 1) :
    nombre_ennemis_vivants e = 24 := by
  unfold nombre_ennemis_vivants
  rw [hnb]
  have : (24 : Int).toNat = 24 := rfl
  rw [this, List.filter_eq_self.mpr, List.length_range]
  intro j hj
  obtain ⟨en, hen, hv⟩ := hviv j (List.mem_range.mp hj)
  simp [hen, hv]

/-! ## C13: the state returned by `etatjeu_creer` -/

/-- C13.  For every width and height, every content of the allocated block and every random
source, when the enemy pool has at least 24 slots, `etatjeu_creer` returns a state with ship
x = `largeur / 2`, 3 lives, score 0, level 1, game-over 0, quit 0, no active projectile, no
particle with `ttl > 0`, an enemy count of exactly 24 with 24 alive enemies, the enemy of slot
`r*8 + c` (`r < 3`, `c < 8`) being alive, weak, of health 1, on
`x = 2 + c * max(2, (largeur - 4) / 8)`, `y = 2 + 2r`; and the state returned is the same for
any other random source. -/
theorem creer_etat_initial (brut : EtatJeu) (largeur hauteur : Int) (alea : Nat → Nat)
    (hcap : 24 ≤ brut.ennemis.length) :
    etatjeu_obtenir_vaisseau_x (etatjeu_creer brut largeur hauteur alea) = Int.tdiv largeur 2 ∧
    etatjeu_obtenir_vies (etatjeu_creer brut largeur hauteur alea) = 3 ∧
    etatjeu_obtenir_score (etatjeu_creer brut largeur hauteur alea) = 0 ∧
    etatjeu_obtenir_niveau (etatjeu_creer brut largeur hauteur alea) = 1 ∧
    etatjeu_est_game_over (etatjeu_creer brut largeur hauteur alea) = 0 ∧
    etatjeu_devrait_quitter (etatjeu_creer brut largeur hauteur alea) = 0 ∧
    etatjeu_obtenir_nombre_projectiles (etatjeu_creer brut largeur hauteur alea) = 0 ∧
    etatjeu_obtenir_nombre_particules (etatjeu_creer brut largeur hauteur alea) = 0 ∧
    etatjeu_obtenir_nombre_ennemis (etatjeu_creer brut largeur hauteur alea) = 24 ∧
    nombre_ennemis_vivants (etatjeu_creer brut largeur hauteur alea) = 24 ∧
    (∀ r c : Nat, r < 3 → c < 8 →
      ∃ en : Entite, (etatjeu_creer brut largeur hauteur alea).ennemis[r * 8 + c]? = some en ∧
        en.vivant = 1 ∧ en.type = TYPE_ENNEMI_FAIBLE ∧ en.sante = 1 ∧
        en.x = 2 + (c : Int) * max 2 (Int.tdiv (largeur - 4) 8) ∧ en.y = 2 + 2 * (r : Int)) ∧
    ∀ alea2 : Nat → Nat,
      etatjeu_creer brut largeur hauteur alea2 = etatjeu_creer brut largeur hauteur alea := by
  obtain ⟨g1, _, g3⟩ := creer_grille brut largeur hauteur alea hcap
  have hgrille : ∀ r c : Nat, r < 3 → c < 8 →
      ∃ en : Entite, (etatjeu_creer brut largeur hauteur alea).ennemis[r * 8 + c]? = some en ∧
        en.vivant = 1 ∧ en.type = TYPE_ENNEMI_FAIBLE ∧ en.sante = 1 ∧
        en.x = 2 + (c : Int) * max 2 (Int.tdiv (largeur - 4) 8) ∧ en.y = 2 + 2 * (r : Int) := by
    intro r c hr hc
    obtain ⟨old, _, h⟩ := g3 r c hr hc
    exact ⟨_, h, rfl, rfl, rfl, by rw [← espacement_x_eq_max], mul_comm (r : Int) 2 ▸ rfl⟩
  refine ⟨rfl, rfl, rfl, rfl, rfl, rfl, ?_, ?_, g1, ?_, hgrille, ?_⟩
  · show (((brut.projectiles.map (fun p => ({ p with actif := 0 } : Projectile))).filter
      (fun p => decide (p.actif ≠ 0))).length : Int) = 0
    rw [filter_map_actif]; rfl
  · show (((brut.particules.map (fun p => ({ p with ttl := 0 } : Particule))).filter
      (fun p => decide (p.ttl > 0))).length : Int) = 0
    rw [filter_map_ttl]; rfl
  · apply vivants_24 _ g1
    intro j hj
    obtain ⟨en, h, hv, _⟩ := hgrille (j / 8) (j % 8) (by omega) (Nat.mod_lt _ (by norm_num))
    have hj8 : j / 8 * 8 + j % 8 = j := by omega
    rw [hj8] at h
    exact ⟨en, h, hv⟩
  · intro alea2
    unfold etatjeu_creer
    simp only []
    rw [corps_creation_sans_tirage alea2 alea]

/-- C13 on a block with 24 enemy slots, width 36, height 10: the ship is on x = 18, the enemy
count is 24 and the created state does not depend on the draws. -/
theorem creer_etat_initial_temoin :
    24 ≤ memoire_brute.ennemis.length ∧
    etatjeu_obtenir_vaisseau_x (etatjeu_creer memoire_brute 36 10 alea_calme) = 18 ∧
    etatjeu_obtenir_nombre_ennemis (etatjeu_creer memoire_brute 36 10 alea_calme) = 24 ∧
    nombre_ennemis_vivants (etatjeu_creer memoire_brute 36 10 alea_calme) = 24 ∧
    etatjeu_creer memoire_brute 36 10 alea_dizaines =
      etatjeu_creer memoire_brute 36 10 alea_calme :=
  have h := creer_etat_initial memoire_brute 36 10 alea_calme (by decide)
  ⟨by decide, h.1, h.2.2.2.2.2.2.2.2.1, h.2.2.2.2.2.2.2.2.2.1,
    h.2.2.2.2.2.2.2.2.2.2.2 alea_dizaines⟩

/-! ## C11 and C12: `etatjeu_reinitialiser` -/

/-- C11.  Enemy pool of at least 24 slots and shield pool of at least 4 slots (the capacities
of `model.h`, which is not among the sources, are parameters).  For
every state reachable from `etatjeu_creer brut largeur hauteur` (by ticks, ship moves, shots,
quit-flag writes, and resets too), `etatjeu_reinitialiser` yields score 0, 3 lives, level 1,
game-over 0, quit 0, ship x = `largeur / 2`, direction +1, no active projectile, no particle
with `ttl > 0`, an enemy count of 24 with slot `r*8 + c` alive on
`(2 + c * max(2, (largeur - 4) / 8), 2 + 2r)`, a shield count of 4 with shield `i` alive, of
health 3, on `((largeur / 5) * (i + 1), hauteur / 2)`; the enemies of slots `0..23` and all
the shields are on the positions they have right after creation. -/
theorem reinitialiser_etat_initial (brut : EtatJeu) (largeur hauteur : Int) (e : EtatJeu)
    (hcap : 24 ≤ brut.ennemis.length) (hcapb : 4 ≤ brut.boucliers.length)
    (h : Atteignable brut largeur hauteur e) :
    etatjeu_obtenir_score (etatjeu_reinitialiser e) = 0 ∧
    etatjeu_obtenir_vies (etatjeu_reinitialiser e) = 3 ∧
    etatjeu_obtenir_niveau (etatjeu_reinitialiser e) = 1 ∧
    etatjeu_est_game_over (etatjeu_reinitialiser e) = 0 ∧
    etatjeu_devrait_quitter (etatjeu_reinitialiser e) = 0 ∧
    etatjeu_obtenir_vaisseau_x (etatjeu_reinitialiser e) = Int.tdiv largeur 2 ∧
    (etatjeu_reinitialiser e).direction_ennemis = 1 ∧
    etatjeu_obtenir_nombre_projectiles (etatjeu_reinitialiser e) = 0 ∧
    etatjeu_obtenir_nombre_particules (etatjeu_reinitialiser e) = 0 ∧
    etatjeu_obtenir_nombre_ennemis (etatjeu_reinitialiser e) = 24 ∧
    (∀ r c : Nat, r < 3 → c < 8 →
      ∃ en : Entite, (etatjeu_reinitialiser e).ennemis[r * 8 + c]? = some en ∧
        en.vivant = 1 ∧
        en.x = 2 + (c : Int) * max 2 (Int.tdiv (largeur - 4) 8) ∧ en.y = 2 + 2 * (r : Int)) ∧
    etatjeu_obtenir_nombre_boucliers (etatjeu_reinitialiser e) = 4 ∧
    (∀ i : Nat, i < 4 →
      ∃ bo : Entite, (etatjeu_reinitialiser e).boucliers[i]? = some bo ∧
        bo.vivant = 1 ∧ bo.sante = 3 ∧
        bo.x = Int.tdiv largeur 5 * ((i : Int) + 1) ∧ bo.y = Int.tdiv hauteur 2) ∧
    (∀ (alea : Nat → Nat) (j : Nat), j < 24 →
      ((etatjeu_reinitialiser e).ennemis[j]?).map (fun en => (en.x, en.y)) =
        ((etatjeu_creer brut largeur hauteur alea).ennemis[j]?).map (fun en => (en.x, en.y))) ∧
    (∀ (alea : Nat → Nat) (i : Nat),
      ((etatjeu_reinitialiser e).boucliers[i]?).map (fun bo => (bo.x, bo.y)) =
        ((etatjeu_creer brut largeur hauteur alea).boucliers[i]?).map
          (fun bo => (bo.x, bo.y))) := by
  obtain ⟨a1, a2, a3, _, a5, _, _, a8, _⟩ := atteignable_invariant brut largeur hauteur hcap e h
  obtain ⟨g1, _, g3⟩ := reinitialiser_grille e (by rw [a3]; exact hcap)
  refine ⟨rfl, rfl, rfl, rfl, rfl, ?_, rfl, ?_, ?_, g1, ?_, a8, ?_, ?_, ?_⟩
  · show Int.tdiv e.largeur 2 = _
    rw [a1]
  · show (((e.projectiles.map (fun p => ({ p with actif := 0 } : Projectile))).filter
      (fun p => decide (p.actif ≠ 0))).length : Int) = 0
    rw [filter_map_actif]; rfl
  · show (((e.particules.map (fun p => ({ p with ttl := 0 } : Particule))).filter
      (fun p => decide (p.ttl > 0))).length : Int) = 0
    rw [filter_map_ttl]; rfl
  · intro r c hr hc
    obtain ⟨old, _, hs⟩ := g3 r c hr hc
    rw [a1] at hs
    exact ⟨_, hs, rfl, by rw [← espacement_x_eq_max], mul_comm (r : Int) 2 ▸ rfl⟩
  · intro i hi
    have hs := boucliers_initiaux_case e.boucliers e.largeur e.hauteur i (by rw [a5]; omega)
    refine ⟨_, hs, rfl, rfl, ?_, ?_⟩
    · show Int.tdiv e.largeur 5 * ((i : Int) + 1) = _
      rw [a1]
    · show Int.tdiv e.hauteur 2 = _
      rw [a2]
  · intro alea j hj
    obtain ⟨_, _, hr⟩ := g3 (j / 8) (j % 8) (by omega) (Nat.mod_lt _ (by norm_num))
    obtain ⟨_, _, hc⟩ := (creer_grille brut largeur hauteur alea hcap).2.2 (j / 8) (j % 8)
      (by omega) (Nat.mod_lt _ (by norm_num))
    have hj8 : j / 8 * 8 + j % 8 = j := by omega
    rw [hj8] at hr hc
    rw [hr, hc, a1]
    rfl
  · intro alea i
    show ((e.boucliers.mapIdx (fun i _ => bouclier_initial e.largeur e.hauteur i))[i]?).map _ =
      ((brut.boucliers.mapIdx (fun i _ => bouclier_initial largeur hauteur i))[i]?).map _
    rw [a1, a2]
    by_cases hi : i < brut.boucliers.length
    · rw [boucliers_initiaux_case _ _ _ _ (by rw [a5]; exact hi),
        boucliers_initiaux_case _ _ _ _ hi]
    · have h1 : i ≥ (e.boucliers.mapIdx
          (fun i _ => bouclier_initial largeur hauteur i)).length := by
        rw [List.length_mapIdx, a5]; omega
      have h2 : i ≥ (brut.boucliers.mapIdx
          (fun i _ => bouclier_initial largeur hauteur i)).length := by
        rw [List.length_mapIdx]; omega
      rw [List.getElem?_eq_none h1, List.getElem?_eq_none h2]

/-- C11 on `etat_apres_tir`, reachable in a 36 x 10 game: after the reset the ship is
on x = 18, no projectile is active and the enemy count is 24. -/
theorem reinitialiser_etat_initial_temoin :
    24 ≤ memoire_brute.ennemis.length ∧ 4 ≤ memoire_brute.boucliers.length ∧
    Atteignable memoire_brute 36 10 etat_apres_tir ∧
    etatjeu_obtenir_nombre_projectiles etat_apres_tir = 1 ∧
    etatjeu_obtenir_vaisseau_x (etatjeu_reinitialiser etat_apres_tir) = 18 ∧
    etatjeu_obtenir_nombre_projectiles (etatjeu_reinitialiser etat_apres_tir) = 0 ∧
    etatjeu_obtenir_nombre_ennemis (etatjeu_reinitialiser etat_apres_tir) = 24 :=
  have ha : Atteignable memoire_brute 36 10 etat_apres_tir :=
    Atteignable.vaisseau_tirer _ (Atteignable.creer alea_calme)
  have h := reinitialiser_etat_initial memoire_brute 36 10 etat_apres_tir (by decide)
    (by decide) ha
  ⟨by decide, by decide, ha, by decide, h.2.2.2.2.2.1, h.2.2.2.2.2.2.2.1,
    h.2.2.2.2.2.2.2.2.2.1⟩

/-- C12.  `etatjeu_reinitialiser` does not write the health and the variant of the enemies:
in a pool of at least 24 slots, each of the slots `0..23` is alive after the reset with the
`sante` and the `type` it had before, whatever they were. -/
theorem reinitialiser_conserve_sante (e : EtatJeu) (hcap : 24 ≤ e.ennemis.length) (j : Nat)
    (hj : j < 24) :
    ∃ avant apres : Entite, e.ennemis[j]? = some avant ∧
      (etatjeu_reinitialiser e).ennemis[j]? = some apres ∧
      etatjeu_ennemi_vivant (etatjeu_reinitialiser e) j = some 1 ∧
      etatjeu_obtenir_ennemi_sante (etatjeu_reinitialiser e) j = some avant.sante ∧
      apres.sante = avant.sante ∧ apres.type = avant.type := by
  obtain ⟨g1, _, g3⟩ := reinitialiser_grille e hcap
  obtain ⟨old, h1, h2⟩ := g3 (j / 8) (j % 8) (by omega) (Nat.mod_lt _ (by norm_num))
  have hj8 : j / 8 * 8 + j % 8 = j := by omega
  rw [hj8] at h1 h2
  have hg : (j : Int) ≥ 0 ∧ (j : Int) < (etatjeu_reinitialiser e).nombre_ennemis := by
    rw [g1]; omega
  refine ⟨old, _, h1, h2, ?_, ?_, rfl, rfl⟩
  · unfold etatjeu_ennemi_vivant lire_ennemi
    rw [if_pos hg, Int.toNat_ofNat, h2]
    rfl
  · unfold etatjeu_obtenir_ennemi_sante lire_ennemi
    rw [if_pos hg, Int.toNat_ofNat, h2]
    rfl

set_option maxRecDepth 100000 in
/-- C12 on `etat_ennemi_tue` (reachable: creation of a 36 x 10 game, one shot, one tick): the
enemy of slot 20 is dead with health 0 before the reset, alive with health 0 after it, whereas
creation gives it health 1. -/
theorem reinitialiser_conserve_sante_temoin :
    Atteignable memoire_brute 36 10 etat_ennemi_tue ∧
    24 ≤ etat_ennemi_tue.ennemis.length ∧
    etatjeu_ennemi_vivant etat_ennemi_tue 20 = some 0 ∧
    etatjeu_obtenir_ennemi_sante etat_ennemi_tue 20 = some 0 ∧
    etatjeu_ennemi_vivant (etatjeu_reinitialiser etat_ennemi_tue) 20 = some 1 ∧
    etatjeu_obtenir_ennemi_sante (etatjeu_reinitialiser etat_ennemi_tue) 20 = some 0 ∧
    etatjeu_obtenir_ennemi_sante (etatjeu_creer memoire_brute 36 10 alea_calme) 20 = some 1 := by
  have ha : Atteignable memoire_brute 36 10 etat_ennemi_tue :=
    Atteignable.mettre_a_jour _ 0 alea_calme
      (Atteignable.vaisseau_tirer _ (Atteignable.creer alea_calme)) (le_refl 0)
  have hcap : 24 ≤ etat_ennemi_tue.ennemis.length := by with_unfolding_all decide
  have hs : etatjeu_obtenir_ennemi_sante etat_ennemi_tue 20 = some 0 := by
    with_unfolding_all decide
  obtain ⟨avant, apres, h1, _, h3, h4, _⟩ :=
    reinitialiser_conserve_sante etat_ennemi_tue hcap 20 (by decide)
  have h0 : avant.sante = 0 := by
    have hs2 : etatjeu_obtenir_ennemi_sante etat_ennemi_tue 20 = some avant.sante := by
      unfold etatjeu_obtenir_ennemi_sante lire_ennemi
      rw [if_pos (by with_unfolding_all decide)]
      exact congrArg (Option.map (fun en => en.sante)) h1
    rw [hs] at hs2
    exact (Option.some.inj hs2).symm
  rw [h0] at h4
  exact ⟨ha, hcap, by with_unfolding_all decide, hs, h3, h4, by decide⟩

/-! ## C17: count accessors -/

/-- Counting the slots of a list that satisfy `P` by index or by filtering the list gives the
same number. -/
theorem length_filter_indices {α : Type} (P : α → Bool) (l : List α) :
    compter_cases P l = (l.filter P).length := by
  unfold compter_cases
  induction l using List.reverseRecOn with
  | nil => rfl
  | append_singleton l a ih =>
    rw [List.length_append, List.length_singleton, List.range_succ, List.filter_append,
      List.filter_append, List.length_append, List.length_append, ← ih]
    congr 1
    · congr 1
      apply List.filter_congr
      intro i hi
      rw [List.getElem?_append_left (List.mem_range.mp hi)]
    · have h : (l ++ [a])[l.length]? = some a := by
        rw [List.getElem?_append_right (le_refl _)]
        simp
      simp only [List.filter_cons, List.filter_nil, h]
      split_ifs <;> rfl

theorem length_filter_range_le (n : Nat) (P : Nat → Bool) :
    ((List.range n).filter P).length ≤ n := by
  have h := List.length_filter_le P (List.range n)
  rw [List.length_range] at h
  exact h

/-- C17 (amended).  In every state the projectile count accessor returns the number of slots
holding an active projectile and the particle count accessor the number of slots holding a
particle with `ttl > 0`.  In every reachable state (enemy pool of at least 24 slots) the enemy
count accessor returns 24 and the shield count accessor 4: the numbers of slots in use, which
are upper bounds of the numbers of alive enemies and alive shields. -/
theorem compteurs (brut : EtatJeu) (largeur hauteur : Int) (e : EtatJeu)
    (hcap : 24 ≤ brut.ennemis.length) (h : Atteignable brut largeur hauteur e) :
    etatjeu_obtenir_nombre_projectiles e = (nombre_projectiles_actifs e : Int) ∧
    etatjeu_obtenir_nombre_particules e = (nombre_particules_vives e : Int) ∧
    etatjeu_obtenir_nombre_ennemis e = 24 ∧
    (nombre_ennemis_vivants e : Int) ≤ etatjeu_obtenir_nombre_ennemis e ∧
    etatjeu_obtenir_nombre_boucliers e = 4 ∧
    (nombre_boucliers_vivants e : Int) ≤ etatjeu_obtenir_nombre_boucliers e := by
  obtain ⟨_, _, _, _, _, _, a7, a8, _⟩ := atteignable_invariant brut largeur hauteur hcap e h
  refine ⟨?_, ?_, a7, ?_, a8, ?_⟩
  · unfold etatjeu_obtenir_nombre_projectiles nombre_projectiles_actifs
    rw [length_filter_indices]
  · unfold etatjeu_obtenir_nombre_particules nombre_particules_vives
    rw [length_filter_indices]
  · unfold etatjeu_obtenir_nombre_ennemis nombre_ennemis_vivants
    rw [a7]
    exact_mod_cast length_filter_range_le _ _
  · unfold etatjeu_obtenir_nombre_boucliers nombre_boucliers_vivants
    rw [a8]
    exact_mod_cast length_filter_range_le _ _

set_option maxRecDepth 100000 in
/-- C17 (amended) on `etat_apres_tir`: one active projectile, counted by the accessor; enemy
count accessor 24, shield count accessor 4. -/
theorem compteurs_temoin :
    24 ≤ memoire_brute.ennemis.length ∧ Atteignable memoire_brute 36 10 etat_apres_tir ∧
    nombre_projectiles_actifs etat_apres_tir = 1 ∧
    etatjeu_obtenir_nombre_projectiles etat_apres_tir = 1 ∧
    etatjeu_obtenir_nombre_ennemis etat_apres_tir = 24 ∧
    etatjeu_obtenir_nombre_boucliers etat_apres_tir = 4 :=
  have ha : Atteignable memoire_brute 36 10 etat_apres_tir :=
    Atteignable.vaisseau_tirer _ (Atteignable.creer alea_calme)
  have h := compteurs memoire_brute 36 10 etat_apres_tir (by decide) ha
  have h1 : nombre_projectiles_actifs etat_apres_tir = 1 := by decide
  ⟨by decide, ha, h1, by rw [h.1, h1]; rfl, h.2.2.1, h.2.2.2.2.1⟩

set_option maxRecDepth 100000 in
/-- C17 as stated fails for the enemy and shield pools.  In `etat_ennemi_tue` (reachable:
creation, one shot, one tick) 23 enemies are alive and the enemy count accessor returns 24; in
`etat_bouclier_detruit` (reachable: creation, three moves, three times a shot and two ticks)
3 shields are alive and the shield count accessor returns 4. -/
theorem compteurs_contre_exemple :
    (Atteignable memoire_brute 36 10 etat_ennemi_tue ∧
      nombre_ennemis_vivants etat_ennemi_tue = 23 ∧
      etatjeu_obtenir_nombre_ennemis etat_ennemi_tue = 24) ∧
    (Atteignable memoire_brute 36 10 etat_bouclier_detruit ∧
      nombre_boucliers_vivants etat_bouclier_detruit = 3 ∧
      etatjeu_obtenir_nombre_boucliers etat_bouclier_detruit = 4) := by
  have t : ∀ e, Atteignable memoire_brute 36 10 e →
      Atteignable memoire_brute 36 10 (tir_et_deux_pas e) := fun e he =>
    Atteignable.mettre_a_jour _ 0 alea_calme
      (Atteignable.mettre_a_jour _ 0 alea_calme (Atteignable.vaisseau_tirer _ he) (le_refl 0))
      (le_refl 0)
  refine ⟨⟨?_, by with_unfolding_all decide, by with_unfolding_all decide⟩,
    ⟨?_, by with_unfolding_all decide, by with_unfolding_all decide⟩⟩
  · exact Atteignable.mettre_a_jour _ 0 alea_calme
      (Atteignable.vaisseau_tirer _ (Atteignable.creer alea_calme)) (le_refl 0)
  · exact t _ (t _ (t _ (Atteignable.deplacer_vaisseau _ 1 (Atteignable.deplacer_vaisseau _ 1
      (Atteignable.deplacer_vaisseau _ 1 (Atteignable.creer alea_calme))))))

/-! ## C18 and C19: per-index accessors -/

/-- The `k`-th element of a filtered list sits in a slot of the list that satisfies the
predicate and has exactly `k` satisfying slots before it. -/
theorem filter_getElem_case {α : Type} (P : α → Bool) :
    ∀ (l : List α) (k : Nat), k < (l.filter P).length →
      ∃ (i : Nat) (x : α), l[i]? = some x ∧ P x = true ∧
        ((l.take i).filter P).length = k ∧ (l.filter P)[k]? = some x := by
  intro l
  induction l with
  | nil => intro k hk; simp at hk
  | cons a t ih =>
    intro k hk
    by_cases ha : P a = true
    · rw [List.filter_cons_of_pos ha] at hk ⊢
      cases k with
      | zero => exact ⟨0, a, List.getElem?_cons_zero, ha, rfl, List.getElem?_cons_zero⟩
      | succ k =>
        obtain ⟨i, x, h1, h2, h3, h4⟩ := ih k (by simpa using hk)
        refine ⟨i + 1, x, by simpa using h1, h2, ?_, by simpa using h4⟩
        rw [List.take_succ_cons, List.filter_cons_of_pos ha, List.length_cons, h3]
    · rw [List.filter_cons_of_neg ha] at hk ⊢
      obtain ⟨i, x, h1, h2, h3, h4⟩ := ih k hk
      refine ⟨i + 1, x, by simpa using h1, h2, ?_, h4⟩
      rw [List.take_succ_cons, List.filter_cons_of_neg ha, h3]

/-- The projectile scan started with `seen <= idx` returns the field of the element of rank
`idx - seen` among the active slots still to visit, 0 when there is none. -/
theorem parcourir_projectiles_spec (f : Projectile → Int) (idx : Int) :
    ∀ (l : List Projectile) (seen : Int), seen ≤ idx →
      parcourir_projectiles f idx l seen =
        (((l.filter (fun p => decide (p.actif ≠ 0)))[(idx - seen).toNat]?).map f).getD 0 := by
  intro l
  induction l with
  | nil => intro seen _; rfl
  | cons p ps ih =>
    intro seen hs
    unfold parcourir_projectiles
    by_cases ha : p.actif = 0
    · rw [if_pos ha, List.filter_cons_of_neg (by simpa using ha)]
      exact ih seen hs
    · rw [if_neg ha, List.filter_cons_of_pos (by simpa using ha)]
      by_cases he : seen = idx
      · rw [if_pos he, he, sub_self, Int.toNat_zero, List.getElem?_cons_zero]
        rfl
      · rw [if_neg he, ih (seen + 1) (by omega)]
        have : (idx - seen).toNat = (idx - (seen + 1)).toNat + 1 := by omega
        rw [this, List.getElem?_cons_succ]

theorem parcourir_projectiles_negatif (f : Projectile → Int) (idx : Int) :
    ∀ (l : List Projectile) (seen : Int), idx < seen →
      parcourir_projectiles f idx l seen = 0 := by
  intro l
  induction l with
  | nil => intro seen _; rfl
  | cons p ps ih =>
    intro seen hs
    unfold parcourir_projectiles
    by_cases ha : p.actif = 0
    · rw [if_pos ha]; exact ih seen hs
    · rw [if_neg ha, if_neg (by omega)]
      exact ih (seen + 1) (by omega)

/-- The particle scan started with `seen <= idx` returns the field of the element of rank
`idx - seen` among the live slots still to visit, 0 when there is none. -/
theorem parcourir_particules_spec (f : Particule → Int) (idx : Int) :
    ∀ (l : List Particule) (seen : Int), seen ≤ idx →
      parcourir_particules f idx l seen =
        (((l.filter (fun p => decide (p.ttl > 0)))[(idx - seen).toNat]?).map f).getD 0 := by
  intro l
  induction l with
  | nil => intro seen _; rfl
  | cons p ps ih =>
    intro seen hs
    unfold parcourir_particules
    by_cases ha : p.ttl ≤ 0
    · rw [if_pos ha, List.filter_cons_of_neg (by simpa using ha)]
      exact ih seen hs
    · rw [if_neg ha, List.filter_cons_of_pos (by simpa using ha)]
      by_cases he : seen = idx
      · rw [if_pos he, he, sub_self, Int.toNat_zero, List.getElem?_cons_zero]
        rfl
      · rw [if_neg he, ih (seen + 1) (by omega)]
        have : (idx - seen).toNat = (idx - (seen + 1)).toNat + 1 := by omega
        rw [this, List.getElem?_cons_succ]

theorem parcourir_particules_negatif (f : Particule → Int) (idx : Int) :
    ∀ (l : List Particule) (seen : Int), idx < seen →
      parcourir_particules f idx l seen = 0 := by
  intro l
  induction l with
  | nil => intro seen _; rfl
  | cons p ps ih =>
    intro seen hs
    unfold parcourir_particules
    by_cases ha : p.ttl ≤ 0
    · rw [if_pos ha]; exact ih seen hs
    · rw [if_neg ha, if_neg (by omega)]
      exact ih (seen + 1) (by omega)

/-- A projectile scan with a valid index returns the field of the slot found by
`filter_getElem_case`. -/
theorem parcourir_projectiles_valide (f : Projectile → Int) (l : List Projectile) (idx : Int)
    (p : Projectile) (h0 : 0 ≤ idx)
    (hp : (l.filter (fun p => decide (p.actif ≠ 0)))[idx.toNat]? = some p) :
    parcourir_projectiles f idx l 0 = f p := by
  rw [parcourir_projectiles_spec f idx l 0 h0, sub_zero, hp]
  rfl

theorem parcourir_particules_valide (f : Particule → Int) (l : List Particule) (idx : Int)
    (p : Particule) (h0 : 0 ≤ idx)
    (hp : (l.filter (fun p => decide (p.ttl > 0)))[idx.toNat]? = some p) :
    parcourir_particules f idx l 0 = f p := by
  rw [parcourir_particules_spec f idx l 0 h0, sub_zero, hp]
  rfl

theorem parcourir_projectiles_invalide (f : Projectile → Int) (l : List Projectile) (idx : Int)
    (h : idx < 0 ∨ idx ≥ ((l.filter (fun p => decide (p.actif ≠ 0))).length : Int)) :
    parcourir_projectiles f idx l 0 = 0 := by
  by_cases h0 : idx < 0
  · exact parcourir_projectiles_negatif f idx l 0 h0
  · rw [parcourir_projectiles_spec f idx l 0 (by omega), sub_zero,
      List.getElem?_eq_none (by omega)]
    rfl

theorem parcourir_particules_invalide (f : Particule → Int) (l : List Particule) (idx : Int)
    (h : idx < 0 ∨ idx ≥ ((l.filter (fun p => decide (p.ttl > 0))).length : Int)) :
    parcourir_particules f idx l 0 = 0 := by
  by_cases h0 : idx < 0
  · exact parcourir_particules_negatif f idx l 0 h0
  · rw [parcourir_particules_spec f idx l 0 (by omega), sub_zero,
      List.getElem?_eq_none (by omega)]
    rfl

theorem lire_ennemi_invalide (f : Entite → Int) (e : EtatJeu) (idx : Int)
    (h : ¬ (idx ≥ 0 ∧ idx < e.nombre_ennemis)) : lire_ennemi f e idx = some 0 := by
  unfold lire_ennemi
  rw [if_neg h]

theorem lire_bouclier_invalide (f : Entite → Int) (e : EtatJeu) (idx : Int)
    (h : ¬ (idx ≥ 0 ∧ idx < e.nombre_boucliers)) : lire_bouclier f e idx = some 0 := by
  unfold lire_bouclier
  rw [if_neg h]

/-- C18.  For every state and every `idx` with `0 <= idx <` number of active projectiles, the
three projectile accessors return the `x`, `y` and owner of one and the same pool slot: the
slot that holds an active projectile and has exactly `idx` active slots before it, which is
the `idx`-th element of `projectiles_actifs`.  Likewise, for `0 <= idx <` number of particles
with `ttl > 0`, the four particle accessors return the `x`, `y`, type and `ttl` of the slot
that holds a live particle and has exactly `idx` live slots before it, the `idx`-th element
of `particules_vives`. -/
theorem indexation_compacte (e : EtatJeu) (idx : Int) :
    (0 ≤ idx → idx < etatjeu_obtenir_nombre_projectiles e →
      ∃ (i : Nat) (p : Projectile), e.projectiles[i]? = some p ∧ p.actif ≠ 0 ∧
        (((e.projectiles.take i).filter (fun q => decide (q.actif ≠ 0))).length : Int) = idx ∧
        (projectiles_actifs e)[idx.toNat]? = some p ∧
        etatjeu_obtenir_projectile_x e idx = p.x ∧
        etatjeu_obtenir_projectile_y e idx = p.y ∧
        etatjeu_obtenir_projectile_proprietaire e idx = p.proprietaire) ∧
    (0 ≤ idx → idx < etatjeu_obtenir_nombre_particules e →
      ∃ (i : Nat) (p : Particule), e.particules[i]? = some p ∧ p.ttl > 0 ∧
        (((e.particules.take i).filter (fun q => decide (q.ttl > 0))).length : Int) = idx ∧
        (particules_vives e)[idx.toNat]? = some p ∧
        etatjeu_obtenir_particule_x e idx = p.x ∧
        etatjeu_obtenir_particule_y e idx = p.y ∧
        etatjeu_obtenir_particule_type e idx = p.type ∧
        etatjeu_obtenir_particule_ttl e idx = p.ttl) := by
  constructor
  · intro h0 h1
    unfold etatjeu_obtenir_nombre_projectiles at h1
    obtain ⟨i, p, a1, a2, a3, a4⟩ := filter_getElem_case
      (fun q : Projectile => decide (q.actif ≠ 0)) e.projectiles idx.toNat (by omega)
    refine ⟨i, p, a1, by simpa using a2, by rw [a3]; omega, a4, ?_, ?_, ?_⟩
    · exact parcourir_projectiles_valide _ _ _ _ h0 a4
    · exact parcourir_projectiles_valide _ _ _ _ h0 a4
    · exact parcourir_projectiles_valide _ _ _ _ h0 a4
  · intro h0 h1
    unfold etatjeu_obtenir_nombre_particules at h1
    obtain ⟨i, p, a1, a2, a3, a4⟩ := filter_getElem_case
      (fun q : Particule => decide (q.ttl > 0)) e.particules idx.toNat (by omega)
    refine ⟨i, p, a1, by simpa using a2, by rw [a3]; omega, a4, ?_, ?_, ?_, ?_⟩
    · exact parcourir_particules_valide _ _ _ _ h0 a4
    · exact parcourir_particules_valide _ _ _ _ h0 a4
    · exact parcourir_particules_valide _ _ _ _ h0 a4
    · exact parcourir_particules_valide _ _ _ _ h0 a4

/-- C18 on `etat_cases_eparses` (active projectiles in slots 1 and 3, live particles in slots
1 and 3) with `idx = 1`: the accessors describe slot 3 of each pool. -/
theorem indexation_compacte_temoin :
    (0 : Int) ≤ 1 ∧ (1 : Int) < etatjeu_obtenir_nombre_projectiles etat_cases_eparses ∧
    (1 : Int) < etatjeu_obtenir_nombre_particules etat_cases_eparses ∧
    (∃ (i : Nat) (p : Projectile), etat_cases_eparses.projectiles[i]? = some p ∧ p.actif ≠ 0 ∧
        (((etat_cases_eparses.projectiles.take i).filter
          (fun q => decide (q.actif ≠ 0))).length : Int) = 1 ∧
        (projectiles_actifs etat_cases_eparses)[(1 : Int).toNat]? = some p ∧
        etatjeu_obtenir_projectile_x etat_cases_eparses 1 = p.x ∧
        etatjeu_obtenir_projectile_y etat_cases_eparses 1 = p.y ∧
        etatjeu_obtenir_projectile_proprietaire etat_cases_eparses 1 = p.proprietaire) ∧
    etatjeu_obtenir_projectile_x etat_cases_eparses 1 = 7 ∧
    etatjeu_obtenir_projectile_y etat_cases_eparses 1 = 8 ∧
    etatjeu_obtenir_projectile_proprietaire etat_cases_eparses 1 = 1 ∧
    etatjeu_obtenir_particule_x etat_cases_eparses 1 = 3 ∧
    etatjeu_obtenir_particule_ttl etat_cases_eparses 1 = 7 :=
  ⟨by decide, by decide, by decide,
    (indexation_compacte etat_cases_eparses 1).1 (by decide) (by decide),
    by decide, by decide, by decide, by decide, by decide⟩

/-- C19.  For every state and every integer `idx` that is negative or not below the count of
the pool (the enemy count, the shield count, the number of active projectiles, the number of
particles with `ttl > 0`), every per-index accessor of that pool returns 0; for the enemy and
shield accessors, which index the array, the result `some 0` says that no slot is read (the
projectile and particle accessors only visit the slots of the pool). -/
theorem indice_invalide (e : EtatJeu) (idx : Int) :
    (idx < 0 ∨ idx ≥ etatjeu_obtenir_nombre_ennemis e →
      etatjeu_obtenir_ennemi_x e idx = some 0 ∧ etatjeu_obtenir_ennemi_y e idx = some 0 ∧
      etatjeu_ennemi_vivant e idx = some 0 ∧ etatjeu_obtenir_ennemi_sante e idx = some 0) ∧
    (idx < 0 ∨ idx ≥ etatjeu_obtenir_nombre_boucliers e →
      etatjeu_obtenir_bouclier_x e idx = some 0 ∧ etatjeu_obtenir_bouclier_y e idx = some 0 ∧
      etatjeu_bouclier_vivant e idx = some 0) ∧
    (idx < 0 ∨ idx ≥ etatjeu_obtenir_nombre_projectiles e →
      etatjeu_obtenir_projectile_x e idx = 0 ∧ etatjeu_obtenir_projectile_y e idx = 0 ∧
      etatjeu_obtenir_projectile_proprietaire e idx = 0) ∧
    (idx < 0 ∨ idx ≥ etatjeu_obtenir_nombre_particules e →
      etatjeu_obtenir_particule_x e idx = 0 ∧ etatjeu_obtenir_particule_y e idx = 0 ∧
      etatjeu_obtenir_particule_type e idx = 0 ∧ etatjeu_obtenir_particule_ttl e idx = 0) := by
  refine ⟨?_, ?_, ?_, ?_⟩
  · intro h
    have hg : ¬ (idx ≥ 0 ∧ idx < e.nombre_ennemis) := by
      unfold etatjeu_obtenir_nombre_ennemis at h; omega
    exact ⟨lire_ennemi_invalide _ e idx hg, lire_ennemi_invalide _ e idx hg,
      lire_ennemi_invalide _ e idx hg, lire_ennemi_invalide _ e idx hg⟩
  · intro h
    have hg : ¬ (idx ≥ 0 ∧ idx < e.nombre_boucliers) := by
      unfold etatjeu_obtenir_nombre_boucliers at h; omega
    exact ⟨lire_bouclier_invalide _ e idx hg, lire_bouclier_invalide _ e idx hg,
      lire_bouclier_invalide _ e idx hg⟩
  · intro h
    exact ⟨parcourir_projectiles_invalide _ _ _ h, parcourir_projectiles_invalide _ _ _ h,
      parcourir_projectiles_invalide _ _ _ h⟩
  · intro h
    exact ⟨parcourir_particules_invalide _ _ _ h, parcourir_particules_invalide _ _ _ h,
      parcourir_particules_invalide _ _ _ h, parcourir_particules_invalide _ _ _ h⟩

/-- C19 on `etat_cases_eparses` (enemy count 24, shield count 4, two active projectiles, two
live particles): index 24 for the enemies, 4 for the shields, 2 for the projectiles and the
particles. -/
theorem indice_invalide_temoin :
    etatjeu_obtenir_nombre_ennemis etat_cases_eparses = 24 ∧
    etatjeu_obtenir_ennemi_x etat_cases_eparses 24 = some 0 ∧
    etatjeu_obtenir_nombre_boucliers etat_cases_eparses = 4 ∧
    etatjeu_obtenir_bouclier_x etat_cases_eparses 4 = some 0 ∧
    etatjeu_obtenir_nombre_projectiles etat_cases_eparses = 2 ∧
    etatjeu_obtenir_projectile_x etat_cases_eparses 2 = 0 ∧
    etatjeu_obtenir_nombre_particules etat_cases_eparses = 2 ∧
    etatjeu_obtenir_particule_ttl etat_cases_eparses 2 = 0 :=
  ⟨by decide, ((indice_invalide etat_cases_eparses 24).1 (Or.inr (by decide))).1,
    by decide, ((indice_invalide etat_cases_eparses 4).2.1 (Or.inr (by decide))).1,
    by decide, ((indice_invalide etat_cases_eparses 2).2.2.1 (Or.inr (by decide))).1,
    by decide, ((indice_invalide etat_cases_eparses 2).2.2.2 (Or.inr (by decide))).2.2.2⟩

/-! ## Lemmas: end of the tick -/

/-- The two outcomes of the defeat test (model.c 367-375). -/
theorem phase_defaite_cas (e : EtatJeu) :
    ((∃ (k : Nat) (en : Entite), (k : Int) < e.nombre_ennemis ∧ e.ennemis[k]? = some en ∧
        en.vivant ≠ 0 ∧ en.y ≥ e.hauteur - 2) →
      phase_defaite e = { e with game_over := 1, vies := 0 }) ∧
    ((¬ ∃ (k : Nat) (en : Entite), (k : Int) < e.nombre_ennemis ∧ e.ennemis[k]? = some en ∧
        en.vivant ≠ 0 ∧ en.y ≥ e.hauteur - 2) →
      phase_defaite e = e) := by
  unfold phase_defaite
  split_ifs with hc
  · refine ⟨fun _ => rfl, fun hn => absurd ?_ hn⟩
    rw [List.any_eq_true] at hc
    obtain ⟨k, hk, h⟩ := hc
    have hk2 := List.mem_range.mp hk
    cases hq : e.ennemis[k]? with
    | none => simp [hq] at h
    | some en =>
      simp only [hq, decide_eq_true_eq] at h
      exact ⟨k, en, by omega, hq, h.1, h.2⟩
  · refine ⟨fun h => absurd ?_ hc, fun _ => rfl⟩
    obtain ⟨k, en, hk, hq, hv, hy⟩ := h
    rw [List.any_eq_true]
    refine ⟨k, List.mem_range.mpr (by omega), ?_⟩
    simp only [hq, decide_eq_true_eq]
    exact ⟨hv, hy⟩

theorem phase_defaite_perdu (e : EtatJeu)
    (h : ∃ (k : Nat) (en : Entite), (k : Int) < e.nombre_ennemis ∧ e.ennemis[k]? = some en ∧
      en.vivant ≠ 0 ∧ en.y ≥ e.hauteur - 2) :
    phase_defaite e = { e with game_over := 1, vies := 0 } :=
  (phase_defaite_cas e).1 h

theorem phase_defaite_rien (e : EtatJeu)
    (h : ¬ ∃ (k : Nat) (en : Entite), (k : Int) < e.nombre_ennemis ∧ e.ennemis[k]? = some en ∧
      en.vivant ≠ 0 ∧ en.y ≥ e.hauteur - 2) :
    phase_defaite e = e :=
  (phase_defaite_cas e).2 h

/-- Respawn and enemy step write neither `vies` nor `game_over` nor `hauteur` nor the ship. -/
theorem deplacement_reapparition_cadre (alea : Nat → Nat) (e : EtatJeu) :
    (phase_deplacement (phase_reapparition alea e).1).vies = e.vies ∧
    (phase_deplacement (phase_reapparition alea e).1).game_over = e.game_over ∧
    (phase_deplacement (phase_reapparition alea e).1).hauteur = e.hauteur ∧
    (phase_deplacement (phase_reapparition alea e).1).joueur = e.joueur := by
  have h1 : ∀ s : EtatJeu, (phase_deplacement s).vies = s.vies ∧
      (phase_deplacement s).game_over = s.game_over ∧
      (phase_deplacement s).hauteur = s.hauteur ∧ (phase_deplacement s).joueur = s.joueur := by
    intro s
    unfold phase_deplacement
    simp only []
    split_ifs <;> exact ⟨rfl, rfl, rfl, rfl⟩
  have h2 : (phase_reapparition alea e).1.vies = e.vies ∧
      (phase_reapparition alea e).1.game_over = e.game_over ∧
      (phase_reapparition alea e).1.hauteur = e.hauteur ∧
      (phase_reapparition alea e).1.joueur = e.joueur := by
    unfold phase_reapparition
    simp only []
    split_ifs <;> exact ⟨rfl, rfl, rfl, rfl⟩
  obtain ⟨a1, a2, a3, a4⟩ := h1 (phase_reapparition alea e).1
  exact ⟨a1.trans h2.1, a2.trans h2.2.1, a3.trans h2.2.2.1, a4.trans h2.2.2.2⟩

/-- The tick seen from its defeat test: `m` is the state at the end of the movement phase. -/
theorem maj_defaite (e : EtatJeu) (dt : ℚ) (alea : Nat → Nat) :
    ((∃ (k : Nat) (en : Entite),
        (k : Int) < (phase_deplacement
          (phase_reapparition alea (phase_collisions e dt)).1).nombre_ennemis ∧
        (phase_deplacement
          (phase_reapparition alea (phase_collisions e dt)).1).ennemis[k]? = some en ∧
        en.vivant ≠ 0 ∧ en.y ≥ e.hauteur - 2) →
      (etatjeu_mettre_a_jour e dt alea).game_over = 1 ∧
      (etatjeu_mettre_a_jour e dt alea).vies = 0) ∧
    ((¬ ∃ (k : Nat) (en : Entite),
        (k : Int) < (phase_deplacement
          (phase_reapparition alea (phase_collisions e dt)).1).nombre_ennemis ∧
        (phase_deplacement
          (phase_reapparition alea (phase_collisions e dt)).1).ennemis[k]? = some en ∧
        en.vivant ≠ 0 ∧ en.y ≥ e.hauteur - 2) →
      (etatjeu_mettre_a_jour e dt alea).game_over = (phase_collisions e dt).game_over ∧
      (etatjeu_mettre_a_jour e dt alea).vies = (phase_collisions e dt).vies) := by
  obtain ⟨d1, d2, d3, _⟩ := deplacement_reapparition_cadre alea (phase_collisions e dt)
  have hh : (phase_collisions e dt).hauteur = e.hauteur := (phase_collisions_cadre e dt).2.2.2.2.2.1
  obtain ⟨ps, n, ht⟩ := phase_tir_ennemi_forme alea
    (phase_deplacement (phase_reapparition alea (phase_collisions e dt)).1)
    (phase_reapparition alea (phase_collisions e dt)).2
  have hm : etatjeu_mettre_a_jour e dt alea = phase_defaite (phase_tir_ennemi alea
      (phase_deplacement (phase_reapparition alea (phase_collisions e dt)).1)
      (phase_reapparition alea (phase_collisions e dt)).2) := rfl
  constructor
  · intro h
    rw [hm, phase_defaite_perdu, ]
    · exact ⟨rfl, rfl⟩
    · rw [ht]
      obtain ⟨k, en, h1, h2, h3, h4⟩ := h
      exact ⟨k, en, h1, h2, h3, by show en.y ≥ (phase_deplacement _).hauteur - 2; rw [d3, hh]; exact h4⟩
  · intro h
    rw [hm, phase_defaite_rien, ht]
    · exact ⟨d2, d1⟩
    · rw [ht]
      rintro ⟨k, en, h1, h2, h3, h4⟩
      refine h ⟨k, en, h1, h2, h3, ?_⟩
      have h5 : en.y ≥ (phase_deplacement
        (phase_reapparition alea (phase_collisions e dt)).1).hauteur - 2 := h4
      rw [d3, hh] at h5
      exact h5

/-- Executable form of "no alive enemy of the first `nombre_ennemis` slots is on a row
`>= h`". -/
theorem aucun_ennemi_en_bas (l : List Entite) (n : Int) (h : Int)
    (hb : (List.range n.toNat).all (fun i => (l[i]?).all
      (fun en => decide (en.vivant = 0 ∨ en.y < h))) = true) :
    ¬ ∃ (k : Nat) (en : Entite), (k : Int) < n ∧ l[k]? = some en ∧ en.vivant ≠ 0 ∧ en.y ≥ h := by
  rintro ⟨k, en, hk, hq, hv, hy⟩
  rw [List.all_eq_true] at hb
  have := hb k (List.mem_range.mpr (by omega))
  rw [hq] at this
  simp only [Option.all_some, decide_eq_true_eq] at this
  omega

/-! ## C15: the defeat check -/

/-- C15.  For every state, `dt` and random draws: if at the end of the movement phase of
`etatjeu_mettre_a_jour` some alive enemy (of a slot below the enemy count) has
`y >= hauteur - 2`, then after the update game-over is 1 and lives are 0, whatever the lives
before; if no alive enemy has `y >= hauteur - 2`, the defeat check changes nothing: the update
ends in the state reached after enemy fire, with the lives and the game-over flag left by the
collision phase. -/
theorem defaite (e : EtatJeu) (dt : ℚ) (alea : Nat → Nat) :
    ((∃ (k : Nat) (en : Entite),
        (k : Int) < (phase_deplacement
          (phase_reapparition alea (phase_collisions e dt)).1).nombre_ennemis ∧
        (phase_deplacement
          (phase_reapparition alea (phase_collisions e dt)).1).ennemis[k]? = some en ∧
        en.vivant ≠ 0 ∧ en.y ≥ e.hauteur - 2) →
      etatjeu_est_game_over (etatjeu_mettre_a_jour e dt alea) = 1 ∧
      etatjeu_obtenir_vies (etatjeu_mettre_a_jour e dt alea) = 0) ∧
    ((¬ ∃ (k : Nat) (en : Entite),
        (k : Int) < (phase_deplacement
          (phase_reapparition alea (phase_collisions e dt)).1).nombre_ennemis ∧
        (phase_deplacement
          (phase_reapparition alea (phase_collisions e dt)).1).ennemis[k]? = some en ∧
        en.vivant ≠ 0 ∧ en.y ≥ e.hauteur - 2) →
      etatjeu_mettre_a_jour e dt alea =
        phase_tir_ennemi alea
          (phase_deplacement (phase_reapparition alea (phase_collisions e dt)).1)
          (phase_reapparition alea (phase_collisions e dt)).2 ∧
      etatjeu_est_game_over (etatjeu_mettre_a_jour e dt alea) =
        (phase_collisions e dt).game_over ∧
      etatjeu_obtenir_vies (etatjeu_mettre_a_jour e dt alea) = (phase_collisions e dt).vies) := by
  obtain ⟨m1, m2⟩ := maj_defaite e dt alea
  refine ⟨m1, fun h => ⟨?_, (m2 h).1, (m2 h).2⟩⟩
  obtain ⟨_, _, d3, _⟩ := deplacement_reapparition_cadre alea (phase_collisions e dt)
  have hh : (phase_collisions e dt).hauteur = e.hauteur :=
    (phase_collisions_cadre e dt).2.2.2.2.2.1
  obtain ⟨ps, n, ht⟩ := phase_tir_ennemi_forme alea
    (phase_deplacement (phase_reapparition alea (phase_collisions e dt)).1)
    (phase_reapparition alea (phase_collisions e dt)).2
  show phase_defaite _ = _
  apply phase_defaite_rien
  rw [ht]
  rintro ⟨k, en, h1, h2, h3, h4⟩
  refine h ⟨k, en, h1, h2, h3, ?_⟩
  have h5 : en.y ≥ (phase_deplacement
    (phase_reapparition alea (phase_collisions e dt)).1).hauteur - 2 := h4
  rw [d3, hh] at h5
  exact h5

set_option maxRecDepth 100000 in
/-- C15 on `etat_ennemi_en_bas` (an alive enemy on the ship row 18, 3 lives): game over with 0
lives; and on `etat_en_marche` (enemies on row 5): lives and game-over flag as left by the
collision phase. -/
theorem defaite_temoin :
    etatjeu_obtenir_vies etat_ennemi_en_bas = 3 ∧
    etatjeu_est_game_over (etatjeu_mettre_a_jour etat_ennemi_en_bas 0 alea_calme) = 1 ∧
    etatjeu_obtenir_vies (etatjeu_mettre_a_jour etat_ennemi_en_bas 0 alea_calme) = 0 ∧
    etatjeu_est_game_over (etatjeu_mettre_a_jour etat_en_marche 0 alea_calme) =
      (phase_collisions etat_en_marche 0).game_over ∧
    etatjeu_obtenir_vies (etatjeu_mettre_a_jour etat_en_marche 0 alea_calme) =
      (phase_collisions etat_en_marche 0).vies :=
  have h1 := (defaite etat_ennemi_en_bas 0 alea_calme).1
    ⟨0, ⟨5, 18, 1, 1, 1, 1⟩, by with_unfolding_all decide, by with_unfolding_all decide,
      by decide, by decide⟩
  have h2 := (defaite etat_en_marche 0 alea_calme).2
    (aucun_ennemi_en_bas _ _ _ (by with_unfolding_all decide))
  ⟨by decide, h1.1, h1.2, h2.2.1, h2.2.2⟩

/-! ## C20: difficulty scaling -/

/-- Health of a respawned enemy at the end of the tick, for a tick whose wave test finds no
alive enemy: slot `j` uses the draw number `j` when the new level is at least 2. -/
theorem sante_apres_reapparition (e : EtatJeu) (dt : ℚ) (alea : Nat → Nat)
    (hcap : 24 ≤ e.ennemis.length)
    (hvide : nombre_ennemis_vivants (phase_collisions e dt) = 0) (j : Nat) (hj : j < 24) :
    ∃ en : Entite, (etatjeu_mettre_a_jour e dt alea).ennemis[j]? = some en ∧
      en.sante =
        (if e.niveau + 1 ≥ 2 ∧
            ((alea ((if e.niveau + 1 ≥ 2 then 1 else 0) * j) % 100 : Nat) : Int) <
              25 + (e.niveau + 1 - 2) * 15 then 2
         else 1) := by
  obtain ⟨hc, _⟩ := phase_collisions_capacites e dt
  have hniv : (phase_collisions e dt).niveau = e.niveau := (phase_collisions_cadre e dt).2.2.2.2.2.2.1
  obtain ⟨_, _, p3, _, _⟩ := phase_reapparition_vide alea (phase_collisions e dt)
    (by rw [hc.2.2.1]; exact hcap) hvide
  have hs := p3 (j / 8) (j % 8) (by omega) (Nat.mod_lt _ (by norm_num))
  have hj8 : j / 8 * 8 + j % 8 = j := by omega
  rw [hj8] at hs
  have hlt : j < (phase_collisions e dt).ennemis.length := by rw [hc.2.2.1]; omega
  rw [List.getElem?_eq_getElem hlt, Option.map_some', corps_reapparition_champs, hniv] at hs
  obtain ⟨en2, h2, _, hs2, _⟩ := (phase_deplacement_cadre _).2.2.2.2.2.2 j _ hs
  exact ⟨en2, by rw [maj_ennemis]; exact h2, hs2⟩

/-- C20.  Tick that respawns a wave (no alive enemy is left when the collision phase is over)
in an enemy pool of at least 24 slots, the new level `L = niveau + 1` being at least 2.  With
the draws given as the function `alea`, the update leaves the level at `L` and the enemy of
each slot `j < 24` has health 2 if and only if its own draw `r = alea j % 100` (the `j`-th
call of `rand()`, `0 <= r < 100`) satisfies `r < min(100, 25 + (L - 2) * 15)`, and health 1
otherwise.  At `L = 2` the threshold is 25; for every `L >= 7` all 24 enemies have health 2
whatever the draws. -/
theorem difficulte (e : EtatJeu) (dt : ℚ) (alea : Nat → Nat)
    (hcap : 24 ≤ e.ennemis.length)
    (hvide : nombre_ennemis_vivants (phase_collisions e dt) = 0)
    (hL : e.niveau + 1 ≥ 2) :
    etatjeu_obtenir_niveau (etatjeu_mettre_a_jour e dt alea) = e.niveau + 1 ∧
    (∀ j : Nat, j < 24 →
      ∃ en : Entite, (etatjeu_mettre_a_jour e dt alea).ennemis[j]? = some en ∧
        ((alea j % 100 : Nat) : Int) < 100 ∧
        (en.sante = 2 ↔
          ((alea j % 100 : Nat) : Int) < min 100 (25 + (e.niveau + 1 - 2) * 15)) ∧
        (en.sante = 1 ↔
          ¬ ((alea j % 100 : Nat) : Int) < min 100 (25 + (e.niveau + 1 - 2) * 15))) ∧
    (e.niveau + 1 = 2 → min 100 (25 + (e.niveau + 1 - 2) * 15) = 25) ∧
    (e.niveau + 1 ≥ 7 →
      ∀ j : Nat, j < 24 →
        ∃ en : Entite, (etatjeu_mettre_a_jour e dt alea).ennemis[j]? = some en ∧
          en.sante = 2) := by
  have hmod : ∀ j : Nat, ((alea j % 100 : Nat) : Int) < 100 := by
    intro j
    have := Nat.mod_lt (alea j) (by norm_num : 100 > 0)
    omega
  have hs : ∀ j : Nat, j < 24 →
      ∃ en : Entite, (etatjeu_mettre_a_jour e dt alea).ennemis[j]? = some en ∧
        en.sante = (if ((alea j % 100 : Nat) : Int) < 25 + (e.niveau + 1 - 2) * 15 then 2
          else 1) := by
    intro j hj
    obtain ⟨en, h1, h2⟩ := sante_apres_reapparition e dt alea hcap hvide j hj
    rw [if_pos hL, one_mul] at h2
    refine ⟨en, h1, ?_⟩
    rw [h2]
    by_cases hc : ((alea j % 100 : Nat) : Int) < 25 + (e.niveau + 1 - 2) * 15
    · rw [if_pos ⟨hL, hc⟩, if_pos hc]
    · rw [if_neg (fun h => hc h.2), if_neg hc]
  refine ⟨?_, ?_, ?_, ?_⟩
  · unfold etatjeu_obtenir_niveau
    rw [maj_niveau, (phase_deplacement_cadre _).1,
      (phase_reapparition_vide alea (phase_collisions e dt)
        (by rw [(phase_collisions_capacites e dt).1.2.2.1]; exact hcap) hvide).1]
    exact congrArg (· + 1) (phase_collisions_cadre e dt).2.2.2.2.2.2.1
  · intro j hj
    obtain ⟨en, h1, h2⟩ := hs j hj
    have hm := hmod j
    refine ⟨en, h1, hm, ?_, ?_⟩
    · rw [h2, lt_min_iff]
      by_cases hc : ((alea j % 100 : Nat) : Int) < 25 + (e.niveau + 1 - 2) * 15
      · rw [if_pos hc]; exact ⟨fun _ => ⟨hm, hc⟩, fun _ => rfl⟩
      · rw [if_neg hc]; exact ⟨fun h => absurd h (by decide), fun h => absurd h.2 hc⟩
    · rw [h2, lt_min_iff]
      by_cases hc : ((alea j % 100 : Nat) : Int) < 25 + (e.niveau + 1 - 2) * 15
      · rw [if_pos hc]; exact ⟨fun h => absurd h (by decide), fun h => absurd ⟨hm, hc⟩ h⟩
      · rw [if_neg hc]; exact ⟨fun _ h => hc h.2, fun _ => rfl⟩
  · intro h2
    rw [h2]
    decide
  · intro h7 j hj
    obtain ⟨en, h1, h2⟩ := hs j hj
    have hm := hmod j
    refine ⟨en, h1, ?_⟩
    rw [h2, if_pos (by omega)]

set_option maxRecDepth 100000 in
/-- C20 on `etat_vague_finie` (24 dead enemies, level 1, so `L = 2` and the threshold is 25)
with the draws 0, 10, 20, 30, ...: slots 0, 1, 2 (draws 0, 10, 20) get health 2, slot 3 (draw
30) gets health 1, slot 10 (draw 100, `r = 0`) gets health 2. -/
theorem difficulte_temoin :
    24 ≤ etat_vague_finie.ennemis.length ∧
    nombre_ennemis_vivants (phase_collisions etat_vague_finie 0) = 0 ∧
    etat_vague_finie.niveau + 1 ≥ 2 ∧
    etatjeu_obtenir_niveau (etatjeu_mettre_a_jour etat_vague_finie 0 alea_dizaines) = 2 ∧
    (∀ j : Nat, j < 24 →
      ∃ en : Entite,
        (etatjeu_mettre_a_jour etat_vague_finie 0 alea_dizaines).ennemis[j]? = some en ∧
        ((alea_dizaines j % 100 : Nat) : Int) < 100 ∧
        (en.sante = 2 ↔ ((alea_dizaines j % 100 : Nat) : Int) <
          min 100 (25 + (etat_vague_finie.niveau + 1 - 2) * 15)) ∧
        (en.sante = 1 ↔ ¬ ((alea_dizaines j % 100 : Nat) : Int) <
          min 100 (25 + (etat_vague_finie.niveau + 1 - 2) * 15))) ∧
    ((etatjeu_mettre_a_jour etat_vague_finie 0 alea_dizaines).ennemis.take 4).map
        (fun en => en.sante) = [2, 2, 2, 1] ∧
    etatjeu_obtenir_ennemi_sante (etatjeu_mettre_a_jour etat_vague_finie 0 alea_dizaines) 10 =
      some 2 :=
  have h := difficulte etat_vague_finie 0 alea_dizaines (by decide)
    (by with_unfolding_all decide) (by decide)
  ⟨by decide, by with_unfolding_all decide, by decide, h.1, h.2.1,
    by with_unfolding_all decide, by with_unfolding_all decide⟩

/-! ## Lemmas: lives in the projectile loop -/

theorem collision_ennemis_vies (e : EtatJeu) (i : Nat) :
    (collision_ennemis e i).vies = e.vies ∧ (collision_ennemis e i).game_over = e.game_over ∧
    (collision_ennemis e i).joueur = e.joueur ∧ (collision_ennemis e i).hauteur = e.hauteur := by
  rcases collision_ennemis_cas e i with h | ⟨enn, en, p, _, _, _, _, _, _, h⟩
  · rw [h]; exact ⟨rfl, rfl, rfl, rfl⟩
  · rw [h, toucher_ennemi_eq]; exact ⟨rfl, rfl, rfl, rfl⟩

/-- The shield scan writes neither lives nor game-over, and leaves in place a projectile that
is already inactive. -/
theorem collision_boucliers_vies (e : EtatJeu) (i : Nat) :
    (collision_boucliers e i).vies = e.vies ∧
    (collision_boucliers e i).game_over = e.game_over ∧
    (collision_boucliers e i).joueur = e.joueur ∧
    (collision_boucliers e i).hauteur = e.hauteur ∧
    ∀ q : Projectile, e.projectiles[i]? = some q → q.actif = 0 →
      (collision_boucliers e i).projectiles[i]? = some q := by
  rcases collision_boucliers_cas e i with h | ⟨b, bo, p, _, _, hp, _, _, _, h⟩
  · rw [h]; exact ⟨rfl, rfl, rfl, rfl, fun q hq _ => hq⟩
  · rw [h, toucher_bouclier_eq]
    refine ⟨rfl, rfl, rfl, rfl, ?_⟩
    intro q hq ha
    rw [hp] at hq
    cases hq
    show (e.projectiles.set i { p with actif := 0 })[i]? = some p
    rw [List.getElem?_set_self (lt_length_of_getElem? hp)]
    cases p
    simp only [] at ha
    subst ha
    rfl

theorem traiter_projectile_vaisseau (e : EtatJeu) (i : Nat) :
    (traiter_projectile e i).joueur = e.joueur ∧ (traiter_projectile e i).hauteur = e.hauteur := by
  obtain ⟨ps, ens, sc, bs, parts, np, v, g, h, _⟩ := traiter_projectile_forme e i
  rw [h]
  exact ⟨rfl, rfl⟩

/-- A slot that holds no projectile hitting the ship leaves lives and game-over unchanged. -/
theorem traiter_projectile_sans_toucher (e : EtatJeu) (j : Nat)
    (h : ∀ q : Projectile, e.projectiles[j]? = some q → ¬ touche_vaisseau e q) :
    (traiter_projectile e j).vies = e.vies ∧
    (traiter_projectile e j).game_over = e.game_over := by
  cases hq : e.projectiles[j]? with
  | none =>
    rw [traiter_projectile_inactif e j (fun p hp => by rw [hq] at hp; cases hp)]
    exact ⟨rfl, rfl⟩
  | some q =>
    by_cases ha : q.actif = 0
    · rw [traiter_projectile_inactif e j
        (fun p hp => by rw [hq] at hp; cases hp; exact ha)]
      exact ⟨rfl, rfl⟩
    · by_cases hb : q.y + q.dy < 0 ∨ q.y + q.dy ≥ e.hauteur
      · rw [traiter_projectile_hors_limites e j q hq ha hb]
        exact ⟨rfl, rfl⟩
      · have h0 : 0 ≤ q.y + q.dy := by omega
        have h1 : q.y + q.dy < e.hauteur := by omega
        by_cases ho : q.proprietaire = 0
        · rw [traiter_projectile_joueur e j q hq ha ho h0 h1]
          obtain ⟨b1, b2, _⟩ := collision_boucliers_vies (collision_ennemis
            { e with projectiles := e.projectiles.set j { q with y := q.y + q.dy } } j) j
          obtain ⟨a1, a2, _⟩ := collision_ennemis_vies
            { e with projectiles := e.projectiles.set j { q with y := q.y + q.dy } } j
          exact ⟨b1.trans a1, b2.trans a2⟩
        · rw [traiter_projectile_ennemi e j q hq ha ho h0 h1]
          have hn : ¬ (q.x = e.joueur.x ∧ q.y + q.dy = e.hauteur - 2) :=
            fun hc => h q hq ⟨ha, ho, hc.1, hc.2⟩
          have hv : collision_vaisseau
              { e with projectiles := e.projectiles.set j { q with y := q.y + q.dy } } j =
              { e with projectiles := e.projectiles.set j { q with y := q.y + q.dy } } := by
            unfold collision_vaisseau
            simp only [List.getElem?_set_self (lt_length_of_getElem? hq), ligne_vaisseau]
            rw [if_neg hn]
          rw [hv]
          obtain ⟨b1, b2, _⟩ := collision_boucliers_vies
            { e with projectiles := e.projectiles.set j { q with y := q.y + q.dy } } j
          exact ⟨b1, b2⟩

/-- A slot that holds a projectile hitting the ship, the ship row being inside the rows: one
life is lost, game-over is set when no life is left, the projectile is moved and
deactivated. -/
theorem traiter_projectile_touche_vaisseau (e : EtatJeu) (i : Nat) (p : Projectile)
    (hH : 2 ≤ e.hauteur) (hp : e.projectiles[i]? = some p) (ht : touche_vaisseau e p) :
    (traiter_projectile e i).vies = e.vies - 1 ∧
    (traiter_projectile e i).game_over = (if e.vies - 1 ≤ 0 then 1 else e.game_over) ∧
    (traiter_projectile e i).projectiles[i]? =
      some { p with y := p.y + p.dy, actif := 0 } := by
  obtain ⟨ha, ho, hx, hy⟩ := ht
  rw [traiter_projectile_ennemi e i p hp ha ho (by omega) (by omega)]
  have hlt : i < e.projectiles.length := lt_length_of_getElem? hp
  have hv : collision_vaisseau
      { e with projectiles := e.projectiles.set i { p with y := p.y + p.dy } } i =
      { e with
        projectiles := (e.projectiles.set i { p with y := p.y + p.dy }).set i
          { p with y := p.y + p.dy, actif := 0 }
        vies := e.vies - 1
        game_over := if e.vies - 1 ≤ 0 then 1 else e.game_over } := by
    unfold collision_vaisseau
    simp only [List.getElem?_set_self hlt, ligne_vaisseau]
    rw [if_pos ⟨hx, hy⟩]
    by_cases hc : e.vies - 1 ≤ 0
    · rw [if_pos hc, if_pos hc]
    · rw [if_neg hc, if_neg hc]
  rw [hv]
  obtain ⟨b1, b2, _, _, b5⟩ := collision_boucliers_vies
    { e with
      projectiles := (e.projectiles.set i { p with y := p.y + p.dy }).set i
        { p with y := p.y + p.dy, actif := 0 }
      vies := e.vies - 1
      game_over := if e.vies - 1 ≤ 0 then 1 else e.game_over } i
  refine ⟨b1, b2, b5 _ ?_ rfl⟩
  show ((e.projectiles.set i { p with y := p.y + p.dy }).set i
    { p with y := p.y + p.dy, actif := 0 })[i]? = _
  rw [List.getElem?_set_self (by rw [List.length_set]; exact hlt)]

theorem touche_vaisseau_apres_traiter (e : EtatJeu) (j : Nat) (q : Projectile) :
    touche_vaisseau (traiter_projectile e j) q ↔ touche_vaisseau e q := by
  obtain ⟨h1, h2⟩ := traiter_projectile_vaisseau e j
  unfold touche_vaisseau
  rw [h1, h2]

/-- Slots that hold no projectile hitting the ship, processed in any order without repetition,
leave lives and game-over unchanged, and leave the other slots as they are. -/
theorem foldl_traiter_sans_toucher (l : List Nat) :
    ∀ s : EtatJeu, l.Nodup →
      (∀ j ∈ l, ∀ q : Projectile, s.projectiles[j]? = some q → ¬ touche_vaisseau s q) →
      (l.foldl traiter_projectile s).vies = s.vies ∧
      (l.foldl traiter_projectile s).game_over = s.game_over ∧
      ∀ k : Nat, k ∉ l → (l.foldl traiter_projectile s).projectiles[k]? = s.projectiles[k]? := by
  induction l with
  | nil => intro s _ _; exact ⟨rfl, rfl, fun _ _ => rfl⟩
  | cons j t ih =>
    intro s hnd h
    obtain ⟨hjt, hnt⟩ := List.nodup_cons.mp hnd
    obtain ⟨a1, a2⟩ := traiter_projectile_sans_toucher s j (h j (List.mem_cons_self _ _))
    obtain ⟨b1, b2, b3⟩ := ih (traiter_projectile s j) hnt (by
      intro k hk q hq
      have hkj : k ≠ j := fun hc => hjt (hc ▸ hk)
      rw [traiter_projectile_autres s j k hkj] at hq
      rw [touche_vaisseau_apres_traiter]
      exact h k (List.mem_cons_of_mem _ hk) q hq)
    refine ⟨b1.trans a1, b2.trans a2, ?_⟩
    intro k hk
    have hkj : k ≠ j := fun hc => hk (hc ▸ List.mem_cons_self _ _)
    have hkt : k ∉ t := fun hc => hk (List.mem_cons_of_mem _ hc)
    exact (b3 k hkt).trans (traiter_projectile_autres s j k hkj)

/-- The projectile loop over slots without repetition, one of which holds the only projectile
hitting the ship: exactly one life is lost. -/
theorem foldl_traiter_touche (i : Nat) (p : Projectile) (l : List Nat) :
    ∀ s : EtatJeu, l.Nodup → i ∈ l → 2 ≤ s.hauteur → s.projectiles[i]? = some p →
      touche_vaisseau s p →
      (∀ j ∈ l, j ≠ i → ∀ q : Projectile, s.projectiles[j]? = some q → ¬ touche_vaisseau s q) →
      (l.foldl traiter_projectile s).vies = s.vies - 1 ∧
      (l.foldl traiter_projectile s).game_over = (if s.vies - 1 ≤ 0 then 1 else s.game_over) ∧
      (l.foldl traiter_projectile s).projectiles[i]? =
        some { p with y := p.y + p.dy, actif := 0 } := by
  induction l with
  | nil => intro s _ hi; cases hi
  | cons j t ih =>
    intro s hnd hi hH hp ht h
    obtain ⟨hjt, hnt⟩ := List.nodup_cons.mp hnd
    have hautres : ∀ k ∈ t, k ≠ i → ∀ q : Projectile,
        (traiter_projectile s j).projectiles[k]? = some q →
        ¬ touche_vaisseau (traiter_projectile s j) q := by
      intro k hk hki q hq
      have hkj : k ≠ j := fun hc => hjt (hc ▸ hk)
      rw [traiter_projectile_autres s j k hkj] at hq
      rw [touche_vaisseau_apres_traiter]
      exact h k (List.mem_cons_of_mem _ hk) hki q hq
    by_cases hji : j = i
    · subst hji
      obtain ⟨a1, a2, a3⟩ := traiter_projectile_touche_vaisseau s j p hH hp ht
      obtain ⟨b1, b2, b3⟩ := foldl_traiter_sans_toucher t (traiter_projectile s j) hnt
        (fun k hk q hq => hautres k hk (fun hc => hjt (hc ▸ hk)) q hq)
      exact ⟨b1.trans a1, b2.trans a2, (b3 j hjt).trans a3⟩
    · have hit : i ∈ t := by
        rcases List.mem_cons.mp hi with hc | hc
        · exact absurd hc.symm hji
        · exact hc
      obtain ⟨a1, a2⟩ := traiter_projectile_sans_toucher s j
        (h j (List.mem_cons_self _ _) hji)
      have hH2 : 2 ≤ (traiter_projectile s j).hauteur := by
        rw [(traiter_projectile_vaisseau s j).2]; exact hH
      have hp2 : (traiter_projectile s j).projectiles[i]? = some p := by
        rw [traiter_projectile_autres s j i (fun hc => hji hc.symm)]; exact hp
      obtain ⟨b1, b2, b3⟩ := ih (traiter_projectile s j) hnt hit hH2 hp2
        ((touche_vaisseau_apres_traiter s j p).mpr ht) hautres
      rw [a1, a2] at *
      exact ⟨b1, b2, b3⟩

/-- The collision phase of a tick in which slot `i` holds the only projectile hitting the
ship. -/
theorem phase_collisions_touche_vaisseau (e : EtatJeu) (dt : ℚ) (i : Nat) (p : Projectile)
    (hH : 2 ≤ e.hauteur) (hp : e.projectiles[i]? = some p) (ht : touche_vaisseau e p)
    (hseul : ∀ (j : Nat) (q : Projectile), j ≠ i → e.projectiles[j]? = some q →
      ¬ touche_vaisseau e q) :
    (phase_collisions e dt).vies = e.vies - 1 ∧
    (phase_collisions e dt).game_over = (if e.vies - 1 ≤ 0 then 1 else e.game_over) ∧
    (phase_collisions e dt).projectiles[i]? = some { p with y := p.y + p.dy, actif := 0 } :=
  foldl_traiter_touche i p (List.range e.projectiles.length)
    ({ ({ e with temps_acc := e.temps_acc + dt } : EtatJeu) with
        particules := e.particules.map vieillir_particule } : EtatJeu)
    (List.nodup_range _) (List.mem_range.mpr (lt_length_of_getElem? hp)) hH hp ht
    (fun j _ hji q hq => hseul j q hji hq)

/-- The collision phase of a tick in which no slot holds a projectile hitting the ship. -/
theorem phase_collisions_sans_toucher (e : EtatJeu) (dt : ℚ)
    (h : ∀ (j : Nat) (q : Projectile), e.projectiles[j]? = some q → ¬ touche_vaisseau e q) :
    (phase_collisions e dt).vies = e.vies ∧ (phase_collisions e dt).game_over = e.game_over :=
  have h2 := foldl_traiter_sans_toucher (List.range e.projectiles.length)
    ({ ({ e with temps_acc := e.temps_acc + dt } : EtatJeu) with
        particules := e.particules.map vieillir_particule } : EtatJeu)
    (List.nodup_range _) (fun j _ q hq => h j q hq)
  ⟨h2.1, h2.2.1⟩

/-! ## C14: an enemy projectile reaches the ship -/

/-- C14 (amended).  State of height at least 2 (the ship row `hauteur - 2` is one of the rows)
in which the projectile `p` of slot `i` is the only active enemy-owned projectile that moves
onto the cell `(joueur.x, hauteur - 2)`, and tick at the end of whose movement phase no alive
enemy has `y >= hauteur - 2` (the defeat check does not fire).  The collision phase leaves
`p` moved and deactivated in its slot; after the update lives have decreased by exactly 1;
game-over is set to 1 when the new lives value is `<= 0` and keeps its value otherwise, so
that from game-over 0 the flag is 1 if and only if the new lives value is `<= 0`.  In every
state, processing an enemy projectile whose cell after the move differs from
`(joueur.x, hauteur - 2)` changes neither lives nor game-over. -/
theorem tir_ennemi_au_but (e : EtatJeu) (dt : ℚ) (alea : Nat → Nat) (i : Nat) (p : Projectile)
    (hH : 2 ≤ e.hauteur) (hp : e.projectiles[i]? = some p) (ht : touche_vaisseau e p)
    (hseul : ∀ (j : Nat) (q : Projectile), j ≠ i → e.projectiles[j]? = some q →
      ¬ touche_vaisseau e q)
    (hbas : ¬ ∃ (k : Nat) (en : Entite),
      (k : Int) < (phase_deplacement
        (phase_reapparition alea (phase_collisions e dt)).1).nombre_ennemis ∧
      (phase_deplacement
        (phase_reapparition alea (phase_collisions e dt)).1).ennemis[k]? = some en ∧
      en.vivant ≠ 0 ∧ en.y ≥ e.hauteur - 2) :
    (phase_collisions e dt).projectiles[i]? = some { p with y := p.y + p.dy, actif := 0 } ∧
    etatjeu_obtenir_vies (etatjeu_mettre_a_jour e dt alea) = etatjeu_obtenir_vies e - 1 ∧
    etatjeu_est_game_over (etatjeu_mettre_a_jour e dt alea) =
      (if etatjeu_obtenir_vies e - 1 ≤ 0 then 1 else etatjeu_est_game_over e) ∧
    (etatjeu_est_game_over e = 0 →
      (etatjeu_est_game_over (etatjeu_mettre_a_jour e dt alea) = 1 ↔
        etatjeu_obtenir_vies (etatjeu_mettre_a_jour e dt alea) ≤ 0)) ∧
    (∀ (s : EtatJeu) (j : Nat) (q : Projectile), s.projectiles[j]? = some q →
      q.proprietaire ≠ 0 → ¬ (q.x = s.joueur.x ∧ q.y + q.dy = s.hauteur - 2) →
      (traiter_projectile s j).vies = s.vies ∧
      (traiter_projectile s j).game_over = s.game_over) := by
  obtain ⟨c1, c2, c3⟩ := phase_collisions_touche_vaisseau e dt i p hH hp ht hseul
  obtain ⟨m1, m2⟩ := (maj_defaite e dt alea).2 hbas
  have hv : (etatjeu_mettre_a_jour e dt alea).vies = e.vies - 1 := m2.trans c1
  have hg : (etatjeu_mettre_a_jour e dt alea).game_over =
      (if e.vies - 1 ≤ 0 then 1 else e.game_over) := m1.trans c2
  refine ⟨c3, hv, hg, ?_, ?_⟩
  · intro h0
    unfold etatjeu_est_game_over etatjeu_obtenir_vies at *
    rw [hg, hv, h0]
    by_cases hc : e.vies - 1 ≤ 0
    · rw [if_pos hc]; exact ⟨fun _ => hc, fun _ => rfl⟩
    · rw [if_neg hc]; exact ⟨fun h => absurd h (by decide), fun h => absurd h hc⟩
  · intro s j q hq _ hn
    apply traiter_projectile_sans_toucher s j
    intro q2 hq2 ht2
    rw [hq] at hq2
    cases hq2
    exact hn ⟨ht2.2.2.1, ht2.2.2.2⟩

set_option maxRecDepth 100000 in
/-- C14 (amended) on `etat_tir_ennemi_au_but` (3 lives, enemy projectile moving from (20, 17)
onto the ship's cell (20, 18), the alive enemy on row 5): 2 lives after the update, game-over
still 0. -/
theorem tir_ennemi_au_but_temoin :
    etatjeu_obtenir_vies etat_tir_ennemi_au_but = 3 ∧
    (phase_collisions etat_tir_ennemi_au_but 0).projectiles[0]? = some ⟨20, 18, 1, 1, 0⟩ ∧
    etatjeu_obtenir_vies (etatjeu_mettre_a_jour etat_tir_ennemi_au_but 0 alea_calme) = 3 - 1 ∧
    etatjeu_est_game_over (etatjeu_mettre_a_jour etat_tir_ennemi_au_but 0 alea_calme) = 0 :=
  have h := tir_ennemi_au_but etat_tir_ennemi_au_but 0 alea_calme 0 ⟨20, 17, 1, 1, 1⟩
    (by decide) (by decide) ⟨by decide, by decide, by decide, by decide⟩
    (by
      intro j q hj hq hc
      have hlt : j < 4 := lt_length_of_getElem? hq
      interval_cases j
      · exact absurd rfl hj
      · cases hq; exact hc.1 rfl
      · cases hq; exact hc.1 rfl
      · cases hq; exact hc.1 rfl)
    (aucun_ennemi_en_bas _ _ _ (by with_unfolding_all decide))
  ⟨by decide, h.1, h.2.1, h.2.2.1⟩

set_option maxRecDepth 100000 in
/-- C14 as stated fails in two ways.  In `etat_tir_et_descente` the only active projectile is
an enemy projectile moving onto the ship's cell (20, 18) and every alive enemy is above the
ship row, but the tick (`dt = 6/10`) steps the enemy of the right edge down onto row 18: the
defeat check leaves 0 lives out of 3.  In `etat_hauteur_1` (height 1, ship row -1) the enemy
projectile moving onto (20, -1) leaves the rows and is deactivated without a hit: 3 lives
remain. -/
theorem tir_ennemi_au_but_contre_exemple :
    (etat_tir_et_descente.projectiles[0]? = some ⟨20, 17, 1, 1, 1⟩ ∧
      touche_vaisseau etat_tir_et_descente ⟨20, 17, 1, 1, 1⟩ ∧
      etatjeu_obtenir_nombre_projectiles etat_tir_et_descente = 1 ∧
      (∀ en ∈ etat_tir_et_descente.ennemis,
        en.vivant ≠ 0 → en.y < etat_tir_et_descente.hauteur - 2) ∧
      etatjeu_obtenir_vies etat_tir_et_descente = 3 ∧
      etatjeu_obtenir_vies (etatjeu_mettre_a_jour etat_tir_et_descente (6 / 10) alea_calme) = 0 ∧
      etatjeu_est_game_over
        (etatjeu_mettre_a_jour etat_tir_et_descente (6 / 10) alea_calme) = 1) ∧
    (etat_hauteur_1.projectiles[0]? = some ⟨20, -2, 1, 1, 1⟩ ∧
      touche_vaisseau etat_hauteur_1 ⟨20, -2, 1, 1, 1⟩ ∧
      etatjeu_obtenir_nombre_projectiles etat_hauteur_1 = 1 ∧
      (∀ en ∈ etat_hauteur_1.ennemis, en.vivant ≠ 0 → en.y < etat_hauteur_1.hauteur - 2) ∧
      etatjeu_obtenir_vies etat_hauteur_1 = 3 ∧
      etatjeu_obtenir_vies (etatjeu_mettre_a_jour etat_hauteur_1 0 alea_calme) = 3 ∧
      (etatjeu_mettre_a_jour etat_hauteur_1 0 alea_calme).projectiles[0]? =
        some ⟨20, -1, 1, 1, 0⟩) :=
  ⟨⟨by decide, ⟨by decide, by decide, by decide, by decide⟩, by decide, by decide, by decide,
      by with_unfolding_all decide, by with_unfolding_all decide⟩,
    ⟨by decide, ⟨by decide, by decide, by decide, by decide⟩, by decide, by decide, by decide,
      by with_unfolding_all decide, by with_unfolding_all decide⟩⟩

/-! ## Lemmas: the particle pool and its high-water count -/

/-- Respawn and enemy step write neither the projectile, shield and particle pools nor their
counts nor the playfield width. -/
theorem deplacement_reapparition_pools (alea : Nat → Nat) (e : EtatJeu) :
    (phase_deplacement (phase_reapparition alea e).1).particules = e.particules ∧
    (phase_deplacement (phase_reapparition alea e).1).nombre_particules = e.nombre_particules ∧
    (phase_deplacement (phase_reapparition alea e).1).boucliers = e.boucliers ∧
    (phase_deplacement (phase_reapparition alea e).1).nombre_boucliers = e.nombre_boucliers ∧
    (phase_deplacement (phase_reapparition alea e).1).projectiles = e.projectiles ∧
    (phase_deplacement (phase_reapparition alea e).1).nombre_projectiles =
      e.nombre_projectiles ∧
    (phase_deplacement (phase_reapparition alea e).1).largeur = e.largeur ∧
    (phase_deplacement (phase_reapparition alea e).1).score = e.score := by
  have h1 : ∀ s : EtatJeu, (phase_deplacement s).particules = s.particules ∧
      (phase_deplacement s).nombre_particules = s.nombre_particules ∧
      (phase_deplacement s).boucliers = s.boucliers ∧
      (phase_deplacement s).nombre_boucliers = s.nombre_boucliers ∧
      (phase_deplacement s).projectiles = s.projectiles ∧
      (phase_deplacement s).nombre_projectiles = s.nombre_projectiles ∧
      (phase_deplacement s).largeur = s.largeur ∧ (phase_deplacement s).score = s.score := by
    intro s
    unfold phase_deplacement
    simp only []
    split_ifs <;> exact ⟨rfl, rfl, rfl, rfl, rfl, rfl, rfl, rfl⟩
  have h2 : (phase_reapparition alea e).1.particules = e.particules ∧
      (phase_reapparition alea e).1.nombre_particules = e.nombre_particules ∧
      (phase_reapparition alea e).1.boucliers = e.boucliers ∧
      (phase_reapparition alea e).1.nombre_boucliers = e.nombre_boucliers ∧
      (phase_reapparition alea e).1.projectiles = e.projectiles ∧
      (phase_reapparition alea e).1.nombre_projectiles = e.nombre_projectiles ∧
      (phase_reapparition alea e).1.largeur = e.largeur ∧
      (phase_reapparition alea e).1.score = e.score := by
    unfold phase_reapparition
    simp only []
    split_ifs <;> exact ⟨rfl, rfl, rfl, rfl, rfl, rfl, rfl, rfl⟩
  obtain ⟨a1, a2, a3, a4, a5, a6, a7, a8⟩ := h1 (phase_reapparition alea e).1
  exact ⟨a1.trans h2.1, a2.trans h2.2.1, a3.trans h2.2.2.1, a4.trans h2.2.2.2.1,
    a5.trans h2.2.2.2.2.1, a6.trans h2.2.2.2.2.2.1, a7.trans h2.2.2.2.2.2.2.1,
    a8.trans h2.2.2.2.2.2.2.2⟩

/-- The particle pool and its count at the end of a tick are those left by the collision
phase. -/
theorem maj_particules_collisions (e : EtatJeu) (dt : ℚ) (alea : Nat → Nat) :
    (etatjeu_mettre_a_jour e dt alea).particules = (phase_collisions e dt).particules ∧
    (etatjeu_mettre_a_jour e dt alea).nombre_particules =
      (phase_collisions e dt).nombre_particules := by
  obtain ⟨ps, n, g, v, h⟩ := fin_de_maj e dt alea
  obtain ⟨a1, a2, _⟩ := deplacement_reapparition_pools alea (phase_collisions e dt)
  rw [h]
  exact ⟨a1, a2⟩

/-- The slot found by the inner scan of `creer_explosion` is the lowest one with
`ttl <= 0`. -/
theorem premiere_particule_libre_spec :
    ∀ (l : List Particule) (idx : Nat), premiere_particule_libre l = some idx →
      (∃ q : Particule, l[idx]? = some q ∧ q.ttl ≤ 0) ∧
      ∀ (j : Nat) (q : Particule), j < idx → l[j]? = some q → q.ttl > 0 := by
  intro l
  induction l with
  | nil => intro idx h; simp [premiere_particule_libre] at h
  | cons p ps ih =>
    intro idx h
    unfold premiere_particule_libre at h
    by_cases hp : p.ttl ≤ 0
    · rw [if_pos hp] at h
      cases h
      exact ⟨⟨p, List.getElem?_cons_zero, hp⟩, fun j q hj _ => absurd hj (Nat.not_lt_zero j)⟩
    · rw [if_neg hp] at h
      cases hq : premiere_particule_libre ps with
      | none => rw [hq] at h; simp at h
      | some k =>
        rw [hq] at h
        simp only [Option.map_some', Option.some.injEq] at h
        subst h
        obtain ⟨⟨q, h1, h2⟩, h3⟩ := ih k hq
        refine ⟨⟨q, by rw [List.getElem?_cons_succ]; exact h1, h2⟩, ?_⟩
        intro j r hj hr
        cases j with
        | zero =>
          rw [List.getElem?_cons_zero] at hr
          cases hr
          omega
        | succ j =>
          rw [List.getElem?_cons_succ] at hr
          exact h3 j r (by omega) hr

/-- No slot with `ttl <= 0`: the inner scan ends with `idx == -1`. -/
theorem premiere_particule_libre_aucune :
    ∀ l : List Particule, premiere_particule_libre l = none ↔ ∀ q ∈ l, q.ttl > 0 := by
  intro l
  induction l with
  | nil => simp [premiere_particule_libre]
  | cons p ps ih =>
    unfold premiere_particule_libre
    by_cases hp : p.ttl ≤ 0
    · rw [if_pos hp]
      constructor
      · intro h; cases h
      · intro h
        have := h p (List.mem_cons_self _ _)
        omega
    · rw [if_neg hp, Option.map_eq_none', ih]
      constructor
      · intro h q hq
        rcases List.mem_cons.mp hq with rfl | hq
        · omega
        · exact h q hq
      · intro h q hq
        exact h q (List.mem_cons_of_mem _ hq)

theorem creer_explosion_boucle_sature (x y t : Int) (ds : List (Int × Int))
    (s : List Particule × Int) (h : s.2 ≥ 256) : creer_explosion_boucle x y t s ds = s := by
  cases ds with
  | nil => rfl
  | cons d reste =>
    unfold creer_explosion_boucle
    rw [if_neg (by simp only [NB_MAX_PARTICULES]; omega)]

theorem creer_explosion_boucle_croissant (x y t : Int) (ds : List (Int × Int)) :
    ∀ s : List Particule × Int, s.2 ≤ (creer_explosion_boucle x y t s ds).2 := by
  induction ds with
  | nil => intro s; exact le_refl _
  | cons d reste ih =>
    intro s
    unfold creer_explosion_boucle
    by_cases hn : s.2 < (NB_MAX_PARTICULES : Int)
    · rw [if_pos hn]
      cases hq : premiere_particule_libre s.1 with
      | none => exact ih s
      | some idx =>
        refine le_trans ?_ (ih _)
        show s.2 ≤ (if (idx : Int) ≥ s.2 then (idx : Int) + 1 else s.2)
        split_ifs <;> omega
    · rw [if_neg hn]

theorem pool_evolue_refl (a : List Particule × Int) : pool_evolue a a :=
  ⟨rfl, le_refl _, fun _ _ h => ⟨fun _ => h, Or.inl h⟩⟩

theorem pool_evolue_trans {a b c : List Particule × Int} (hab : pool_evolue a b)
    (hbc : pool_evolue b c) : pool_evolue a c := by
  obtain ⟨a1, a2, a3⟩ := hab
  obtain ⟨b1, b2, b3⟩ := hbc
  refine ⟨b1.trans a1, le_trans a2 b2, ?_⟩
  intro s q hq
  obtain ⟨h1, h2⟩ := a3 s q hq
  refine ⟨fun hv => (b3 s q (h1 hv)).1 hv, ?_⟩
  rcases h2 with h2 | ⟨q2, h2, h20⟩
  · exact (b3 s q h2).2
  · exact Or.inr ⟨q2, (b3 s q2 h2).1 (by omega), h20⟩

theorem creer_explosion_boucle_evolue (x y t : Int) (ds : List (Int × Int)) :
    ∀ s : List Particule × Int, pool_evolue s (creer_explosion_boucle x y t s ds) := by
  induction ds with
  | nil => intro s; exact pool_evolue_refl s
  | cons d reste ih =>
    intro s
    unfold creer_explosion_boucle
    by_cases hn : s.2 < (NB_MAX_PARTICULES : Int)
    · rw [if_pos hn]
      cases hq : premiere_particule_libre s.1 with
      | none => exact ih s
      | some idx =>
        refine pool_evolue_trans ?_ (ih _)
        obtain ⟨⟨q0, h0, ht0⟩, _⟩ := premiere_particule_libre_spec s.1 idx hq
        have hlt := premiere_particule_libre_lt s.1 idx hq
        refine ⟨by simp only [List.length_set], ?_, ?_⟩
        · show s.2 ≤ (if (idx : Int) ≥ s.2 then (idx : Int) + 1 else s.2)
          split_ifs <;> omega
        · intro k q hk
          by_cases hki : k = idx
          · subst hki
            rw [h0] at hk
            cases hk
            refine ⟨fun hv => absurd hv (by omega), Or.inr ⟨particule_explosion x y t d, ?_, rfl⟩⟩
            exact List.getElem?_set_self hlt
          · have : (s.1.set idx (particule_explosion x y t d))[k]? = some q := by
              rw [List.getElem?_set_ne (fun hc => hki hc.symm)]; exact hk
            exact ⟨fun _ => this, Or.inl this⟩
    · rw [if_neg hn]
      exact pool_evolue_refl s

theorem toucher_ennemi_evolue (e : EtatJeu) (i enn : Nat) (p : Projectile) (en : Entite) :
    pool_evolue (e.particules, e.nombre_particules)
      ((toucher_ennemi e i enn p en).particules,
        (toucher_ennemi e i enn p en).nombre_particules) := by
  rw [toucher_ennemi_eq]
  show pool_evolue _ ((if en.sante - 1 ≤ 0 then _ else _ : List Particule),
    (if en.sante - 1 ≤ 0 then _ else _ : Int))
  split_ifs
  · exact creer_explosion_boucle_evolue _ _ _ _ _
  · exact pool_evolue_refl _

theorem toucher_bouclier_evolue (e : EtatJeu) (i b : Nat) (p : Projectile) (bo : Entite) :
    pool_evolue (e.particules, e.nombre_particules)
      ((toucher_bouclier e i b p bo).particules,
        (toucher_bouclier e i b p bo).nombre_particules) := by
  rw [toucher_bouclier_eq]
  show pool_evolue _ ((if bo.sante - 1 ≤ 0 then _ else _ : List Particule),
    (if bo.sante - 1 ≤ 0 then _ else _ : Int))
  split_ifs
  · exact creer_explosion_boucle_evolue _ _ _ _ _
  · exact pool_evolue_refl _

theorem collision_ennemis_evolue (e : EtatJeu) (i : Nat) :
    pool_evolue (e.particules, e.nombre_particules)
      ((collision_ennemis e i).particules, (collision_ennemis e i).nombre_particules) := by
  rcases collision_ennemis_cas e i with h | ⟨enn, en, p, _, _, _, _, _, _, h⟩
  · rw [h]; exact pool_evolue_refl _
  · rw [h]; exact toucher_ennemi_evolue e i enn p en

theorem collision_boucliers_evolue (e : EtatJeu) (i : Nat) :
    pool_evolue (e.particules, e.nombre_particules)
      ((collision_boucliers e i).particules, (collision_boucliers e i).nombre_particules) := by
  rcases collision_boucliers_cas e i with h | ⟨b, bo, p, _, _, _, _, _, _, h⟩
  · rw [h]; exact pool_evolue_refl _
  · rw [h]; exact toucher_bouclier_evolue e i b p bo

theorem collision_vaisseau_evolue (e : EtatJeu) (i : Nat) :
    pool_evolue (e.particules, e.nombre_particules)
      ((collision_vaisseau e i).particules, (collision_vaisseau e i).nombre_particules) := by
  obtain ⟨ps, v, g, h, _⟩ := collision_vaisseau_forme e i
  rw [h]
  exact pool_evolue_refl _

theorem traiter_projectile_evolue (e : EtatJeu) (i : Nat) :
    pool_evolue (e.particules, e.nombre_particules)
      ((traiter_projectile e i).particules, (traiter_projectile e i).nombre_particules) := by
  unfold traiter_projectile
  cases hp : e.projectiles[i]? with
  | none => exact pool_evolue_refl _
  | some p =>
    simp only []
    by_cases ha : p.actif = 0
    · rw [if_pos ha]; exact pool_evolue_refl _
    · rw [if_neg ha]
      by_cases hb : p.y + p.dy < 0 ∨ p.y + p.dy ≥ e.hauteur
      · rw [if_pos hb]; exact pool_evolue_refl _
      · rw [if_neg hb]
        by_cases ho : p.proprietaire = 0
        · rw [if_pos ho]
          exact pool_evolue_trans
            (collision_ennemis_evolue
              { e with projectiles := e.projectiles.set i { p with y := p.y + p.dy } } i)
            (collision_boucliers_evolue _ i)
        · rw [if_neg ho]
          exact pool_evolue_trans
            (collision_vaisseau_evolue
              { e with projectiles := e.projectiles.set i { p with y := p.y + p.dy } } i)
            (collision_boucliers_evolue _ i)

theorem foldl_traiter_evolue (l : List Nat) :
    ∀ e : EtatJeu, pool_evolue (e.particules, e.nombre_particules)
      ((l.foldl traiter_projectile e).particules,
        (l.foldl traiter_projectile e).nombre_particules) := by
  induction l with
  | nil => intro e; exact pool_evolue_refl _
  | cons i reste ih =>
    intro e
    exact pool_evolue_trans (traiter_projectile_evolue e i) (ih _)

/-- The projectile loop of a tick acts on the aged particle pool by explosions only. -/
theorem phase_collisions_evolue (e : EtatJeu) (dt : ℚ) :
    pool_evolue (e.particules.map vieillir_particule, e.nombre_particules)
      ((phase_collisions e dt).particules, (phase_collisions e dt).nombre_particules) :=
  foldl_traiter_evolue (List.range e.projectiles.length)
    ({ ({ e with temps_acc := e.temps_acc + dt } : EtatJeu) with
        particules := e.particules.map vieillir_particule } : EtatJeu)

/-- One tick acts on the particle pool by ageing, then by explosions. -/
theorem maj_evolue (e : EtatJeu) (dt : ℚ) (alea : Nat → Nat) :
    pool_evolue (e.particules.map vieillir_particule, e.nombre_particules)
      ((etatjeu_mettre_a_jour e dt alea).particules,
        (etatjeu_mettre_a_jour e dt alea).nombre_particules) := by
  obtain ⟨h1, h2⟩ := maj_particules_collisions e dt alea
  rw [h1, h2]
  exact phase_collisions_evolue e dt

/-! ## C30: the explosion and the high-water count -/

/-- C30.  `creer_explosion` and the high-water count `nombre_particules`.
(1) When the count is 256 or more, `creer_explosion` leaves the state as it is, whatever the
`ttl` of the slots.  (2) While the count is below 256, the direction at the head of the table
is written into the slot `idx` found by the scan, which has `ttl <= 0` while every slot below
it has `ttl > 0`, the count becomes `idx + 1` when `idx` reaches it, and the loop goes on with
the next direction; (3) when no slot has `ttl <= 0` the direction is skipped.  (4) On a pool
whose first slots are live and whose other slots have `ttl <= 0`, with room for all
directions, the particles are written behind the live slots in the order of the table.
(5) The count does not decrease in `creer_explosion` nor in a tick, is left as it is by a ship
move, a shot and a write of the quit flag, and is set to 0 by the restart. -/
theorem explosion_plafonnee :
    (∀ (e : EtatJeu) (x y t : Int), e.nombre_particules ≥ 256 → creer_explosion e x y t = e) ∧
    (∀ (x y t : Int) (s : List Particule × Int) (d : Int × Int) (reste : List (Int × Int))
        (idx : Nat), s.2 < 256 → premiere_particule_libre s.1 = some idx →
      (∃ q : Particule, s.1[idx]? = some q ∧ q.ttl ≤ 0) ∧
      (∀ (j : Nat) (q : Particule), j < idx → s.1[j]? = some q → q.ttl > 0) ∧
      creer_explosion_boucle x y t s (d :: reste) =
        creer_explosion_boucle x y t
          (s.1.set idx (particule_explosion x y t d),
            if (idx : Int) ≥ s.2 then (idx : Int) + 1 else s.2) reste) ∧
    (∀ (x y t : Int) (s : List Particule × Int) (d : Int × Int) (reste : List (Int × Int)),
      s.2 < 256 → (∀ q ∈ s.1, q.ttl > 0) →
      creer_explosion_boucle x y t s (d :: reste) = creer_explosion_boucle x y t s reste) ∧
    (∀ (x y t : Int) (ds : List (Int × Int)) (pre suf : List Particule) (n : Int),
      (∀ q ∈ pre, 0 < q.ttl) → (∀ q ∈ suf, q.ttl ≤ 0) → ds.length ≤ suf.length →
      n < 256 → pre.length + ds.length < 256 →
      (creer_explosion_boucle x y t (pre ++ suf, n) ds).1 =
        pre ++ ds.map (particule_explosion x y t) ++ suf.drop ds.length) ∧
    (∀ (e : EtatJeu) (x y t : Int),
      e.nombre_particules ≤ (creer_explosion e x y t).nombre_particules) ∧
    (∀ (e : EtatJeu) (dt : ℚ) (alea : Nat → Nat),
      e.nombre_particules ≤ (etatjeu_mettre_a_jour e dt alea).nombre_particules) ∧
    (∀ (e : EtatJeu) (dir q : Int),
      (etatjeu_deplacer_vaisseau e dir).nombre_particules = e.nombre_particules ∧
      (etatjeu_vaisseau_tirer e).nombre_particules = e.nombre_particules ∧
      (_etatjeu_definir_quitter e q).nombre_particules = e.nombre_particules ∧
      (etatjeu_reinitialiser e).nombre_particules = 0) := by
  refine ⟨?_, ?_, ?_, creer_explosion_boucle_libre, ?_, ?_, ?_⟩
  · intro e x y t h
    unfold creer_explosion
    rw [creer_explosion_boucle_sature x y t directions (e.particules, e.nombre_particules) h]
  · intro x y t s d reste idx hn hq
    obtain ⟨h1, h2⟩ := premiere_particule_libre_spec s.1 idx hq
    refine ⟨h1, h2, ?_⟩
    conv_lhs => unfold creer_explosion_boucle
    rw [if_pos (by simp only [NB_MAX_PARTICULES]; exact_mod_cast hn), hq]
  · intro x y t s d reste hn hv
    conv_lhs => unfold creer_explosion_boucle
    rw [if_pos (by simp only [NB_MAX_PARTICULES]; exact_mod_cast hn),
      (premiere_particule_libre_aucune s.1).mpr hv]
  · intro e x y t
    exact creer_explosion_boucle_croissant x y t directions (e.particules, e.nombre_particules)
  · intro e dt alea
    exact (maj_evolue e dt alea).2.1
  · intro e dir q
    refine ⟨?_, ?_, rfl, rfl⟩
    · unfold etatjeu_deplacer_vaisseau
      simp only []
      split_ifs <;> rfl
    · obtain ⟨ps, n, h⟩ := ajouter_projectile_boucle_forme e e.joueur.x (ligne_vaisseau e - 1)
        (-1) 0 (List.range e.projectiles.length)
      unfold etatjeu_vaisseau_tirer ajouter_projectile
      rw [h]

set_option maxRecDepth 100000 in
/-- C30 on `etat_compteur_sature` (every one of the 256 slots has `ttl = 0`, count 256):
`creer_explosion` spawns nothing; on `etat_tir_au_but` (same pool, count 0) it fills the
slots 0 to 7 and the count becomes 8. -/
theorem explosion_plafonnee_temoin :
    (∀ q ∈ etat_compteur_sature.particules, q.ttl ≤ 0) ∧
    etat_compteur_sature.nombre_particules = 256 ∧
    creer_explosion etat_compteur_sature 5 5 1 = etat_compteur_sature ∧
    etatjeu_obtenir_nombre_particules (creer_explosion etat_tir_au_but 5 5 1) = 8 ∧
    (creer_explosion etat_tir_au_but 5 5 1).nombre_particules = 8 :=
  ⟨by intro q hq; rw [List.eq_of_mem_replicate hq], by decide,
    explosion_plafonnee.1 etat_compteur_sature 5 5 1 (by decide),
    by decide, by decide⟩

/-! ## C23: particle ageing -/

theorem vieillir_particule_vive (q : Particule) (h : q.ttl > 0) :
    vieillir_particule q = { q with x := q.x + q.vx, y := q.y + q.vy, ttl := q.ttl - 1 } := by
  unfold vieillir_particule
  rw [if_neg (by omega)]

/-- A particle that is still live after the ageing of a tick is left in its slot by that
tick. -/
theorem maj_particule_vive (e : EtatJeu) (dt : ℚ) (alea : Nat → Nat) (s : Nat) (q : Particule)
    (hq : e.particules[s]? = some q) (h : q.ttl > 1) :
    (etatjeu_mettre_a_jour e dt alea).particules[s]? =
      some { q with x := q.x + q.vx, y := q.y + q.vy, ttl := q.ttl - 1 } := by
  obtain ⟨_, _, h3⟩ := maj_evolue e dt alea
  have ha : (e.particules.map vieillir_particule)[s]? =
      some { q with x := q.x + q.vx, y := q.y + q.vy, ttl := q.ttl - 1 } := by
    rw [List.getElem?_map, hq, Option.map_some', vieillir_particule_vive q (by omega)]
  exact (h3 s _ ha).1 (by show q.ttl - 1 > 0; omega)

/-- After a tick, the slot of a particle that was live holds the aged particle or a fresh
particle of an explosion of that tick. -/
theorem maj_particule_derniere (e : EtatJeu) (dt : ℚ) (alea : Nat → Nat) (s : Nat)
    (q : Particule) (hq : e.particules[s]? = some q) (h : q.ttl > 0) :
    (etatjeu_mettre_a_jour e dt alea).particules[s]? =
      some { q with x := q.x + q.vx, y := q.y + q.vy, ttl := q.ttl - 1 } ∨
    ∃ q2 : Particule, (etatjeu_mettre_a_jour e dt alea).particules[s]? = some q2 ∧
      q2.ttl = 20 := by
  obtain ⟨_, _, h3⟩ := maj_evolue e dt alea
  have ha : (e.particules.map vieillir_particule)[s]? =
      some { q with x := q.x + q.vx, y := q.y + q.vy, ttl := q.ttl - 1 } := by
    rw [List.getElem?_map, hq, Option.map_some', vieillir_particule_vive q h]
  exact (h3 s _ ha).2

/-- After a tick, a slot whose particle had `ttl <= 0` holds the same particle or a fresh
particle of an explosion of that tick. -/
theorem maj_particule_morte (e : EtatJeu) (dt : ℚ) (alea : Nat → Nat) (s : Nat)
    (q : Particule) (hq : e.particules[s]? = some q) (h : q.ttl ≤ 0) :
    (etatjeu_mettre_a_jour e dt alea).particules[s]? = some q ∨
    ∃ q2 : Particule, (etatjeu_mettre_a_jour e dt alea).particules[s]? = some q2 ∧
      q2.ttl = 20 := by
  obtain ⟨_, _, h3⟩ := maj_evolue e dt alea
  have ha : (e.particules.map vieillir_particule)[s]? = some q := by
    rw [List.getElem?_map, hq, Option.map_some']
    unfold vieillir_particule
    rw [if_pos h]
  exact (h3 s _ ha).2

/-- Ship moves, shots and writes of the quit flag leave the particle pool as it is. -/
theorem executer_particules (o : Operation) (e : EtatJeu)
    (h : ∀ (dt : ℚ) (alea : Nat → Nat), o ≠ Operation.tick dt alea)
    (hr : o ≠ Operation.reinitialiser) :
    (executer o e).particules = e.particules := by
  cases o with
  | tick dt alea => exact absurd rfl (h dt alea)
  | deplacer dir =>
    show (etatjeu_deplacer_vaisseau e dir).particules = _
    unfold etatjeu_deplacer_vaisseau
    simp only []
    split_ifs <;> rfl
  | tirer =>
    obtain ⟨ps, n, h⟩ := ajouter_projectile_boucle_forme e e.joueur.x (ligne_vaisseau e - 1)
      (-1) 0 (List.range e.projectiles.length)
    show (etatjeu_vaisseau_tirer e).particules = _
    unfold etatjeu_vaisseau_tirer ajouter_projectile
    rw [h]
  | quitter q => rfl
  | reinitialiser => exact absurd rfl hr

theorem executer_tick (dt : ℚ) (alea : Nat → Nat) (e : EtatJeu) :
    executer (Operation.tick dt alea) e = etatjeu_mettre_a_jour e dt alea := rfl

theorem executer_suite_cons (o : Operation) (ops : List Operation) (e : EtatJeu) :
    executer_suite (o :: ops) e = executer_suite ops (executer o e) := rfl

/-- A sequence of calls without tick and without restart leaves the particle pool as it
is. -/
theorem executer_suite_sans_tick (ops : List Operation) :
    ∀ e : EtatJeu, sans_reinitialisation ops = true → nombre_ticks ops = 0 →
      (executer_suite ops e).particules = e.particules := by
  induction ops with
  | nil => intro e _ _; rfl
  | cons o reste ih =>
    intro e hs hk
    rw [executer_suite_cons]
    cases o with
    | tick dt alea => simp [nombre_ticks] at hk
    | deplacer dir =>
      rw [ih _ hs hk]
      exact executer_particules _ e (fun _ _ hc => by cases hc) (fun hc => by cases hc)
    | tirer =>
      rw [ih _ hs hk]
      exact executer_particules _ e (fun _ _ hc => by cases hc) (fun hc => by cases hc)
    | quitter q =>
      rw [ih _ hs hk]
      exact executer_particules _ e (fun _ _ hc => by cases hc) (fun hc => by cases hc)
    | reinitialiser => simp [sans_reinitialisation] at hs

/-- A particle after fewer ticks than its `ttl`, whatever the other calls in between. -/
theorem particule_apres_ticks (s : Nat) (ops : List Operation) :
    ∀ (e : EtatJeu) (q : Particule), e.particules[s]? = some q →
      sans_reinitialisation ops = true → (nombre_ticks ops : Int) < q.ttl →
      (executer_suite ops e).particules[s]? =
        some { q with
          x := q.x + (nombre_ticks ops : Int) * q.vx
          y := q.y + (nombre_ticks ops : Int) * q.vy
          ttl := q.ttl - (nombre_ticks ops : Int) } := by
  induction ops with
  | nil =>
    intro e q hq _ _
    show e.particules[s]? = _
    rw [hq]
    simp [nombre_ticks]
  | cons o reste ih =>
    intro e q hq hs hk
    rw [executer_suite_cons]
    cases o with
    | tick dt alea =>
      have hk2 : ((nombre_ticks reste : Nat) : Int) + 1 < q.ttl := by
        simpa [nombre_ticks] using hk
      have h1 := maj_particule_vive e dt alea s q hq (by omega)
      rw [executer_tick, ih _ _ h1 hs (by show ((nombre_ticks reste : Nat) : Int) < q.ttl - 1; omega)]
      simp only [nombre_ticks, Nat.cast_add, Nat.cast_one, Option.some.injEq,
        Particule.mk.injEq, and_true, true_and]
      refine ⟨by ring, by ring, by ring⟩
    | deplacer dir =>
      have h0 := executer_particules (Operation.deplacer dir) e (fun _ _ hc => by cases hc)
        (fun hc => by cases hc)
      exact ih _ q (by rw [h0]; exact hq) hs hk
    | tirer =>
      have h0 := executer_particules Operation.tirer e (fun _ _ hc => by cases hc)
        (fun hc => by cases hc)
      exact ih _ q (by rw [h0]; exact hq) hs hk
    | quitter v =>
      have h0 := executer_particules (Operation.quitter v) e (fun _ _ hc => by cases hc)
        (fun hc => by cases hc)
      exact ih _ q (by rw [h0]; exact hq) hs hk
    | reinitialiser => simp [sans_reinitialisation] at hs

/-- A particle after exactly as many ticks as its `ttl`: its slot holds the particle aged to
`ttl = 0`, or a fresh particle written by an explosion of the last tick. -/
theorem particule_apres_dernier_tick (s : Nat) (ops : List Operation) :
    ∀ (e : EtatJeu) (q : Particule), e.particules[s]? = some q → q.ttl > 0 →
      sans_reinitialisation ops = true → (nombre_ticks ops : Int) = q.ttl →
      (executer_suite ops e).particules[s]? =
        some { q with
          x := q.x + (nombre_ticks ops : Int) * q.vx
          y := q.y + (nombre_ticks ops : Int) * q.vy
          ttl := 0 } ∨
      ∃ q2 : Particule, (executer_suite ops e).particules[s]? = some q2 ∧ q2.ttl = 20 := by
  induction ops with
  | nil =>
    intro e q _ hv _ hk
    simp [nombre_ticks] at hk
    omega
  | cons o reste ih =>
    intro e q hq hv hs hk
    rw [executer_suite_cons]
    cases o with
    | tick dt alea =>
      have hk2 : ((nombre_ticks reste : Nat) : Int) + 1 = q.ttl := by
        simpa [nombre_ticks] using hk
      rw [executer_tick]
      by_cases h1 : q.ttl = 1
      · have hz : nombre_ticks reste = 0 := by omega
        rw [executer_suite_sans_tick reste _ hs hz]
        rcases maj_particule_derniere e dt alea s q hq hv with h | h
        · left
          rw [h]
          simp only [nombre_ticks, hz, Nat.cast_add, Nat.cast_one, Option.some.injEq,
            Particule.mk.injEq, and_true, true_and]
          refine ⟨by simp, by simp, by omega⟩
        · exact Or.inr h
      · have h2 := maj_particule_vive e dt alea s q hq (by omega)
        rcases ih _ _ h2 (by show q.ttl - 1 > 0; omega) hs
          (by show ((nombre_ticks reste : Nat) : Int) = q.ttl - 1; omega) with h | h
        · left
          rw [h]
          simp only [nombre_ticks, Nat.cast_add, Nat.cast_one, Option.some.injEq,
            Particule.mk.injEq, and_true, true_and]
          refine ⟨by ring, by ring⟩
        · exact Or.inr h
    | deplacer dir =>
      have h0 := executer_particules (Operation.deplacer dir) e (fun _ _ hc => by cases hc)
        (fun hc => by cases hc)
      exact ih _ q (by rw [h0]; exact hq) hv hs hk
    | tirer =>
      have h0 := executer_particules Operation.tirer e (fun _ _ hc => by cases hc)
        (fun hc => by cases hc)
      exact ih _ q (by rw [h0]; exact hq) hv hs hk
    | quitter v =>
      have h0 := executer_particules (Operation.quitter v) e (fun _ _ hc => by cases hc)
        (fun hc => by cases hc)
      exact ih _ q (by rw [h0]; exact hq) hv hs hk
    | reinitialiser => simp [sans_reinitialisation] at hs

/-- C23 (amended).  A particle `q` with `ttl > 0` sits in slot `s` (a particle just spawned by
an explosion has `ttl = 20`); `ops` is any sequence of ticks (any `dt`, any draws), ship
moves, shots and quit-flag writes, without restart, and `k` is its number of ticks.
(1) If `k < ttl` the slot holds the particle at `(x + k*vx, y + k*vy)` with `ttl - k > 0`,
velocity and type unchanged: it is still counted as active.  (2) If `k = ttl` the slot holds
the particle at `(x + k*vx, y + k*vy)` with `ttl = 0`, inactive, or a fresh particle
(`ttl = 20`) that an explosion of the last tick has written into the slot just freed.
(3) The ageing loop leaves a particle with `ttl <= 0` as it is, and after a tick the slot of
such a particle holds the same particle or a fresh one (`ttl = 20`). -/
theorem vieillissement (e : EtatJeu) (s : Nat) (q : Particule) (ops : List Operation)
    (hq : e.particules[s]? = some q) (hv : q.ttl > 0)
    (hs : sans_reinitialisation ops = true) :
    ((nombre_ticks ops : Int) < q.ttl →
      ∃ q2 : Particule, (executer_suite ops e).particules[s]? = some q2 ∧
        q2.x = q.x + (nombre_ticks ops : Int) * q.vx ∧
        q2.y = q.y + (nombre_ticks ops : Int) * q.vy ∧
        q2.vx = q.vx ∧ q2.vy = q.vy ∧ q2.type = q.type ∧
        q2.ttl = q.ttl - (nombre_ticks ops : Int) ∧ q2.ttl > 0) ∧
    ((nombre_ticks ops : Int) = q.ttl →
      (∃ q2 : Particule, (executer_suite ops e).particules[s]? = some q2 ∧
        q2.x = q.x + (nombre_ticks ops : Int) * q.vx ∧
        q2.y = q.y + (nombre_ticks ops : Int) * q.vy ∧ q2.ttl = 0) ∨
      (∃ q2 : Particule, (executer_suite ops e).particules[s]? = some q2 ∧ q2.ttl = 20)) ∧
    (∀ p : Particule, p.ttl ≤ 0 → vieillir_particule p = p) ∧
    (∀ (e0 : EtatJeu) (dt : ℚ) (alea : Nat → Nat) (k : Nat) (p : Particule),
      e0.particules[k]? = some p → p.ttl ≤ 0 →
      (etatjeu_mettre_a_jour e0 dt alea).particules[k]? = some p ∨
      ∃ q2 : Particule, (etatjeu_mettre_a_jour e0 dt alea).particules[k]? = some q2 ∧
        q2.ttl = 20) := by
  refine ⟨?_, ?_, ?_, ?_⟩
  · intro hk
    refine ⟨_, particule_apres_ticks s ops e q hq hs hk, rfl, rfl, rfl, rfl, rfl, rfl, ?_⟩
    show q.ttl - (nombre_ticks ops : Int) > 0
    omega
  · intro hk
    rcases particule_apres_dernier_tick s ops e q hq hv hs hk with h | h
    · exact Or.inl ⟨_, h, rfl, rfl, rfl⟩
    · exact Or.inr h
  · intro p hp
    unfold vieillir_particule
    rw [if_pos hp]
  · intro e0 dt alea k p hp hd
    exact maj_particule_morte e0 dt alea k p hp hd

set_option maxRecDepth 100000 in
/-- C23 (amended) on `etat_particule_neuve` (fresh particle on (5, 5), velocity (2, 0), in
slot 0) after two ticks, a shot and a third tick in which the shot destroys an enemy: the
particle is on (11, 5) with `ttl = 17`, the explosion having used other slots. -/
theorem vieillissement_temoin :
    etat_particule_neuve.particules[0]? = some ⟨5, 5, 2, 0, 20, 1⟩ ∧
    ∃ q2 : Particule,
      (executer_suite
        [Operation.tick 0 alea_calme, Operation.tick (1 / 10) alea_calme, Operation.tirer,
          Operation.tick 0 alea_calme] etat_particule_neuve).particules[0]? = some q2 ∧
      q2.x = 5 + ((3 : Nat) : Int) * 2 ∧ q2.y = 5 + ((3 : Nat) : Int) * 0 ∧
      q2.vx = 2 ∧ q2.vy = 0 ∧ q2.type = 1 ∧ q2.ttl = 20 - ((3 : Nat) : Int) ∧ q2.ttl > 0 :=
  ⟨by decide,
    (vieillissement etat_particule_neuve 0 ⟨5, 5, 2, 0, 20, 1⟩
      [Operation.tick 0 alea_calme, Operation.tick (1 / 10) alea_calme, Operation.tirer,
        Operation.tick 0 alea_calme] (by decide) (by decide) (by decide)).1 (by decide)⟩

set_option maxRecDepth 100000 in
/-- C23 as stated fails when an explosion reuses the slot.  From `etat_particule_neuve`,
after 20 ticks without restart, the last of which destroys an enemy on (20, 16), slot 0 does
not hold the particle on (5 + 20 * 2, 5) with `ttl = 0` but a fresh particle of the explosion,
on (20, 16) with `ttl = 20`.  In `etat_tir_au_but` slot 0 holds a particle with `ttl = 0` and
the tick writes a fresh particle into it. -/
theorem vieillissement_contre_exemple :
    (etat_particule_neuve.particules[0]? = some ⟨5, 5, 2, 0, 20, 1⟩ ∧
      sans_reinitialisation vingt_ticks_et_un_tir = true ∧
      nombre_ticks vingt_ticks_et_un_tir = 20 ∧
      (executer_suite vingt_ticks_et_un_tir etat_particule_neuve).particules[0]? =
        some ⟨20, 16, 2, 0, 20, 1⟩) ∧
    (etat_tir_au_but.particules[0]? = some ⟨0, 0, 0, 0, 0, 0⟩ ∧
      (etatjeu_mettre_a_jour etat_tir_au_but 0 alea_calme).particules[0]? =
        some ⟨5, 5, 2, 0, 20, 1⟩) :=
  ⟨⟨by decide, by decide, by decide, by with_unfolding_all decide⟩,
    ⟨by decide, by with_unfolding_all decide⟩⟩

/-! ## Lemmas: a projectile through a tick -/

theorem collision_boucliers_case (e : EtatJeu) (i : Nat) (q : Projectile)
    (hq : e.projectiles[i]? = some q) :
    (collision_boucliers e i).projectiles[i]? = some q ∨
    (collision_boucliers e i).projectiles[i]? = some { q with actif := 0 } := by
  rcases collision_boucliers_cas e i with h | ⟨b, bo, p, _, _, hp, _, _, _, h⟩
  · rw [h]; exact Or.inl hq
  · rw [h, toucher_bouclier_eq]
    rw [hq] at hp
    cases hp
    right
    exact List.getElem?_set_self (lt_length_of_getElem? hq)

/-- Processing slot `i`, which holds an active projectile: the slot then holds the projectile
one move further, active or not, with the same `x`, `dy` and owner. -/
theorem traiter_projectile_deplace (e : EtatJeu) (i : Nat) (p : Projectile)
    (hp : e.projectiles[i]? = some p) (ha : p.actif ≠ 0) :
    ∃ p2 : Projectile, (traiter_projectile e i).projectiles[i]? = some p2 ∧
      p2.x = p.x ∧ p2.y = p.y + p.dy ∧ p2.dy = p.dy ∧ p2.proprietaire = p.proprietaire ∧
      (p2.actif = p.actif ∨ p2.actif = 0) := by
  have hlt : i < e.projectiles.length := lt_length_of_getElem? hp
  have h1 : ({ e with projectiles := e.projectiles.set i { p with y := p.y + p.dy } } :
      EtatJeu).projectiles[i]? = some { p with y := p.y + p.dy } := List.getElem?_set_self hlt
  by_cases hb : p.y + p.dy < 0 ∨ p.y + p.dy ≥ e.hauteur
  · rw [traiter_projectile_hors_limites e i p hp ha hb]
    exact ⟨_, List.getElem?_set_self hlt, rfl, rfl, rfl, rfl, Or.inr rfl⟩
  · have h0 : 0 ≤ p.y + p.dy := by omega
    have h2 : p.y + p.dy < e.hauteur := by omega
    by_cases ho : p.proprietaire = 0
    · rw [traiter_projectile_joueur e i p hp ha ho h0 h2]
      rcases (collision_ennemis_cadre _ i _ h1).2.2 with hc | hc
      · rcases collision_boucliers_case _ i _ hc with hd | hd
        · exact ⟨_, hd, rfl, rfl, rfl, rfl, Or.inl rfl⟩
        · exact ⟨_, hd, rfl, rfl, rfl, rfl, Or.inr rfl⟩
      · rcases collision_boucliers_case _ i _ hc with hd | hd
        · exact ⟨_, hd, rfl, rfl, rfl, rfl, Or.inr rfl⟩
        · exact ⟨_, hd, rfl, rfl, rfl, rfl, Or.inr rfl⟩
    · rw [traiter_projectile_ennemi e i p hp ha ho h0 h2]
      rcases (collision_vaisseau_cadre _ i _ h1).2.2.2.2 with hc | hc
      · rcases collision_boucliers_case _ i _ hc with hd | hd
        · exact ⟨_, hd, rfl, rfl, rfl, rfl, Or.inl rfl⟩
        · exact ⟨_, hd, rfl, rfl, rfl, rfl, Or.inr rfl⟩
      · rcases collision_boucliers_case _ i _ hc with hd | hd
        · exact ⟨_, hd, rfl, rfl, rfl, rfl, Or.inr rfl⟩
        · exact ⟨_, hd, rfl, rfl, rfl, rfl, Or.inr rfl⟩

/-- Processing other slots leaves slot `k` as it is. -/
theorem foldl_traiter_autres (k : Nat) (l : List Nat) :
    ∀ s : EtatJeu, k ∉ l → (l.foldl traiter_projectile s).projectiles[k]? = s.projectiles[k]? := by
  induction l with
  | nil => intro s _; rfl
  | cons j t ih =>
    intro s hk
    have hkj : k ≠ j := fun hc => hk (hc ▸ List.mem_cons_self _ _)
    have hkt : k ∉ t := fun hc => hk (List.mem_cons_of_mem _ hc)
    exact (ih _ hkt).trans (traiter_projectile_autres s j k hkj)

/-- In the projectile loop every slot is processed once, in the state in which it still holds
what it held when the loop started. -/
theorem foldl_traiter_case (i : Nat) (n : Nat) (hi : i < n) (s : EtatJeu) :
    ∃ s1 : EtatJeu, s1.projectiles[i]? = s.projectiles[i]? ∧ s1.hauteur = s.hauteur ∧
      ((List.range n).foldl traiter_projectile s).projectiles[i]? =
        (traiter_projectile s1 i).projectiles[i]? := by
  obtain ⟨l2, hl2, hne⟩ := range_decoupe_ne n i hi
  refine ⟨(List.range i).foldl traiter_projectile s, ?_, ?_, ?_⟩
  · exact foldl_traiter_autres i _ s (fun hc => absurd (List.mem_range.mp hc) (lt_irrefl i))
  · obtain ⟨ps, ens, sc, bs, parts, np, v, g, h, _⟩ := foldl_traiter_forme (List.range i) s
    rw [h]
  · rw [hl2, List.foldl_append, List.foldl_cons]
    exact foldl_traiter_autres i l2 _ (fun hc => hne i hc rfl)

/-- At the end of the collision phase, the slot of a projectile that was active holds that
projectile one move further, active or not; out of the rows it is inactive. -/
theorem phase_collisions_deplace (e : EtatJeu) (dt : ℚ) (i : Nat) (p : Projectile)
    (hp : e.projectiles[i]? = some p) (ha : p.actif ≠ 0) :
    ∃ p2 : Projectile, (phase_collisions e dt).projectiles[i]? = some p2 ∧
      p2.x = p.x ∧ p2.y = p.y + p.dy ∧ p2.dy = p.dy ∧ p2.proprietaire = p.proprietaire ∧
      (p2.actif = p.actif ∨ p2.actif = 0) ∧
      ((p.y + p.dy < 0 ∨ p.y + p.dy ≥ e.hauteur) → p2.actif = 0) := by
  obtain ⟨s1, h1, hh, h2⟩ := foldl_traiter_case i e.projectiles.length
    (lt_length_of_getElem? hp)
    ({ ({ e with temps_acc := e.temps_acc + dt } : EtatJeu) with
        particules := e.particules.map vieillir_particule } : EtatJeu)
  have hp1 : s1.projectiles[i]? = some p := h1.trans hp
  obtain ⟨p2, a1, a2, a3, a4, a5, a6⟩ := traiter_projectile_deplace s1 i p hp1 ha
  have hc : (phase_collisions e dt).projectiles[i]? = some p2 := h2.trans a1
  refine ⟨p2, hc, a2, a3, a4, a5, a6, ?_⟩
  intro hb
  have hb1 : p.y + p.dy < 0 ∨ p.y + p.dy ≥ s1.hauteur := by rw [hh]; exact hb
  rw [traiter_projectile_hors_limites s1 i p hp1 ha hb1] at a1
  have : (s1.projectiles.set i { p with y := p.y + p.dy, actif := 0 })[i]? = some p2 := a1
  rw [List.getElem?_set_self (lt_length_of_getElem? hp1)] at this
  cases this
  rfl

/-- Adding a projectile leaves the active slots as they are. -/
theorem ajouter_projectile_boucle_actifs (e : EtatJeu) (x y dy o : Int) (l : List Nat)
    (i : Nat) (p : Projectile) (hp : e.projectiles[i]? = some p) (ha : p.actif ≠ 0) :
    (ajouter_projectile_boucle e x y dy o l).projectiles[i]? = some p := by
  induction l with
  | nil => exact hp
  | cons j reste ih =>
    unfold ajouter_projectile_boucle
    cases hq : e.projectiles[j]? with
    | none => exact ih
    | some q =>
      simp only []
      by_cases hqa : q.actif = 0
      · rw [if_pos hqa]
        have hji : j ≠ i := by
          intro hc
          subst hc
          rw [hp] at hq
          cases hq
          exact ha hqa
        show (e.projectiles.set j _)[i]? = some p
        rw [List.getElem?_set_ne hji]
        exact hp
      · rw [if_neg hqa]
        exact ih

/-- The projectile pool at the end of a tick is the one left by enemy fire, which acts on the
pool left by the collision phase. -/
theorem maj_projectiles (e : EtatJeu) (dt : ℚ) (alea : Nat → Nat) :
    (etatjeu_mettre_a_jour e dt alea).projectiles =
      (phase_tir_ennemi alea
        (phase_deplacement (phase_reapparition alea (phase_collisions e dt)).1)
        (phase_reapparition alea (phase_collisions e dt)).2).projectiles ∧
    (phase_deplacement (phase_reapparition alea (phase_collisions e dt)).1).projectiles =
      (phase_collisions e dt).projectiles := by
  obtain ⟨g, v, h⟩ := phase_defaite_forme (phase_tir_ennemi alea
    (phase_deplacement (phase_reapparition alea (phase_collisions e dt)).1)
    (phase_reapparition alea (phase_collisions e dt)).2)
  refine ⟨?_, (deplacement_reapparition_pools alea _).2.2.2.2.1⟩
  show (phase_defaite _).projectiles = _
  rw [h]

/-- Enemy fire leaves the active slots as they are. -/
theorem phase_tir_ennemi_actifs (alea : Nat → Nat) (e : EtatJeu) (k : Nat) (i : Nat)
    (p : Projectile) (hp : e.projectiles[i]? = some p) (ha : p.actif ≠ 0) :
    (phase_tir_ennemi alea e k).projectiles[i]? = some p := by
  unfold phase_tir_ennemi
  split_ifs
  · cases h1 : (idxs e)[alea (k + 1) % (idxs e).length]? with
    | none => exact hp
    | some pick =>
      simp only []
      cases h2 : e.ennemis[pick]? with
      | none => exact hp
      | some en => exact ajouter_projectile_boucle_actifs e _ _ _ _ _ i p hp ha
  · exact hp
  · exact hp

/-! ## C22: projectile movement and the bounds guard -/

/-- C22.  For every state, every slot `i` holding an active projectile `p` on `(x, y)` with
direction `dy`, every `dt` and every draws: at the end of the collision phase of the update
slot `i` holds that projectile on `(x, y + dy)`, with the same `dy` and owner, active or
deactivated; this does not depend on `dt`, `x` is unchanged, and for `dy` in `{-1, +1}` the
row changes by exactly one.  A projectile still active then is in its slot, unchanged, at the
end of the update.  If `y + dy < 0` or `y + dy >= hauteur` the projectile is deactivated; and
in whatever state of the loop a slot holding a projectile that leaves the rows is processed,
only that projectile slot is written: enemies, shields, lives, game-over, score and particles
are left as they are. -/
theorem projectile_avance (e : EtatJeu) (dt : ℚ) (alea : Nat → Nat) (i : Nat) (p : Projectile)
    (hp : e.projectiles[i]? = some p) (ha : p.actif ≠ 0) :
    (∃ p2 : Projectile, (phase_collisions e dt).projectiles[i]? = some p2 ∧
      p2.x = p.x ∧ p2.y = p.y + p.dy ∧ p2.dy = p.dy ∧ p2.proprietaire = p.proprietaire ∧
      (p2.actif = p.actif ∨ p2.actif = 0) ∧
      ((p.dy = 1 ∨ p.dy = -1) → (p2.y = p.y + 1 ∨ p2.y = p.y - 1)) ∧
      ((p.y + p.dy < 0 ∨ p.y + p.dy ≥ e.hauteur) → p2.actif = 0) ∧
      (p2.actif ≠ 0 → (etatjeu_mettre_a_jour e dt alea).projectiles[i]? = some p2)) ∧
    (∀ (s : EtatJeu), s.projectiles[i]? = some p →
      (p.y + p.dy < 0 ∨ p.y + p.dy ≥ s.hauteur) →
      (traiter_projectile s i).projectiles[i]? =
        some { p with y := p.y + p.dy, actif := 0 } ∧
      (∀ j : Nat, j ≠ i → (traiter_projectile s i).projectiles[j]? = s.projectiles[j]?) ∧
      (traiter_projectile s i).ennemis = s.ennemis ∧
      (traiter_projectile s i).boucliers = s.boucliers ∧
      (traiter_projectile s i).vies = s.vies ∧
      (traiter_projectile s i).game_over = s.game_over ∧
      (traiter_projectile s i).score = s.score ∧
      (traiter_projectile s i).particules = s.particules) := by
  constructor
  · obtain ⟨p2, a1, a2, a3, a4, a5, a6, a7⟩ := phase_collisions_deplace e dt i p hp ha
    refine ⟨p2, a1, a2, a3, a4, a5, a6, ?_, a7, ?_⟩
    · intro hd
      rcases hd with hd | hd
      · left; rw [a3, hd]
      · right; rw [a3, hd]; ring
    · intro hact
      obtain ⟨m1, m2⟩ := maj_projectiles e dt alea
      rw [m1]
      apply phase_tir_ennemi_actifs _ _ _ i p2 _ hact
      rw [m2]
      exact a1
  · intro s hs hb
    rw [traiter_projectile_hors_limites s i p hs ha hb]
    refine ⟨List.getElem?_set_self (lt_length_of_getElem? hs), ?_, rfl, rfl, rfl, rfl, rfl, rfl⟩
    intro j hj
    show (s.projectiles.set i _)[j]? = _
    rw [List.getElem?_set_ne (fun hc => hj hc.symm)]

set_option maxRecDepth 100000 in
/-- C22 on `etat_cases_eparses`, slot 1 (player projectile on (3, 4), `dy = -1`), with
`dt = 1/4`: the projectile is on (3, 3), active, at the end of the update; and on
`etat_hauteur_1`, slot 0 (projectile on (20, -2), `dy = +1`, height 1): moved onto (20, -1),
outside the rows, it is inactive and the enemies are unchanged. -/
theorem projectile_avance_temoin :
    etat_cases_eparses.projectiles[1]? = some ⟨3, 4, -1, 0, 1⟩ ∧
    (etatjeu_mettre_a_jour etat_cases_eparses (1 / 4) alea_calme).projectiles[1]? =
      some ⟨3, 3, -1, 0, 1⟩ ∧
    etat_hauteur_1.projectiles[0]? = some ⟨20, -2, 1, 1, 1⟩ ∧
    (traiter_projectile etat_hauteur_1 0).projectiles[0]? = some ⟨20, -1, 1, 1, 0⟩ ∧
    (traiter_projectile etat_hauteur_1 0).ennemis = etat_hauteur_1.ennemis := by
  obtain ⟨⟨p2, a1, _, _, _, _, _, _, _, a9⟩, _⟩ :=
    projectile_avance etat_cases_eparses (1 / 4) alea_calme 1 ⟨3, 4, -1, 0, 1⟩ (by decide)
      (by decide)
  have hp2 : p2 = ⟨3, 3, -1, 0, 1⟩ := by
    have h : (phase_collisions etat_cases_eparses (1 / 4)).projectiles[1]? =
        some ⟨3, 3, -1, 0, 1⟩ := by with_unfolding_all decide
    rw [a1] at h
    exact Option.some.inj h
  subst hp2
  have hb := (projectile_avance etat_hauteur_1 0 alea_calme 0 ⟨20, -2, 1, 1, 1⟩ (by decide)
    (by decide)).2 etat_hauteur_1 (by decide) (by decide)
  exact ⟨by decide, a9 (by decide), by decide, hb.1, hb.2.2.1⟩

/-! ## C25: the movement timer -/

/-- The movement timer at the end of a tick is the one left by the enemy step. -/
theorem maj_acc (e : EtatJeu) (dt : ℚ) (alea : Nat → Nat) :
    (etatjeu_mettre_a_jour e dt alea).acc_deplacement_ennemis =
      (phase_deplacement
        (phase_reapparition alea (phase_collisions e dt)).1).acc_deplacement_ennemis := by
  obtain ⟨ps, n, g, v, h⟩ := fin_de_maj e dt alea
  rw [h]

/-- C25.  Times are exact rationals.  State and `dt` such that at least one enemy is alive
when the collision phase of the update is over (`c` below is the state at that point; its
enemies are on the cells they have at the call).  If the movement timer plus `dt` is strictly
below the interval, the update leaves the enemies and the direction as the collision phase
left them, every slot on the cell it has at the call, and the timer becomes old + `dt`.  If it
is at or above the interval, the timer becomes exactly 0 and the enemies are those of `c`
after exactly one step: when an alive enemy would leave `[0, largeur)` the direction is
negated and every alive enemy of a slot below the count goes down one row, otherwise the
direction is kept and every such enemy has the direction added to its `x`; the other slots are
as in `c`.  The outcome is one step however large `dt` is. -/
theorem cadence (e : EtatJeu) (dt : ℚ) (alea : Nat → Nat)
    (hviv : nombre_ennemis_vivants (phase_collisions e dt) ≠ 0) :
    (e.acc_deplacement_ennemis + dt < e.intervalle_deplacement_ennemis →
      (etatjeu_mettre_a_jour e dt alea).acc_deplacement_ennemis =
        e.acc_deplacement_ennemis + dt ∧
      (etatjeu_mettre_a_jour e dt alea).direction_ennemis = e.direction_ennemis ∧
      (etatjeu_mettre_a_jour e dt alea).ennemis = (phase_collisions e dt).ennemis ∧
      (∀ (k : Nat) (en : Entite), e.ennemis[k]? = some en →
        ∃ en2 : Entite, (etatjeu_mettre_a_jour e dt alea).ennemis[k]? = some en2 ∧
          en2.x = en.x ∧ en2.y = en.y)) ∧
    (e.acc_deplacement_ennemis + dt ≥ e.intervalle_deplacement_ennemis →
      (etatjeu_mettre_a_jour e dt alea).acc_deplacement_ennemis = 0 ∧
      (touche_bord (phase_collisions e dt) = true →
        (etatjeu_mettre_a_jour e dt alea).direction_ennemis = -e.direction_ennemis ∧
        (etatjeu_mettre_a_jour e dt alea).ennemis =
          (phase_collisions e dt).ennemis.mapIdx (fun i en =>
            if (i : Int) < e.nombre_ennemis ∧ en.vivant ≠ 0 then { en with y := en.y + 1 }
            else en)) ∧
      (touche_bord (phase_collisions e dt) = false →
        (etatjeu_mettre_a_jour e dt alea).direction_ennemis = e.direction_ennemis ∧
        (etatjeu_mettre_a_jour e dt alea).ennemis =
          (phase_collisions e dt).ennemis.mapIdx (fun i en =>
            if (i : Int) < e.nombre_ennemis ∧ en.vivant ≠ 0 then
              { en with x := en.x + e.direction_ennemis }
            else en))) := by
  obtain ⟨hacc, hint, hdir, hnb, _, _, _, hmc⟩ := phase_collisions_cadre e dt
  have hr := phase_reapparition_vivants alea _ hviv
  constructor
  · intro ht
    have hdep := phase_deplacement_attente (phase_collisions e dt) (by rw [hacc, hint]; exact ht)
    rw [maj_acc, maj_direction_ennemis, maj_ennemis, hr, hdep]
    refine ⟨hacc, hdir, rfl, ?_⟩
    intro k en hk
    obtain ⟨en2, hk2, hx2, hy2, _⟩ := hmc.2 k en hk
    exact ⟨en2, hk2, hx2, hy2⟩
  · intro ht
    have ht2 : (phase_collisions e dt).acc_deplacement_ennemis ≥
        (phase_collisions e dt).intervalle_deplacement_ennemis := by rw [hacc, hint]; exact ht
    rw [maj_acc, maj_direction_ennemis, maj_ennemis, hr]
    refine ⟨?_, ?_, ?_⟩
    · cases hb : touche_bord (phase_collisions e dt) with
      | true => rw [phase_deplacement_rebond _ ht2 hb]
      | false => rw [phase_deplacement_pas _ ht2 hb]
    · intro hb
      rw [phase_deplacement_rebond _ ht2 hb]
      refine ⟨by show -(phase_collisions e dt).direction_ennemis = _; rw [hdir], ?_⟩
      show (phase_collisions e dt).ennemis.mapIdx _ = _
      rw [hnb]
    · intro hb
      rw [phase_deplacement_pas _ ht2 hb]
      refine ⟨hdir, ?_⟩
      show (phase_collisions e dt).ennemis.mapIdx _ = _
      rw [hnb, hdir]

set_option maxRecDepth 100000 in
/-- C25 on `etat_en_marche` (timer 0, interval 6/10, enemies on (5, 5) and (9, 5), moving
right): with `dt = 1/2` the timer becomes 1/2 and no enemy moves; with `dt = 5` the timer
becomes 0 and the enemies have moved by one column only. -/
theorem cadence_temoin :
    nombre_ennemis_vivants (phase_collisions etat_en_marche (1 / 2)) ≠ 0 ∧
    (etatjeu_mettre_a_jour etat_en_marche (1 / 2) alea_calme).acc_deplacement_ennemis =
      etat_en_marche.acc_deplacement_ennemis + 1 / 2 ∧
    (etatjeu_mettre_a_jour etat_en_marche (1 / 2) alea_calme).ennemis =
      (phase_collisions etat_en_marche (1 / 2)).ennemis ∧
    (etatjeu_mettre_a_jour etat_en_marche 5 alea_calme).acc_deplacement_ennemis = 0 ∧
    ((etatjeu_mettre_a_jour etat_en_marche 5 alea_calme).ennemis.take 2).map
      (fun en => (en.x, en.y)) = [(6, 5), (10, 5)] :=
  have h1 := (cadence etat_en_marche (1 / 2) alea_calme (by with_unfolding_all decide)).1
    (by with_unfolding_all decide)
  have h2 := (cadence etat_en_marche 5 alea_calme (by with_unfolding_all decide)).2
    (by with_unfolding_all decide)
  ⟨by with_unfolding_all decide, h1.1, h1.2.2.1, h2.1, by with_unfolding_all decide⟩

/-! ## Lemmas: enemy fire -/

theorem idxs_eq (e : EtatJeu) :
    idxs e = (List.range e.nombre_ennemis.toNat).filter (est_vivant e) := by
  unfold idxs
  apply List.filter_congr
  intro i _
  unfold est_vivant
  cases e.ennemis[i]? <;> rfl

theorem nombre_ennemis_vivants_eq (e : EtatJeu) :
    nombre_ennemis_vivants e = (idxs e).length := by
  unfold nombre_ennemis_vivants idxs
  rfl

theorem est_vivant_iff (e : EtatJeu) (i : Nat) :
    est_vivant e i = true ↔ ∃ en : Entite, e.ennemis[i]? = some en ∧ en.vivant ≠ 0 := by
  unfold est_vivant
  cases h : e.ennemis[i]? with
  | none => simp
  | some en => simp

/-- The element of rank `k` of `idxs` is an alive slot below the count with exactly `k` alive
slots before it. -/
theorem idxs_rang (e : EtatJeu) (k : Nat) (hk : k < (idxs e).length) :
    ∃ (pick : Nat) (en : Entite), (idxs e)[k]? = some pick ∧
      (pick : Int) < e.nombre_ennemis ∧ e.ennemis[pick]? = some en ∧ en.vivant ≠ 0 ∧
      ((List.range pick).filter (est_vivant e)).length = k := by
  rw [idxs_eq] at hk ⊢
  obtain ⟨i, x, h1, h2, h3, h4⟩ := filter_getElem_case (est_vivant e)
    (List.range e.nombre_ennemis.toNat) k hk
  have hi : i < e.nombre_ennemis.toNat := by
    have := lt_length_of_getElem? h1
    rwa [List.length_range] at this
  have hx : x = i := by
    rw [List.getElem?_range hi] at h1
    exact (Option.some.inj h1).symm
  subst hx
  obtain ⟨en, he, hv⟩ := (est_vivant_iff e x).mp h2
  refine ⟨x, en, h4, by omega, he, hv, ?_⟩
  rw [List.take_range, min_eq_left (le_of_lt hi)] at h3
  exact h3

/-- Effect of `ajouter_projectile`: the lowest inactive slot receives the projectile, or the
pool is full and nothing changes. -/
theorem ajouter_projectile_effet (e : EtatJeu) (x y dy o : Int) :
    (∀ (k : Nat) (q : Projectile), e.projectiles[k]? = some q → q.actif = 0 →
      (∀ j < k, ∀ r, e.projectiles[j]? = some r → r.actif ≠ 0) →
      (ajouter_projectile e x y dy o).projectiles[k]? =
        some { x := x, y := y, dy := dy, proprietaire := o, actif := 1 } ∧
      (∀ j, j ≠ k → (ajouter_projectile e x y dy o).projectiles[j]? = e.projectiles[j]?) ∧
      etatjeu_obtenir_nombre_projectiles (ajouter_projectile e x y dy o) =
        etatjeu_obtenir_nombre_projectiles e + 1) ∧
    ((∀ q ∈ e.projectiles, q.actif ≠ 0) → ajouter_projectile e x y dy o = e) := by
  constructor
  · intro k q hq ha hprem
    have hk : k < e.projectiles.length := lt_length_of_getElem? hq
    obtain ⟨l2, hl2⟩ := range_decoupe e.projectiles.length k hk
    have hres := ajouter_projectile_boucle_premier e x y dy o
      (List.range k) l2 k q hq ha (fun j hj => hprem j (List.mem_range.mp hj))
    unfold ajouter_projectile
    rw [hl2, hres]
    refine ⟨?_, ?_, ?_⟩
    · exact List.getElem?_set_self hk
    · intro j hj
      simp only []
      rw [List.getElem?_set_ne (Ne.symm hj)]
    · unfold etatjeu_obtenir_nombre_projectiles
      simp only []
      rw [length_filter_set _ _ (by simp) e.projectiles k q hq (by simp [ha])]
      push_cast
      ring
  · intro hplein
    unfold ajouter_projectile
    apply ajouter_projectile_boucle_plein
    intro j _ q hq
    exact hplein q (List.getElem?_mem hq)

/-- A pool with an inactive slot has a lowest inactive slot. -/
theorem premier_inactif (l : List Projectile) (s : Nat) (q : Projectile)
    (hq : l[s]? = some q) (ha : q.actif = 0) :
    ∃ (k : Nat) (r : Projectile), l[k]? = some r ∧ r.actif = 0 ∧
      ∀ j < k, ∀ t, l[j]? = some t → t.actif ≠ 0 := by
  induction s using Nat.strong_induction_on generalizing q with
  | _ s ih =>
    by_cases h : ∀ j < s, ∀ t, l[j]? = some t → t.actif ≠ 0
    · exact ⟨s, q, hq, ha, h⟩
    · push_neg at h
      obtain ⟨j, hj, t, ht, hta⟩ := h
      exact ih j hj t ht hta

/-- The three outcomes of the enemy-fire phase. -/
theorem phase_tir_ennemi_cas (alea : Nat → Nat) (e : EtatJeu) (k : Nat) :
    (alea k % 100 < 4 → 0 < nombre_ennemis_vivants e →
      ∃ (pick : Nat) (en : Entite),
        (idxs e)[alea (k + 1) % nombre_ennemis_vivants e]? = some pick ∧
        (pick : Int) < e.nombre_ennemis ∧ e.ennemis[pick]? = some en ∧ en.vivant ≠ 0 ∧
        ((List.range pick).filter (est_vivant e)).length =
          alea (k + 1) % nombre_ennemis_vivants e ∧
        phase_tir_ennemi alea e k = ajouter_projectile e en.x (en.y + 1) 1 1) ∧
    (¬ (alea k % 100 < 4 ∧ 0 < nombre_ennemis_vivants e) → phase_tir_ennemi alea e k = e) := by
  rw [nombre_ennemis_vivants_eq]
  constructor
  · intro h1 h2
    obtain ⟨pick, en, a1, a2, a3, a4, a5⟩ := idxs_rang e (alea (k + 1) % (idxs e).length)
      (Nat.mod_lt _ h2)
    refine ⟨pick, en, a1, a2, a3, a4, a5, ?_⟩
    unfold phase_tir_ennemi
    rw [if_pos h1, if_pos h2, a1]
    simp only [a3]
  · intro h
    unfold phase_tir_ennemi
    by_cases h1 : alea k % 100 < 4
    · rw [if_pos h1, if_neg (fun hc => h ⟨h1, hc⟩)]
    · rw [if_neg h1]

/-! ## C24: enemy fire -/

/-- C24.  The draws are the function `alea`.  The projectile pool at the end of an update is
the one left by the enemy-fire phase, run on the state `m` reached after the enemy step, whose
projectile pool is the one left by the collision phase; `k` is the number of draws the respawn
has used, `r1 = alea k` is the fire draw and `r2 = alea (k + 1)` the choice draw.  For every
such state: if `r1 % 100 < 4`, `n > 0` enemies are alive and some projectile slot is inactive,
then the shooter is the slot of rank `r2 % n` among the alive enemies in slot order (it is
alive, below the enemy count, with exactly `r2 % n` alive slots before it), the lowest
inactive projectile slot receives the active projectile `(shooter x, shooter y + 1)` with
`dy = +1` and owner 1, every other slot is unchanged and the number of active projectiles
rises by exactly 1; if one of the three conditions fails the phase changes nothing. -/
theorem tir_ennemi (e : EtatJeu) (dt : ℚ) (alea : Nat → Nat) :
    ((etatjeu_mettre_a_jour e dt alea).projectiles =
        (phase_tir_ennemi alea
          (phase_deplacement (phase_reapparition alea (phase_collisions e dt)).1)
          (phase_reapparition alea (phase_collisions e dt)).2).projectiles ∧
      (phase_deplacement (phase_reapparition alea (phase_collisions e dt)).1).projectiles =
        (phase_collisions e dt).projectiles) ∧
    ∀ (m : EtatJeu) (k : Nat),
      ((alea k % 100 < 4 ∧ 0 < nombre_ennemis_vivants m ∧
          (∃ (s : Nat) (q : Projectile), m.projectiles[s]? = some q ∧ q.actif = 0)) →
        ∃ (pick : Nat) (en : Entite) (s : Nat) (q : Projectile),
          (idxs m)[alea (k + 1) % nombre_ennemis_vivants m]? = some pick ∧
          (pick : Int) < m.nombre_ennemis ∧ m.ennemis[pick]? = some en ∧ en.vivant ≠ 0 ∧
          ((List.range pick).filter (est_vivant m)).length =
            alea (k + 1) % nombre_ennemis_vivants m ∧
          m.projectiles[s]? = some q ∧ q.actif = 0 ∧
          (∀ j < s, ∀ r, m.projectiles[j]? = some r → r.actif ≠ 0) ∧
          (phase_tir_ennemi alea m k).projectiles[s]? =
            some { x := en.x, y := en.y + 1, dy := 1, proprietaire := 1, actif := 1 } ∧
          (∀ j, j ≠ s → (phase_tir_ennemi alea m k).projectiles[j]? = m.projectiles[j]?) ∧
          etatjeu_obtenir_nombre_projectiles (phase_tir_ennemi alea m k) =
            etatjeu_obtenir_nombre_projectiles m + 1) ∧
      (¬ (alea k % 100 < 4 ∧ 0 < nombre_ennemis_vivants m ∧
          (∃ (s : Nat) (q : Projectile), m.projectiles[s]? = some q ∧ q.actif = 0)) →
        phase_tir_ennemi alea m k = m) := by
  refine ⟨maj_projectiles e dt alea, ?_⟩
  intro m k
  obtain ⟨c1, c2⟩ := phase_tir_ennemi_cas alea m k
  constructor
  · rintro ⟨h1, h2, s0, q0, hq0, ha0⟩
    obtain ⟨pick, en, a1, a2, a3, a4, a5, a6⟩ := c1 h1 h2
    obtain ⟨s, q, hq, ha, hprem⟩ := premier_inactif m.projectiles s0 q0 hq0 ha0
    obtain ⟨b1, b2, b3⟩ := (ajouter_projectile_effet m en.x (en.y + 1) 1 1).1 s q hq ha hprem
    rw [a6]
    exact ⟨pick, en, s, q, a1, a2, a3, a4, a5, hq, ha, hprem, b1, b2, b3⟩
  · intro h
    by_cases h12 : alea k % 100 < 4 ∧ 0 < nombre_ennemis_vivants m
    · obtain ⟨pick, en, _, _, _, _, _, a6⟩ := c1 h12.1 h12.2
      rw [a6]
      apply (ajouter_projectile_effet m en.x (en.y + 1) 1 1).2
      intro q hq hqa
      obtain ⟨s, hs⟩ := List.getElem?_of_mem hq
      exact h ⟨h12.1, h12.2, s, q, hs, hqa⟩
    · exact c2 h12

set_option maxRecDepth 100000 in
/-- C24 on `etat_en_marche` (alive enemies in slots 0 and 1, on (5, 5) and (9, 5); no active
projectile) with the fire draw 3 and the choice draw 1: the shooter is slot 1 and the update
puts the projectile (9, 6), `dy = +1`, owner 1, into slot 0. -/
theorem tir_ennemi_temoin :
    (alea_tir 0 % 100 < 4 ∧ 0 < nombre_ennemis_vivants etat_en_marche ∧
      (∃ (s : Nat) (q : Projectile), etat_en_marche.projectiles[s]? = some q ∧ q.actif = 0)) ∧
    (idxs etat_en_marche)[alea_tir 1 % nombre_ennemis_vivants etat_en_marche]? = some 1 ∧
    etatjeu_obtenir_nombre_projectiles (phase_tir_ennemi alea_tir etat_en_marche 0) =
      etatjeu_obtenir_nombre_projectiles etat_en_marche + 1 ∧
    (etatjeu_mettre_a_jour etat_en_marche 0 alea_tir).projectiles[0]? =
      some ⟨9, 6, 1, 1, 1⟩ := by
  have hc : alea_tir 0 % 100 < 4 ∧ 0 < nombre_ennemis_vivants etat_en_marche ∧
      (∃ (s : Nat) (q : Projectile), etat_en_marche.projectiles[s]? = some q ∧ q.actif = 0) :=
    ⟨by decide, by decide, 0, projectile_inactif, by decide, by decide⟩
  obtain ⟨pick, en, s, q, _, _, _, _, _, _, _, _, _, _, a11⟩ :=
    ((tir_ennemi etat_en_marche 0 alea_tir).2 etat_en_marche 0).1 hc
  exact ⟨hc, by decide, a11, by with_unfolding_all decide⟩

/-! ## Lemmas: lives and game-over through a tick -/

/-- Processing one projectile slot either leaves lives and game-over as they are, or takes one
life and sets game-over when no life is left. -/
theorem traiter_projectile_vies_cas (e : EtatJeu) (i : Nat) :
    ((traiter_projectile e i).vies = e.vies ∧
      (traiter_projectile e i).game_over = e.game_over) ∨
    ((traiter_projectile e i).vies = e.vies - 1 ∧
      (traiter_projectile e i).game_over = (if e.vies - 1 ≤ 0 then 1 else e.game_over)) := by
  by_cases h : ∀ q : Projectile, e.projectiles[i]? = some q → ¬ touche_vaisseau e q
  · exact Or.inl (traiter_projectile_sans_toucher e i h)
  · push_neg at h
    obtain ⟨q, hq, ht⟩ := h
    by_cases hH : 2 ≤ e.hauteur
    · obtain ⟨a1, a2, _⟩ := traiter_projectile_touche_vaisseau e i q hH hq ht
      exact Or.inr ⟨a1, a2⟩
    · left
      obtain ⟨ha, _, _, hy⟩ := ht
      rw [traiter_projectile_hors_limites e i q hq ha (Or.inl (by omega))]
      exact ⟨rfl, rfl⟩

/-- The invariant "game-over is 0 or 1, it is set exactly when no life is left, and there are
at most 3 lives" through the projectile loop, in which lives do not increase. -/
theorem foldl_traiter_vies (l : List Nat) :
    ∀ e : EtatJeu,
      (l.foldl traiter_projectile e).vies ≤ e.vies ∧
      (((e.game_over = 0 ∨ e.game_over = 1) ∧ (e.game_over ≠ 0 ↔ e.vies ≤ 0)) →
        (((l.foldl traiter_projectile e).game_over = 0 ∨
            (l.foldl traiter_projectile e).game_over = 1) ∧
          ((l.foldl traiter_projectile e).game_over ≠ 0 ↔
            (l.foldl traiter_projectile e).vies ≤ 0))) := by
  induction l with
  | nil => intro e; exact ⟨le_refl _, fun h => h⟩
  | cons i reste ih =>
    intro e
    obtain ⟨b1, b2⟩ := ih (traiter_projectile e i)
    rcases traiter_projectile_vies_cas e i with ⟨a1, a2⟩ | ⟨a1, a2⟩
    · rw [a1] at b1 b2
      rw [a2] at b2
      exact ⟨b1, b2⟩
    · rw [a1] at b1
      refine ⟨by show (List.foldl traiter_projectile (traiter_projectile e i) reste).vies ≤ _
                 omega, ?_⟩
      intro hj
      apply b2
      rw [a1, a2]
      by_cases hc : e.vies - 1 ≤ 0
      · rw [if_pos hc]
        exact ⟨Or.inr rfl, fun _ => hc, fun _ => by decide⟩
      · rw [if_neg hc]
        have h0 : e.game_over = 0 := by
          by_contra hne
          have := hj.2.mp hne
          omega
        exact ⟨Or.inl h0, fun h => absurd h0 h, fun h => absurd h hc⟩

theorem phase_collisions_vies (e : EtatJeu) (dt : ℚ) :
    (phase_collisions e dt).vies ≤ e.vies ∧
    (((e.game_over = 0 ∨ e.game_over = 1) ∧ (e.game_over ≠ 0 ↔ e.vies ≤ 0)) →
      (((phase_collisions e dt).game_over = 0 ∨ (phase_collisions e dt).game_over = 1) ∧
        ((phase_collisions e dt).game_over ≠ 0 ↔ (phase_collisions e dt).vies ≤ 0))) :=
  foldl_traiter_vies (List.range e.projectiles.length)
    ({ ({ e with temps_acc := e.temps_acc + dt } : EtatJeu) with
        particules := e.particules.map vieillir_particule } : EtatJeu)

/-- Lives and game-over after a tick. -/
theorem maj_vies (e : EtatJeu) (dt : ℚ) (alea : Nat → Nat) :
    (etatjeu_mettre_a_jour e dt alea).vies ≤ max e.vies 0 ∧
    (0 ≤ e.vies → (etatjeu_mettre_a_jour e dt alea).vies ≤ e.vies) ∧
    (((e.game_over = 0 ∨ e.game_over = 1) ∧ (e.game_over ≠ 0 ↔ e.vies ≤ 0)) →
      (((etatjeu_mettre_a_jour e dt alea).game_over = 0 ∨
          (etatjeu_mettre_a_jour e dt alea).game_over = 1) ∧
        ((etatjeu_mettre_a_jour e dt alea).game_over ≠ 0 ↔
          (etatjeu_mettre_a_jour e dt alea).vies ≤ 0))) := by
  obtain ⟨c1, c2⟩ := phase_collisions_vies e dt
  obtain ⟨m1, m2⟩ := maj_defaite e dt alea
  by_cases h : ∃ (k : Nat) (en : Entite),
      (k : Int) < (phase_deplacement
        (phase_reapparition alea (phase_collisions e dt)).1).nombre_ennemis ∧
      (phase_deplacement
        (phase_reapparition alea (phase_collisions e dt)).1).ennemis[k]? = some en ∧
      en.vivant ≠ 0 ∧ en.y ≥ e.hauteur - 2
  · obtain ⟨g1, v0⟩ := m1 h
    rw [g1, v0]
    exact ⟨le_max_right _ _, fun h0 => h0, fun _ => ⟨Or.inr rfl, fun _ => le_refl _,
      fun _ => by decide⟩⟩
  · obtain ⟨g1, v1⟩ := m2 h
    rw [g1, v1]
    exact ⟨le_trans c1 (le_max_left _ _), fun _ => c1, c2⟩

/-! ## C27: lives and game-over -/

/-- A sequence of calls whose ticks have `dt >= 0` leads from a reachable state to a reachable
state. -/
theorem atteignable_suite (brut : EtatJeu) (largeur hauteur : Int) (ops : List Operation) :
    ∀ e : EtatJeu, Atteignable brut largeur hauteur e → dt_positifs ops = true →
      Atteignable brut largeur hauteur (executer_suite ops e) := by
  induction ops with
  | nil => intro e h _; exact h
  | cons o reste ih =>
    intro e h hd
    rw [executer_suite_cons]
    cases o with
    | tick dt alea =>
      simp only [dt_positifs, Bool.and_eq_true, decide_eq_true_eq] at hd
      exact ih _ (Atteignable.mettre_a_jour e dt alea h hd.1) hd.2
    | deplacer dir => exact ih _ (Atteignable.deplacer_vaisseau e dir h) hd
    | tirer => exact ih _ (Atteignable.vaisseau_tirer e h) hd
    | quitter q => exact ih _ (Atteignable.definir_quitter e q h) hd
    | reinitialiser => exact ih _ (Atteignable.reinitialiser e h) hd

/-- In every reachable state game-over is 0 or 1, it is set exactly when no life is left, and
there are at most 3 lives. -/
theorem atteignable_vies (brut : EtatJeu) (largeur hauteur : Int) (e : EtatJeu)
    (h : Atteignable brut largeur hauteur e) :
    (e.game_over = 0 ∨ e.game_over = 1) ∧ (e.game_over ≠ 0 ↔ e.vies ≤ 0) ∧ e.vies ≤ 3 := by
  induction h with
  | creer alea =>
    refine ⟨Or.inl rfl, ?_, ?_⟩
    · show (0 : Int) ≠ 0 ↔ (3 : Int) ≤ 0
      decide
    · show (3 : Int) ≤ 3
      decide
  | mettre_a_jour e dt alea _ _ ih =>
    obtain ⟨m1, _, m3⟩ := maj_vies e dt alea
    obtain ⟨j1, j2⟩ := m3 ⟨ih.1, ih.2.1⟩
    refine ⟨j1, j2, le_trans m1 (max_le ih.2.2 (by decide))⟩
  | deplacer_vaisseau e dir _ ih =>
    have : (etatjeu_deplacer_vaisseau e dir).game_over = e.game_over ∧
        (etatjeu_deplacer_vaisseau e dir).vies = e.vies := by
      unfold etatjeu_deplacer_vaisseau
      simp only []
      split_ifs <;> exact ⟨rfl, rfl⟩
    rw [this.1, this.2]
    exact ih
  | vaisseau_tirer e _ ih =>
    obtain ⟨ps, n, h⟩ := ajouter_projectile_boucle_forme e e.joueur.x (ligne_vaisseau e - 1)
      (-1) 0 (List.range e.projectiles.length)
    have : (etatjeu_vaisseau_tirer e).game_over = e.game_over ∧
        (etatjeu_vaisseau_tirer e).vies = e.vies := by
      unfold etatjeu_vaisseau_tirer ajouter_projectile
      rw [h]
      exact ⟨rfl, rfl⟩
    rw [this.1, this.2]
    exact ih
  | reinitialiser e _ _ =>
    refine ⟨Or.inl rfl, ?_, ?_⟩
    · show (0 : Int) ≠ 0 ↔ (3 : Int) ≤ 0
      decide
    · show (3 : Int) ≤ 3
      decide
  | definir_quitter e q _ ih => exact ih

/-- C27 (amended).  In every state reachable from `etatjeu_creer` by ticks, ship moves, shots,
quit-flag writes and restarts, the game-over flag is 0 or 1 and is set if and only if lives
are `<= 0`, and lives are at most 3.  An update never raises lives above the larger of their
value before the update and 0: it never increases lives that are `>= 0`, and the only
increase is the defeat check setting negative lives to 0. -/
theorem fin_de_partie (brut : EtatJeu) (largeur hauteur : Int) (e : EtatJeu)
    (h : Atteignable brut largeur hauteur e) :
    (etatjeu_est_game_over e = 0 ∨ etatjeu_est_game_over e = 1) ∧
    (etatjeu_est_game_over e ≠ 0 ↔ etatjeu_obtenir_vies e ≤ 0) ∧
    etatjeu_obtenir_vies e ≤ 3 ∧
    ∀ (dt : ℚ) (alea : Nat → Nat),
      etatjeu_obtenir_vies (etatjeu_mettre_a_jour e dt alea) ≤ max (etatjeu_obtenir_vies e) 0 ∧
      (0 ≤ etatjeu_obtenir_vies e →
        etatjeu_obtenir_vies (etatjeu_mettre_a_jour e dt alea) ≤ etatjeu_obtenir_vies e) := by
  obtain ⟨a1, a2, a3⟩ := atteignable_vies brut largeur hauteur e h
  refine ⟨a1, a2, a3, ?_⟩
  intro dt alea
  obtain ⟨m1, m2, _⟩ := maj_vies e dt alea
  exact ⟨m1, m2⟩

set_option maxRecDepth 100000 in
/-- C27 (amended) on `etat_vies_negatives` (reachable by eight ticks from the creation of a
17 x 10 game): game-over is 1 with -2 lives, and the next update leaves at most 0 lives. -/
theorem fin_de_partie_temoin :
    Atteignable memoire_brute 17 10 etat_vies_negatives ∧
    etatjeu_est_game_over etat_vies_negatives = 1 ∧
    etatjeu_obtenir_vies etat_vies_negatives = -2 ∧
    etatjeu_obtenir_vies (etatjeu_mettre_a_jour etat_vies_negatives 1 alea_tir_19) ≤
      max (etatjeu_obtenir_vies etat_vies_negatives) 0 :=
  have ha : Atteignable memoire_brute 17 10 etat_vies_negatives :=
    atteignable_suite memoire_brute 17 10 huit_ticks_sous_le_feu _
      (Atteignable.creer alea_calme) (by with_unfolding_all decide)
  ⟨ha, by with_unfolding_all decide, by with_unfolding_all decide,
    ((fin_de_partie memoire_brute 17 10 etat_vies_negatives ha).2.2.2 1 alea_tir_19).1⟩

set_option maxRecDepth 100000 in
/-- C27 as stated fails: an update can increase lives.  `etat_vies_negatives` is reachable and
has -2 lives; in the next update (`dt = 1`) the enemies bounce on the left edge and step down
onto the ship row, and the defeat check sets lives to 0. -/
theorem fin_de_partie_contre_exemple :
    dt_positifs huit_ticks_sous_le_feu = true ∧
    etat_vies_negatives =
      executer_suite huit_ticks_sous_le_feu (etatjeu_creer memoire_brute 17 10 alea_calme) ∧
    etatjeu_obtenir_vies etat_vies_negatives = -2 ∧
    etatjeu_obtenir_vies (etatjeu_mettre_a_jour etat_vies_negatives 1 alea_tir_19) = 0 :=
  ⟨by with_unfolding_all decide, rfl, by with_unfolding_all decide,
    by with_unfolding_all decide⟩

/-! ## Lemmas: the shields through a tick -/

theorem boucliers_uses_refl (l : List Entite) : boucliers_uses l l :=
  ⟨rfl, fun _ bo h => ⟨bo, h, rfl, rfl, le_refl _, fun hs => hs⟩⟩

theorem boucliers_uses_trans {l1 l2 l3 : List Entite} (h12 : boucliers_uses l1 l2)
    (h23 : boucliers_uses l2 l3) : boucliers_uses l1 l3 := by
  refine ⟨h23.1.trans h12.1, ?_⟩
  intro k bo hk
  obtain ⟨b2, a1, a2, a3, a4, a5⟩ := h12.2 k bo hk
  obtain ⟨b3, c1, c2, c3, c4, c5⟩ := h23.2 k b2 a1
  exact ⟨b3, c1, c2.trans a2, c3.trans a3, le_trans c4 a4, fun hs => c5 (a5 hs)⟩

theorem toucher_bouclier_uses (e : EtatJeu) (i b : Nat) (p : Projectile) (bo : Entite)
    (hbo : e.boucliers[b]? = some bo) (hv : bo.vivant ≠ 0) :
    boucliers_uses e.boucliers (toucher_bouclier e i b p bo).boucliers := by
  rw [toucher_bouclier_eq]
  have hlt : b < e.boucliers.length := lt_length_of_getElem? hbo
  refine ⟨by simp only [List.length_set], ?_⟩
  intro k bk hk
  by_cases hkb : k = b
  · subst hkb
    rw [hbo] at hk
    cases hk
    refine ⟨_, List.getElem?_set_self hlt, ?_, ?_, ?_, ?_⟩
    · split_ifs <;> rfl
    · split_ifs <;> rfl
    · split_ifs <;> (show bo.sante - 1 ≤ bo.sante; omega)
    · rintro ⟨s0, s3, sv⟩
      have h1 : bo.sante ≥ 1 := sv.mp hv
      by_cases hc : bo.sante - 1 ≤ 0
      · rw [if_pos hc]
        refine ⟨by show 0 ≤ bo.sante - 1; omega, by show bo.sante - 1 ≤ 3; omega, ?_⟩
        show (0 : Int) ≠ 0 ↔ bo.sante - 1 ≥ 1
        constructor
        · intro h; exact absurd rfl h
        · intro h; omega
      · rw [if_neg hc]
        refine ⟨by show 0 ≤ bo.sante - 1; omega, by show bo.sante - 1 ≤ 3; omega, ?_⟩
        show bo.vivant ≠ 0 ↔ bo.sante - 1 ≥ 1
        exact ⟨fun _ => by omega, fun _ => hv⟩
  · refine ⟨bk, ?_, rfl, rfl, le_refl _, fun hs => hs⟩
    show (e.boucliers.set b _)[k]? = some bk
    rw [List.getElem?_set_ne (fun hc => hkb hc.symm)]
    exact hk

theorem collision_boucliers_uses (e : EtatJeu) (i : Nat) :
    boucliers_uses e.boucliers (collision_boucliers e i).boucliers := by
  rcases collision_boucliers_cas e i with h | ⟨b, bo, p, _, hbo, _, hv, _, _, h⟩
  · rw [h]; exact boucliers_uses_refl _
  · rw [h]; exact toucher_bouclier_uses e i b p bo hbo hv

theorem traiter_projectile_uses (e : EtatJeu) (i : Nat) :
    boucliers_uses e.boucliers (traiter_projectile e i).boucliers := by
  cases hq : e.projectiles[i]? with
  | none =>
    rw [traiter_projectile_inactif e i (fun p hp => by rw [hq] at hp; cases hp)]
    exact boucliers_uses_refl _
  | some q =>
    by_cases ha : q.actif = 0
    · rw [traiter_projectile_inactif e i
        (fun p hp => by rw [hq] at hp; cases hp; exact ha)]
      exact boucliers_uses_refl _
    · by_cases hb : q.y + q.dy < 0 ∨ q.y + q.dy ≥ e.hauteur
      · rw [traiter_projectile_hors_limites e i q hq ha hb]
        exact boucliers_uses_refl _
      · have h0 : 0 ≤ q.y + q.dy := by omega
        have h1 : q.y + q.dy < e.hauteur := by omega
        have hs : ({ e with projectiles := e.projectiles.set i { q with y := q.y + q.dy } } :
            EtatJeu).projectiles[i]? = some { q with y := q.y + q.dy } :=
          List.getElem?_set_self (lt_length_of_getElem? hq)
        by_cases ho : q.proprietaire = 0
        · rw [traiter_projectile_joueur e i q hq ha ho h0 h1]
          have h2 := collision_boucliers_uses (collision_ennemis
            { e with projectiles := e.projectiles.set i { q with y := q.y + q.dy } } i) i
          rw [(collision_ennemis_cadre _ i _ hs).1] at h2
          exact h2
        · rw [traiter_projectile_ennemi e i q hq ha ho h0 h1]
          have h2 := collision_boucliers_uses (collision_vaisseau
            { e with projectiles := e.projectiles.set i { q with y := q.y + q.dy } } i) i
          rw [(collision_vaisseau_cadre _ i _ hs).1] at h2
          exact h2

theorem foldl_traiter_uses (l : List Nat) :
    ∀ e : EtatJeu, boucliers_uses e.boucliers (l.foldl traiter_projectile e).boucliers := by
  induction l with
  | nil => intro e; exact boucliers_uses_refl _
  | cons i reste ih =>
    intro e
    exact boucliers_uses_trans (traiter_projectile_uses e i) (ih _)

/-- The shields after a tick are the shields before it after hits. -/
theorem maj_uses (e : EtatJeu) (dt : ℚ) (alea : Nat → Nat) :
    boucliers_uses e.boucliers (etatjeu_mettre_a_jour e dt alea).boucliers := by
  rw [maj_boucliers, (deplacement_reapparition_pools alea _).2.2.1]
  exact foldl_traiter_uses (List.range e.projectiles.length)
    ({ ({ e with temps_acc := e.temps_acc + dt } : EtatJeu) with
        particules := e.particules.map vieillir_particule } : EtatJeu)

/-- Dimensions, shield capacity and shield count of every reachable state. -/
theorem atteignable_dimensions (brut : EtatJeu) (largeur hauteur : Int) (e : EtatJeu)
    (h : Atteignable brut largeur hauteur e) :
    e.largeur = largeur ∧ e.hauteur = hauteur ∧
    e.boucliers.length = brut.boucliers.length ∧ e.nombre_boucliers = 4 := by
  induction h with
  | creer alea =>
    refine ⟨rfl, rfl, ?_, rfl⟩
    show (brut.boucliers.mapIdx _).length = _
    simp only [List.length_mapIdx]
  | mettre_a_jour e dt alea _ _ ih =>
    obtain ⟨a1, a2, _, _, a5, _, a7, _⟩ := maj_capacites e dt alea
    exact ⟨a1.trans ih.1, a2.trans ih.2.1, a5.trans ih.2.2.1, a7.trans ih.2.2.2⟩
  | deplacer_vaisseau e dir _ ih =>
    obtain ⟨a1, a2, _, _, a5, _, a7, _⟩ := (deplacer_vaisseau_capacites e dir).1
    exact ⟨a1.trans ih.1, a2.trans ih.2.1, a5.trans ih.2.2.1, a7.trans ih.2.2.2⟩
  | vaisseau_tirer e _ ih =>
    obtain ⟨a1, a2, _, _, a5, _, a7, _⟩ := (vaisseau_tirer_capacites e).1
    exact ⟨a1.trans ih.1, a2.trans ih.2.1, a5.trans ih.2.2.1, a7.trans ih.2.2.2⟩
  | reinitialiser e _ ih =>
    refine ⟨ih.1, ih.2.1, ?_, ih.2.2.2⟩
    show (e.boucliers.mapIdx _).length = _
    simp only [List.length_mapIdx]
    exact ih.2.2.1
  | definir_quitter e q _ ih => exact ih

/-! ## C26: the shields -/

theorem commandes_boucliers (e : EtatJeu) (dir q : Int) :
    (etatjeu_deplacer_vaisseau e dir).boucliers = e.boucliers ∧
    (etatjeu_vaisseau_tirer e).boucliers = e.boucliers ∧
    (_etatjeu_definir_quitter e q).boucliers = e.boucliers := by
  refine ⟨?_, ?_, rfl⟩
  · unfold etatjeu_deplacer_vaisseau
    simp only []
    split_ifs <;> rfl
  · obtain ⟨ps, n, h⟩ := ajouter_projectile_boucle_forme e e.joueur.x (ligne_vaisseau e - 1)
      (-1) 0 (List.range e.projectiles.length)
    unfold etatjeu_vaisseau_tirer ajouter_projectile
    rw [h]

theorem bouclier_initial_sain (largeur hauteur : Int) (i : Nat) :
    bouclier_sain (bouclier_initial largeur hauteur i) :=
  ⟨show (0 : Int) ≤ 3 by decide, show (3 : Int) ≤ 3 by decide,
    show (1 : Int) ≠ 0 ↔ (3 : Int) ≥ 1 by decide⟩

/-- In every reachable state every shield of the pool has its health in range and is on the
cell creation gave it. -/
theorem atteignable_boucliers (brut : EtatJeu) (largeur hauteur : Int) (e : EtatJeu)
    (h : Atteignable brut largeur hauteur e) :
    ∀ (i : Nat) (bo : Entite), e.boucliers[i]? = some bo →
      bouclier_sain bo ∧ bo.x = Int.tdiv largeur 5 * ((i : Int) + 1) ∧
      bo.y = Int.tdiv hauteur 2 := by
  induction h with
  | creer alea =>
    intro i bo hbo
    have hlt : i < brut.boucliers.length := by
      have := lt_length_of_getElem? hbo
      rwa [show (etatjeu_creer brut largeur hauteur alea).boucliers.length =
        brut.boucliers.length from List.length_mapIdx] at this
    have hs := boucliers_initiaux_case brut.boucliers largeur hauteur i hlt
    rw [show (etatjeu_creer brut largeur hauteur alea).boucliers =
      brut.boucliers.mapIdx (fun i _ => bouclier_initial largeur hauteur i) from rfl, hs] at hbo
    cases hbo
    exact ⟨bouclier_initial_sain _ _ _, rfl, rfl⟩
  | mettre_a_jour e dt alea _ _ ih =>
    intro i bo2 hbo2
    obtain ⟨hl, hu⟩ := maj_uses e dt alea
    have hlt : i < e.boucliers.length := by rw [← hl]; exact lt_length_of_getElem? hbo2
    obtain ⟨b2, a1, a2, a3, _, a5⟩ := hu i _ (List.getElem?_eq_getElem hlt)
    rw [hbo2] at a1
    cases a1
    obtain ⟨i1, i2, i3⟩ := ih i _ (List.getElem?_eq_getElem hlt)
    exact ⟨a5 i1, a2.trans i2, a3.trans i3⟩
  | deplacer_vaisseau e dir _ ih =>
    intro i bo hbo
    rw [(commandes_boucliers e dir 0).1] at hbo
    exact ih i bo hbo
  | vaisseau_tirer e _ ih =>
    intro i bo hbo
    rw [(commandes_boucliers e 0 0).2.1] at hbo
    exact ih i bo hbo
  | reinitialiser e hat _ =>
    intro i bo hbo
    obtain ⟨d1, d2, _, _⟩ := atteignable_dimensions brut largeur hauteur e hat
    have hlt : i < e.boucliers.length := by
      have := lt_length_of_getElem? hbo
      rwa [show (etatjeu_reinitialiser e).boucliers.length = e.boucliers.length from
        List.length_mapIdx] at this
    have hs := boucliers_initiaux_case e.boucliers e.largeur e.hauteur i hlt
    rw [show (etatjeu_reinitialiser e).boucliers =
      e.boucliers.mapIdx (fun i _ => bouclier_initial e.largeur e.hauteur i) from rfl, hs] at hbo
    cases hbo
    refine ⟨bouclier_initial_sain _ _ _, ?_, ?_⟩
    · show Int.tdiv e.largeur 5 * ((i : Int) + 1) = _
      rw [d1]
    · show Int.tdiv e.hauteur 2 = _
      rw [d2]
  | definir_quitter e q _ ih => exact ih

/-- C26.  In every state reachable from `etatjeu_creer brut largeur hauteur` by ticks, ship
moves, shots and restarts (and quit-flag writes) the shield count is 4 and every shield `i` of
the pool has a health in `{0, 1, 2, 3}`, is alive if and only if its health is `>= 1`, and is
on `((largeur / 5) * (i + 1), hauteur / 2)`; the shields `0..3` exist when the shield pool has
at least 4 slots.  A tick never increases the health of a shield and ship moves, shots and
quit-flag writes leave the shields as they are, so the health only increases in a restart. -/
theorem boucliers_invariants (brut : EtatJeu) (largeur hauteur : Int) (e : EtatJeu)
    (h : Atteignable brut largeur hauteur e) :
    etatjeu_obtenir_nombre_boucliers e = 4 ∧
    (4 ≤ brut.boucliers.length → ∀ i : Nat, i < 4 → ∃ bo : Entite, e.boucliers[i]? = some bo) ∧
    (∀ (i : Nat) (bo : Entite), e.boucliers[i]? = some bo →
      (bo.sante = 0 ∨ bo.sante = 1 ∨ bo.sante = 2 ∨ bo.sante = 3) ∧
      (bo.vivant ≠ 0 ↔ bo.sante ≥ 1) ∧
      bo.x = Int.tdiv largeur 5 * ((i : Int) + 1) ∧ bo.y = Int.tdiv hauteur 2) ∧
    (∀ (dt : ℚ) (alea : Nat → Nat) (i : Nat) (bo : Entite), e.boucliers[i]? = some bo →
      ∃ bo2 : Entite, (etatjeu_mettre_a_jour e dt alea).boucliers[i]? = some bo2 ∧
        bo2.sante ≤ bo.sante) ∧
    (∀ dir q : Int,
      (etatjeu_deplacer_vaisseau e dir).boucliers = e.boucliers ∧
      (etatjeu_vaisseau_tirer e).boucliers = e.boucliers ∧
      (_etatjeu_definir_quitter e q).boucliers = e.boucliers) := by
  obtain ⟨_, _, d3, d4⟩ := atteignable_dimensions brut largeur hauteur e h
  refine ⟨d4, ?_, ?_, ?_, commandes_boucliers e⟩
  · intro hcap i hi
    exact ⟨_, List.getElem?_eq_getElem (by rw [d3]; omega)⟩
  · intro i bo hbo
    obtain ⟨⟨s0, s3, sv⟩, hx, hy⟩ := atteignable_boucliers brut largeur hauteur e h i bo hbo
    exact ⟨by omega, sv, hx, hy⟩
  · intro dt alea i bo hbo
    obtain ⟨bo2, a1, _, _, a4, _⟩ := (maj_uses e dt alea).2 i bo hbo
    exact ⟨bo2, a1, a4⟩

set_option maxRecDepth 100000 in
/-- C26 on `etat_bouclier_detruit` (reachable in a 36 x 10 game; the third shield has taken
three hits): that shield is dead with health 0 on (21, 5), and a further tick does not raise
its health. -/
theorem boucliers_invariants_temoin :
    Atteignable memoire_brute 36 10 etat_bouclier_detruit ∧
    etat_bouclier_detruit.boucliers[2]? = some ⟨21, 5, 0, 0, 0, 3⟩ ∧
    ((0 : Int) = 0 ∨ (0 : Int) = 1 ∨ (0 : Int) = 2 ∨ (0 : Int) = 3) ∧
    (∃ bo2 : Entite,
      (etatjeu_mettre_a_jour etat_bouclier_detruit 0 alea_calme).boucliers[2]? = some bo2 ∧
      bo2.sante ≤ 0) := by
  have t : ∀ e, Atteignable memoire_brute 36 10 e →
      Atteignable memoire_brute 36 10 (tir_et_deux_pas e) := fun e he =>
    Atteignable.mettre_a_jour _ 0 alea_calme
      (Atteignable.mettre_a_jour _ 0 alea_calme (Atteignable.vaisseau_tirer _ he) (le_refl 0))
      (le_refl 0)
  have ha : Atteignable memoire_brute 36 10 etat_bouclier_detruit :=
    t _ (t _ (t _ (Atteignable.deplacer_vaisseau _ 1 (Atteignable.deplacer_vaisseau _ 1
      (Atteignable.deplacer_vaisseau _ 1 (Atteignable.creer alea_calme))))))
  have hs : etat_bouclier_detruit.boucliers[2]? = some ⟨21, 5, 0, 0, 0, 3⟩ := by
    with_unfolding_all decide
  have h := boucliers_invariants memoire_brute 36 10 etat_bouclier_detruit ha
  exact ⟨ha, hs, (h.2.2.1 2 _ hs).1, h.2.2.2.1 0 alea_calme 2 _ hs⟩

/-! ## Lemmas: the grid loops for any capacity -/

/-- One row of the grid loops, from column `c0` on, keeps `grille_ecrite`. -/
theorem grille_colonnes_ecrite (corps : Entite → Int → Int → Nat → Entite × Nat) (esp : Int)
    (l0 : List Entite) (r : Nat) :
    ∀ (n c0 : Nat) (g : Grille), c0 + n ≤ 8 → grille_ecrite corps esp l0 (r * 8 + c0) g →
      grille_ecrite corps esp l0 (r * 8 + c0 + n)
        (grille_colonnes corps esp r g (List.range' c0 n)) := by
  intro n
  induction n with
  | zero => intro c0 g _ h; exact h
  | succ n ih =>
    intro c0 g hc h
    obtain ⟨h1, h2, h3, h4, h5, h6⟩ := h
    rw [List.range'_succ]
    unfold grille_colonnes
    by_cases hfull : g.nombre_ennemis ≥ (g.ennemis.length : Int)
    · rw [if_pos hfull]
      rw [h1] at hfull
      refine ⟨h1, Or.inr (by show g.nombre_ennemis + 1 > _; omega),
        by show 0 ≤ g.nombre_ennemis + 1; omega,
        by show g.nombre_ennemis + 1 ≤ _; push_cast; push_cast at h4; omega, ?_, ?_⟩
      · intro j _ hjl
        exact h5 j (by omega) hjl
      · intro j hj
        exact h6 j (by have : (j : Int) ≥ g.nombre_ennemis + 1 := hj; omega)
    · rw [if_neg hfull]
      rw [h1] at hfull
      have hpos : g.nombre_ennemis = ((r * 8 + c0 : Nat) : Int) := by
        rcases h2 with h2 | h2
        · exact h2
        · omega
      have htn : g.nombre_ennemis.toNat = r * 8 + c0 := by omega
      have hlt : r * 8 + c0 < g.ennemis.length := by rw [h1]; omega
      rw [htn, List.getElem?_eq_getElem hlt]
      simp only []
      have h0 : l0[r * 8 + c0]? = some (g.ennemis[r * 8 + c0]) := by
        rw [← h6 (r * 8 + c0) (by omega), List.getElem?_eq_getElem hlt]
      have hstep : grille_ecrite corps esp l0 (r * 8 + (c0 + 1))
          { ennemis := g.ennemis.set (r * 8 + c0)
              (corps (g.ennemis[r * 8 + c0]) (2 + (c0 : Int) * esp) (2 + (r : Int) * 2)
                g.tirages).1
            nombre_ennemis := g.nombre_ennemis + 1
            tirages := (corps (g.ennemis[r * 8 + c0]) (2 + (c0 : Int) * esp)
              (2 + (r : Int) * 2) g.tirages).2 } := by
        refine ⟨by simp only [List.length_set]; exact h1,
          Or.inl (by show g.nombre_ennemis + 1 = _; push_cast; push_cast at hpos; omega),
          by show 0 ≤ g.nombre_ennemis + 1; omega,
          by show g.nombre_ennemis + 1 ≤ _; push_cast; push_cast at hpos; omega, ?_, ?_⟩
        · intro j hj hjl
          have hj2 : (j : Int) < g.nombre_ennemis + 1 := hj
          by_cases hje : j = r * 8 + c0
          · subst hje
            refine ⟨_, g.tirages, h0, ?_⟩
            show (g.ennemis.set (r * 8 + c0) _)[r * 8 + c0]? = _
            rw [List.getElem?_set_self hlt]
            have hm : (r * 8 + c0) % 8 = c0 := by omega
            have hd : (r * 8 + c0) / 8 = r := by omega
            rw [hm, hd]
          · obtain ⟨en, t, a1, a2⟩ := h5 j (by omega) hjl
            refine ⟨en, t, a1, ?_⟩
            show (g.ennemis.set (r * 8 + c0) _)[j]? = _
            rw [List.getElem?_set_ne (fun hc => hje hc.symm)]
            exact a2
        · intro j hj
          have hj2 : (j : Int) ≥ g.nombre_ennemis + 1 := hj
          show (g.ennemis.set (r * 8 + c0) _)[j]? = _
          rw [List.getElem?_set_ne (by omega)]
          exact h6 j (by omega)
      have := ih (c0 + 1) _ (by omega) hstep
      have he : r * 8 + (c0 + 1) + n = r * 8 + c0 + (n + 1) := by omega
      rw [he] at this
      exact this

/-- The grid loops on a pool of any capacity, started with the count at 0. -/
theorem grille_ecrite_fin (corps : Entite → Int → Int → Nat → Entite × Nat) (esp : Int)
    (l0 : List Entite) :
    grille_ecrite corps esp l0 24
      (grille corps esp { ennemis := l0, nombre_ennemis := 0, tirages := 0 }) := by
  have h0 : grille_ecrite corps esp l0 (0 * 8 + 0)
      { ennemis := l0, nombre_ennemis := 0, tirages := 0 } :=
    ⟨rfl, Or.inl rfl, le_refl _, le_refl _, fun j hj _ => by
      have : (j : Int) < 0 := hj
      omega, fun _ _ => rfl⟩
  have hl : [0, 1, 2, 3, 4, 5, 6, 7] = List.range' 0 8 := by decide
  unfold grille
  simp only [List.foldl_cons, List.foldl_nil]
  rw [hl]
  have h1 := grille_colonnes_ecrite corps esp l0 0 8 0 _ (by omega) h0
  have h2 := grille_colonnes_ecrite corps esp l0 1 8 0 _ (by omega) h1
  have h3 := grille_colonnes_ecrite corps esp l0 2 8 0 _ (by omega) h2
  exact h3

/-! ## Lemmas: invariants of the enemy pool -/

theorem commandes_ennemis (e : EtatJeu) (dir : Int) :
    ((etatjeu_deplacer_vaisseau e dir).ennemis = e.ennemis ∧
      (etatjeu_deplacer_vaisseau e dir).nombre_ennemis = e.nombre_ennemis ∧
      (etatjeu_deplacer_vaisseau e dir).direction_ennemis = e.direction_ennemis) ∧
    ((etatjeu_vaisseau_tirer e).ennemis = e.ennemis ∧
      (etatjeu_vaisseau_tirer e).nombre_ennemis = e.nombre_ennemis ∧
      (etatjeu_vaisseau_tirer e).direction_ennemis = e.direction_ennemis) := by
  constructor
  · unfold etatjeu_deplacer_vaisseau
    simp only []
    split_ifs <;> exact ⟨rfl, rfl, rfl⟩
  · obtain ⟨ps, n, h⟩ := ajouter_projectile_boucle_forme e e.joueur.x (ligne_vaisseau e - 1)
      (-1) 0 (List.range e.projectiles.length)
    unfold etatjeu_vaisseau_tirer ajouter_projectile
    rw [h]
    exact ⟨rfl, rfl, rfl⟩

/-- Induction principle for a property `I` of the enemy pool, the enemy count and the
direction over the reachable states of a game of width `largeur`: it is enough that creation
establishes `I`, and that the collision phase, the respawn, the enemy step and the grid loop
of the restart keep it. -/
theorem atteignable_ennemis (brut : EtatJeu) (largeur hauteur : Int)
    (I : List Entite → Int → Int → Prop)
    (h_creer : ∀ alea : Nat → Nat,
      I (etatjeu_creer brut largeur hauteur alea).ennemis
        (etatjeu_creer brut largeur hauteur alea).nombre_ennemis 1)
    (h_coll : ∀ (l l2 : List Entite) (n d : Int), I l n d → memes_cases l l2 → I l2 n d)
    (h_resp : ∀ (l : List Entite) (n d : Int) (alea : Nat → Nat) (niveau : Int), I l n d →
      I (grille (corps_reapparition alea niveau) (espacement_x largeur)
          { ennemis := l, nombre_ennemis := 0, tirages := 0 }).ennemis
        (grille (corps_reapparition alea niveau) (espacement_x largeur)
          { ennemis := l, nombre_ennemis := 0, tirages := 0 }).nombre_ennemis d)
    (h_pas : ∀ s : EtatJeu, s.largeur = largeur →
      I s.ennemis s.nombre_ennemis s.direction_ennemis →
      I (phase_deplacement s).ennemis (phase_deplacement s).nombre_ennemis
        (phase_deplacement s).direction_ennemis)
    (h_reinit : ∀ (l : List Entite) (n d : Int), I l n d →
      I (grille corps_reinitialisation (espacement_x largeur)
          { ennemis := l, nombre_ennemis := 0, tirages := 0 }).ennemis
        (grille corps_reinitialisation (espacement_x largeur)
          { ennemis := l, nombre_ennemis := 0, tirages := 0 }).nombre_ennemis 1)
    (e : EtatJeu) (h : Atteignable brut largeur hauteur e) :
    I e.ennemis e.nombre_ennemis e.direction_ennemis := by
  induction h with
  | creer alea => exact h_creer alea
  | mettre_a_jour e dt alea hat _ ih =>
    obtain ⟨d1, _, _, _⟩ := atteignable_dimensions brut largeur hauteur e hat
    obtain ⟨_, _, hdir, hnb, hlarg, _, _, hmc⟩ := phase_collisions_cadre e dt
    have hc : I (phase_collisions e dt).ennemis (phase_collisions e dt).nombre_ennemis
        (phase_collisions e dt).direction_ennemis := by
      rw [hnb, hdir]
      exact h_coll _ _ _ _ ih hmc
    have hr : I (phase_reapparition alea (phase_collisions e dt)).1.ennemis
        (phase_reapparition alea (phase_collisions e dt)).1.nombre_ennemis
        (phase_reapparition alea (phase_collisions e dt)).1.direction_ennemis ∧
        (phase_reapparition alea (phase_collisions e dt)).1.largeur = largeur := by
      unfold phase_reapparition
      by_cases hv : nombre_ennemis_vivants (phase_collisions e dt) = 0
      · rw [if_pos hv]
        refine ⟨?_, hlarg.trans d1⟩
        have := h_resp _ _ _ alea ((phase_collisions e dt).niveau + 1) hc
        rw [← d1, ← hlarg] at this
        exact this
      · rw [if_neg hv]
        exact ⟨hc, hlarg.trans d1⟩
    rw [maj_ennemis, maj_nombre_ennemis, maj_direction_ennemis]
    exact h_pas _ hr.2 hr.1
  | deplacer_vaisseau e dir _ ih =>
    obtain ⟨a1, a2, a3⟩ := (commandes_ennemis e dir).1
    rw [a1, a2, a3]
    exact ih
  | vaisseau_tirer e _ ih =>
    obtain ⟨a1, a2, a3⟩ := (commandes_ennemis e 0).2
    rw [a1, a2, a3]
    exact ih
  | reinitialiser e hat ih =>
    obtain ⟨d1, _, _, _⟩ := atteignable_dimensions brut largeur hauteur e hat
    have := h_reinit _ _ _ ih
    rw [← d1] at this
    exact this
  | definir_quitter e q _ ih => exact ih

/-! ## C28: the enemies stay inside the playfield -/

/-- The grid columns fit in a playfield of width at least 17. -/
theorem grille_x_borne (largeur : Int) (h : 17 ≤ largeur) (c : Nat) (hc : c < 8) :
    0 ≤ 2 + (c : Int) * espacement_x largeur ∧ 2 + (c : Int) * espacement_x largeur < largeur := by
  have hd : Int.tdiv (largeur - 4) 8 = (largeur - 4) / 8 :=
    Int.tdiv_eq_ediv (by omega) (by decide)
  unfold espacement_x
  rw [hd]
  split_ifs <;> interval_cases c <;> omega

/-- A slot below the count after the grid loops is on a grid column, when the loop body puts
the slot on the `x` it is given. -/
theorem grille_x (corps : Entite → Int → Int → Nat → Entite × Nat)
    (hx : ∀ en x y t, (corps en x y t).1.x = x) (esp : Int) (l0 : List Entite) (j : Nat)
    (en : Entite)
    (hj : (j : Int) < (grille corps esp
      { ennemis := l0, nombre_ennemis := 0, tirages := 0 }).nombre_ennemis)
    (he : (grille corps esp
      { ennemis := l0, nombre_ennemis := 0, tirages := 0 }).ennemis[j]? = some en) :
    en.x = 2 + ((j % 8 : Nat) : Int) * esp := by
  obtain ⟨g1, _, _, _, g5, _⟩ := grille_ecrite_fin corps esp l0
  have hjl : j < l0.length := by rw [← g1]; exact lt_length_of_getElem? he
  obtain ⟨en0, t, _, h2⟩ := g5 j hj hjl
  rw [he] at h2
  rw [Option.some.inj h2, hx]

theorem corps_x :
    (∀ (alea : Nat → Nat) en x y t, (corps_creation alea 1 en x y t).1.x = x) ∧
    (∀ (alea : Nat → Nat) (niveau : Int) en x y t,
      (corps_reapparition alea niveau en x y t).1.x = x) ∧
    (∀ en x y t, (corps_reinitialisation en x y t).1.x = x) := by
  refine ⟨?_, ?_, fun _ _ _ _ => rfl⟩
  · intro alea en x y t
    rw [corps_creation_niveau_1]
  · intro alea niveau en x y t
    rw [corps_reapparition_champs]

/-- In every reachable state of a game of width at least 17 the direction is +1 or -1 and
every enemy slot below the count is inside the columns. -/
theorem atteignable_bornes (brut : EtatJeu) (largeur hauteur : Int) (hW : 17 ≤ largeur)
    (e : EtatJeu) (h : Atteignable brut largeur hauteur e) :
    (e.direction_ennemis = 1 ∨ e.direction_ennemis = -1) ∧
    ∀ (j : Nat) (en : Entite), (j : Int) < e.nombre_ennemis → e.ennemis[j]? = some en →
      0 ≤ en.x ∧ en.x < largeur := by
  have hgrille : ∀ (corps : Entite → Int → Int → Nat → Entite × Nat),
      (∀ en x y t, (corps en x y t).1.x = x) → ∀ (l : List Entite) (j : Nat) (en : Entite),
      (j : Int) < (grille corps (espacement_x largeur)
        { ennemis := l, nombre_ennemis := 0, tirages := 0 }).nombre_ennemis →
      (grille corps (espacement_x largeur)
        { ennemis := l, nombre_ennemis := 0, tirages := 0 }).ennemis[j]? = some en →
      0 ≤ en.x ∧ en.x < largeur := by
    intro corps hx l j en hj he
    rw [grille_x corps hx _ l j en hj he]
    exact grille_x_borne largeur hW (j % 8) (Nat.mod_lt _ (by decide))
  apply atteignable_ennemis brut largeur hauteur
    (fun l n d => (d = 1 ∨ d = -1) ∧
      ∀ (j : Nat) (en : Entite), (j : Int) < n → l[j]? = some en → 0 ≤ en.x ∧ en.x < largeur)
    _ _ _ _ _ e h
  · intro alea
    exact ⟨Or.inl rfl, hgrille _ (corps_x.1 alea) brut.ennemis⟩
  · rintro l l2 n d ⟨hd, hb⟩ hmc
    refine ⟨hd, ?_⟩
    intro j en2 hj he2
    have hlt : j < l.length := by rw [← hmc.1]; exact lt_length_of_getElem? he2
    obtain ⟨en3, a1, a2, _⟩ := hmc.2 j _ (List.getElem?_eq_getElem hlt)
    rw [he2] at a1
    cases a1
    rw [a2]
    exact hb j _ hj (List.getElem?_eq_getElem hlt)
  · rintro l n d alea niveau ⟨hd, _⟩
    exact ⟨hd, hgrille _ (corps_x.2.1 alea niveau) l⟩
  · rintro s hs ⟨hd, hb⟩
    by_cases ht : s.acc_deplacement_ennemis ≥ s.intervalle_deplacement_ennemis
    · cases htb : touche_bord s with
      | true =>
        rw [phase_deplacement_rebond s ht htb]
        refine ⟨by rcases hd with hd | hd <;> simp [hd], ?_⟩
        intro j en hj he
        have hlt : j < s.ennemis.length := by
          have := lt_length_of_getElem? he
          simpa using this
        have he2 : (s.ennemis.mapIdx (fun i en =>
            if (i : Int) < s.nombre_ennemis ∧ en.vivant ≠ 0 then { en with y := en.y + 1 }
            else en))[j]? = some en := he
        rw [List.getElem?_mapIdx, List.getElem?_eq_getElem hlt, Option.map_some'] at he2
        have hx : en.x = (s.ennemis[j]).x := by
          rw [← Option.some.inj he2]
          split_ifs <;> rfl
        rw [hx]
        exact hb j _ hj (List.getElem?_eq_getElem hlt)
      | false =>
        rw [phase_deplacement_pas s ht htb]
        refine ⟨hd, ?_⟩
        intro j en hj he
        have hlt : j < s.ennemis.length := by
          have := lt_length_of_getElem? he
          simpa using this
        have he2 : (s.ennemis.mapIdx (fun i en =>
            if (i : Int) < s.nombre_ennemis ∧ en.vivant ≠ 0 then
              { en with x := en.x + s.direction_ennemis }
            else en))[j]? = some en := he
        rw [List.getElem?_mapIdx, List.getElem?_eq_getElem hlt, Option.map_some'] at he2
        have hold := hb j _ hj (List.getElem?_eq_getElem hlt)
        by_cases hc : (j : Int) < s.nombre_ennemis ∧ (s.ennemis[j]).vivant ≠ 0
        · rw [if_pos hc] at he2
          rw [← Option.some.inj he2]
          show 0 ≤ (s.ennemis[j]).x + s.direction_ennemis ∧
            (s.ennemis[j]).x + s.direction_ennemis < largeur
          have hnb : ¬ (touche_bord s = true) := by rw [htb]; decide
          rw [touche_bord_iff] at hnb
          by_contra hcon
          apply hnb
          exact ⟨j, _, hc.1, List.getElem?_eq_getElem hlt, hc.2, by rw [hs]; omega⟩
        · rw [if_neg hc] at he2
          rw [← Option.some.inj he2]
          exact hold
    · rw [phase_deplacement_attente s (not_le.mp ht)]
      exact ⟨hd, hb⟩
  · rintro l n d ⟨_, _⟩
    exact ⟨Or.inl rfl, hgrille _ corps_x.2.2 l⟩

/-- C28.  For every width `>= 17`, every height and every capacity of the pools, in every
state reachable from `etatjeu_creer` by ticks, ship moves, shots and restarts (and quit-flag
writes), the movement direction is +1 or -1 and every enemy of a slot below the enemy count,
alive or dead, has `0 <= x < largeur`; so the accessor `etatjeu_obtenir_ennemi_x` returns a
column of the playfield for every index below the enemy count that is in the pool. -/
theorem ennemis_dans_le_champ (brut : EtatJeu) (largeur hauteur : Int) (hW : 17 ≤ largeur)
    (e : EtatJeu) (h : Atteignable brut largeur hauteur e) :
    (e.direction_ennemis = 1 ∨ e.direction_ennemis = -1) ∧
    (∀ (j : Nat) (en : Entite), (j : Int) < etatjeu_obtenir_nombre_ennemis e →
      e.ennemis[j]? = some en → 0 ≤ en.x ∧ en.x < largeur) ∧
    (∀ (j : Nat) (x : Int), (j : Int) < etatjeu_obtenir_nombre_ennemis e →
      j < e.ennemis.length → etatjeu_obtenir_ennemi_x e j = some x → 0 ≤ x ∧ x < largeur) := by
  obtain ⟨a1, a2⟩ := atteignable_bornes brut largeur hauteur hW e h
  refine ⟨a1, a2, ?_⟩
  intro j x hj hlt hx
  unfold etatjeu_obtenir_ennemi_x lire_ennemi at hx
  unfold etatjeu_obtenir_nombre_ennemis at hj
  rw [if_pos ⟨by omega, hj⟩, Int.toNat_ofNat, List.getElem?_eq_getElem hlt,
    Option.map_some'] at hx
  rw [← Option.some.inj hx]
  exact a2 j _ hj (List.getElem?_eq_getElem hlt)

set_option maxRecDepth 100000 in
/-- C28 on `etat_vies_negatives` (reachable in a 17 x 10 game after a bounce on the right edge
and two steps to the left): the direction is -1 and the enemy of slot 16 is on the left edge,
`x = 0`. -/
theorem ennemis_dans_le_champ_temoin :
    (17 : Int) ≤ 17 ∧ Atteignable memoire_brute 17 10 etat_vies_negatives ∧
    etat_vies_negatives.direction_ennemis = -1 ∧
    etatjeu_obtenir_ennemi_x etat_vies_negatives 16 = some 0 ∧
    (∀ (j : Nat) (en : Entite), (j : Int) < etatjeu_obtenir_nombre_ennemis etat_vies_negatives →
      etat_vies_negatives.ennemis[j]? = some en → 0 ≤ en.x ∧ en.x < 17) :=
  have ha : Atteignable memoire_brute 17 10 etat_vies_negatives :=
    atteignable_suite memoire_brute 17 10 huit_ticks_sous_le_feu _
      (Atteignable.creer alea_calme) (by with_unfolding_all decide)
  ⟨by decide, ha, by with_unfolding_all decide, by with_unfolding_all decide,
    (ennemis_dans_le_champ memoire_brute 17 10 (by decide) etat_vies_negatives ha).2.1⟩

/-! ## C29: the alive enemies form a rigid grid -/

/-- A slot below the count after the grid loops is on its grid row, when the loop body puts
the slot on the `y` it is given. -/
theorem grille_y (corps : Entite → Int → Int → Nat → Entite × Nat)
    (hy : ∀ en x y t, (corps en x y t).1.y = y) (esp : Int) (l0 : List Entite) (j : Nat)
    (en : Entite)
    (hj : (j : Int) < (grille corps esp
      { ennemis := l0, nombre_ennemis := 0, tirages := 0 }).nombre_ennemis)
    (he : (grille corps esp
      { ennemis := l0, nombre_ennemis := 0, tirages := 0 }).ennemis[j]? = some en) :
    en.y = 2 + ((j / 8 : Nat) : Int) * 2 := by
  obtain ⟨g1, _, _, _, g5, _⟩ := grille_ecrite_fin corps esp l0
  have hjl : j < l0.length := by rw [← g1]; exact lt_length_of_getElem? he
  obtain ⟨en0, t, _, h2⟩ := g5 j hj hjl
  rw [he] at h2
  rw [Option.some.inj h2, hy]

theorem corps_y :
    (∀ (alea : Nat → Nat) en x y t, (corps_creation alea 1 en x y t).1.y = y) ∧
    (∀ (alea : Nat → Nat) (niveau : Int) en x y t,
      (corps_reapparition alea niveau en x y t).1.y = y) ∧
    (∀ en x y t, (corps_reinitialisation en x y t).1.y = y) := by
  refine ⟨?_, ?_, fun _ _ _ _ => rfl⟩
  · intro alea en x y t
    rw [corps_creation_niveau_1]
  · intro alea niveau en x y t
    rw [corps_reapparition_champs]

theorem espacement_x_min (largeur : Int) : 2 ≤ espacement_x largeur := by
  unfold espacement_x
  split_ifs <;> omega

/-- Two alive enemies of a formation that stand in the same cell are in the same slot. -/
theorem formation_cases_distinctes (esp : Int) (hesp : 2 ≤ esp) (l : List Entite)
    (n dx dy : Int) (hf : formation esp l n dx dy) (j k : Nat) (en ek : Entite)
    (hj : (j : Int) < n) (hk : (k : Int) < n) (hen : l[j]? = some en) (hek : l[k]? = some ek)
    (hvj : en.vivant ≠ 0) (hvk : ek.vivant ≠ 0) (hx : en.x = ek.x) (hy : en.y = ek.y) :
    j = k := by
  obtain ⟨a1, a2⟩ := hf j en hj hen hvj
  obtain ⟨b1, b2⟩ := hf k ek hk hek hvk
  rw [a1, b1] at hx
  rw [a2, b2] at hy
  have h1 : ((j % 8 : Nat) : Int) * esp = ((k % 8 : Nat) : Int) * esp := by omega
  have h2 : ((j % 8 : Nat) : Int) = ((k % 8 : Nat) : Int) :=
    mul_right_cancel₀ (by omega : esp ≠ 0) h1
  have h3 : j % 8 = k % 8 := by exact_mod_cast h2
  have h4 : j / 8 = k / 8 := by omega
  omega

/-- In every reachable state the alive enemies below the count stand on the grid shifted by
one common offset. -/
theorem atteignable_formation (brut : EtatJeu) (largeur hauteur : Int)
    (e : EtatJeu) (h : Atteignable brut largeur hauteur e) :
    ∃ dx dy : Int, formation (espacement_x largeur) e.ennemis e.nombre_ennemis dx dy := by
  have hgrille : ∀ (corps : Entite → Int → Int → Nat → Entite × Nat),
      (∀ en x y t, (corps en x y t).1.x = x) → (∀ en x y t, (corps en x y t).1.y = y) →
      ∀ (l : List Entite), ∃ dx dy : Int, formation (espacement_x largeur)
        (grille corps (espacement_x largeur)
          { ennemis := l, nombre_ennemis := 0, tirages := 0 }).ennemis
        (grille corps (espacement_x largeur)
          { ennemis := l, nombre_ennemis := 0, tirages := 0 }).nombre_ennemis dx dy := by
    intro corps hx hy l
    refine ⟨0, 0, ?_⟩
    intro j en hj he _
    rw [grille_x corps hx _ l j en hj he, grille_y corps hy _ l j en hj he]
    omega
  apply atteignable_ennemis brut largeur hauteur
    (fun l n _ => ∃ dx dy : Int, formation (espacement_x largeur) l n dx dy)
    _ _ _ _ _ e h
  · intro alea
    exact hgrille _ (corps_x.1 alea) (corps_y.1 alea) brut.ennemis
  · rintro l l2 n d ⟨dx, dy, hf⟩ hmc
    refine ⟨dx, dy, ?_⟩
    intro j en2 hj he2 hv2
    have hlt : j < l.length := by rw [← hmc.1]; exact lt_length_of_getElem? he2
    obtain ⟨en3, a1, a2, a3, _, _, a6⟩ := hmc.2 j _ (List.getElem?_eq_getElem hlt)
    rw [he2] at a1
    cases a1
    rw [a2, a3]
    exact hf j _ hj (List.getElem?_eq_getElem hlt) (a6 hv2).1
  · rintro l n d alea niveau _
    exact hgrille _ (corps_x.2.1 alea niveau) (corps_y.2.1 alea niveau) l
  · rintro s _ ⟨dx, dy, hf⟩
    by_cases ht : s.acc_deplacement_ennemis ≥ s.intervalle_deplacement_ennemis
    · cases htb : touche_bord s with
      | true =>
        rw [phase_deplacement_rebond s ht htb]
        refine ⟨dx, dy + 1, ?_⟩
        intro j en hj he hv
        have hlt : j < s.ennemis.length := by
          have := lt_length_of_getElem? he
          simpa using this
        have he2 : (s.ennemis.mapIdx (fun i en =>
            if (i : Int) < s.nombre_ennemis ∧ en.vivant ≠ 0 then { en with y := en.y + 1 }
            else en))[j]? = some en := he
        rw [List.getElem?_mapIdx, List.getElem?_eq_getElem hlt, Option.map_some'] at he2
        have he3 := Option.some.inj he2
        by_cases hc : (j : Int) < s.nombre_ennemis ∧ (s.ennemis[j]).vivant ≠ 0
        · rw [if_pos hc] at he3
          obtain ⟨b1, b2⟩ := hf j _ hc.1 (List.getElem?_eq_getElem hlt) hc.2
          rw [← he3]
          show (s.ennemis[j]).x = _ ∧ (s.ennemis[j]).y + 1 = _
          omega
        · rw [if_neg hc] at he3
          rw [← he3] at hv
          exact absurd ⟨hj, hv⟩ hc
      | false =>
        rw [phase_deplacement_pas s ht htb]
        refine ⟨dx + s.direction_ennemis, dy, ?_⟩
        intro j en hj he hv
        have hlt : j < s.ennemis.length := by
          have := lt_length_of_getElem? he
          simpa using this
        have he2 : (s.ennemis.mapIdx (fun i en =>
            if (i : Int) < s.nombre_ennemis ∧ en.vivant ≠ 0 then
              { en with x := en.x + s.direction_ennemis }
            else en))[j]? = some en := he
        rw [List.getElem?_mapIdx, List.getElem?_eq_getElem hlt, Option.map_some'] at he2
        have he3 := Option.some.inj he2
        by_cases hc : (j : Int) < s.nombre_ennemis ∧ (s.ennemis[j]).vivant ≠ 0
        · rw [if_pos hc] at he3
          obtain ⟨b1, b2⟩ := hf j _ hc.1 (List.getElem?_eq_getElem hlt) hc.2
          rw [← he3]
          show (s.ennemis[j]).x + s.direction_ennemis = _ ∧ (s.ennemis[j]).y = _
          omega
        · rw [if_neg hc] at he3
          rw [← he3] at hv
          exact absurd ⟨hj, hv⟩ hc
    · rw [phase_deplacement_attente s (not_le.mp ht)]
      exact ⟨dx, dy, hf⟩
  · rintro l n d _
    exact hgrille _ corps_x.2.2 corps_y.2.2 l

/-- The formation is kept by the projectile loop: enemies only die there. -/
theorem foldl_traiter_formation (esp : Int) (l : List Nat) (e : EtatJeu) (dx dy : Int)
    (hf : formation esp e.ennemis e.nombre_ennemis dx dy) :
    formation esp (l.foldl traiter_projectile e).ennemis
      (l.foldl traiter_projectile e).nombre_ennemis dx dy := by
  obtain ⟨ps, ens, sc, bs, parts, np, v, g, h1, _, hmc⟩ := foldl_traiter_forme l e
  rw [h1]
  intro j en2 hj he2 hv2
  have he2b : ens[j]? = some en2 := he2
  have hlt : j < e.ennemis.length := by rw [← hmc.1]; exact lt_length_of_getElem? he2b
  obtain ⟨en3, a1, a2, a3, _, _, a6⟩ := hmc.2 j _ (List.getElem?_eq_getElem hlt)
  rw [he2b] at a1
  cases a1
  rw [a2, a3]
  exact hf j _ hj (List.getElem?_eq_getElem hlt) (a6 hv2).1

/-- C29.  In every state reachable from `etatjeu_creer` by ticks, ship moves, shots and
restarts (and quit-flag writes), for every width, height and pool capacity: the alive enemies
of the slots below the enemy count stand on the grid shifted by one common offset (alive slot
`r * 8 + c` on column `2 + c * espacement + dx`, row `2 + 2 * r + dy`), so two alive enemies
in the same cell are the same slot.  The same holds in the state seen by every iteration `m`
of the projectile loop of `etatjeu_mettre_a_jour`, so there an alive enemy in the cell of the
projectile `i` is the one that the scan `collision_ennemis` hits, whatever the projectile pool:
the first match is the only match. -/
theorem formation_rigide (brut : EtatJeu) (largeur hauteur : Int) (e : EtatJeu)
    (h : Atteignable brut largeur hauteur e) :
    (∃ dx dy : Int, formation (espacement_x largeur) e.ennemis e.nombre_ennemis dx dy) ∧
    (∀ (j k : Nat) (en ek : Entite), (j : Int) < e.nombre_ennemis →
      (k : Int) < e.nombre_ennemis → e.ennemis[j]? = some en → e.ennemis[k]? = some ek →
      en.vivant ≠ 0 → ek.vivant ≠ 0 → en.x = ek.x → en.y = ek.y → j = k) ∧
    (∀ (dt : ℚ) (m : Nat) (s : EtatJeu),
      s = (List.range m).foldl traiter_projectile
        { e with temps_acc := e.temps_acc + dt,
                 particules := e.particules.map vieillir_particule } →
      (∀ (j k : Nat) (en ek : Entite), (j : Int) < s.nombre_ennemis →
        (k : Int) < s.nombre_ennemis → s.ennemis[j]? = some en → s.ennemis[k]? = some ek →
        en.vivant ≠ 0 → ek.vivant ≠ 0 → en.x = ek.x → en.y = ek.y → j = k) ∧
      (∀ (ps : List Projectile) (i enn : Nat) (en : Entite) (p : Projectile),
        (enn : Int) < s.nombre_ennemis → s.ennemis[enn]? = some en → ps[i]? = some p →
        en.vivant ≠ 0 → en.x = p.x → en.y = p.y →
        collision_ennemis { s with projectiles := ps } i =
          toucher_ennemi { s with projectiles := ps } i enn p en)) := by
  obtain ⟨dx, dy, hf⟩ := atteignable_formation brut largeur hauteur e h
  have hesp := espacement_x_min largeur
  refine ⟨⟨dx, dy, hf⟩, formation_cases_distinctes _ hesp _ _ dx dy hf, ?_⟩
  intro dt m s hs
  have hfs : formation (espacement_x largeur) s.ennemis s.nombre_ennemis dx dy := by
    rw [hs]
    exact foldl_traiter_formation _ _ _ dx dy hf
  refine ⟨formation_cases_distinctes _ hesp _ _ dx dy hfs, ?_⟩
  intro ps i enn en p hn hen hp hv hx hy
  apply collision_ennemis_premier { s with projectiles := ps } i enn en p hn hen hp hv hx hy
  intro k hk ek hek hvk hc
  have hek : s.ennemis[k]? = some ek := hek
  have hkn : (k : Int) < s.nombre_ennemis := by omega
  have := formation_cases_distinctes _ hesp _ _ dx dy hfs k enn ek en hkn hn hek hen hvk hv
    (by rw [hc.1, hx]) (by rw [hc.2, hy])
  omega

set_option maxRecDepth 100000 in
/-- C29 on `etat_vies_negatives` (reachable in a 17 x 10 game after a bounce and two steps to
the left): the alive enemy of slot 16 is on (0, 7) and that of slot 23 on (14, 7), the grid
positions (2, 6) and (16, 6) shifted by (-2, 1). -/
theorem formation_rigide_temoin :
    Atteignable memoire_brute 17 10 etat_vies_negatives ∧
    etat_vies_negatives.ennemis[16]? =
      some { vivant := 1, x := 0, y := 7, dmg := 1, sante := 1, type := 1 } ∧
    etat_vies_negatives.ennemis[23]? =
      some { vivant := 1, x := 14, y := 7, dmg := 1, sante := 1, type := 1 } ∧
    (∃ dx dy : Int, formation (espacement_x 17) etat_vies_negatives.ennemis
      etat_vies_negatives.nombre_ennemis dx dy) :=
  have ha : Atteignable memoire_brute 17 10 etat_vies_negatives :=
    atteignable_suite memoire_brute 17 10 huit_ticks_sous_le_feu _
      (Atteignable.creer alea_calme) (by with_unfolding_all decide)
  ⟨ha, by with_unfolding_all decide, by with_unfolding_all decide,
    (formation_rigide memoire_brute 17 10 etat_vies_negatives ha).1⟩

/-! ## Lemmas: a level cleared shot by shot -/

theorem executer_suite_append (a b : List Operation) (e : EtatJeu) :
    executer_suite (a ++ b) e = executer_suite b (executer_suite a e) := by
  unfold executer_suite
  rw [List.foldl_append]

set_option maxRecDepth 100000 in
theorem apres_colonnes_1_et_2 : executer_suite colonnes_1_et_2 jeu_30_10 = etat_2_colonnes := by
  decide!

set_option maxRecDepth 100000 in
theorem apres_colonnes_3_et_4 : executer_suite deux_colonnes etat_2_colonnes = etat_4_colonnes := by
  decide!

set_option maxRecDepth 100000 in
theorem apres_colonnes_5_et_6 : executer_suite deux_colonnes etat_4_colonnes = etat_6_colonnes := by
  decide!

set_option maxRecDepth 100000 in
theorem apres_colonnes_7_et_8 :
    executer_suite deux_colonnes etat_6_colonnes = etat_grille_forte := by
  decide!

/-- Value of the state reached by `vider_niveau`. -/
theorem etat_niveau_2_valeur : etat_niveau_2 = etat_grille_forte := by
  unfold etat_niveau_2 vider_niveau
  rw [executer_suite_append, executer_suite_append, executer_suite_append,
    apres_colonnes_1_et_2, apres_colonnes_3_et_4, apres_colonnes_5_et_6,
    apres_colonnes_7_et_8]

theorem tir_et_tick (dt : ℚ) (alea : Nat → Nat) (e : EtatJeu) :
    executer_suite [Operation.tirer, Operation.tick dt alea] e =
      etatjeu_mettre_a_jour (etatjeu_vaisseau_tirer e) dt alea := rfl

theorem etat_niveau_2_atteignable : Atteignable memoire_brute 30 10 etat_niveau_2 :=
  atteignable_suite memoire_brute 30 10 vider_niveau jeu_30_10 (Atteignable.creer alea_dix)
    (by decide)

/-! ## C21: the type tag of an enemy explosion -/

/-- A slot of the pool after `creer_explosion` is the old one or a fresh particle of the type
given, on the cell given. -/
theorem creer_explosion_boucle_type (x y t : Int) (ds : List (Int × Int)) :
    ∀ (s : List Particule × Int) (k : Nat) (q : Particule),
      (creer_explosion_boucle x y t s ds).1[k]? = some q →
      s.1[k]? = some q ∨ (q.type = t ∧ q.x = x ∧ q.y = y ∧ q.ttl = 20) := by
  induction ds with
  | nil => intro s k q h; exact Or.inl h
  | cons d reste ih =>
    intro s k q h
    unfold creer_explosion_boucle at h
    by_cases hn : s.2 < (NB_MAX_PARTICULES : Int)
    · rw [if_pos hn] at h
      cases hq : premiere_particule_libre s.1 with
      | none =>
        rw [hq] at h
        exact ih s k q h
      | some idx =>
        rw [hq] at h
        rcases ih _ k q h with h1 | h1
        · by_cases hki : k = idx
          · subst hki
            have hlt := premiere_particule_libre_lt s.1 k hq
            have h2 : (s.1.set k (particule_explosion x y t d))[k]? = some q := h1
            rw [List.getElem?_set_self hlt] at h2
            rw [← Option.some.inj h2]
            exact Or.inr ⟨rfl, rfl, rfl, rfl⟩
          · have h2 : (s.1.set idx (particule_explosion x y t d))[k]? = some q := h1
            rw [List.getElem?_set_ne (fun hc => hki hc.symm)] at h2
            exact Or.inl h2
        · exact Or.inr h1
    · rw [if_neg hn] at h
      exact Or.inl h

/-- Slots below 24 after the grid loops, when the loop body turns a slot with `Q` into a slot
with `P` and the slots below 24 had `Q` before. -/
theorem grille_propriete (corps : Entite → Int → Int → Nat → Entite × Nat)
    (P Q : Entite → Prop) (hc : ∀ en x y t, Q en → P (corps en x y t).1) (esp : Int)
    (l0 : List Entite) (hQ : ∀ (j : Nat) (en : Entite), j < 24 → l0[j]? = some en → Q en)
    (j : Nat) (en : Entite) (hj : j < 24)
    (he : (grille corps esp
      { ennemis := l0, nombre_ennemis := 0, tirages := 0 }).ennemis[j]? = some en) :
    P en := by
  obtain ⟨g1, g2, _, _, g5, _⟩ := grille_ecrite_fin corps esp l0
  have hjl : j < l0.length := by rw [← g1]; exact lt_length_of_getElem? he
  have hjn : (j : Int) < (grille corps esp
      { ennemis := l0, nombre_ennemis := 0, tirages := 0 }).nombre_ennemis := by
    rcases g2 with h | h
    · rw [h]; exact_mod_cast hj
    · omega
  obtain ⟨en0, t, h1, h2⟩ := g5 j hjn hjl
  rw [he] at h2
  rw [Option.some.inj h2]
  exact hc _ _ _ _ (hQ j en0 hj h1)

/-- In every reachable state the count is at most 24 and every enemy of the first 24 slots has
the type written by `etatjeu_creer`, `TYPE_ENNEMI_FAIBLE`. -/
theorem atteignable_type (brut : EtatJeu) (largeur hauteur : Int)
    (e : EtatJeu) (h : Atteignable brut largeur hauteur e) :
    e.nombre_ennemis ≤ 24 ∧
    ∀ (j : Nat) (en : Entite), j < 24 → e.ennemis[j]? = some en →
      en.type = TYPE_ENNEMI_FAIBLE := by
  have hcompte : ∀ (corps : Entite → Int → Int → Nat → Entite × Nat) (l : List Entite),
      (grille corps (espacement_x largeur)
        { ennemis := l, nombre_ennemis := 0, tirages := 0 }).nombre_ennemis ≤ 24 := by
    intro corps l
    obtain ⟨_, _, _, g4, _, _⟩ := grille_ecrite_fin corps (espacement_x largeur) l
    exact_mod_cast g4
  apply atteignable_ennemis brut largeur hauteur
    (fun l n _ => n ≤ 24 ∧
      ∀ (j : Nat) (en : Entite), j < 24 → l[j]? = some en → en.type = TYPE_ENNEMI_FAIBLE)
    _ _ _ _ _ e h
  · intro alea
    refine ⟨hcompte _ _, ?_⟩
    intro j en hj he
    exact grille_propriete (corps_creation alea 1) (fun en => en.type = TYPE_ENNEMI_FAIBLE)
      (fun _ => True) (fun en x y t _ => by rw [corps_creation_niveau_1]) _ brut.ennemis
      (fun _ _ _ _ => trivial) j en hj he
  · rintro l l2 n d ⟨hn, ht⟩ hmc
    refine ⟨hn, ?_⟩
    intro j en2 hj he2
    have hlt : j < l.length := by rw [← hmc.1]; exact lt_length_of_getElem? he2
    obtain ⟨en3, a1, _, _, _, a5, _⟩ := hmc.2 j _ (List.getElem?_eq_getElem hlt)
    rw [he2] at a1
    cases a1
    rw [a5]
    exact ht j _ hj (List.getElem?_eq_getElem hlt)
  · rintro l n d alea niveau ⟨_, ht⟩
    refine ⟨hcompte _ _, ?_⟩
    intro j en hj he
    exact grille_propriete (corps_reapparition alea niveau)
      (fun en => en.type = TYPE_ENNEMI_FAIBLE) (fun en => en.type = TYPE_ENNEMI_FAIBLE)
      (fun en x y t hq => by rw [corps_reapparition_champs]; exact hq) _ l ht j en hj he
  · rintro s _ ⟨hn, hty⟩
    by_cases ht : s.acc_deplacement_ennemis ≥ s.intervalle_deplacement_ennemis
    · cases htb : touche_bord s with
      | true =>
        rw [phase_deplacement_rebond s ht htb]
        refine ⟨hn, ?_⟩
        intro j en hj he
        have hlt : j < s.ennemis.length := by
          have := lt_length_of_getElem? he
          simpa using this
        have he2 : (s.ennemis.mapIdx (fun i en =>
            if (i : Int) < s.nombre_ennemis ∧ en.vivant ≠ 0 then { en with y := en.y + 1 }
            else en))[j]? = some en := he
        rw [List.getElem?_mapIdx, List.getElem?_eq_getElem hlt, Option.map_some'] at he2
        have hx : en.type = (s.ennemis[j]).type := by
          rw [← Option.some.inj he2]
          split_ifs <;> rfl
        rw [hx]
        exact hty j _ hj (List.getElem?_eq_getElem hlt)
      | false =>
        rw [phase_deplacement_pas s ht htb]
        refine ⟨hn, ?_⟩
        intro j en hj he
        have hlt : j < s.ennemis.length := by
          have := lt_length_of_getElem? he
          simpa using this
        have he2 : (s.ennemis.mapIdx (fun i en =>
            if (i : Int) < s.nombre_ennemis ∧ en.vivant ≠ 0 then
              { en with x := en.x + s.direction_ennemis }
            else en))[j]? = some en := he
        rw [List.getElem?_mapIdx, List.getElem?_eq_getElem hlt, Option.map_some'] at he2
        have hx : en.type = (s.ennemis[j]).type := by
          rw [← Option.some.inj he2]
          split_ifs <;> rfl
        rw [hx]
        exact hty j _ hj (List.getElem?_eq_getElem hlt)
    · rw [phase_deplacement_attente s (not_le.mp ht)]
      exact ⟨hn, hty⟩
  · rintro l n d ⟨_, ht⟩
    refine ⟨hcompte _ _, ?_⟩
    intro j en hj he
    exact grille_propriete corps_reinitialisation
      (fun en => en.type = TYPE_ENNEMI_FAIBLE) (fun en => en.type = TYPE_ENNEMI_FAIBLE)
      (fun en x y t hq => hq) _ l ht j en hj he

/-- C21.  What the code does, in every state reachable from `etatjeu_creer` by ticks, ship
moves, shots and restarts (and quit-flag writes): every enemy of a slot below the enemy count
has the type `TYPE_ENNEMI_FAIBLE` (1), whatever health the respawn gave it, because the respawn
loop of `etatjeu_mettre_a_jour` assigns `sante = 2` without assigning `type`.  So in the state
seen by every iteration `m` of the projectile loop, the hit of an enemy below the count leaves
each particle slot as it was or writes there a fresh particle (`ttl = 20`, on the enemy's cell)
of type `TYPE_ENNEMI_FAIBLE`: no enemy explosion ever has type `TYPE_ENNEMI_FORT`, also for an
enemy spawned with health 2. -/
theorem explosion_type (brut : EtatJeu) (largeur hauteur : Int) (e : EtatJeu)
    (h : Atteignable brut largeur hauteur e) :
    (∀ (j : Nat) (en : Entite), (j : Int) < e.nombre_ennemis → e.ennemis[j]? = some en →
      en.type = TYPE_ENNEMI_FAIBLE) ∧
    (∀ (dt : ℚ) (m : Nat) (s : EtatJeu),
      s = (List.range m).foldl traiter_projectile
        { e with temps_acc := e.temps_acc + dt,
                 particules := e.particules.map vieillir_particule } →
      ∀ (ps : List Projectile) (i enn : Nat) (en : Entite) (p : Projectile),
        (enn : Int) < s.nombre_ennemis → s.ennemis[enn]? = some en →
        ∀ (k : Nat) (q : Particule),
          (toucher_ennemi { s with projectiles := ps } i enn p en).particules[k]? = some q →
          s.particules[k]? = some q ∨
          (q.type = TYPE_ENNEMI_FAIBLE ∧ q.x = en.x ∧ q.y = en.y ∧ q.ttl = 20)) := by
  obtain ⟨hn, hty⟩ := atteignable_type brut largeur hauteur e h
  refine ⟨fun j en hj he => hty j en (by omega) he, ?_⟩
  intro dt m s hs ps i enn en p hlt hen k q hq
  obtain ⟨ps2, ens, sc, bs, parts, np, v, g, h1, _, hmc⟩ := foldl_traiter_forme (List.range m)
    { e with temps_acc := e.temps_acc + dt,
             particules := e.particules.map vieillir_particule }
  have hcount : s.nombre_ennemis = e.nombre_ennemis := by rw [hs, h1]
  have hens : s.ennemis = ens := by rw [hs, h1]
  have htype : en.type = TYPE_ENNEMI_FAIBLE := by
    rw [hens] at hen
    have hl : enn < e.ennemis.length := by
      have := lt_length_of_getElem? hen
      rw [hmc.1] at this
      exact this
    obtain ⟨en3, a1, _, _, _, a5, _⟩ := hmc.2 enn _ (List.getElem?_eq_getElem hl)
    have a1b : ens[enn]? = some en3 := a1
    rw [hen] at a1b
    cases a1b
    rw [a5]
    exact hty enn _ (by omega) (List.getElem?_eq_getElem hl)
  rw [toucher_ennemi_eq] at hq
  have hq2 : (if en.sante - 1 ≤ 0 then
      (creer_explosion_boucle en.x en.y en.type (s.particules, s.nombre_particules)
        directions).1 else s.particules)[k]? = some q := hq
  by_cases hk : en.sante - 1 ≤ 0
  · rw [if_pos hk] at hq2
    rcases creer_explosion_boucle_type _ _ _ _ _ k q hq2 with h2 | h2
    · exact Or.inl h2
    · rw [htype] at h2
      exact Or.inr h2
  · rw [if_neg hk] at hq2
    exact Or.inl hq2

set_option maxRecDepth 100000 in
/-- C21 on a strong enemy: in the 30 x 10 game `etat_niveau_2` (level 2, reached from
`etatjeu_creer` by `vider_niveau`) the respawn has given the enemy of slot 23, on (23, 6),
health 2 and left its type at 1; the first shot (`etat_fort_touche`, reachable) brings it to
health 1, the second one (`etat_fort_tue`) destroys it, and the eight particles written by that
tick (`ttl = 20`) are on (23, 6) with type 1, not `TYPE_ENNEMI_FORT`. -/
theorem explosion_type_temoin :
    Atteignable memoire_brute 30 10 etat_fort_touche ∧
    etat_niveau_2.niveau = 2 ∧
    etat_niveau_2.ennemis[23]? =
      some { x := 23, y := 6, vivant := 1, sante := 2, dmg := 1, type := 1 } ∧
    etat_fort_touche.ennemis[23]? =
      some { x := 23, y := 6, vivant := 1, sante := 1, dmg := 1, type := 1 } ∧
    etat_fort_tue = etatjeu_mettre_a_jour (etatjeu_vaisseau_tirer etat_fort_touche) 0 alea_dix ∧
    etat_fort_tue.ennemis[23]? =
      some { x := 23, y := 6, vivant := 0, sante := 0, dmg := 1, type := 1 } ∧
    (etat_fort_tue.particules.filter (fun q => decide (q.ttl = 20))).map
      (fun q => (q.x, q.y, q.type)) = List.replicate 8 (23, 6, 1) ∧
    (∀ (j : Nat) (en : Entite), (j : Int) < etat_fort_touche.nombre_ennemis →
      etat_fort_touche.ennemis[j]? = some en → en.type = TYPE_ENNEMI_FAIBLE) :=
  have ha : Atteignable memoire_brute 30 10 etat_fort_touche :=
    atteignable_suite memoire_brute 30 10 [Operation.tirer, Operation.tick 0 alea_dix]
      etat_niveau_2 etat_niveau_2_atteignable (by decide)
  ⟨ha,
    by rw [etat_niveau_2_valeur]; decide!,
    by rw [etat_niveau_2_valeur]; decide!,
    by unfold etat_fort_touche; rw [etat_niveau_2_valeur]; decide!,
    tir_et_tick 0 alea_dix etat_fort_touche,
    by unfold etat_fort_tue etat_fort_touche; rw [etat_niveau_2_valeur]; decide!,
    by unfold etat_fort_tue etat_fort_touche; rw [etat_niveau_2_valeur]; decide!,
    (explosion_type memoire_brute 30 10 etat_fort_touche ha).1⟩

/-! ## C31: frame of the commands -/

/-- C31.  For every state, every `dir` and every `q`: `etatjeu_deplacer_vaisseau` returns the
state with the ship's `x` replaced and every other field (the other fields of the ship
included) as it was; `etatjeu_vaisseau_tirer` returns the state with the projectile pool and
its high-water count `nombre_projectiles` replaced, the pool keeping its capacity, and every
other field as it was: ship, lives, score, level, enemies, shields, particles, timers;
`_etatjeu_definir_quitter` returns the state with the quit flag replaced by `q` and every
other field as it was, and `etatjeu_devrait_quitter` then returns `q`. -/
theorem cadre_commandes (e : EtatJeu) (dir q : Int) :
    etatjeu_deplacer_vaisseau e dir =
      { e with joueur :=
          { e.joueur with x := etatjeu_obtenir_vaisseau_x (etatjeu_deplacer_vaisseau e dir) } } ∧
    etatjeu_vaisseau_tirer e =
      { e with projectiles := (etatjeu_vaisseau_tirer e).projectiles,
               nombre_projectiles := (etatjeu_vaisseau_tirer e).nombre_projectiles } ∧
    (etatjeu_vaisseau_tirer e).projectiles.length = e.projectiles.length ∧
    ((etatjeu_vaisseau_tirer e).joueur = e.joueur ∧ (etatjeu_vaisseau_tirer e).vies = e.vies ∧
      (etatjeu_vaisseau_tirer e).score = e.score ∧ (etatjeu_vaisseau_tirer e).niveau = e.niveau ∧
      (etatjeu_vaisseau_tirer e).ennemis = e.ennemis ∧
      (etatjeu_vaisseau_tirer e).boucliers = e.boucliers ∧
      (etatjeu_vaisseau_tirer e).particules = e.particules ∧
      (etatjeu_vaisseau_tirer e).temps_acc = e.temps_acc ∧
      (etatjeu_vaisseau_tirer e).acc_deplacement_ennemis = e.acc_deplacement_ennemis ∧
      (etatjeu_vaisseau_tirer e).intervalle_deplacement_ennemis =
        e.intervalle_deplacement_ennemis) ∧
    _etatjeu_definir_quitter e q = { e with quitter := q } ∧
    (∀ q0 : Int, _etatjeu_definir_quitter { e with quitter := q0 } q =
      _etatjeu_definir_quitter e q) ∧
    etatjeu_devrait_quitter (_etatjeu_definir_quitter e q) = q := by
  obtain ⟨ps, n, h⟩ := ajouter_projectile_boucle_forme e e.joueur.x (ligne_vaisseau e - 1)
    (-1) 0 (List.range e.projectiles.length)
  have ht : etatjeu_vaisseau_tirer e = { e with projectiles := ps, nombre_projectiles := n } := by
    unfold etatjeu_vaisseau_tirer ajouter_projectile
    exact h
  refine ⟨?_, ?_, ?_, ?_, rfl, fun _ => rfl, rfl⟩
  · unfold etatjeu_obtenir_vaisseau_x etatjeu_deplacer_vaisseau
    simp only []
    split_ifs <;> rfl
  · rw [ht]
  · exact (vaisseau_tirer_capacites e).1.2.2.2.1
  · rw [ht]
    exact ⟨rfl, rfl, rfl, rfl, rfl, rfl, rfl, rfl, rfl, rfl⟩

/-- C31 on `etat_tir_au_but`: after `_etatjeu_definir_quitter` with `q = 1` the quit flag
reads back as 1, and a shot leaves the particle pool and the ship as they are. -/
theorem cadre_commandes_temoin :
    etatjeu_devrait_quitter (_etatjeu_definir_quitter etat_tir_au_but 1) = 1 ∧
    (etatjeu_vaisseau_tirer etat_tir_au_but).joueur = etat_tir_au_but.joueur ∧
    (etatjeu_vaisseau_tirer etat_tir_au_but).particules = etat_tir_au_but.particules :=
  ⟨(cadre_commandes etat_tir_au_but 0 1).2.2.2.2.2.2,
    (cadre_commandes etat_tir_au_but 0 1).2.2.2.1.1,
    (cadre_commandes etat_tir_au_but 0 1).2.2.2.1.2.2.2.2.2.2.1⟩

/-! ## C32: the glyph table -/

theorem glyph_pattern_forme (c : Char) :
    glyph_pattern c = none ∨
    ∃ pat : String, glyph_pattern c = some pat ∧ pat.length = 35 ∧
      ∀ car ∈ pat.data, car = '#' ∨ car = ' ' := by
  unfold glyph_pattern
  split <;> first
    | exact Or.inl rfl
    | exact Or.inr ⟨_, rfl, by decide, by decide⟩

theorem char_de_code (c : Char) (n : Nat) (h : c.toNat = n) : c = Char.ofNat n := by
  rw [← h, Char.ofNat_toNat]

/-- A pattern is present for the capital letters and the digits. -/
theorem glyph_pattern_present (c : Char)
    (h : ('A' ≤ c ∧ c ≤ 'Z') ∨ ('0' ≤ c ∧ c ≤ '9')) : (glyph_pattern c).isSome = true := by
  have hle : ∀ a b : Char, a ≤ b → a.toNat ≤ b.toNat := fun a b hab => hab
  obtain ⟨n, hn⟩ : ∃ n, c.toNat = n := ⟨_, rfl⟩
  rw [char_de_code c n hn]
  rcases h with ⟨h1, h2⟩ | ⟨h1, h2⟩
  · have a1 : 65 ≤ n := by rw [← hn]; exact hle _ _ h1
    have a2 : n ≤ 90 := by rw [← hn]; exact hle _ _ h2
    interval_cases n <;> decide
  · have a1 : 48 ≤ n := by rw [← hn]; exact hle _ _ h1
    have a2 : n ≤ 57 := by rw [← hn]; exact hle _ _ h2
    interval_cases n <;> decide

/-- A read inside a pattern of 35 characters `#` or blank returns one of them. -/
theorem lire_motif_dans (pat : String) (i : Nat) (hi : i < pat.length)
    (hc : ∀ car ∈ pat.data, car = '#' ∨ car = ' ') :
    ∃ car, lire_motif pat i = some car ∧ (car = '#' ∨ car = ' ') := by
  have hl : i < pat.data.length := hi
  refine ⟨pat.data[i], ?_, hc _ (List.getElem_mem hl)⟩
  unfold lire_motif
  rw [if_pos hi]
  exact List.getElem?_eq_getElem hl

/-- The loops of `draw_glyph` never leave a pattern of 35 characters. -/
theorem draw_glyph_boucle_total (pat : String) (x y pixel : Int) (hp : pat.length = 35)
    (l : List (Nat × Nat)) (hl : ∀ p ∈ l, p.1 < 7 ∧ p.2 < 5) :
    ∃ rs, draw_glyph_boucle pat x y pixel l = some rs := by
  induction l with
  | nil => exact ⟨[], rfl⟩
  | cons p reste ih =>
    obtain ⟨row, col⟩ := p
    obtain ⟨rs, hrs⟩ := ih (fun r hr => hl r (List.mem_cons_of_mem _ hr))
    have hb := hl (row, col) (List.mem_cons_self _ _)
    have hi : row * 5 + col < pat.length := by
      have h1 : row < 7 := hb.1
      have h2 : col < 5 := hb.2
      omega
    have hlire : lire_motif pat (row * 5 + col) = pat.data[row * 5 + col]? := by
      unfold lire_motif
      rw [if_pos hi]
    have hd : row * 5 + col < pat.data.length := hi
    unfold draw_glyph_boucle
    rw [hlire, List.getElem?_eq_getElem hd, hrs]
    simp only []
    split_ifs
    · exact ⟨_, rfl⟩
    · exact ⟨_, rfl⟩

theorem cases_glyphe_bornes : ∀ p ∈ cases_glyphe, p.1 < 7 ∧ p.2 < 5 := by decide

/-- C32.  For every character `c`, `glyph_pattern c` is absent or is a string of exactly 35
characters, each of them `#` or a blank; so for a pattern that is present every index
`row * 5 + col` with `row < 7` and `col < 5` is inside the string and the read returns `#` or
a blank.  A pattern is present for each of the letters `A` to `Z`, the digits `0` to `9` and
the six characters `<`, `>`, `#`, `.`, `:`, `-`.  For every `toupper`, every character and
every position, size and spacing, `draw_glyph` makes no read outside a pattern and returns the
advance `5 * pixel + spacing`, whether the character has a pattern or not. -/
theorem glyphes_bien_formes :
    (∀ c : Char, glyph_pattern c = none ∨
      ∃ pat : String, glyph_pattern c = some pat ∧ pat.length = 35 ∧
        ∀ car ∈ pat.data, car = '#' ∨ car = ' ') ∧
    (∀ (c : Char) (pat : String) (row col : Nat), glyph_pattern c = some pat → row < 7 →
      col < 5 → row * 5 + col < pat.length ∧
        ∃ car, lire_motif pat (row * 5 + col) = some car ∧ (car = '#' ∨ car = ' ')) ∧
    (∀ c : Char, ('A' ≤ c ∧ c ≤ 'Z') ∨ ('0' ≤ c ∧ c ≤ '9') ∨
      c ∈ ['<', '>', '#', '.', ':', '-'] → (glyph_pattern c).isSome = true) ∧
    (∀ (toupper : Char → Char) (x y : Int) (ch : Char) (pixel spacing : Int),
      ∃ rects : List Rect,
        draw_glyph toupper x y ch pixel spacing = some (rects, 5 * pixel + spacing)) := by
  refine ⟨glyph_pattern_forme, ?_, ?_, ?_⟩
  · intro c pat row col hpat hrow hcol
    rcases glyph_pattern_forme c with h | ⟨pat2, h1, h2, h3⟩
    · rw [h] at hpat
      cases hpat
    · rw [h1] at hpat
      rw [← Option.some.inj hpat]
      have hi : row * 5 + col < pat2.length := by omega
      exact ⟨hi, lire_motif_dans pat2 _ hi h3⟩
  · intro c hc
    rcases hc with h | h | h
    · exact glyph_pattern_present c (Or.inl h)
    · exact glyph_pattern_present c (Or.inr h)
    · simp only [List.mem_cons, List.mem_singleton, List.not_mem_nil, or_false] at h
      rcases h with h | h | h | h | h | h <;> rw [h] <;> decide
  · intro toupper x y ch pixel spacing
    unfold draw_glyph
    simp only []
    rcases glyph_pattern_forme (toupper ch) with h | ⟨pat, h1, h2, _⟩
    · rw [h]
      exact ⟨[], by rw [mul_comm]⟩
    · rw [h1]
      obtain ⟨rs, hrs⟩ := draw_glyph_boucle_total pat x y pixel h2 cases_glyphe
        cases_glyphe_bornes
      simp only [hrs]
      exact ⟨rs, by rw [mul_comm]⟩

/-- C32 on the characters `A`, `.` and on the blank: the pattern of `A` is present and its
index 6 * 5 + 4 is inside the string; with `pixel = 2` and `spacing = 1`, `draw_glyph`
at (10, 20) draws the single cell (row 5, column 2) of `.` as the rectangle (14, 30, 2, 2),
draws nothing for the blank, which has no pattern, and returns the advance 11 both times; the
letter `a` is drawn as `A` in the "C" locale. -/
theorem glyphes_bien_formes_temoin :
    (glyph_pattern 'A').isSome = true ∧
    (∀ pat : String, glyph_pattern 'A' = some pat → 6 * 5 + 4 < pat.length) ∧
    draw_glyph toupper_C 10 20 '.' 2 1 = some ([{ x := 14, y := 30, w := 2, h := 2 }], 11) ∧
    glyph_pattern ' ' = none ∧
    draw_glyph toupper_C 10 20 ' ' 2 1 = some ([], 11) ∧
    draw_glyph toupper_C 10 20 'a' 2 1 = draw_glyph toupper_C 10 20 'A' 2 1 :=
  ⟨glyphes_bien_formes.2.2.1 'A' (Or.inl ⟨by decide, by decide⟩),
    fun pat hpat => (glyphes_bien_formes.2.1 'A' pat 6 4 hpat (by decide) (by decide)).1,
    by decide, by decide, by decide, by decide⟩

/-! ## Lemmas: the checked loops -/

theorem boucle_cases_intervalle {α : Type} (f : Nat → α → α) :
    ∀ (m k : Nat) (l : List α), k + m ≤ l.length →
      boucle_cases f l (List.range' k m) =
        some (l.mapIdx (fun i v => if k ≤ i ∧ i < k + m then f i v else v)) := by
  intro m
  induction m with
  | zero =>
    intro k l _
    show some l = _
    congr 1
    apply List.ext_getElem?
    intro j
    rw [List.getElem?_mapIdx]
    cases l[j]? with
    | none => rfl
    | some v =>
      rw [Option.map_some', if_neg (by omega)]
  | succ m ih =>
    intro k l h
    have hk : k < l.length := by omega
    rw [List.range'_succ]
    unfold boucle_cases
    rw [List.getElem?_eq_getElem hk]
    simp only []
    rw [ih (k + 1) _ (by rw [List.length_set]; omega)]
    congr 1
    apply List.ext_getElem?
    intro j
    rw [List.getElem?_mapIdx, List.getElem?_mapIdx]
    by_cases hj : j = k
    · subst hj
      rw [List.getElem?_set_self hk, List.getElem?_eq_getElem hk, Option.map_some',
        Option.map_some', if_neg (by omega), if_pos (by omega)]
    · rw [List.getElem?_set_ne (fun hc => hj hc.symm)]
      cases l[j]? with
      | none => rfl
      | some v =>
        rw [Option.map_some', Option.map_some']
        by_cases hc : k ≤ j ∧ j < k + (m + 1)
        · rw [if_pos hc, if_pos (by omega)]
        · rw [if_neg hc, if_neg (by omega)]

/-- A checked loop over the first `n` slots of an array of at least `n` slots succeeds and
rewrites these slots. -/
theorem boucle_cases_range {α : Type} (f : Nat → α → α) (l : List α) (n : Nat)
    (h : n ≤ l.length) :
    boucle_cases f l (List.range n) =
      some (l.mapIdx (fun i v => if i < n then f i v else v)) := by
  rw [List.range_eq_range', boucle_cases_intervalle f n 0 l (by omega)]
  congr 1
  apply List.ext_getElem?
  intro j
  rw [List.getElem?_mapIdx, List.getElem?_mapIdx]
  cases l[j]? with
  | none => rfl
  | some v =>
    rw [Option.map_some', Option.map_some']
    by_cases hc : j < n
    · rw [if_pos hc, if_pos (by omega)]
    · rw [if_neg hc, if_neg (by omega)]

/-- A checked loop over all the slots of an array, with a body that does not use the index. -/
theorem boucle_cases_map {α : Type} (g : α → α) (l : List α) :
    boucle_cases (fun _ v => g v) l (List.range l.length) = some (l.map g) := by
  rw [boucle_cases_range _ l l.length (le_refl _)]
  congr 1
  apply List.ext_getElem?
  intro j
  rw [List.getElem?_mapIdx, List.getElem?_map]
  cases hl : l[j]? with
  | none => rfl
  | some v =>
    rw [Option.map_some', Option.map_some', if_pos (lt_length_of_getElem? hl)]

/-- A checked loop over all the slots of an array. -/
theorem boucle_cases_mapIdx {α : Type} (f : Nat → α → α) (l : List α) :
    boucle_cases f l (List.range l.length) = some (l.mapIdx f) := by
  rw [boucle_cases_range _ l l.length (le_refl _)]
  congr 1
  apply List.ext_getElem?
  intro j
  rw [List.getElem?_mapIdx, List.getElem?_mapIdx]
  cases hl : l[j]? with
  | none => rfl
  | some v =>
    rw [Option.map_some', Option.map_some', if_pos (lt_length_of_getElem? hl)]

/-- A checked loop whose body succeeds and agrees with `g` while `I` holds, `I` being kept by
`g`, succeeds and agrees with the fold of `g`. -/
theorem boucle_verifiee_foldl {σ : Type} (f : σ → Nat → Option σ) (g : σ → Nat → σ)
    (I : σ → Prop) (l : List Nat)
    (h : ∀ s, I s → ∀ i ∈ l, f s i = some (g s i) ∧ I (g s i)) :
    ∀ s, I s → boucle_verifiee f s l = some (l.foldl g s) := by
  induction l with
  | nil => intro s _; rfl
  | cons i reste ih =>
    intro s hs
    obtain ⟨h1, h2⟩ := h s hs i (List.mem_cons_self _ _)
    unfold boucle_verifiee
    rw [h1]
    simp only [List.foldl_cons]
    exact ih (fun t ht j hj => h t ht j (List.mem_cons_of_mem _ hj)) _ h2

/-! ## Lemmas: the checked helpers agree with the helpers -/

theorem ajouter_projectile_boucle_verifie_eq (e : EtatJeu) (x y dy o : Int) (l : List Nat)
    (h : ∀ i ∈ l, i < e.projectiles.length) :
    ajouter_projectile_boucle_verifie e x y dy o l =
      some (ajouter_projectile_boucle e x y dy o l) := by
  induction l with
  | nil => rfl
  | cons i reste ih =>
    have hi := h i (List.mem_cons_self _ _)
    have ih1 := ih (fun j hj => h j (List.mem_cons_of_mem _ hj))
    unfold ajouter_projectile_boucle_verifie ajouter_projectile_boucle
    rw [List.getElem?_eq_getElem hi]
    simp only []
    by_cases ha : e.projectiles[i].actif = 0
    · rw [if_pos ha, if_pos ha]
    · rw [if_neg ha, if_neg ha]
      exact ih1

/-- `ajouter_projectile` never leaves the projectile array. -/
theorem ajouter_projectile_verifie_eq (e : EtatJeu) (x y dy o : Int) :
    ajouter_projectile_verifie e x y dy o = some (ajouter_projectile e x y dy o) :=
  ajouter_projectile_boucle_verifie_eq e x y dy o _ (fun _ hi => List.mem_range.mp hi)

theorem premiere_particule_libre_verifie_intervalle (ps : List Particule) :
    ∀ (m k : Nat), k + m = ps.length →
      premiere_particule_libre_verifie ps (List.range' k m) =
        some ((premiere_particule_libre (ps.drop k)).map (fun j => j + k)) := by
  intro m
  induction m with
  | zero =>
    intro k hk
    have hd : ps.drop k = [] := List.drop_eq_nil_of_le (by omega)
    rw [hd]
    rfl
  | succ m ih =>
    intro k hk
    have hlt : k < ps.length := by omega
    rw [List.range'_succ]
    unfold premiere_particule_libre_verifie
    rw [List.getElem?_eq_getElem hlt]
    simp only []
    have hd : ps.drop k = ps[k] :: ps.drop (k + 1) := List.drop_eq_getElem_cons hlt
    rw [hd]
    unfold premiere_particule_libre
    by_cases ht : ps[k].ttl ≤ 0
    · rw [if_pos ht, if_pos ht]
      simp
    · rw [if_neg ht, if_neg ht, ih (k + 1) (by omega)]
      congr 1
      cases premiere_particule_libre (ps.drop (k + 1)) with
      | none => rfl
      | some j =>
        simp only [Option.map_some']
        congr 1
        omega

theorem premiere_particule_libre_verifie_eq (ps : List Particule)
    (h : ps.length = NB_MAX_PARTICULES) :
    premiere_particule_libre_verifie ps (List.range NB_MAX_PARTICULES) =
      some (premiere_particule_libre ps) := by
  rw [List.range_eq_range', premiere_particule_libre_verifie_intervalle ps _ 0 (by omega),
    List.drop_zero]
  congr 1
  cases premiere_particule_libre ps with
  | none => rfl
  | some j => rfl

theorem creer_explosion_boucle_verifie_eq (x y t : Int) (ds : List (Int × Int)) :
    ∀ s : List Particule × Int, s.1.length = NB_MAX_PARTICULES →
      creer_explosion_boucle_verifie x y t s ds = some (creer_explosion_boucle x y t s ds) := by
  induction ds with
  | nil => intro s _; rfl
  | cons d reste ih =>
    intro s hs
    unfold creer_explosion_boucle_verifie creer_explosion_boucle
    by_cases hn : s.2 < (NB_MAX_PARTICULES : Int)
    · rw [if_pos hn, if_pos hn, premiere_particule_libre_verifie_eq s.1 hs]
      cases premiere_particule_libre s.1 with
      | none => exact ih s hs
      | some idx => exact ih _ (by simp only [List.length_set]; exact hs)
    · rw [if_neg hn, if_neg hn]

/-- `creer_explosion` never leaves a particle array of `NB_MAX_PARTICULES` slots. -/
theorem creer_explosion_verifie_eq (e : EtatJeu) (x y t : Int)
    (h : e.particules.length = NB_MAX_PARTICULES) :
    creer_explosion_verifie e x y t = some (creer_explosion e x y t) := by
  unfold creer_explosion_verifie creer_explosion
  rw [creer_explosion_boucle_verifie_eq x y t directions (e.particules, e.nombre_particules) h]

/-! ## Lemmas: the checked collision phase -/

theorem indices_dans_les_pools_suite {e e2 : EtatJeu} (h : indices_dans_les_pools e)
    (hm : memes_capacites e e2) (hn : e2.nombre_ennemis = e.nombre_ennemis) :
    indices_dans_les_pools e2 := by
  obtain ⟨h1, h2, h3, h4⟩ := h
  obtain ⟨_, _, m3, _, m5, m6, m7, _⟩ := hm
  exact ⟨by rw [m3]; exact h1, by rw [m3, hn]; exact h2, by rw [m5, m7]; exact h3,
    by rw [m6]; exact h4⟩

theorem toucher_ennemi_verifie_eq (e : EtatJeu) (i enn : Nat) (p : Projectile) (en : Entite)
    (hp : e.particules.length = NB_MAX_PARTICULES) :
    toucher_ennemi_verifie e i enn p en = some (toucher_ennemi e i enn p en) := by
  unfold toucher_ennemi_verifie toucher_ennemi
  simp only []
  by_cases hs : en.sante - 1 ≤ 0
  · have h2 := creer_explosion_verifie_eq
      ({ e with projectiles := e.projectiles.set i { p with actif := 0 },
                ennemis := e.ennemis.set enn { en with sante := en.sante - 1 } } : EtatJeu)
      en.x en.y en.type hp
    rw [if_pos hs, if_pos hs, h2]
  · rw [if_neg hs, if_neg hs]

theorem toucher_bouclier_verifie_eq (e : EtatJeu) (i b : Nat) (p : Projectile) (bo : Entite)
    (hp : e.particules.length = NB_MAX_PARTICULES) :
    toucher_bouclier_verifie e i b p bo = some (toucher_bouclier e i b p bo) := by
  unfold toucher_bouclier_verifie toucher_bouclier
  simp only []
  by_cases hs : bo.sante - 1 ≤ 0
  · have h2 := creer_explosion_verifie_eq
      ({ e with projectiles := e.projectiles.set i { p with actif := 0 },
                boucliers := e.boucliers.set b { bo with sante := bo.sante - 1 } } : EtatJeu)
      bo.x bo.y bo.type hp
    rw [if_pos hs, if_pos hs, h2]
  · rw [if_neg hs, if_neg hs]

theorem collision_ennemis_boucle_verifie_eq (e : EtatJeu) (i : Nat) (l : List Nat)
    (hl : ∀ enn ∈ l, enn < e.ennemis.length) (hi : i < e.projectiles.length)
    (hp : e.particules.length = NB_MAX_PARTICULES) :
    collision_ennemis_boucle_verifie e i l = some (collision_ennemis_boucle e i l) := by
  induction l with
  | nil => rfl
  | cons enn reste ih =>
    have h1 := hl enn (List.mem_cons_self _ _)
    have ih1 := ih (fun k hk => hl k (List.mem_cons_of_mem _ hk))
    unfold collision_ennemis_boucle_verifie collision_ennemis_boucle
    rw [List.getElem?_eq_getElem h1, List.getElem?_eq_getElem hi]
    simp only []
    by_cases hv : e.ennemis[enn].vivant = 0
    · rw [if_pos hv, if_pos hv]
      exact ih1
    · rw [if_neg hv, if_neg hv]
      by_cases hc : e.ennemis[enn].x = e.projectiles[i].x ∧ e.ennemis[enn].y = e.projectiles[i].y
      · rw [if_pos hc, if_pos hc]
        exact toucher_ennemi_verifie_eq e i enn _ _ hp
      · rw [if_neg hc, if_neg hc]
        exact ih1

theorem collision_boucliers_boucle_verifie_eq (e : EtatJeu) (i : Nat) (l : List Nat)
    (hl : ∀ b ∈ l, b < e.boucliers.length) (hi : i < e.projectiles.length)
    (hp : e.particules.length = NB_MAX_PARTICULES) :
    collision_boucliers_boucle_verifie e i l = some (collision_boucliers_boucle e i l) := by
  induction l with
  | nil => rfl
  | cons b reste ih =>
    have h1 := hl b (List.mem_cons_self _ _)
    have ih1 := ih (fun k hk => hl k (List.mem_cons_of_mem _ hk))
    unfold collision_boucliers_boucle_verifie collision_boucliers_boucle
    rw [List.getElem?_eq_getElem h1, List.getElem?_eq_getElem hi]
    simp only []
    by_cases hv : e.boucliers[b].vivant = 0
    · rw [if_pos hv, if_pos hv]
      exact ih1
    · rw [if_neg hv, if_neg hv]
      by_cases hc : e.boucliers[b].x = e.projectiles[i].x ∧ e.boucliers[b].y = e.projectiles[i].y
      · rw [if_pos hc, if_pos hc]
        exact toucher_bouclier_verifie_eq e i b _ _ hp
      · rw [if_neg hc, if_neg hc]
        exact ih1

theorem range_toNat_dans (n : Int) (len : Nat) (h : n ≤ (len : Int)) :
    ∀ i ∈ List.range n.toNat, i < len := by
  intro i hi
  have := List.mem_range.mp hi
  omega

theorem collision_ennemis_verifie_eq (e : EtatJeu) (i : Nat) (h : indices_dans_les_pools e)
    (hi : i < e.projectiles.length) :
    collision_ennemis_verifie e i = some (collision_ennemis e i) :=
  collision_ennemis_boucle_verifie_eq e i _ (range_toNat_dans _ _ h.2.1) hi h.2.2.2

theorem collision_boucliers_verifie_eq (e : EtatJeu) (i : Nat) (h : indices_dans_les_pools e)
    (hi : i < e.projectiles.length) :
    collision_boucliers_verifie e i = some (collision_boucliers e i) :=
  collision_boucliers_boucle_verifie_eq e i _ (range_toNat_dans _ _ h.2.2.1) hi h.2.2.2

theorem collision_vaisseau_verifie_eq (e : EtatJeu) (i : Nat) (hi : i < e.projectiles.length) :
    collision_vaisseau_verifie e i = some (collision_vaisseau e i) := by
  unfold collision_vaisseau_verifie collision_vaisseau
  rw [List.getElem?_eq_getElem hi]
  simp only []
  split_ifs <;> rfl

theorem traiter_projectile_verifie_eq (e : EtatJeu) (i : Nat) (h : indices_dans_les_pools e)
    (hi : i < e.projectiles.length) :
    traiter_projectile_verifie e i = some (traiter_projectile e i) := by
  obtain ⟨p, hp⟩ : ∃ p, e.projectiles[i]? = some p := ⟨_, List.getElem?_eq_getElem hi⟩
  unfold traiter_projectile_verifie traiter_projectile
  rw [hp]
  simp only []
  by_cases ha : p.actif = 0
  · rw [if_pos ha, if_pos ha]
  · rw [if_neg ha, if_neg ha]
    by_cases hb : p.y + p.dy < 0 ∨ p.y + p.dy ≥ e.hauteur
    · rw [if_pos hb, if_pos hb]
    · rw [if_neg hb, if_neg hb]
      have h1 : indices_dans_les_pools
          ({ e with projectiles := e.projectiles.set i { p with y := p.y + p.dy } } : EtatJeu) :=
        indices_dans_les_pools_suite h (memes_capacites_set_projectile e i _) rfl
      have hi1 : i < ({ e with projectiles := e.projectiles.set i { p with y := p.y + p.dy } } :
            EtatJeu).projectiles.length := by
        simp only [List.length_set]
        exact hi
      by_cases ho : p.proprietaire = 0
      · rw [if_pos ho, if_pos ho, collision_ennemis_verifie_eq _ i h1 hi1]
        simp only []
        obtain ⟨c1, c2⟩ := collision_ennemis_capacites
          ({ e with projectiles := e.projectiles.set i { p with y := p.y + p.dy } } : EtatJeu) i
        exact collision_boucliers_verifie_eq _ i (indices_dans_les_pools_suite h1 c1 c2)
          (by rw [c1.2.2.2.1]; exact hi1)
      · rw [if_neg ho, if_neg ho, collision_vaisseau_verifie_eq _ i hi1]
        simp only []
        obtain ⟨c1, c2⟩ := collision_vaisseau_capacites
          ({ e with projectiles := e.projectiles.set i { p with y := p.y + p.dy } } : EtatJeu) i
        exact collision_boucliers_verifie_eq _ i (indices_dans_les_pools_suite h1 c1 c2)
          (by rw [c1.2.2.2.1]; exact hi1)

/-- The projectile loop succeeds with every subscript inside its array. -/
theorem phase_projectiles_verifie_eq (e : EtatJeu) (h : indices_dans_les_pools e) :
    phase_projectiles_verifie e = some (phase_projectiles e) := by
  unfold phase_projectiles_verifie phase_projectiles
  apply boucle_verifiee_foldl traiter_projectile_verifie traiter_projectile
    (fun s => indices_dans_les_pools s ∧ s.projectiles.length = e.projectiles.length) _ _ e
    ⟨h, rfl⟩
  intro s hs i hi
  have hi2 : i < s.projectiles.length := by rw [hs.2]; exact List.mem_range.mp hi
  obtain ⟨c1, c2⟩ := traiter_projectile_capacites s i
  exact ⟨traiter_projectile_verifie_eq s i hs.1 hi2,
    indices_dans_les_pools_suite hs.1 c1 c2, by rw [c1.2.2.2.1]; exact hs.2⟩

/-- The collision phase succeeds with every subscript inside its array. -/
theorem phase_collisions_verifie_eq (e : EtatJeu) (dt : ℚ) (h : indices_dans_les_pools e) :
    phase_collisions_verifie e dt = some (phase_collisions e dt) := by
  unfold phase_collisions_verifie phase_collisions
  simp only []
  have hl : NB_MAX_PARTICULES = e.particules.length := h.2.2.2.symm
  rw [hl, boucle_cases_map vieillir_particule e.particules]
  simp only []
  have h2 : indices_dans_les_pools
      { e with temps_acc := e.temps_acc + dt,
               particules := e.particules.map vieillir_particule } := by
    obtain ⟨a1, a2, a3, a4⟩ := h
    exact ⟨a1, a2, a3, by simp only [List.length_map]; exact a4⟩
  rw [phase_projectiles_verifie_eq _ h2]

/-! ## Lemmas: the checked enemy phases -/

theorem compter_vivants_verifie_eq (e : EtatJeu) (idx : List Nat)
    (h : ∀ i ∈ idx, i < e.ennemis.length) :
    compter_vivants_verifie e.ennemis idx = some ((idx.filter (est_vivant e)).length) := by
  induction idx with
  | nil => rfl
  | cons i reste ih =>
    have hi := h i (List.mem_cons_self _ _)
    have ih1 := ih (fun j hj => h j (List.mem_cons_of_mem _ hj))
    unfold compter_vivants_verifie
    rw [List.getElem?_eq_getElem hi, ih1]
    simp only []
    have hv : est_vivant e i = decide (e.ennemis[i].vivant ≠ 0) := by
      unfold est_vivant
      rw [List.getElem?_eq_getElem hi]
    by_cases hc : e.ennemis[i].vivant ≠ 0
    · rw [if_pos hc, List.filter_cons_of_pos (by rw [hv]; exact decide_eq_true hc)]
      rfl
    · rw [if_neg hc, List.filter_cons_of_neg (by rw [hv]; simpa using hc)]

theorem nombre_ennemis_vivants_verifie_eq (e : EtatJeu)
    (h : e.nombre_ennemis ≤ (e.ennemis.length : Int)) :
    nombre_ennemis_vivants_verifie e = some (nombre_ennemis_vivants e) := by
  unfold nombre_ennemis_vivants_verifie
  rw [compter_vivants_verifie_eq e _ (range_toNat_dans _ _ h), nombre_ennemis_vivants_eq,
    idxs_eq]

theorem grille_colonnes_positif (corps : Entite → Int → Int → Nat → Entite × Nat) (esp : Int)
    (r : Nat) (cols : List Nat) :
    ∀ g : Grille, 0 ≤ g.nombre_ennemis → 0 ≤ (grille_colonnes corps esp r g cols).nombre_ennemis := by
  induction cols with
  | nil => intro g h; exact h
  | cons c reste ih =>
    intro g h
    unfold grille_colonnes
    by_cases hfull : g.nombre_ennemis ≥ (g.ennemis.length : Int)
    · rw [if_pos hfull]
      show 0 ≤ g.nombre_ennemis + 1
      omega
    · rw [if_neg hfull]
      cases hg : g.ennemis[g.nombre_ennemis.toNat]? with
      | none =>
        show 0 ≤ g.nombre_ennemis + 1
        omega
      | some en =>
        apply ih
        show 0 ≤ g.nombre_ennemis + 1
        omega

theorem grille_colonnes_verifie_eq (corps : Entite → Int → Int → Nat → Entite × Nat) (esp : Int)
    (r : Nat) (cols : List Nat) :
    ∀ g : Grille, 0 ≤ g.nombre_ennemis →
      grille_colonnes_verifie corps esp r g cols = some (grille_colonnes corps esp r g cols) := by
  induction cols with
  | nil => intro g _; rfl
  | cons c reste ih =>
    intro g h
    unfold grille_colonnes_verifie grille_colonnes
    by_cases hfull : g.nombre_ennemis ≥ (g.ennemis.length : Int)
    · rw [if_pos hfull, if_pos hfull]
    · rw [if_neg hfull, if_neg hfull, if_neg (by omega)]
      have hlt : g.nombre_ennemis.toNat < g.ennemis.length := by omega
      rw [List.getElem?_eq_getElem hlt]
      simp only []
      apply ih
      show 0 ≤ g.nombre_ennemis + 1
      omega

/-- The grid loops never leave the enemy array: the guard comes before the subscript. -/
theorem grille_verifie_eq (corps : Entite → Int → Int → Nat → Entite × Nat) (esp : Int)
    (g : Grille) (h : 0 ≤ g.nombre_ennemis) :
    grille_verifie corps esp g = some (grille corps esp g) := by
  unfold grille_verifie grille
  apply boucle_verifiee_foldl
    (fun g r => grille_colonnes_verifie corps esp r g [0, 1, 2, 3, 4, 5, 6, 7])
    (fun g r => grille_colonnes corps esp r g [0, 1, 2, 3, 4, 5, 6, 7])
    (fun g => 0 ≤ g.nombre_ennemis) _ _ g h
  intro s hs r _
  exact ⟨grille_colonnes_verifie_eq corps esp r _ s hs, grille_colonnes_positif corps esp r _ s hs⟩

/-- After the grid loops the count is inside an enemy array of at least 24 slots. -/
theorem grille_compte_dans (corps : Entite → Int → Int → Nat → Entite × Nat) (esp : Int)
    (l : List Entite) (h : (24 : Int) ≤ (l.length : Int)) :
    (grille corps esp { ennemis := l, nombre_ennemis := 0, tirages := 0 }).nombre_ennemis ≤
      ((grille corps esp { ennemis := l, nombre_ennemis := 0, tirages := 0 }).ennemis.length :
        Int) := by
  obtain ⟨g1, _, _, g4, _, _⟩ := grille_ecrite_fin corps esp l
  rw [g1]
  have : (grille corps esp { ennemis := l, nombre_ennemis := 0, tirages := 0 }).nombre_ennemis ≤
      24 := by exact_mod_cast g4
  omega

theorem phase_reapparition_verifie_eq (alea : Nat → Nat) (e : EtatJeu)
    (h : indices_dans_les_pools e) :
    phase_reapparition_verifie alea e = some (phase_reapparition alea e) := by
  unfold phase_reapparition_verifie phase_reapparition
  rw [nombre_ennemis_vivants_verifie_eq e h.2.1]
  simp only []
  by_cases hv : nombre_ennemis_vivants e = 0
  · rw [if_pos hv, if_pos hv, grille_verifie_eq _ _ _ (le_refl 0)]
  · rw [if_neg hv, if_neg hv]

theorem phase_reapparition_indices (alea : Nat → Nat) (e : EtatJeu)
    (h : indices_dans_les_pools e) :
    indices_dans_les_pools (phase_reapparition alea e).1 := by
  obtain ⟨h1, h2, h3, h4⟩ := h
  unfold phase_reapparition
  by_cases hv : nombre_ennemis_vivants e = 0
  · rw [if_pos hv]
    simp only []
    refine ⟨?_, grille_compte_dans _ _ e.ennemis h1, h3, h4⟩
    show (24 : Int) ≤ ((grille _ _ _).ennemis.length : Int)
    rw [grille_length]
    exact h1
  · rw [if_neg hv]
    exact ⟨h1, h2, h3, h4⟩

theorem touche_bord_verifie_eq (e : EtatJeu) (h : e.nombre_ennemis ≤ (e.ennemis.length : Int)) :
    touche_bord_boucle_verifie e (List.range e.nombre_ennemis.toNat) = some (touche_bord e) := by
  have hidx := range_toNat_dans _ _ h
  unfold touche_bord
  generalize List.range e.nombre_ennemis.toNat = idx at hidx
  induction idx with
  | nil => rfl
  | cons i reste ih =>
    have hi := hidx i (List.mem_cons_self _ _)
    have ih1 := ih (fun j hj => hidx j (List.mem_cons_of_mem _ hj))
    unfold touche_bord_boucle_verifie
    rw [List.any_cons, List.getElem?_eq_getElem hi]
    simp only []
    by_cases hv : e.ennemis[i].vivant = 0
    · rw [if_pos hv, ih1]
      simp [hv]
    · rw [if_neg hv]
      by_cases hc : e.ennemis[i].x + e.direction_ennemis < 0 ∨
          e.ennemis[i].x + e.direction_ennemis ≥ e.largeur
      · rw [if_pos hc]
        simp [hv, hc]
      · rw [if_neg hc, ih1]
        simp [hv, hc]

theorem phase_deplacement_nombre (e : EtatJeu) :
    (phase_deplacement e).nombre_ennemis = e.nombre_ennemis := by
  unfold phase_deplacement
  simp only []
  split_ifs <;> rfl

theorem boucle_pas_eq (l : List Entite) (n : Int) (g : Entite → Entite)
    (h : n ≤ (l.length : Int)) :
    boucle_cases (fun _ en => if en.vivant ≠ 0 then g en else en) l (List.range n.toNat) =
      some (l.mapIdx (fun i en => if (i : Int) < n ∧ en.vivant ≠ 0 then g en else en)) := by
  rw [boucle_cases_range _ l n.toNat (by omega)]
  congr 1
  apply List.ext_getElem?
  intro j
  rw [List.getElem?_mapIdx, List.getElem?_mapIdx]
  cases l[j]? with
  | none => rfl
  | some en =>
    rw [Option.map_some', Option.map_some']
    congr 1
    by_cases hj : j < n.toNat
    · rw [if_pos hj]
      by_cases hv : en.vivant ≠ 0
      · rw [if_pos hv, if_pos ⟨by omega, hv⟩]
      · rw [if_neg hv, if_neg (fun hc => hv hc.2)]
    · rw [if_neg hj, if_neg (fun hc => hj (by omega))]

theorem phase_deplacement_verifie_eq (e : EtatJeu)
    (h : e.nombre_ennemis ≤ (e.ennemis.length : Int)) :
    phase_deplacement_verifie e = some (phase_deplacement e) := by
  unfold phase_deplacement_verifie
  by_cases ht : e.acc_deplacement_ennemis ≥ e.intervalle_deplacement_ennemis
  · rw [if_pos ht]
    simp only []
    have h1 := touche_bord_verifie_eq { e with acc_deplacement_ennemis := 0 } h
    have h1b : touche_bord_boucle_verifie { e with acc_deplacement_ennemis := 0 }
        (List.range e.nombre_ennemis.toNat) =
          some (touche_bord { e with acc_deplacement_ennemis := 0 }) := h1
    rw [h1b]
    cases htb : touche_bord { e with acc_deplacement_ennemis := 0 } with
    | true =>
      simp only []
      rw [boucle_pas_eq e.ennemis e.nombre_ennemis (fun en => { en with y := en.y + 1 }) h]
      simp only []
      unfold phase_deplacement
      rw [if_pos ht]
      simp only [htb, if_true]
    | false =>
      simp only []
      rw [boucle_pas_eq e.ennemis e.nombre_ennemis
        (fun en => { en with x := en.x + e.direction_ennemis }) h]
      simp only []
      unfold phase_deplacement
      rw [if_pos ht]
      simp only [htb]
      rfl
  · rw [if_neg ht]
    unfold phase_deplacement
    rw [if_neg ht]

theorem idxs_boucle_verifie_eq (e : EtatJeu) (idx : List Nat) :
    ∀ acc : List Nat, (∀ i ∈ idx, i < e.ennemis.length) →
      acc.length + idx.length ≤ e.ennemis.length →
      idxs_boucle_verifie e acc idx = some (acc ++ idx.filter (est_vivant e)) := by
  induction idx with
  | nil =>
    intro acc _ _
    show some acc = some (acc ++ [])
    rw [List.append_nil]
  | cons i reste ih =>
    intro acc h hl
    have hi := h i (List.mem_cons_self _ _)
    have hl2 : acc.length + (reste.length + 1) ≤ e.ennemis.length := hl
    unfold idxs_boucle_verifie
    rw [List.getElem?_eq_getElem hi]
    simp only []
    have hv : est_vivant e i = decide (e.ennemis[i].vivant ≠ 0) := by
      unfold est_vivant
      rw [List.getElem?_eq_getElem hi]
    by_cases hc : e.ennemis[i].vivant ≠ 0
    · rw [if_pos hc, if_pos (by omega),
        ih (acc ++ [i]) (fun j hj => h j (List.mem_cons_of_mem _ hj))
          (by rw [List.length_append, List.length_singleton]; omega),
        List.filter_cons_of_pos (by rw [hv]; exact decide_eq_true hc), List.append_assoc]
      rfl
    · rw [if_neg hc, ih acc (fun j hj => h j (List.mem_cons_of_mem _ hj)) (by omega),
        List.filter_cons_of_neg (by rw [hv]; simpa using hc)]

theorem idxs_verifie_eq (e : EtatJeu) (h : e.nombre_ennemis ≤ (e.ennemis.length : Int)) :
    idxs_boucle_verifie e [] (List.range e.nombre_ennemis.toNat) = some (idxs e) := by
  rw [idxs_boucle_verifie_eq e _ [] (range_toNat_dans _ _ h)
    (by rw [List.length_nil, List.length_range]; omega), List.nil_append, idxs_eq]

theorem phase_tir_ennemi_verifie_eq (alea : Nat → Nat) (e : EtatJeu) (k : Nat)
    (h : e.nombre_ennemis ≤ (e.ennemis.length : Int)) :
    phase_tir_ennemi_verifie alea e k = some (phase_tir_ennemi alea e k) := by
  unfold phase_tir_ennemi_verifie phase_tir_ennemi
  by_cases h1 : alea k % 100 < 4
  · rw [if_pos h1, if_pos h1, idxs_verifie_eq e h]
    simp only []
    by_cases h2 : (idxs e).length > 0
    · rw [if_pos h2, if_pos h2]
      have hlt : alea (k + 1) % (idxs e).length < (idxs e).length := Nat.mod_lt _ h2
      obtain ⟨pick, hpick⟩ : ∃ pick, (idxs e)[alea (k + 1) % (idxs e).length]? = some pick :=
        ⟨_, List.getElem?_eq_getElem hlt⟩
      rw [hpick]
      simp only []
      have hm : pick ∈ idxs e := List.getElem?_mem hpick
      rw [idxs_eq] at hm
      have hv := (List.mem_filter.mp hm).2
      obtain ⟨en, hen, _⟩ := (est_vivant_iff e _).mp hv
      rw [hen]
      simp only []
      exact ajouter_projectile_verifie_eq e _ _ _ _
    · rw [if_neg h2, if_neg h2]
  · rw [if_neg h1, if_neg h1]

theorem phase_defaite_verifie_eq (e : EtatJeu) (h : e.nombre_ennemis ≤ (e.ennemis.length : Int)) :
    phase_defaite_boucle_verifie e (List.range e.nombre_ennemis.toNat) =
      some (phase_defaite e) := by
  have hidx := range_toNat_dans _ _ h
  unfold phase_defaite
  generalize List.range e.nombre_ennemis.toNat = idx at hidx
  induction idx with
  | nil => rfl
  | cons i reste ih =>
    have hi := hidx i (List.mem_cons_self _ _)
    have ih1 := ih (fun j hj => hidx j (List.mem_cons_of_mem _ hj))
    unfold phase_defaite_boucle_verifie
    rw [List.any_cons, List.getElem?_eq_getElem hi]
    simp only []
    by_cases hv : e.ennemis[i].vivant = 0
    · rw [if_pos hv, ih1]
      simp [hv]
    · rw [if_neg hv]
      by_cases hc : e.ennemis[i].y ≥ ligne_vaisseau e
      · rw [if_pos hc]
        simp [hv, hc]
      · rw [if_neg hc, ih1]
        simp [hv, hc]

/-- A tick from a state whose counts are inside the arrays succeeds with every subscript
inside its array and gives the state of `etatjeu_mettre_a_jour`. -/
theorem maj_verifie_eq (e : EtatJeu) (dt : ℚ) (alea : Nat → Nat)
    (h : indices_dans_les_pools e) :
    etatjeu_mettre_a_jour_verifie e dt alea = some (etatjeu_mettre_a_jour e dt alea) := by
  obtain ⟨c1, c2⟩ := phase_collisions_capacites e dt
  have hc := indices_dans_les_pools_suite h c1 c2
  have hr := phase_reapparition_indices alea _ hc
  have hd := indices_dans_les_pools_suite hr (phase_deplacement_capacites _)
    (phase_deplacement_nombre _)
  obtain ⟨t1, t2⟩ := phase_tir_ennemi_capacites alea
    (phase_deplacement (phase_reapparition alea (phase_collisions e dt)).1)
    (phase_reapparition alea (phase_collisions e dt)).2
  have ht := indices_dans_les_pools_suite hd t1 t2
  unfold etatjeu_mettre_a_jour_verifie etatjeu_mettre_a_jour
  rw [phase_collisions_verifie_eq e dt h]
  simp only []
  rw [phase_reapparition_verifie_eq alea _ hc]
  simp only []
  rw [phase_deplacement_verifie_eq _ hr.2.1]
  simp only []
  rw [phase_tir_ennemi_verifie_eq alea _ _ hd.2.1]
  simp only []
  exact phase_defaite_verifie_eq _ ht.2.1

/-! ## Lemmas: the checked commands, creation and restart -/

/-- A shot never leaves the projectile array. -/
theorem vaisseau_tirer_verifie_eq (e : EtatJeu) :
    etatjeu_vaisseau_tirer_verifie e = some (etatjeu_vaisseau_tirer e) :=
  ajouter_projectile_verifie_eq e _ _ _ _

/-- The restart never leaves an array, in a state whose particle array has its
`NB_MAX_PARTICULES` slots. -/
theorem reinitialiser_verifie_eq (e : EtatJeu) (hp : e.particules.length = NB_MAX_PARTICULES) :
    etatjeu_reinitialiser_verifie e = some (etatjeu_reinitialiser e) := by
  unfold etatjeu_reinitialiser_verifie etatjeu_reinitialiser
  rw [grille_verifie_eq _ _ _ (le_refl 0)]
  simp only []
  rw [boucle_cases_map (fun p : Projectile => { p with actif := 0 }) e.projectiles]
  simp only []
  rw [boucle_cases_mapIdx (fun i _ => bouclier_initial e.largeur e.hauteur i) e.boucliers]
  simp only []
  rw [← hp, boucle_cases_map (fun p : Particule => { p with ttl := 0 }) e.particules]

/-- Creation never leaves an array, in a block whose particle array has its
`NB_MAX_PARTICULES` slots. -/
theorem creer_verifie_eq (brut : EtatJeu) (largeur hauteur : Int) (alea : Nat → Nat)
    (hp : brut.particules.length = NB_MAX_PARTICULES) :
    etatjeu_creer_verifie brut largeur hauteur alea =
      some (etatjeu_creer brut largeur hauteur alea) := by
  unfold etatjeu_creer_verifie etatjeu_creer
  simp only []
  rw [grille_verifie_eq _ _ _ (le_refl 0)]
  simp only []
  rw [boucle_cases_map (fun p : Projectile => { p with actif := 0 }) brut.projectiles]
  simp only []
  rw [boucle_cases_mapIdx (fun i _ => bouclier_initial largeur hauteur i) brut.boucliers]
  simp only []
  rw [← hp, boucle_cases_map (fun p : Particule => { p with ttl := 0 }) brut.particules]

/-- In a reachable state the counts that bound the enemy and shield loops are inside the
arrays. -/
theorem atteignable_indices (brut : EtatJeu) (largeur hauteur : Int) (e : EtatJeu)
    (hcap : 24 ≤ brut.ennemis.length) (hcapb : 4 ≤ brut.boucliers.length)
    (hpart : brut.particules.length = NB_MAX_PARTICULES)
    (h : Atteignable brut largeur hauteur e) : indices_dans_les_pools e := by
  obtain ⟨_, _, a3, _, a5, a6, a7, a8, _⟩ := atteignable_invariant brut largeur hauteur hcap e h
  refine ⟨?_, ?_, ?_, a6.trans hpart⟩
  · rw [a3]; exact_mod_cast hcap
  · rw [a7, a3]; exact_mod_cast hcap
  · rw [a8, a5]; exact_mod_cast hcapb

set_option maxRecDepth 100000 in
/-- The check is real: with an enemy count of 25 over an enemy array of 24 slots the count
loop and the wave test of a tick subscript slot 24, and with a shield count of 5 over a shield
array of 4 slots the shield scan of the projectile in flight subscripts slot 4; the checked
functions fail in both states. -/
theorem indices_hors_pool_detectes :
    (nombre_ennemis_vivants_verifie { etat_apres_tir with nombre_ennemis := 25 }).isSome =
      false ∧
    (phase_reapparition_verifie alea_calme
      { etat_apres_tir with nombre_ennemis := 25 }).isSome = false ∧
    (collision_boucliers_verifie { etat_apres_tir with nombre_boucliers := 5 } 0).isSome =
      false ∧
    (traiter_projectile_verifie { etat_apres_tir with nombre_boucliers := 5 } 0).isSome =
      false := by
  refine ⟨?_, ?_, ?_, ?_⟩ <;> decide!

/-! ## C16: capacities and subscripts -/

/-- C16.  The capacities of the enemy and shield arrays come from `model.h`, which is not among
the sources: they are parameters, at least the 24 enemies and the 4 shields that the code
lays out; the particle array has 256 slots.  In every state reachable from creation by ticks
(`dt >= 0`), ship moves, shots, resets (and quit-flag writes) the four pools keep their
capacity; the enemy count lies between 0 and the enemy capacity and the shield count between 0
and the shield capacity; the projectile high-water count and the number of active projectiles
are at most the projectile capacity; the particle high-water count and the number of particles
with `ttl > 0` are at most 256.  No operation subscripts a pool outside its array: creation and,
from every reachable state, the tick (any `dt`, any draws), the shot and the restart, run with
every subscript checked, succeed and give the state of the operation; the ship move and the
write of the quit flag subscript no pool. -/
theorem capacites_respectees (brut : EtatJeu) (largeur hauteur : Int) (e : EtatJeu)
    (hcap : 24 ≤ brut.ennemis.length) (hcapb : 4 ≤ brut.boucliers.length)
    (hpart : brut.particules.length = NB_MAX_PARTICULES)
    (h : Atteignable brut largeur hauteur e) :
    e.ennemis.length = brut.ennemis.length ∧
    e.projectiles.length = brut.projectiles.length ∧
    e.boucliers.length = brut.boucliers.length ∧
    e.particules.length = NB_MAX_PARTICULES ∧
    0 ≤ etatjeu_obtenir_nombre_ennemis e ∧
    etatjeu_obtenir_nombre_ennemis e ≤ (e.ennemis.length : Int) ∧
    0 ≤ etatjeu_obtenir_nombre_boucliers e ∧
    etatjeu_obtenir_nombre_boucliers e ≤ (e.boucliers.length : Int) ∧
    0 ≤ e.nombre_projectiles ∧ e.nombre_projectiles ≤ (e.projectiles.length : Int) ∧
    etatjeu_obtenir_nombre_projectiles e ≤ (e.projectiles.length : Int) ∧
    0 ≤ e.nombre_particules ∧ e.nombre_particules ≤ 256 ∧
    etatjeu_obtenir_nombre_particules e ≤ 256 ∧
    (∀ alea : Nat → Nat, etatjeu_creer_verifie brut largeur hauteur alea =
      some (etatjeu_creer brut largeur hauteur alea)) ∧
    (∀ (dt : ℚ) (alea : Nat → Nat), etatjeu_mettre_a_jour_verifie e dt alea =
      some (etatjeu_mettre_a_jour e dt alea)) ∧
    etatjeu_vaisseau_tirer_verifie e = some (etatjeu_vaisseau_tirer e) ∧
    etatjeu_reinitialiser_verifie e = some (etatjeu_reinitialiser e) := by
  obtain ⟨_, _, a3, a4, a5, a6, a7, a8, a9, a10, a11, a12⟩ :=
    atteignable_invariant brut largeur hauteur hcap e h
  have h256 : e.particules.length = 256 := a6.trans hpart
  have hind := atteignable_indices brut largeur hauteur e hcap hcapb hpart h
  refine ⟨a3, a4, a5, a6.trans hpart, ?_, ?_, ?_, ?_, a9, a10, ?_, a11, ?_, ?_,
    fun alea => creer_verifie_eq brut largeur hauteur alea hpart,
    fun dt alea => maj_verifie_eq e dt alea hind, vaisseau_tirer_verifie_eq e,
    reinitialiser_verifie_eq e (a6.trans hpart)⟩
  · show 0 ≤ e.nombre_ennemis
    rw [a7]; decide
  · show e.nombre_ennemis ≤ _
    rw [a7, a3]; exact_mod_cast hcap
  · show 0 ≤ e.nombre_boucliers
    rw [a8]; decide
  · show e.nombre_boucliers ≤ _
    rw [a8, a5]; exact_mod_cast hcapb
  · unfold etatjeu_obtenir_nombre_projectiles
    exact_mod_cast List.length_filter_le _ _
  · rw [h256] at a12; exact_mod_cast a12
  · unfold etatjeu_obtenir_nombre_particules
    have := List.length_filter_le (fun p : Particule => decide (p.ttl > 0)) e.particules
    rw [h256] at this
    exact_mod_cast this

set_option maxRecDepth 100000 in
/-- C16 on `etat_ennemi_tue`, reachable in a 36 x 10 game with pools of 24, 4, 4 and 256 slots:
the explosion of the destroyed enemy has raised the particle high-water count to 8, below 256,
the enemy count is inside the enemy array, and the next tick, run with every subscript
checked, succeeds. -/
theorem capacites_respectees_temoin :
    24 ≤ memoire_brute.ennemis.length ∧ 4 ≤ memoire_brute.boucliers.length ∧
    memoire_brute.particules.length = NB_MAX_PARTICULES ∧
    Atteignable memoire_brute 36 10 etat_ennemi_tue ∧
    etat_ennemi_tue.nombre_particules = 8 ∧
    etat_ennemi_tue.nombre_particules ≤ 256 ∧
    etatjeu_obtenir_nombre_particules etat_ennemi_tue ≤ 256 ∧
    etatjeu_obtenir_nombre_ennemis etat_ennemi_tue ≤ (etat_ennemi_tue.ennemis.length : Int) ∧
    etatjeu_mettre_a_jour_verifie etat_ennemi_tue 0 alea_calme =
      some (etatjeu_mettre_a_jour etat_ennemi_tue 0 alea_calme) :=
  have ha : Atteignable memoire_brute 36 10 etat_ennemi_tue :=
    Atteignable.mettre_a_jour _ 0 alea_calme
      (Atteignable.vaisseau_tirer _ (Atteignable.creer alea_calme)) (le_refl 0)
  have h := capacites_respectees memoire_brute 36 10 etat_ennemi_tue (by decide) (by decide)
    (by decide) ha
  ⟨by decide, by decide, by decide, ha, by with_unfolding_all decide,
    h.2.2.2.2.2.2.2.2.2.2.2.2.1, h.2.2.2.2.2.2.2.2.2.2.2.2.2.1, h.2.2.2.2.2.1,
    h.2.2.2.2.2.2.2.2.2.2.2.2.2.2.2.1 0 alea_calme⟩

end SpaceInvaders
